import Mathlib


/-!
The maXTouch touch-controller driver, `drivers/input/touchscreen/mxts.c`.

A shallow embedding of the control core of the driver: bus access with
retries, the information-block CRC, the object directory and report-ID map,
the configuration synchronizer and the interrupt drain loop.

Conventions
* C integers are natural numbers (or `Int` for signed return codes) with an
  explicit `%` wherever the C type truncates.
* The chip is an external collaborator.  It is modelled by oracles indexed by
  the number of bus transactions attempted so far (`tick`): the return value
  of each transfer and the bytes a successful read delivers.
* Every message put on the bus by `i2c_master_send` is appended to `wlog`.
* Automatic buffers that C leaves uninitialised take their first contents
  from `uninit`, keyed by the source line of the declaration.
-/

namespace Mxts

/-! ## Error numbers (`errno-base.h`) -/

def EIO : Int := 5
def ENOMEM : Int := 12
def EFAULT : Int := 14
def ENODEV : Int := 19
def EINVAL : Int := 22

/-! ## Constants of `linux/input/mxts.h`

The header is not part of the source tree.  The values below are the ones the
source itself fixes: `mxt_calculate_infoblock_crc` spells the information
block as `7 + object_num * 6` bytes, and object types are named after their
number. -/

/-- Modelled from the spec: size of the ID header in front of the object table
(`MXT_INFOMATION_BLOCK_SIZE`, from the missing header). -/
def MXT_INFOMATION_BLOCK_SIZE : Nat := 7

/-- Modelled from the spec: address of the first object-table element
(`MXT_OBJECT_TABLE_START_ADDRESS`, from the missing header). -/
def MXT_OBJECT_TABLE_START_ADDRESS : Nat := 7

/-- Modelled from the spec: size of one object-table element
(`MXT_OBJECT_TABLE_ELEMENT_SIZE`, from the missing header). -/
def MXT_OBJECT_TABLE_ELEMENT_SIZE : Nat := 6

def MXT_RESERVED_T0 : Nat := 0
def MXT_GEN_MESSAGEPROCESSOR_T5 : Nat := 5
def MXT_GEN_COMMANDPROCESSOR_T6 : Nat := 6
def MXT_TOUCH_MULTITOUCHSCREEN_T9 : Nat := 9
def MXT_TOUCH_KEYARRAY_T15 : Nat := 15
def MXT_SPT_SELFTEST_T25 : Nat := 25
def MXT_PROCI_TOUCHSUPPRESSION_T42 : Nat := 42
def MXT_PROCI_EXTRATOUCHSCREENDATA_T57 : Nat := 57
def MXT_SPT_TIMER_T61 : Nat := 61
def MXT_PROCG_NOISESUPPRESSION_T62 : Nat := 62
def MXT_TOUCH_MULTITOUCHSCREEN_T100 : Nat := 100
def MXT_RESERVED_T255 : Nat := 255

/-- Modelled from the spec: offset of the report-all command byte inside the
T6 command processor (`MXT_COMMAND_REPORTALL`, from the missing header). -/
def MXT_COMMAND_REPORTALL : Nat := 3

/-! ## Data model -/

/-- One element of the object directory (`struct mxt_object`). -/
structure mxt_object where
  type : Nat := 0
  start_address : Nat := 0
  size : Nat := 0
  instances : Nat := 0
  num_report_ids : Nat := 0
  max_reportid : Nat := 0
deriving DecidableEq, Repr

/-- The ID header of the information block (`struct mxt_info`). -/
structure mxt_info where
  family_id : Nat := 0
  variant_id : Nat := 0
  version : Nat := 0
  build : Nat := 0
  matrix_xsize : Nat := 0
  matrix_ysize : Nat := 0
  object_num : Nat := 0
deriving DecidableEq, Repr

/-- One entry of the report-ID map (`struct mxt_reportid`). -/
structure mxt_reportid where
  type : Nat := 0
  index : Nat := 0
deriving DecidableEq, Repr

/-- A message of the T5 message processor (`struct mxt_message`): the
report-ID followed by the payload bytes. -/
structure mxt_message where
  reportid : Nat := 0
  message : List Nat := []
deriving DecidableEq, Repr

/-- Lifecycle phase of a contact slot (the `MXT_STATE_*` values of the missing
header). -/
inductive mxt_finger_state where
  | MXT_STATE_INACTIVE
  | MXT_STATE_RELEASE
  | MXT_STATE_PRESS
  | MXT_STATE_MOVE
deriving DecidableEq, Repr

/-- One contact slot (`struct mxt_finger`). -/
structure mxt_finger where
  state : mxt_finger_state := mxt_finger_state.MXT_STATE_INACTIVE
  x : Nat := 0
  y : Nat := 0
  w : Nat := 0
  z : Nat := 0
  mcount : Nat := 0
  type : Nat := 0
  event : Nat := 0
  component : Nat := 0
deriving DecidableEq, Repr

/-- Event codes the driver reports to the input layer. -/
inductive input_code where
  | ABS_MT_POSITION_X
  | ABS_MT_POSITION_Y
  | ABS_MT_TOUCH_MAJOR
  | ABS_MT_PRESSURE
  | ABS_MT_COMPONENT
  | ABS_MT_SUMSIZE
  | BTN_TOUCH
  | BTN_TOOL_FINGER
  | KEY_MENU
  | KEY_BACK
deriving DecidableEq, Repr

/-- A call into the input layer, the event sink of the driver. -/
inductive input_event where
  | input_mt_slot (slot : Nat)
  | input_mt_report_slot_state (active : Bool)
  | input_report_abs (code : input_code) (value : Nat)
  | input_report_key (code : input_code) (value : Nat)
  | input_sync
deriving DecidableEq, Repr

/-- Driver state (`struct mxt_data`) together with the bus it talks to. -/
structure mxt_data where
  /-- return value of the k-th `i2c_transfer` (2 = both messages done) -/
  i2c_transfer : Nat → Int := fun _ => 2
  /-- return value of the k-th `i2c_master_send` asked to send `n` bytes -/
  i2c_master_send : Nat → Nat → Int := fun _ n => n
  /-- byte delivered by the k-th transaction for a register address -/
  rdata : Nat → Nat → Nat := fun _ _ => 0
  /-- value of `data->pdata->read_chg(client)` at its k-th call (true: the
  CHG line is high, nothing is pending) -/
  read_chg : Nat → Bool := fun _ => true
  /-- number of calls of `read_chg` so far -/
  chg_polls : Nat := 0
  /-- whether the k-th allocation of a non-zero size succeeds -/
  kalloc : Nat → Bool := fun _ => true
  /-- number of non-zero-size allocations requested so far -/
  allocs : Nat := 0
  /-- number of bus transactions attempted so far -/
  tick : Nat := 0
  /-- messages handed to `i2c_master_send`: register address and payload -/
  wlog : List (Nat × List Nat) := []
  /-- indeterminate first contents of uninitialised automatic buffers -/
  uninit : Nat → Nat → Nat := fun _ _ => 0
  /-- the flag `data->atmeldbg.block_access` (false when `TSP_USE_ATMELDBG` is 0) -/
  block_access : Bool := false
  info : mxt_info := {}
  /-- modulus of the `size` and `instances` fields of `struct mxt_object`,
  whose declaration is in the missing header (256 when they are `u8`) -/
  obj_field_mod : Nat := 256
  /-- the pointer `data->objects`; `none` is the NULL pointer -/
  objects : Option (List mxt_object) := none
  /-- the array `data->reportids`, addressed by report-ID -/
  reportids : Nat → mxt_reportid := fun _ => {}
  max_reportid : Nat := 0
  finger_mask : Nat := 0
  charging_mode : Bool := false
  cfg_len : Nat := 0
  batt_cfg_raw_data : Option (Nat → Nat) := none
  ta_cfg_raw_data : Option (Nat → Nat) := none
  /-- the table `data->pdata->config`: rows of `type :: register values`; `none` is NULL -/
  pdata_config : Option (Nat → List Nat) := none
  /-- the array `data->fingers`, addressed by slot; the slots of the driver
  are those below `MXT_MAX_FINGER` -/
  fingers : Nat → mxt_finger := fun _ => {}
  /-- calls made into the input layer, oldest first -/
  sink : List input_event := []
  /-- number of calls of `mxt_report_input_data` so far -/
  report_calls : Nat := 0
  /-- set once the driver has dereferenced a NULL object pointer -/
  oops : Bool := false
  /-- the flag `data->atmeldbg.stop_sync` (false when `TSP_USE_ATMELDBG` is 0) -/
  stop_sync : Bool := false
  sumsize : Nat := 0
  /-- the platform data `data->pdata->max_x` -/
  max_x : Nat := 0
  /-- the platform data `data->pdata->max_y` -/
  max_y : Nat := 0
  /-- the platform data `data->pdata->revision` -/
  revision : Nat := 0
  /-- the flag `data->pdata->check_antitouch` -/
  check_antitouch : Nat := 0
  /-- the flag `data->pdata->check_timer` -/
  check_timer : Nat := 0
  /-- the flag `data->pdata->check_calgood` -/
  check_calgood : Nat := 0
  /-- the flag `data->pdata->check_autocal` -/
  check_autocal : Nat := 0
  /-- the flag `data->pdata->check_afterCalgood` -/
  check_afterCalgood : Nat := 0
  cal_busy : Bool := false
  tch_value : Nat := 0
  atch_value : Nat := 0
  T57_touch : Nat := 0
  Report_touch_number : Nat := 0
  tcount : Nat → Nat := fun _ => 0
  distance : Nat → Nat := fun _ => 0
  touchbx : Nat → Nat := fun _ => 0
  touchby : Nat → Nat := fun _ => 0
  max_id : Nat := 0
  old_id : Nat := 0
  Press_Release_check : Nat := 0
  Press_cnt : Nat := 0
  Release_cnt : Nat := 0
  release_max : Nat := 0
  coin_check : Nat := 0
  t_area_cnt : Nat := 0
  t_area_l_cnt : Nat := 0
  finger_area : Nat := 0
  palm_cnt : Nat := 0
  FirstCal_tch : Nat := 0
  FirstCal_atch : Nat := 0
  FirstCal_t57tch : Nat := 0
  /-- the build switch `CHECK_ANTITOUCH` -/
  CHECK_ANTITOUCH : Bool := true
  /-- the build switch `PALM_CAL` -/
  PALM_CAL : Bool := true
  /-- the build switch `TSP_USE_SHAPETOUCH` -/
  TSP_USE_SHAPETOUCH : Bool := false
  /-- the threshold `T_AREA_LOW_MT` of the missing header -/
  T_AREA_LOW_MT : Nat := 0
  /-- the threshold `T_AREA_LOW_ST` of the missing header -/
  T_AREA_LOW_ST : Nat := 0
  /-- the threshold `T_AREA_HIGH_ST` of the missing header -/
  T_AREA_HIGH_ST : Nat := 0
  /-- the build switch `TSP_INFORM_CHARGER` -/
  TSP_INFORM_CHARGER : Bool := false
  /-- the build switch `TSP_HOVER_WORKAROUND` -/
  TSP_HOVER_WORKAROUND : Bool := false
  /-- the build switch `ENABLE_TOUCH_KEY` -/
  ENABLE_TOUCH_KEY : Bool := false
  cur_cal_status : Bool := false
  mxt_enabled : Bool := true
  /-- the function pointer `data->pdata->power_onoff`: `none` is NULL, otherwise
  the return value of its k-th call for the requested power state -/
  power_onoff : Option (Nat → Bool → Int) := some (fun _ _ => 0)
  /-- number of calls of `power_onoff` so far -/
  power_calls : Nat := 0
  /-- calls of `disable_irq` not yet matched by `enable_irq` -/
  irq_disable_depth : Nat := 0
  /-- the file-scope variable `tsp_keystatus` -/
  tsp_keystatus : Nat := 0

/-- The firmware/configuration image handed to the synchronizer
(`struct mxt_fw_info`).  A raw-data pointer is `none` when NULL, otherwise the
byte found at each offset from it. -/
structure mxt_fw_info where
  fw_ver : Nat := 0
  build_ver : Nat := 0
  cfg_len : Nat := 0
  cfg_crc : Nat := 0
  cfg_raw_data : Option (Nat → Nat) := none
  batt_cfg_raw_data : Option (Nat → Nat) := none
  ta_cfg_raw_data : Option (Nat → Nat) := none

/-- Modelled from the spec: size of the record header `struct mxt_cfg_data`
(`type`, `instance`, `size`, one byte each, then the payload), from the
missing header. -/
def sizeof_mxt_cfg_data : Nat := 3

/-- Modelled from the spec: size of `struct mxt_message`, the report-ID and
eight payload bytes, from the missing header. -/
def sizeof_mxt_message : Nat := 9

/-- The first contents of an uninitialised automatic byte buffer declared at
source line `line`. -/
def uninit_buf (d : mxt_data) (line size : Nat) : List Nat :=
  (List.range size).map (fun k => d.uninit line k % 256)

/-- The function `kcalloc`/`kzalloc`: a request for zero bytes yields the
non-NULL `ZERO_SIZE_PTR`; any other request consults the allocator. -/
def kcalloc (d : mxt_data) (n : Nat) : Bool × mxt_data :=
  if n = 0 then (true, d) else (d.kalloc d.allocs, { d with allocs := d.allocs + 1 })

/-! ## Bus access -/

/-- The retry loop shared by `mxt_read_mem` and `mxt_write_mem`:
`for (i = 0; i < 3; i++) { ret = xfer(); if (ret < 0) log; else break; }`.
The first argument counts the attempts still allowed; the result is the last
return value and the transaction counter after the loop. -/
def i2c_retry (xfer : Nat → Int) : Nat → Nat → Int → Int × Nat
  | 0, t, ret => (ret, t)
  | n + 1, t, _ =>
    if xfer t < 0 then i2c_retry xfer n (t + 1) (xfer t) else (xfer t, t + 1)

/-- The function `mxt_read_mem(data, reg, len, buf)`: `reg` is a `u16`, `len` a `u8`.
Returns the status, the buffer afterwards and the new state. -/
def mxt_read_mem (d : mxt_data) (reg len : Nat) (buf : List Nat) :
    Int × List Nat × mxt_data :=
  if d.block_access then (0, buf, d)
  else
    let r := i2c_retry d.i2c_transfer 3 d.tick 0
    let d1 := { d with tick := r.2 }
    if r.1 = 2 then
      (0, (List.range (len % 256)).map (fun k => d.rdata (r.2 - 1) (reg % 65536 + k) % 256)
            ++ buf.drop (len % 256), d1)
    else (- EIO, buf, d1)

/-- The function `mxt_write_mem(data, reg, len, buf)`: the message is the little-endian
register address followed by `len` bytes of `buf`.  Each attempt is logged. -/
def mxt_write_mem (d : mxt_data) (reg len : Nat) (buf : List Nat) : Int × mxt_data :=
  if d.block_access then (0, d)
  else
    let n := len % 256
    let payload := (List.range n).map (fun k => buf.getD k 0 % 256)
    let r := i2c_retry (fun t => d.i2c_master_send t (n + 2)) 3 d.tick 0
    let d1 := { d with tick := r.2,
                       wlog := d.wlog ++ List.replicate (r.2 - d.tick) (reg % 65536, payload) }
    if r.1 = ((n + 2 : Nat) : Int) then (0, d1) else (- EIO, d1)

/-! ## Information-block CRC -/

/-- The function `mxt_make_crc24(u32 crc, u8 byte1, u8 byte2)`. -/
def mxt_make_crc24 (crc byte1 byte2 : Nat) : Nat :=
  let crcpoly := 0x80001B
  let data_word := (((byte2 % 256) <<< 8) ||| (byte1 % 256)) % 65536
  let res := (((crc % 2 ^ 32) <<< 1) % 2 ^ 32) ^^^ data_word
  if res &&& 0x1000000 ≠ 0 then res ^^^ crcpoly else res

/-- State of the loop of `mxt_calculate_infoblock_crc`: the index `i`, the
running `crc`, and the indices of `mem` read so far (oldest first). -/
structure crc_loop_state where
  i : Nat
  crc : Nat
  reads : List Nat
deriving DecidableEq, Repr

/-- The loop `for (i = 0; i < sizeof(mem) - 1; i += 2) crc = mxt_make_crc24(crc, mem[i], mem[i + 1]);`
The first argument bounds the number of iterations. -/
def crc_loop (mem : List Nat) : Nat → crc_loop_state → crc_loop_state
  | 0, s => s
  | fuel + 1, s =>
    if s.i < mem.length - 1 then
      crc_loop mem fuel
        { i := s.i + 2,
          crc := mxt_make_crc24 s.crc (mem.getD s.i 0) (mem.getD (s.i + 1) 0),
          reads := s.reads ++ [s.i, s.i + 1] }
    else s

/-- The computation of `mxt_calculate_infoblock_crc` on the buffer `mem` once
it has been read: the loop, then the last step on the odd byte and the mask.
Returns the value stored through `crc_pointer` and the indices of `mem` read. -/
def infoblock_crc_of_mem (mem : List Nat) : Nat × List Nat :=
  let s := crc_loop mem mem.length { i := 0, crc := 0, reads := [] }
  (mxt_make_crc24 s.crc (mem.getD s.i 0) 0 &&& 0x00FFFFFF, s.reads ++ [s.i])

/-- The function `mxt_calculate_infoblock_crc(data, crc_pointer)`: status, `*crc_pointer`
(unchanged from `crc0` on failure) and the new state. -/
def mxt_calculate_infoblock_crc (d : mxt_data) (crc0 : Nat) : Int × Nat × mxt_data :=
  let size := 7 + d.info.object_num * 6
  let mem := uninit_buf d 247 size
  let r := mxt_read_mem d 0 size mem
  if r.1 ≠ 0 then (r.1, crc0, r.2.2)
  else (0, (infoblock_crc_of_mem r.2.1).1, r.2.2)

/-! ## Object directory access -/

/-- The function `mxt_get_object(data, type)`: the first directory entry of
that type among the first `object_num`. -/
def mxt_get_object (d : mxt_data) (type : Nat) : Option mxt_object :=
  match d.objects with
  | none => none
  | some objs => (objs.take d.info.object_num).find? (fun o => o.type == type)

/-- Decode the nine bytes of a message buffer. -/
def mxt_message_of_bytes (b : List Nat) : mxt_message :=
  { reportid := b.getD 0 0, message := (b.drop 1).take 8 }

/-- The bytes of a message variable. -/
def mxt_message_bytes (m : mxt_message) : List Nat :=
  m.reportid :: (List.range 8).map (fun k => m.message.getD k 0)

/-- The function `mxt_read_message(data, message)`. -/
def mxt_read_message (d : mxt_data) (message : mxt_message) : Int × mxt_message × mxt_data :=
  match mxt_get_object d MXT_GEN_MESSAGEPROCESSOR_T5 with
  | none => (- EINVAL, message, d)
  | some object =>
    let r := mxt_read_mem d object.start_address sizeof_mxt_message (mxt_message_bytes message)
    (r.1, mxt_message_of_bytes r.2.1, r.2.2)

/-- The loop of `mxt_read_message_reportid`; the first argument is the number
of iterations `while (++try < fail_count)` still allows. -/
def mxt_read_message_reportid_loop :
    Nat → mxt_data → mxt_message → Nat → Int × mxt_message × mxt_data
  | 0, d, message, _ => (- EINVAL, message, d)
  | n + 1, d, message, reportid =>
    let r := mxt_read_message d message
    if r.1 ≠ 0 then r
    else if r.2.1.reportid = 0xff then mxt_read_message_reportid_loop n r.2.2 r.2.1 reportid
    else if r.2.1.reportid = reportid then (0, r.2.1, r.2.2)
    else mxt_read_message_reportid_loop n r.2.2 r.2.1 reportid

/-- The function `mxt_read_message_reportid(data, message, reportid)`. -/
def mxt_read_message_reportid (d : mxt_data) (message : mxt_message) (reportid : Nat) :
    Int × mxt_message × mxt_data :=
  mxt_read_message_reportid_loop (d.max_reportid * 2 - 1) d message reportid

/-- The function `mxt_write_object(data, type, offset, val)`. -/
def mxt_write_object (d : mxt_data) (type offset val : Nat) : Int × mxt_data :=
  match mxt_get_object d type with
  | none => (- EINVAL, d)
  | some object =>
    if offset ≥ object.size * object.instances then (- EINVAL, d)
    else mxt_write_mem d (object.start_address + offset) 1 [val]

/-- The function `mxt_read_info_crc(data, crc_pointer)`. -/
def mxt_read_info_crc (d : mxt_data) (crc0 : Nat) : Int × Nat × mxt_data :=
  let crc_address := (MXT_OBJECT_TABLE_START_ADDRESS +
      d.info.object_num * MXT_OBJECT_TABLE_ELEMENT_SIZE) % 65536
  let r := mxt_read_mem d crc_address 3 (uninit_buf d 267 3)
  if r.1 ≠ 0 then (r.1, crc0, r.2.2)
  else (0, r.2.1.getD 0 0 ||| (r.2.1.getD 1 0 <<< 8) ||| (r.2.1.getD 2 0 <<< 16), r.2.2)

/-- The function `mxt_read_config_crc(data, crc)`. -/
def mxt_read_config_crc (d : mxt_data) (crc0 : Nat) : Int × Nat × mxt_data :=
  match mxt_get_object d MXT_GEN_COMMANDPROCESSOR_T6 with
  | none => (- EIO, crc0, d)
  | some object =>
    let d1 := (mxt_write_object d MXT_GEN_COMMANDPROCESSOR_T6 MXT_COMMAND_REPORTALL 1).2
    let r := mxt_read_message_reportid d1 (mxt_message_of_bytes (uninit_buf d1 285 9))
      object.max_reportid
    if r.1 ≠ 0 then (r.1, crc0, r.2.2)
    else (0, r.2.1.message.getD 1 0 ||| (r.2.1.message.getD 2 0 <<< 8) |||
             (r.2.1.message.getD 3 0 <<< 16), r.2.2)

/-! ## Configuration synchronizer -/

/-- The function `mxt_check_instance(data, type)`. -/
def mxt_check_instance (d : mxt_data) (type : Nat) : Nat :=
  match ((d.objects.getD []).take d.info.object_num).find? (fun o => o.type == type) with
  | none => 0
  | some o => o.instances

/-- The function `mxt_init_write_config(data, type, cfg)`. -/
def mxt_init_write_config (d : mxt_data) (type : Nat) (cfg : List Nat) : Int × mxt_data :=
  match mxt_get_object d type with
  | none => (- EINVAL, d)
  | some object =>
    if object.size = 0 ∨ object.start_address = 0 then (- ENODEV, d)
    else
      let r := mxt_write_mem d object.start_address object.size cfg
      if r.1 ≠ 0 then r
      else if mxt_check_instance r.2 type ≠ 0 then
        let a := kcalloc r.2 object.size
        if a.1 = false then (- ENOMEM, a.2)
        else mxt_write_mem a.2 (object.start_address + object.size) object.size
              (List.replicate object.size 0)
      else r

/-- The loop of `mxt_write_config_from_pdata` over the rows of the platform
table, `i` being a `u8`.  The first argument bounds the iterations; `none`
means the bound was reached. -/
def mxt_write_config_from_pdata_loop (tsp_config : Nat → List Nat) :
    Nat → Nat → Int → mxt_data → Option (Int × mxt_data)
  | 0, _, _, _ => none
  | fuel + 1, i, ret, d =>
    if (tsp_config i).getD 0 0 = MXT_RESERVED_T255 then some (ret, d)
    else
      let r := mxt_init_write_config d ((tsp_config i).getD 0 0) ((tsp_config i).drop 1)
      if r.1 ≠ 0 then some r
      else mxt_write_config_from_pdata_loop tsp_config fuel ((i + 1) % 256) r.1 r.2

/-- The function `mxt_write_config_from_pdata(data)`. -/
def mxt_write_config_from_pdata (fuel : Nat) (d : mxt_data) : Option (Int × mxt_data) :=
  match d.pdata_config with
  | none => some (0, d)
  | some tsp_config => mxt_write_config_from_pdata_loop tsp_config fuel 0 0 d

/-- The zero-fill loop `for (i = cfg_data->size + 1; i < object->size; i++)`
of `mxt_write_config`, `i` being a `u8`: one single-byte write of 0 at
`reg + i` per iteration.  The first argument bounds the iterations. -/
def cfg_zero_loop (reg osize : Nat) : Nat → Nat → Int → mxt_data → Option (Int × mxt_data)
  | 0, _, _, _ => none
  | fuel + 1, i, ret, d =>
    if i < osize then
      let r := mxt_write_mem d (reg + i) 1 [0]
      if r.1 ≠ 0 then some r
      else cfg_zero_loop reg osize fuel ((i + 1) % 256) r.1 r.2
    else some (ret, d)

/-- The record walk of `mxt_write_config`,
`for (index = 0; index < cfg_length;) { ... }`, over the raw data `raw` with
`index` a `u16`.  The first argument bounds the iterations of the walk and of
each zero-fill loop; `none` means a bound was reached. -/
def cfg_walk (raw : Nat → Nat) (cfg_length : Nat) :
    Nat → Nat → Int → mxt_data → Option (Int × mxt_data)
  | 0, _, _, _ => none
  | fuel + 1, index, ret, d =>
    if index < cfg_length then
      if index + sizeof_mxt_cfg_data ≥ cfg_length then some (- EINVAL, d)
      else
        let type := raw index % 256
        let inst := raw (index + 1) % 256
        let size := raw (index + 2) % 256
        let index1 := (index + sizeof_mxt_cfg_data + size) % 65536
        if index1 > cfg_length then some (- EINVAL, d)
        else
          match mxt_get_object d type with
          | none => some (- EINVAL, d)
          | some object =>
            if size > object.size then some (- EINVAL, d)
            else if inst ≥ object.instances then some (- EINVAL, d)
            else
              let reg := (object.start_address + object.size * inst) % 65536
              let r := mxt_write_mem d reg size
                ((List.range size).map (fun k => raw (index + sizeof_mxt_cfg_data + k)))
              if r.1 ≠ 0 then some r
              else if size < object.size then
                match cfg_zero_loop reg object.size (fuel + 1) ((size + 1) % 256) r.1 r.2 with
                | none => none
                | some z =>
                  if z.1 ≠ 0 then some z
                  else cfg_walk raw cfg_length fuel index1 z.1 z.2
              else cfg_walk raw cfg_length fuel index1 r.1 r.2
    else some (ret, d)

/-- The function `mxt_write_config(fw_info)` as compiled with `DUAL_CFG` 0.
The first argument bounds the loops; `none` means a bound was reached. -/
def mxt_write_config (fuel : Nat) (fw_info : mxt_fw_info) (d : mxt_data) :
    Option (Int × mxt_data) :=
  match fw_info.cfg_raw_data with
  | none => mxt_write_config_from_pdata fuel d
  | some raw =>
    let c := mxt_read_config_crc d 0
    if c.1 ≠ 0 then some (c.1, c.2.2)
    else if fw_info.fw_ver ≠ c.2.2.info.version then some (0, c.2.2)
    else if fw_info.build_ver ≠ c.2.2.info.build then some (0, c.2.2)
    else if c.2.1 = fw_info.cfg_crc then some (0, c.2.2)
    else cfg_walk raw fw_info.cfg_len fuel 0 c.1 c.2.2

/-- The function `mxt_write_config(fw_info)` as compiled with `DUAL_CFG` 1:
the image holds two profiles of `cfg_len / 2` bytes, battery first, and the
walk reads the one selected by `charging_mode`.  Returns the image as well,
since its `ta_cfg_raw_data` pointer is rewritten. -/
def mxt_write_config_dual (fuel : Nat) (fw_info : mxt_fw_info) (d : mxt_data) :
    Option (Int × mxt_fw_info × mxt_data) :=
  let cfg_length := fw_info.cfg_len / 2
  let d0 := { d with cfg_len := cfg_length }
  if fw_info.ta_cfg_raw_data.isNone ∧ fw_info.batt_cfg_raw_data.isNone then
    (mxt_write_config_from_pdata fuel d0).map (fun r => (r.1, fw_info, r.2))
  else
    let c := mxt_read_config_crc d0 0
    if c.1 ≠ 0 then some (c.1, fw_info, c.2.2)
    else if fw_info.fw_ver ≠ c.2.2.info.version then some (0, fw_info, c.2.2)
    else if fw_info.build_ver ≠ c.2.2.info.build then some (0, fw_info, c.2.2)
    else if c.2.1 = fw_info.cfg_crc then some (0, fw_info, c.2.2)
    else
      match fw_info.batt_cfg_raw_data with
      | none => none
      | some batt =>
        let ta := fun k => batt (cfg_length + k)
        let fw1 := { fw_info with ta_cfg_raw_data := some ta }
        let d1 := { c.2.2 with batt_cfg_raw_data := some batt, ta_cfg_raw_data := some ta }
        (cfg_walk (if d1.charging_mode then ta else batt) cfg_length fuel 0 c.1 d1).map
          (fun r => (r.1, fw1, r.2))

/-! ## Building the object directory -/

/-- The function `mxt_read_id_info(data)`. -/
def mxt_read_id_info (d : mxt_data) : Int × mxt_data :=
  let r := mxt_read_mem d 0 MXT_INFOMATION_BLOCK_SIZE (uninit_buf d 2314 MXT_INFOMATION_BLOCK_SIZE)
  if r.1 ≠ 0 then (r.1, r.2.2)
  else (0, { r.2.2 with info :=
    { family_id := r.2.1.getD 0 0, variant_id := r.2.1.getD 1 0, version := r.2.1.getD 2 0,
      build := r.2.1.getD 3 0, matrix_xsize := r.2.1.getD 4 0, matrix_ysize := r.2.1.getD 5 0,
      object_num := r.2.1.getD 6 0 } })

/-- State of the loop of `mxt_get_object_table`: the status, the `u8`
accumulator `reportid`, the element buffer `buf` and the driver state. -/
structure object_table_state where
  error : Int
  reportid : Nat
  buf : List Nat
  d : mxt_data

/-- One iteration of the loop of `mxt_get_object_table` for index `i`; once a
read has failed the function has returned, so later indices do nothing. -/
def mxt_get_object_table_step (s : object_table_state) (i : Nat) : object_table_state :=
  if s.error ≠ 0 then s
  else
    let reg := (MXT_OBJECT_TABLE_START_ADDRESS + MXT_OBJECT_TABLE_ELEMENT_SIZE * i) % 65536
    let r := mxt_read_mem s.d reg MXT_OBJECT_TABLE_ELEMENT_SIZE s.buf
    if r.1 ≠ 0 then { s with error := r.1, buf := r.2.1, d := r.2.2 }
    else
      let buf := r.2.1
      let instances := (buf.getD 4 0 + 1) % s.d.obj_field_mod
      let num_report_ids := buf.getD 5 0
      let reportid :=
        if num_report_ids ≠ 0 then (s.reportid + num_report_ids * instances) % 256
        else s.reportid
      let object : mxt_object :=
        { type := buf.getD 0 0,
          start_address := ((buf.getD 2 0 <<< 8) ||| buf.getD 1 0) % 65536,
          size := (buf.getD 3 0 + 1) % s.d.obj_field_mod,
          instances := instances,
          num_report_ids := num_report_ids,
          max_reportid :=
            if num_report_ids ≠ 0 then reportid
            else ((r.2.2.objects.getD []).getD i {}).max_reportid }
      { error := 0, reportid := reportid, buf := buf,
        d := { r.2.2 with objects := some ((r.2.2.objects.getD []).set i object) } }

/-- The function `mxt_get_object_table(data)`. -/
def mxt_get_object_table (d : mxt_data) : Int × mxt_data :=
  let s := (List.range d.info.object_num).foldl mxt_get_object_table_step
    { error := 0, reportid := 0, buf := uninit_buf d 2345 MXT_OBJECT_TABLE_ELEMENT_SIZE, d := d }
  if s.error ≠ 0 then (s.error, s.d)
  else (0, { s.d with max_reportid := s.reportid })

/-- State of the loops of `mxt_make_reportid_table`: the counter `id`, the
map, and the indices of the map stored to so far (oldest first). -/
structure reportid_table_state where
  id : Nat
  reportids : Nat → mxt_reportid
  stores : List Nat

/-- The body of the inner loop of `mxt_make_reportid_table` for the object of
type `type` and loop index `j`; the `index` field is a `u8`. -/
def mxt_make_reportid_table_store (type : Nat) (s : reportid_table_state) (j : Nat) :
    reportid_table_state :=
  { id := s.id + 1,
    reportids := Function.update s.reportids (s.id + 1) { type := type, index := j % 256 },
    stores := s.stores ++ [s.id + 1] }

/-- The two nested loops of `mxt_make_reportid_table` over `objects`. -/
def mxt_make_reportid_table_loops (objects : List mxt_object) (object_num : Nat)
    (s : reportid_table_state) : reportid_table_state :=
  (List.range object_num).foldl (fun s i =>
    (List.range ((objects.getD i {}).num_report_ids * (objects.getD i {}).instances)).foldl
      (mxt_make_reportid_table_store (objects.getD i {}).type) s) s

/-- The function `mxt_make_reportid_table(data)`; also returns the indices of
`data->reportids` it stored to, in order. -/
def mxt_make_reportid_table (d : mxt_data) : mxt_data × List Nat :=
  let s := mxt_make_reportid_table_loops (d.objects.getD []) d.info.object_num
    { id := 0, reportids := d.reportids, stores := [] }
  ({ d with reportids := s.reportids }, s.stores)

/-- The number of report-IDs of the first `i` descriptors of a table,
`S_i = n_1 + ... + n_i` with `n_k = num_report_ids_k * instances_k`. -/
def reportid_sum (objects : List mxt_object) (i : Nat) : Nat :=
  ((List.range i).map (fun k =>
    (objects.getD k {}).num_report_ids * (objects.getD k {}).instances)).sum

/-- The scenario table of the specification: a T6 command processor with no
report-ID at address 0, size 2, one instance, and a T9 multitouch object at
address 10, size 8, one instance, one report-ID. -/
def scenario_T6_T9 : mxt_data :=
  { info := { object_num := 2 },
    objects := some
      [ { type := 6, start_address := 0, size := 2, instances := 1, num_report_ids := 0 },
        { type := 9, start_address := 10, size := 8, instances := 1, num_report_ids := 1,
          max_reportid := 1 } ],
    max_reportid := 1 }

/-- A chip whose information block declares one object, a T9 with 255
report-IDs per instance and two instances (instance byte 1): 510 report-IDs. -/
def chip_510_reportids : mxt_data :=
  { rdata := fun _ a =>
      ([0x81, 0x01, 0x10, 0xAA, 0x12, 0x0C, 0x01,
        9, 0x0A, 0x00, 7, 1, 255] : List Nat).getD a 0 }

/-- A chip whose information block declares no object at all, followed by the
three CRC bytes that match its seven-byte header. -/
def chip_empty_table : mxt_data :=
  { rdata := fun _ a =>
      ([0x81, 0x01, 0x10, 0xAA, 0x12, 0x0C, 0x00, 0x6C, 0xBC, 0x02] : List Nat).getD a 0 }

/-- A chip with the scenario table (a T6 without report-IDs, then a T9 with
one) and the matching CRC bytes after it. -/
def chip_T6_T9 : mxt_data :=
  { rdata := fun _ a =>
      ([0x81, 0x01, 0x10, 0xAA, 0x12, 0x0C, 0x02,
        6, 0, 0, 1, 0, 0,
        9, 10, 0, 7, 0, 1,
        0xB7, 0xD3, 0xAE] : List Nat).getD a 0 }

/-- Lines 2410 to 2438 of `mxt_initialize`: read the ID header, allocate and
fill the directory, allocate the report-ID map of `max_reportid + 1` zeroed
entries and fill it.  Also returns the map indices stored to. -/
def mxt_initialize_tables (d : mxt_data) : Int × mxt_data × List Nat :=
  let r := mxt_read_id_info d
  if r.1 ≠ 0 then (r.1, r.2, [])
  else
    let a := kcalloc r.2 r.2.info.object_num
    if a.1 = false then (- ENOMEM, { a.2 with objects := none }, [])
    else
      let t := mxt_get_object_table
        { a.2 with objects := some (List.replicate r.2.info.object_num {}) }
      if t.1 ≠ 0 then (t.1, t.2, [])
      else
        let b := kcalloc t.2 (t.2.max_reportid + 1)
        if b.1 = false then (- ENOMEM, b.2, [])
        else
          let m := mxt_make_reportid_table
            { b.2 with reportids := fun k => if k ≤ t.2.max_reportid then {} else b.2.reportids k }
          (0, m.1, m.2)

/-- Result of `mxt_initialize`: the status, the state, and the locals
`read_info_crc` and `calc_info_crc` (both initialised to 0). -/
structure initialize_result where
  ret : Int
  d : mxt_data
  read_info_crc : Nat
  calc_info_crc : Nat

/-- The function `mxt_initialize(data)`. -/
def mxt_initialize (d : mxt_data) : initialize_result :=
  let t := mxt_initialize_tables d
  if t.1 ≠ 0 then { ret := t.1, d := t.2.1, read_info_crc := 0, calc_info_crc := 0 }
  else
    let r := mxt_read_info_crc t.2.1 0
    if r.1 ≠ 0 then { ret := r.1, d := r.2.2, read_info_crc := r.2.1, calc_info_crc := 0 }
    else
      let c := mxt_calculate_infoblock_crc r.2.2 0
      if c.1 ≠ 0 then { ret := c.1, d := c.2.2, read_info_crc := r.2.1, calc_info_crc := c.2.1 }
      else if r.2.1 ≠ c.2.1 then
        { ret := - EFAULT, d := c.2.2, read_info_crc := r.2.1, calc_info_crc := c.2.1 }
      else { ret := 0, d := c.2.2, read_info_crc := r.2.1, calc_info_crc := c.2.1 }

/-- The CRC of a sequence of byte pairs: the fold of `mxt_make_crc24` from 0
over the pairs, masked to 24 bits as `mxt_calculate_infoblock_crc` does. -/
def crc24_of_pairs (l : List (Nat × Nat)) : Nat :=
  l.foldl (fun c p => mxt_make_crc24 c p.1 p.2) 0 &&& 0x00FFFFFF

/-! ## Message router -/

/-- The handlers the drain loop dispatches to, and the two build switches that
select cases of the loop.  The router is stated for arbitrary handlers: each
is a transformer of the driver state for one message. -/
structure mxt_handlers where
  /-- the build switch `ENABLE_TOUCH_KEY` -/
  enable_touch_key : Bool
  /-- the build switch `TSP_PATCH` -/
  tsp_patch : Bool
  mxt_treat_T6_object : mxt_data → mxt_message → mxt_data
  mxt_treat_T9_object : mxt_data → mxt_message → mxt_data
  mxt_treat_T15_object : mxt_data → mxt_message → mxt_data
  mxt_treat_T42_object : mxt_data → mxt_message → mxt_data
  mxt_treat_T57_object : mxt_data → mxt_message → mxt_data
  mxt_treat_T61_object : mxt_data → mxt_message → mxt_data
  mxt_treat_T100_object : mxt_data → mxt_message → mxt_data
  mxt_patch_message : mxt_data → mxt_message → mxt_data
  mxt_report_input_data : mxt_data → mxt_data

/-- What one pass of `mxt_irq_thread` does, in order. -/
inductive irq_event where
  /-- a call of `mxt_read_message`, with its status and the report-ID held by
  the message variable afterwards -/
  | read_message (ret : Int) (reportid : Nat)
  /-- the access `data->reportids[reportid]`, with `data->max_reportid` -/
  | index_reportids (reportid max_reportid : Nat)
  /-- a call of the handler `mxt_treat_T<type>_object` -/
  | treat (type : Nat)
  /-- a message logged and otherwise ignored (self-test, noise suppression,
  or the default case) -/
  | untreated (type : Nat)
  /-- a call of `mxt_patch_message` -/
  | patch_message
  /-- a call of `read_chg`, with its value -/
  | read_chg (v : Bool)
  /-- a call of `mxt_report_input_data` -/
  | report_input_data
deriving DecidableEq, Repr

/-- The `switch (type)` of `mxt_irq_thread` for a type other than
`MXT_RESERVED_T0`. -/
def mxt_irq_dispatch (H : mxt_handlers) (type : Nat) (d : mxt_data) (message : mxt_message) :
    mxt_data × List irq_event :=
  if type = MXT_GEN_COMMANDPROCESSOR_T6 then
    (H.mxt_treat_T6_object d message, [irq_event.treat type])
  else if type = MXT_TOUCH_MULTITOUCHSCREEN_T9 then
    (H.mxt_treat_T9_object d message, [irq_event.treat type])
  else if type = MXT_TOUCH_KEYARRAY_T15 ∧ H.enable_touch_key = true then
    (H.mxt_treat_T15_object d message, [irq_event.treat type])
  else if type = MXT_SPT_SELFTEST_T25 then (d, [irq_event.untreated type])
  else if type = MXT_PROCI_TOUCHSUPPRESSION_T42 then
    (H.mxt_treat_T42_object d message, [irq_event.treat type])
  else if type = MXT_PROCI_EXTRATOUCHSCREENDATA_T57 then
    (H.mxt_treat_T57_object d message, [irq_event.treat type])
  else if type = MXT_SPT_TIMER_T61 then
    (H.mxt_treat_T61_object d message, [irq_event.treat type])
  else if type = MXT_PROCG_NOISESUPPRESSION_T62 then (d, [irq_event.untreated type])
  else if type = MXT_TOUCH_MULTITOUCHSCREEN_T100 then
    (H.mxt_treat_T100_object d message, [irq_event.treat type])
  else (d, [irq_event.untreated type])

/-- How one iteration of the drain loop ends: by `goto end`, by going round
again (`read_chg` false), or by leaving the loop towards the flush. -/
inductive irq_next where
  | goto_end
  | again
  | leave
deriving DecidableEq, Repr

/-- Outcome of one iteration of the drain loop. -/
structure irq_iteration where
  d : mxt_data
  message : mxt_message
  events : List irq_event
  next : irq_next

/-- One iteration of the body of `do { ... } while (!read_chg(client))` in
`mxt_irq_thread`, the message variable holding `message` on entry. -/
def mxt_irq_iteration (H : mxt_handlers) (d : mxt_data) (message : mxt_message) :
    irq_iteration :=
  let r := mxt_read_message d message
  let ev := [irq_event.read_message r.1 r.2.1.reportid]
  if r.1 ≠ 0 then { d := r.2.2, message := r.2.1, events := ev, next := irq_next.goto_end }
  else if r.2.1.reportid > r.2.2.max_reportid then
    { d := r.2.2, message := r.2.1, events := ev, next := irq_next.goto_end }
  else
    let type := (r.2.2.reportids r.2.1.reportid).type
    let ev1 := ev ++ [irq_event.index_reportids r.2.1.reportid r.2.2.max_reportid]
    if type = MXT_RESERVED_T0 then
      { d := r.2.2, message := r.2.1, events := ev1, next := irq_next.goto_end }
    else
      let h := mxt_irq_dispatch H type r.2.2 r.2.1
      let p := if H.tsp_patch then H.mxt_patch_message h.1 r.2.1 else h.1
      let ev2 := ev1 ++ h.2 ++ (if H.tsp_patch then [irq_event.patch_message] else [])
      let chg := p.read_chg p.chg_polls
      { d := { p with chg_polls := p.chg_polls + 1 }, message := r.2.1,
        events := ev2 ++ [irq_event.read_chg chg],
        next := if chg = false then irq_next.again else irq_next.leave }

/-- The `do { ... } while (!read_chg(client))` loop of `mxt_irq_thread`
followed by the flush, from the top of an iteration with the message variable
holding `message`.  The first argument bounds the iterations; `none` means the
bound was reached.  Returns the final state and the events of the pass. -/
def mxt_irq_loop (H : mxt_handlers) : Nat → mxt_data → mxt_message →
    Option (mxt_data × List irq_event)
  | 0, _, _ => none
  | fuel + 1, d, message =>
    match (mxt_irq_iteration H d message).next with
    | irq_next.goto_end =>
      some ((mxt_irq_iteration H d message).d, (mxt_irq_iteration H d message).events)
    | irq_next.again =>
      (mxt_irq_loop H fuel (mxt_irq_iteration H d message).d
        (mxt_irq_iteration H d message).message).map
        (fun q => (q.1, (mxt_irq_iteration H d message).events ++ q.2))
    | irq_next.leave =>
      if (mxt_irq_iteration H d message).d.finger_mask ≠ 0 then
        some (H.mxt_report_input_data (mxt_irq_iteration H d message).d,
              (mxt_irq_iteration H d message).events ++ [irq_event.report_input_data])
      else some ((mxt_irq_iteration H d message).d, (mxt_irq_iteration H d message).events)

/-- The function `mxt_irq_thread(irq, ptr)`. -/
def mxt_irq_thread (H : mxt_handlers) (fuel : Nat) (d : mxt_data) :
    Option (mxt_data × List irq_event) :=
  mxt_irq_loop H fuel d (mxt_message_of_bytes (uninit_buf d 1743 sizeof_mxt_message))

/-- Handlers that leave the state alone, with both build switches off; used
to run the router on concrete messages. -/
def idle_handlers : mxt_handlers :=
  { enable_touch_key := false, tsp_patch := false,
    mxt_treat_T6_object := fun d _ => d, mxt_treat_T9_object := fun d _ => d,
    mxt_treat_T15_object := fun d _ => d, mxt_treat_T42_object := fun d _ => d,
    mxt_treat_T57_object := fun d _ => d, mxt_treat_T61_object := fun d _ => d,
    mxt_treat_T100_object := fun d _ => d, mxt_patch_message := fun d _ => d,
    mxt_report_input_data := fun d => d }

/-- A running device: a T5 message processor at address 0x100, a T6 with
report-ID 1 and a T9 with report-ID 2, whose message processor answers every
read with bytes 0xFF (report-ID 255, "no message"). -/
def device_no_message : mxt_data :=
  { rdata := fun _ _ => 0xFF,
    info := { object_num := 3 },
    objects := some
      [ { type := 5, start_address := 0x100, size := 9, instances := 1 },
        { type := 6, start_address := 0x120, size := 6, instances := 1, num_report_ids := 1,
          max_reportid := 1 },
        { type := 9, start_address := 0x130, size := 35, instances := 1, num_report_ids := 1,
          max_reportid := 2 } ],
    reportids := fun r => if r = 1 then { type := 6, index := 0 }
                          else if r = 2 then { type := 9, index := 0 } else {},
    max_reportid := 2,
    finger_mask := 1 }

/-- A running device of firmware version 0x10, build 0xAA, with a T5 message
processor at 0x100, a T6 command processor at 0x120 (report-ID 1) and a T7
object of four bytes at 0x130.  Its message processor answers every read with
a T6 status message carrying the configuration checksum bytes `c0 c1 c2`. -/
def device_reporting (c0 c1 c2 : Nat) : mxt_data :=
  { rdata := fun _ a => ([1, 0, c0, c1, c2, 0, 0, 0, 0] : List Nat).getD (a - 0x100) 0,
    info := { version := 0x10, build := 0xAA, object_num := 3 },
    objects := some
      [ { type := 5, start_address := 0x100, size := 9, instances := 1 },
        { type := 6, start_address := 0x120, size := 6, instances := 1, num_report_ids := 1,
          max_reportid := 1 },
        { type := 7, start_address := 0x130, size := 4, instances := 1 } ],
    reportids := fun r => if r = 1 then { type := 6, index := 0 } else {},
    max_reportid := 1 }

/-- A configuration image for firmware 0x10 build 0xAA with checksum 0x123456
and one record: four bytes for instance 0 of T7.  Both the single-profile and
the dual-profile pointers are set. -/
def blob_T7 : mxt_fw_info :=
  { fw_ver := 0x10, build_ver := 0xAA, cfg_len := 7, cfg_crc := 0x123456,
    cfg_raw_data := some (fun i => ([7, 0, 4, 10, 20, 30, 40] : List Nat).getD i 0),
    batt_cfg_raw_data := some (fun i => ([7, 0, 4, 10, 20, 30, 40] : List Nat).getD i 0) }

/-- A running device like `device_reporting 0 0 0`, whose T7 object has the
size `t7_size` instead of four bytes. -/
def device_with_T7 (t7_size : Nat) : mxt_data :=
  { device_reporting 0 0 0 with
    objects := some
      [ { type := 5, start_address := 0x100, size := 9, instances := 1 },
        { type := 6, start_address := 0x120, size := 6, instances := 1, num_report_ids := 1,
          max_reportid := 1 },
        { type := 7, start_address := 0x130, size := t7_size, instances := 1 } ] }

/-- An image for firmware 0x10 build 0xAA with two records for T7: the first
declares two bytes, the second twenty. -/
def blob_two_records : mxt_fw_info :=
  { fw_ver := 0x10, build_ver := 0xAA, cfg_len := 28, cfg_crc := 0x123456,
    cfg_raw_data := some (fun i =>
      ([7, 0, 2, 10, 20,
        7, 0, 20, 1, 2, 3, 4, 5, 6, 7, 8, 9, 10, 11, 12, 13, 14, 15, 16, 17, 18, 19, 20]
        : List Nat).getD i 0) }

/-- An image for firmware 0x10 build 0xAA with one record: two bytes for
instance 0 of T7. -/
def blob_short_record : mxt_fw_info :=
  { fw_ver := 0x10, build_ver := 0xAA, cfg_len := 5, cfg_crc := 0x123456,
    cfg_raw_data := some (fun i => ([7, 0, 2, 10, 20] : List Nat).getD i 0) }

/-- The image `blob_short_record` laid out for the dual-profile build: two
profiles of five bytes each, the same record in both. -/
def blob_short_record_dual : mxt_fw_info :=
  { fw_ver := 0x10, build_ver := 0xAA, cfg_len := 10, cfg_crc := 0x123456,
    batt_cfg_raw_data := some (fun i => ([7, 0, 2, 10, 20, 7, 0, 2, 10, 20] : List Nat).getD i 0) }

/-- An image of 65536 bytes made of records of 258 bytes, each declaring 255
bytes of zeros for instance 0 of T7.  The record that starts at offset 65532
declares 255 bytes of which only one lies inside the image; the memory after
the image holds bytes 0xEE. -/
def blob_wrapping : mxt_fw_info :=
  { fw_ver := 0x10, build_ver := 0xAA, cfg_len := 65536, cfg_crc := 0x123456,
    cfg_raw_data := some (fun i =>
      if i ≥ 65536 then 0xEE else if i % 258 = 0 then 7 else if i % 258 = 2 then 255 else 0) }

end Mxts

namespace Mxts

/-! ## Contact tracker and calibration requests

The handlers of contact messages (`mxt_treat_T9_object`,
`mxt_treat_T100_object`), the flush to the input layer
(`mxt_report_input_data`) and the area-metric handler
(`mxt_treat_T57_object`) with the functions it calls.

The fields of `struct mxt_finger` and the counters of the calibration checks
are declared in the missing header; they are natural numbers here, wide enough
for every value the handlers store (coordinates are at most 16 bits).  A
message byte is a `u8`: byte `k` of a message is read as
`message.message.getD k 0 % 256`. -/

/-- Modelled from the spec: number of contact slots the driver keeps
(`MXT_MAX_FINGER`, from the missing header). -/
def MXT_MAX_FINGER : Nat := 10

/-- Modelled from the spec: number of slots the pattern tracker keeps
(`MAX_USING_FINGER_NUM`, from the missing header). -/
def MAX_USING_FINGER_NUM : Nat := 10

/-- Modelled from the spec: status bits of a T9 message (`MXT_*_MSG_MASK`, from
the missing header). -/
def MXT_SUPPRESS_MSG_MASK : Nat := 0x02
/-- Modelled from the spec: amplitude-changed bit of a T9 message. -/
def MXT_AMPLITUDE_MSG_MASK : Nat := 0x04
/-- Modelled from the spec: vector-changed bit of a T9 message. -/
def MXT_VECTOR_MSG_MASK : Nat := 0x08
/-- Modelled from the spec: move bit of a T9 message. -/
def MXT_MOVE_MSG_MASK : Nat := 0x10
/-- Modelled from the spec: release bit of a T9 message. -/
def MXT_RELEASE_MSG_MASK : Nat := 0x20
/-- Modelled from the spec: press bit of a T9 message. -/
def MXT_PRESS_MSG_MASK : Nat := 0x40
/-- Modelled from the spec: detect bit of a T9 message. -/
def MXT_DETECT_MSG_MASK : Nat := 0x80

/-- Modelled from the spec: number of screen-status report-IDs in front of the
contact report-IDs of a T100 object (from the missing header). -/
def MXT_T100_SCREEN_MESSAGE_NUM_RPT_ID : Nat := 2
/-- Modelled from the spec: index of the first screen-status report-ID. -/
def MXT_T100_SCREEN_MSG_FIRST_RPT_ID : Nat := 0
/-- Modelled from the spec: position of the detect bit in the status byte of a
T100 message; the source uses it as a shift count. -/
def MXT_T100_DETECT_MSG_MASK : Nat := 7

/-- Modelled from the spec: tool types of a T100 message (from the missing
header). -/
def MXT_T100_TYPE_FINGER : Nat := 1
/-- Modelled from the spec: tool type of a passive stylus. -/
def MXT_T100_TYPE_PASSIVE_STYLUS : Nat := 2
/-- Modelled from the spec: tool type of an active stylus. -/
def MXT_T100_TYPE_ACTIVE_STYLUS : Nat := 3
/-- Modelled from the spec: tool type of a hovering finger. -/
def MXT_T100_TYPE_HOVERING_FINGER : Nat := 4

/-- Modelled from the spec: event codes of a T100 message (from the missing
header). -/
def MXT_T100_EVENT_NONE : Nat := 0
/-- Modelled from the spec: event code of a move. -/
def MXT_T100_EVENT_MOVE : Nat := 1
/-- Modelled from the spec: event code of the end of a suppression. -/
def MXT_T100_EVENT_UNSUPPRESS : Nat := 2
/-- Modelled from the spec: event code of a suppression. -/
def MXT_T100_EVENT_SUPPESS : Nat := 3
/-- Modelled from the spec: event code of a touch-down. -/
def MXT_T100_EVENT_DOWN : Nat := 4
/-- Modelled from the spec: event code of a lift-off. -/
def MXT_T100_EVENT_UP : Nat := 5

/-- Modelled from the spec: offset of the calibrate command byte inside the T6
command processor (`MXT_COMMAND_CALIBRATE`, from the missing header). -/
def MXT_COMMAND_CALIBRATE : Nat := 2

def MXT_GEN_ACQUISITIONCONFIG_T8 : Nat := 8

/-- Modelled from the spec: the value of `pdata->revision` for revision I
firmware (`MXT_REVISION_I`, from the missing header). -/
def MXT_REVISION_I : Nat := 1

def MXT_T61_TIMER_ONESHOT : Nat := 0
def MXT_T61_TIMER_CMD_START : Nat := 1

/-- Locals of the slot loop of `mxt_report_input_data`. -/
structure report_loop_state where
  d : mxt_data
  count : Nat
  report_count : Nat

/-- Body of `for (i = 0; i < MXT_MAX_FINGER; i++)` in `mxt_report_input_data`. -/
def mxt_report_input_data_slot (s : report_loop_state) (i : Nat) : report_loop_state :=
  if (s.d.fingers i).state = mxt_finger_state.MXT_STATE_INACTIVE then s
  else if (s.d.fingers i).state = mxt_finger_state.MXT_STATE_RELEASE then
    { d := { s.d with
             sink := s.d.sink ++ [input_event.input_mt_slot i,
                                  input_event.input_mt_report_slot_state false],
             fingers := Function.update s.d.fingers i
               { s.d.fingers i with state := mxt_finger_state.MXT_STATE_INACTIVE, mcount := 0 } },
      count := s.count, report_count := s.report_count + 1 }
  else
    { d := { s.d with
             sink := s.d.sink ++
               [input_event.input_mt_slot i, input_event.input_mt_report_slot_state true,
                input_event.input_report_abs input_code.ABS_MT_POSITION_X (s.d.fingers i).x,
                input_event.input_report_abs input_code.ABS_MT_POSITION_Y (s.d.fingers i).y,
                input_event.input_report_abs input_code.ABS_MT_TOUCH_MAJOR (s.d.fingers i).w,
                input_event.input_report_abs input_code.ABS_MT_PRESSURE (s.d.fingers i).z] ++
               (if s.d.TSP_USE_SHAPETOUCH = true ∧ s.d.revision = MXT_REVISION_I then
                  [input_event.input_report_abs input_code.ABS_MT_COMPONENT
                     (s.d.fingers i).component,
                   input_event.input_report_abs input_code.ABS_MT_SUMSIZE s.d.sumsize]
                else []) ++
               [input_event.input_report_key input_code.BTN_TOOL_FINGER 1,
                input_event.input_report_key input_code.BTN_TOUCH
                  (if (s.d.fingers i).type = MXT_T100_TYPE_HOVERING_FINGER then 0 else 1)],
             fingers := Function.update s.d.fingers i
               { s.d.fingers i with state := mxt_finger_state.MXT_STATE_MOVE } },
      count := s.count + 1, report_count := s.report_count + 1 }

/-- The function `mxt_report_input_data(data)`, the flush of the contact slots
to the input layer.  (`mxt_set_dvfs_on` of the `TSP_BOOSTER` build is not part
of the source file and touches none of the state kept here.) -/
def mxt_report_input_data (d : mxt_data) : mxt_data :=
  let s := (List.range MXT_MAX_FINGER).foldl mxt_report_input_data_slot
    { d := d, count := 0, report_count := 0 }
  let d1 := if s.count = 0 then
      { s.d with sink := s.d.sink ++
          [input_event.input_report_key input_code.BTN_TOUCH 0,
           input_event.input_report_key input_code.BTN_TOOL_FINGER 0] }
    else s.d
  let d2 := if s.report_count > 0 ∧ d1.stop_sync = false then
      { d1 with sink := d1.sink ++ [input_event.input_sync] }
    else d1
  let d3 := if d2.TSP_USE_SHAPETOUCH = true ∧ s.count = 0 then { d2 with sumsize := 0 } else d2
  { d3 with finger_mask := 0, report_calls := d.report_calls + 1 }

/-- The function `calibrate_chip(data)`. -/
def calibrate_chip (d : mxt_data) : Int × mxt_data :=
  if d.cal_busy = true then (0, d)
  else
    let r := mxt_write_object d MXT_GEN_COMMANDPROCESSOR_T6 MXT_COMMAND_CALIBRATE 1
    (r.1, { r.2 with cal_busy := true })

/-- The function `mxt_t61_timer_set(data, mode, cmd, msPeriod)`.  The object
pointer is used unchecked: without a T61 object the driver dereferences NULL. -/
def mxt_t61_timer_set (d : mxt_data) (mode cmd msPeriod : Nat) : mxt_data :=
  match mxt_get_object d MXT_SPT_TIMER_T61 with
  | none => { d with oops := true }
  | some object =>
    (mxt_write_mem d (object.start_address % 65536) 5
      [3, cmd % 256, mode % 256, (msPeriod % 65536) &&& 0xFF,
       ((msPeriod % 65536) >>> 8) &&& 0xFF]).2

/-- The function `mxt_t8_cal_set(data, mstime)`. -/
def mxt_t8_cal_set (d : mxt_data) (mstime : Nat) : mxt_data :=
  (mxt_write_object { d with check_autocal := if mstime % 256 ≠ 0 then 1 else 0 }
    MXT_GEN_ACQUISITIONCONFIG_T8 4 (mstime % 256)).2

/-- The function `diff_two_point(x, y, oldx, oldy)` on `u16` values; `abs` of a
promoted `u16` is the value itself. -/
def diff_two_point (x y oldx oldy : Nat) : Nat :=
  let diffx := (x % 65536 + 65536 - oldx % 65536) % 65536
  let diffy := (y % 65536 + 65536 - oldy % 65536) % 65536
  (diffx + diffy) % 65536

/-- Body of `for (i = 0; i <= data->max_id; i++)` in `mxt_check_coordinate`. -/
def mxt_check_coordinate_scan (s : mxt_data) (i : Nat) : mxt_data :=
  if s.tcount i > s.release_max then
    (calibrate_chip { s with Press_cnt := 0, Release_cnt := 0, Press_Release_check := 1,
                             release_max := 3 }).2
  else s

/-- First statement of `mxt_check_coordinate`: the `if (detect) ... else ...`
that keeps the travelled distance and the stillness counter of slot `id`. -/
def mxt_check_coordinate_track (d : mxt_data) (detect id x y : Nat) : mxt_data :=
  if detect ≠ 0 then
    { d with tcount := Function.update d.tcount id 0,
             distance := Function.update d.distance id 0 }
  else
    let dist := diff_two_point x y (d.touchbx id) (d.touchby id)
    let d0 := { d with distance := Function.update d.distance id dist }
    if dist < 3 then
      if d0.atch_value ≥ d0.tch_value then
        if d0.tcount id < 20000 then
          { d0 with release_max := 3, tcount := Function.update d0.tcount id (d0.tcount id + 1) }
        else { d0 with release_max := 3 }
      else if d0.atch_value + d0.tch_value ≥ 80 then
        if d0.tcount id < 20000 then
          { d0 with release_max := 10,
                    tcount := Function.update d0.tcount id (d0.tcount id + 1) }
        else { d0 with release_max := 10 }
      else d0
    else { d0 with tcount := Function.update d0.tcount id 0 }

/-- The function `mxt_check_coordinate(data, detect, id, x, y)`. -/
def mxt_check_coordinate (d : mxt_data) (detect id x y : Nat) : mxt_data :=
  let d1 := mxt_check_coordinate_track d detect id x y
  let d2 := { d1 with touchbx := Function.update d1.touchbx id (x % 65536),
                      touchby := Function.update d1.touchby id (y % 65536),
                      max_id := if id ≥ d1.old_id then id else d1.old_id,
                      old_id := id }
  if d2.Press_Release_check = 0 then
    if d2.Report_touch_number > 0 then
      (List.range (d2.max_id + 1)).foldl mxt_check_coordinate_scan d2
    else d2
  else d2

/-- The function `mxt_dist_check(data)`: the `u16` sum and the state. -/
def mxt_dist_check (d : mxt_data) : Nat × mxt_data :=
  ((List.range (d.max_id + 1)).foldl
     (fun dist_sum i => if d.distance i < 3 then (dist_sum + 1) % 65536 else 0) 0,
   (List.range (MAX_USING_FINGER_NUM - (d.max_id + 1))).foldl
     (fun s k => { s with distance := Function.update s.distance (d.max_id + 1 + k) 0 }) d)

/-- The function `mxt_tch_atch_area_check(data, tch_area, atch_area, touch_area)`;
the three areas are `int` arguments holding `u16` values. -/
def mxt_tch_atch_area_check (d : mxt_data) (tch_area atch_area touch_area : Nat) : mxt_data :=
  let touch_num := d.Report_touch_number % 256
  let d1 :=
    if tch_area ≠ 0 then
      if d.check_timer = 0 then
        let t := mxt_t61_timer_set { d with coin_check := 0 } MXT_T61_TIMER_ONESHOT
          MXT_T61_TIMER_CMD_START 1000
        { t with check_timer := 1 }
      else d
    else d
  if tch_area = 0 ∧ atch_area > 0 then (calibrate_chip d1).2
  else
    let dist_sum := (mxt_dist_check d1).1
    let d2 := (mxt_dist_check d1).2
    if touch_num > 1 ∧ tch_area ≤ 45 then
      if touch_num = 2 then
        if (tch_area : Int) < (atch_area : Int) - 3 then (calibrate_chip d2).2 else d2
      else if tch_area ≤ touch_num * 4 + 2 then
        if d2.coin_check = 0 then
          if dist_sum = d2.max_id + 1 then
            if touch_area < d2.T_AREA_LOW_MT then
              if d2.t_area_l_cnt ≥ 7 then
                let c := mxt_t8_cal_set d2 5
                { c with coin_check := 1, t_area_l_cnt := 0, t_area_cnt := 0 }
              else { d2 with t_area_l_cnt := d2.t_area_l_cnt + 1, t_area_cnt := 0 }
            else { d2 with t_area_cnt := 0, t_area_l_cnt := 0 }
          else d2
        else d2
      else if (tch_area : Int) < (atch_area : Int) - 2 then (calibrate_chip d2).2
      else d2
    else if touch_num > 1 ∧ tch_area > 48 then
      if tch_area > atch_area then (calibrate_chip d2).2 else d2
    else if touch_num = 1 then
      if tch_area < 7 ∧ atch_area ≤ 1 then
        if d2.coin_check = 0 then
          if d2.distance 0 < 3 then
            if touch_area < d2.T_AREA_LOW_ST then
              if d2.t_area_l_cnt ≥ 7 then
                let c := mxt_t8_cal_set d2 5
                { c with coin_check := 1, t_area_l_cnt := 0, t_area_cnt := 0 }
              else { d2 with t_area_l_cnt := d2.t_area_l_cnt + 1, t_area_cnt := 0 }
            else if touch_area < d2.T_AREA_HIGH_ST then
              if d2.t_area_cnt ≥ 7 then
                let c := mxt_t8_cal_set d2 5
                { c with coin_check := 1, t_area_cnt := 0, t_area_l_cnt := 0 }
              else { d2 with t_area_cnt := d2.t_area_cnt + 1, t_area_l_cnt := 0 }
            else { d2 with t_area_cnt := 0, t_area_l_cnt := 0 }
          else d2
        else d2
      else if tch_area > 25 then (calibrate_chip d2).2
      else d2
    else d2

/-- Byte `k` of the payload of a message (`message->message[k]`, a `u8`). -/
def msg_byte (message : mxt_message) (k : Nat) : Nat :=
  message.message.getD k 0 % 256

/-- The store `data->fingers[id] = f`. -/
def set_finger (d : mxt_data) (id : Nat) (f : mxt_finger) : mxt_data :=
  { d with fingers := Function.update d.fingers id f }

/-- The function `mxt_treat_T9_object(data, message)`. -/
def mxt_treat_T9_object (d : mxt_data) (message : mxt_message) : mxt_data :=
  let msg := msg_byte message
  let id := (d.reportids message.reportid).index
  if id ≥ MXT_MAX_FINGER then d
  else if msg 0 &&& MXT_RELEASE_MSG_MASK ≠ 0 then
    let d1 := set_finger d id
      { d.fingers id with z := 0, w := msg 4, state := mxt_finger_state.MXT_STATE_RELEASE }
    let d2 := if d1.CHECK_ANTITOUCH = true then
        { d1 with tcount := Function.update d1.tcount id 0,
                  distance := Function.update d1.distance id 0 }
      else d1
    mxt_report_input_data d2
  else if msg 0 &&& MXT_DETECT_MSG_MASK ≠ 0 ∧
      msg 0 &&& (MXT_PRESS_MSG_MASK ||| MXT_MOVE_MSG_MASK) ≠ 0 then
    let x0 := (msg 1 <<< 4) ||| (msg 3 >>> 4)
    let y0 := (msg 2 <<< 4) ||| (msg 3 &&& 0xF)
    let x := if d.max_x < 1024 then x0 >>> 2 else x0
    let y := if d.max_y < 1024 then y0 >>> 2 else y0
    let f := { d.fingers id with
      x := x, y := y, w := msg 4, z := msg 5,
      component := if d.TSP_USE_SHAPETOUCH = true then msg 6 else (d.fingers id).component }
    let dm := { d with finger_mask := (d.finger_mask ||| (1 <<< id)) % 2 ^ 32 }
    if msg 0 &&& MXT_PRESS_MSG_MASK ≠ 0 then
      let d1 := set_finger dm id
        { f with state := mxt_finger_state.MXT_STATE_PRESS, mcount := 0 }
      if d1.CHECK_ANTITOUCH = true then mxt_check_coordinate d1 1 id x y else d1
    else if msg 0 &&& MXT_MOVE_MSG_MASK ≠ 0 then
      let d1 := set_finger dm id { f with mcount := f.mcount + 1 }
      if d1.CHECK_ANTITOUCH = true then mxt_check_coordinate d1 0 id x y else d1
    else set_finger dm id f
  else if msg 0 &&& MXT_SUPPRESS_MSG_MASK ≠ 0 ∧
      (d.fingers id).state ≠ mxt_finger_state.MXT_STATE_INACTIVE then
    set_finger { d with finger_mask := (d.finger_mask ||| (1 <<< id)) % 2 ^ 32 } id
      { d.fingers id with z := 0, w := msg 4, state := mxt_finger_state.MXT_STATE_RELEASE }
  else d

/-- The function `mxt_treat_T100_object(data, message)`; `index` and `id` are
`u8`.  The slot number `id` is used as it is decoded. -/
def mxt_treat_T100_object (d : mxt_data) (message : mxt_message) : mxt_data :=
  let msg := msg_byte message
  let index := (d.reportids message.reportid).index % 256
  if index < MXT_T100_SCREEN_MESSAGE_NUM_RPT_ID then
    if d.TSP_USE_SHAPETOUCH = true then { d with sumsize := (msg 3 <<< 8) ||| msg 2 } else d
  else
    let id := (index - MXT_T100_SCREEN_MESSAGE_NUM_RPT_ID) % 256
    let touch_detect := (msg 0 >>> MXT_T100_DETECT_MSG_MASK) % 256
    let touch_type := (msg 0 &&& 0x70) >>> 4
    let touch_event := msg 0 &&& 0x0F
    if touch_type = MXT_T100_TYPE_FINGER ∨ touch_type = MXT_T100_TYPE_PASSIVE_STYLUS ∨
        touch_type = MXT_T100_TYPE_HOVERING_FINGER then
      if touch_detect = 0 then
        if touch_event = MXT_T100_EVENT_UP ∨ touch_event = MXT_T100_EVENT_SUPPESS then
          mxt_report_input_data (set_finger d id
            { d.fingers id with w := 0, z := 0, state := mxt_finger_state.MXT_STATE_RELEASE,
                                type := touch_type, event := touch_event })
        else d
      else if touch_event = MXT_T100_EVENT_DOWN ∨ touch_event = MXT_T100_EVENT_UNSUPPRESS ∨
          touch_event = MXT_T100_EVENT_MOVE ∨ touch_event = MXT_T100_EVENT_NONE then
        let f := { d.fingers id with
          x := msg 1 ||| (msg 2 <<< 8), y := msg 3 ||| (msg 4 <<< 8),
          component := if d.TSP_USE_SHAPETOUCH = true then msg 5 else (d.fingers id).component,
          z := if touch_type = MXT_T100_TYPE_HOVERING_FINGER then 0 else msg 6,
          w := if touch_type = MXT_T100_TYPE_HOVERING_FINGER then 0 else msg 7,
          type := touch_type, event := touch_event }
        if touch_event = MXT_T100_EVENT_DOWN ∨ touch_event = MXT_T100_EVENT_UNSUPPRESS then
          mxt_report_input_data (set_finger d id
            { f with state := mxt_finger_state.MXT_STATE_PRESS, mcount := 0 })
        else
          mxt_report_input_data (set_finger d id
            { f with state := mxt_finger_state.MXT_STATE_MOVE, mcount := f.mcount + 1 })
      else d
    else d

/-- The `#if PALM_CAL` block of `mxt_treat_T57_object`, entered after the area
check with the state `a` it left. -/
def mxt_treat_T57_palm (a : mxt_data) (touch_area_T57 : Nat) : mxt_data :=
  if a.PALM_CAL = true then
    if a.Report_touch_number ≥ 5 ∧ touch_area_T57 < a.Report_touch_number * 2 + 2 then
      if a.palm_cnt ≥ 5 then (calibrate_chip { a with palm_cnt := 0 }).2
      else { a with palm_cnt := a.palm_cnt + 1 }
    else { a with palm_cnt := 0 }
  else a

/-- The statement `if (data->pdata->check_calgood == 1) { ... }` of
`mxt_treat_T57_object`; the differences are taken in `int`. -/
def mxt_treat_T57_calgood (d : mxt_data) (tch_area atch_area : Nat) : mxt_data :=
  if d.check_calgood = 1 then
    let d3 :=
      if (atch_area : Int) - (tch_area : Int) > 15 then
        if tch_area < 25 then (calibrate_chip d).2 else d
      else d
    if (tch_area : Int) - (atch_area : Int) > 48 then (calibrate_chip d3).2 else d3
  else d

/-- The function `mxt_treat_T57_object(data, message)`. -/
def mxt_treat_T57_object (d : mxt_data) (message : mxt_message) : mxt_data :=
  let msg := msg_byte message
  let touch_area_T57 := msg 0 ||| (msg 1 <<< 8)
  let tch_area := msg 2 ||| (msg 3 <<< 8)
  let atch_area := msg 4 ||| (msg 5 <<< 8)
  let d4 :=
    if d.CHECK_ANTITOUCH = true then
      let d1 := { d with
        tch_value := tch_area, atch_value := atch_area, T57_touch := touch_area_T57,
        Report_touch_number := (List.range MXT_MAX_FINGER).foldl
          (fun n i =>
            if (d.fingers i).state ≠ mxt_finger_state.MXT_STATE_INACTIVE ∧
               (d.fingers i).state ≠ mxt_finger_state.MXT_STATE_RELEASE then n + 1 else n) 0 }
      let d2 :=
        if d1.check_antitouch ≠ 0 then
          mxt_treat_T57_palm (mxt_tch_atch_area_check d1 tch_area atch_area touch_area_T57)
            touch_area_T57
        else d1
      mxt_treat_T57_calgood d2 tch_area atch_area
    else d
  if d4.TSP_USE_SHAPETOUCH = true then { d4 with sumsize := (msg 0 + (msg 1 <<< 8)) % 65536 }
  else d4

/-- The handlers of this section plugged into the router: contact messages,
area-metric messages and the flush are the functions above; the other
handlers are left idle. -/
def contact_handlers : mxt_handlers :=
  { idle_handlers with
    mxt_treat_T9_object := mxt_treat_T9_object,
    mxt_treat_T57_object := mxt_treat_T57_object,
    mxt_treat_T100_object := mxt_treat_T100_object,
    mxt_report_input_data := mxt_report_input_data }

/-- A running device with a T9 touchscreen (report-ID 2 for slot 0, 3 for slot
1) whose contact slots start as listed; the slots after the list are
inactive. -/
def device_with_fingers (l : List mxt_finger) : mxt_data :=
  { rdata := fun _ _ => 0xFF,
    info := { object_num := 3 },
    objects := some
      [ { type := 5, start_address := 0x100, size := 9, instances := 1 },
        { type := 6, start_address := 0x120, size := 6, instances := 1, num_report_ids := 1,
          max_reportid := 1 },
        { type := 9, start_address := 0x130, size := 35, instances := 1, num_report_ids := 2,
          max_reportid := 3 } ],
    reportids := fun r => if r = 1 then { type := 6, index := 0 }
                          else if r = 2 then { type := 9, index := 0 }
                          else if r = 3 then { type := 9, index := 1 } else {},
    max_reportid := 3,
    fingers := fun i => l.getD i {} }

/-- A running device with a T100 touchscreen of eighteen report-IDs, 2 to 19:
two screen-status IDs and sixteen contact IDs, so that report-ID 4 carries
contact 0 and report-ID 14 contact 10.  The contact slots start as listed. -/
def device_T100_with_fingers (l : List mxt_finger) : mxt_data :=
  { rdata := fun _ _ => 0xFF,
    info := { object_num := 3 },
    objects := some
      [ { type := 5, start_address := 0x100, size := 9, instances := 1 },
        { type := 6, start_address := 0x120, size := 6, instances := 1, num_report_ids := 1,
          max_reportid := 1 },
        { type := 100, start_address := 0x130, size := 60, instances := 1,
          num_report_ids := 18, max_reportid := 19 } ],
    reportids := fun r => if r = 1 then { type := 6, index := 0 }
                          else if 2 ≤ r ∧ r ≤ 19 then { type := 100, index := r - 2 } else {},
    max_reportid := 19,
    fingers := fun i => l.getD i {} }

/-- The T9 device with every slot inactive and the given axis maxima in its
platform data. -/
def device_with_resolution (max_x max_y : Nat) : mxt_data :=
  { device_with_fingers [] with max_x := max_x, max_y := max_y }

/-- The T9 device with slot 0 pressed, whose message processor answers every
read with a T9 release message for slot 0 (report-ID 2, status 0x20) and whose
CHG line reports a pending message at the first poll and none from the second
poll on. -/
def device_two_releases : mxt_data :=
  { device_with_fingers [{ state := mxt_finger_state.MXT_STATE_PRESS }] with
    rdata := fun _ a => ([2, 0x20, 0, 0, 0, 7, 0, 0, 0] : List Nat).getD (a - 0x100) 0,
    read_chg := fun n => decide (1 ≤ n) }

/-- The T9 device with every slot inactive, whose message processor answers
every read with a T9 press message for slot 0 and whose CHG line reports
nothing pending. -/
def device_one_press : mxt_data :=
  { device_with_fingers [] with
    rdata := fun _ a => ([2, 0xC0, 0xAB, 0xCD, 0xEF, 9, 40, 0, 0] : List Nat).getD (a - 0x100) 0 }

/-- The T9 device with every slot inactive and the given flags of the
calibration checks. -/
def device_with_checks (check_antitouch check_calgood : Nat) (cal_busy : Bool) : mxt_data :=
  { device_with_fingers [] with
    check_antitouch := check_antitouch, check_calgood := check_calgood, cal_busy := cal_busy }

end Mxts

namespace Mxts

/-! ## Status messages, timer expiry and power-down

The handlers of T6 status messages and T61 timer messages, the charger
reconfiguration they can trigger, and the release of all contacts when the
device is stopped.

`mxt_patch_test_event` of the `TSP_PATCH` build lives in `mxts_patch.c`, which
is not part of the source tree; `set_charger_config` is modelled as compiled
without `TSP_PATCH`. -/

def MXT_SPT_TOUCHSCREENHOVER_T101 : Nat := 101
def MXT_SPT_SELFCAPHOVERCTECONFIG_T102 : Nat := 102
def MXT_T61_TIMER_CMD_STOP : Nat := 2

/-- Modelled from the spec: the value of `tsp_keystatus` when no key is held
(`TOUCH_KEY_NULL`, from the missing header). -/
def TOUCH_KEY_NULL : Nat := 0
/-- Modelled from the spec: key state of the menu key (`TOUCH_KEY_MENU`). -/
def TOUCH_KEY_MENU : Nat := 1
/-- Modelled from the spec: key state of the back key (`TOUCH_KEY_BACK`). -/
def TOUCH_KEY_BACK : Nat := 2
/-- Modelled from the spec: value reported for a released key (`KEY_RELEASE`). -/
def KEY_RELEASE : Nat := 0

/-- The function `mxt_read_object(data, type, offset, val)`: the status, the
byte `*val` afterwards and the new state. -/
def mxt_read_object (d : mxt_data) (type offset val : Nat) : Int × Nat × mxt_data :=
  match mxt_get_object d type with
  | none => (- EINVAL, val, d)
  | some object =>
    let r := mxt_read_mem d (object.start_address + offset % 256) 1 [val]
    (r.1, r.2.1.getD 0 val, r.2.2)

/-- The function `mxt_current_calibration(data)` of the `TSP_HOVER_WORKAROUND`
build. -/
def mxt_current_calibration (d : mxt_data) : mxt_data :=
  (mxt_write_object d MXT_SPT_SELFCAPHOVERCTECONFIG_T102 1 1).2

/-- The function `set_charger_config(data)`: the record walk of
`mxt_write_config` over the profile selected by `charging_mode`, followed by a
calibration request when the walk ran to its end.  The walk returns early
exactly when its status is non-zero; with `cfg_len` 0 it is skipped and the
status is the uninitialised `ret`.  A NULL profile pointer is dereferenced as
soon as a record is looked at. -/
def set_charger_config (fuel : Nat) (d : mxt_data) : Option (Int × mxt_data) :=
  match (if d.charging_mode then d.ta_cfg_raw_data else d.batt_cfg_raw_data) with
  | none =>
    if d.cfg_len = 0 then
      some (((d.uninit 717 0 : Nat) : Int), (calibrate_chip d).2)
    else if 0 + sizeof_mxt_cfg_data ≥ d.cfg_len then some (- EINVAL, d)
    else some (- EFAULT, { d with oops := true })
  | some raw =>
    match cfg_walk raw d.cfg_len fuel 0 ((d.uninit 717 0 : Nat) : Int) d with
    | none => none
    | some w =>
      if d.cfg_len = 0 ∨ w.1 = 0 then some (w.1, (calibrate_chip w.2).2) else some w

/-- The `#if CHECK_ANTITOUCH` block of the calibration branch (status bit
0x10) of `mxt_treat_T6_object`. -/
def mxt_treat_T6_calibration (d : mxt_data) : mxt_data :=
  let b := mxt_t8_cal_set { d with coin_check := 0 } 0
  let e := mxt_t61_timer_set { b with check_antitouch := 1 } MXT_T61_TIMER_ONESHOT
    MXT_T61_TIMER_CMD_STOP 0
  let f := { e with check_timer := 0, check_calgood := 0, cal_busy := true, finger_area := 0,
                    palm_cnt := if e.PALM_CAL = true then 0 else e.palm_cnt }
  if f.Press_Release_check = 0 then
    { f with Press_Release_check := 1, Press_cnt := 0, Release_cnt := 0, release_max := 3 }
  else f

/-- The normal-mode branch (status byte 0x00) of `mxt_treat_T6_object`. -/
def mxt_treat_T6_normal (d : mxt_data) : mxt_data :=
  let a := if d.cal_busy = true then { d with cal_busy := false } else d
  if a.TSP_HOVER_WORKAROUND = true ∧ a.revision = MXT_REVISION_I ∧ a.cur_cal_status = true then
    let c := mxt_current_calibration a
    { c with cur_cal_status := false }
  else a

/-- The part of the reset branch (status bit 0x80) of `mxt_treat_T6_object`
that follows the charger reconfiguration. -/
def mxt_treat_T6_reset (d : mxt_data) : mxt_data :=
  let a := if d.CHECK_ANTITOUCH = true then
      { d with Press_Release_check := 1, Press_cnt := 0, Release_cnt := 0, release_max := 3 }
    else d
  if a.TSP_HOVER_WORKAROUND = true ∧ a.revision = MXT_REVISION_I then
    let r := mxt_read_object a MXT_SPT_TOUCHSCREENHOVER_T101 0 0
    if r.1 = 0 ∧ r.2.1 ≠ 0 then { r.2.2 with cur_cal_status := true } else r.2.2
  else a

/-- The function `mxt_treat_T6_object(data, message)`.  The first argument
bounds the record walk of `set_charger_config`; `none` means the bound was
reached. -/
def mxt_treat_T6_object (fuel : Nat) (d : mxt_data) (message : mxt_message) :
    Option mxt_data :=
  let status := msg_byte message 0
  let d1 := if status = 0 then mxt_treat_T6_normal d else d
  let d2 := if status &&& 0x10 ≠ 0 ∧ d1.CHECK_ANTITOUCH = true then mxt_treat_T6_calibration d1
    else d1
  if status &&& 0x80 ≠ 0 then
    if d2.TSP_INFORM_CHARGER = true ∧ d2.charging_mode = true then
      (set_charger_config fuel d2).map (fun r => mxt_treat_T6_reset r.2)
    else some (mxt_treat_T6_reset d2)
  else some d2

/-- The three assignments `check_calgood = 0; Press_Release_check = 0;
check_afterCalgood = 1` that `mxt_treat_T61_object` repeats in each of its
"CalGood" branches. -/
def mxt_t61_cal_good (d : mxt_data) : mxt_data :=
  { d with check_calgood := 0, Press_Release_check := 0, check_afterCalgood := 1 }

/-- The statement `if (check_calgood == 1) { ... } else if (check_antitouch)
{ ... }` of `mxt_treat_T61_object`. -/
def mxt_treat_T61_check (d : mxt_data) : mxt_data :=
  if d.check_calgood = 1 then
    if d.Press_cnt = d.Release_cnt then
      if d.tch_value = 0 ∧ d.atch_value = 0 then
        if d.FirstCal_tch = 0 ∧ d.FirstCal_atch = 0 then
          if d.FirstCal_t57tch = d.T57_touch then
            if d.T57_touch = 0 ∨ d.T57_touch > 12 then (calibrate_chip d).2
            else mxt_t61_cal_good d
          else mxt_t61_cal_good d
        else mxt_t61_cal_good d
      else (calibrate_chip d).2
    else if d.atch_value = 0 then
      if d.finger_area < 35 then (calibrate_chip d).2 else mxt_t61_cal_good d
    else if d.atch_value < d.tch_value ∧ d.Report_touch_number < 4 then
      if d.Report_touch_number = 2 ∧ d.tch_value > 12 ∧ d.T57_touch ≥ 1 then mxt_t61_cal_good d
      else if d.Report_touch_number = 3 ∧ d.tch_value > 18 ∧ d.T57_touch > 8 then
        mxt_t61_cal_good d
      else (calibrate_chip d).2
    else (calibrate_chip d).2
  else if d.check_antitouch ≠ 0 then
    if d.check_autocal = 1 then
      let b := mxt_t8_cal_set { d with check_timer := 0, coin_check := 0 } 0
      mxt_t61_timer_set b MXT_T61_TIMER_ONESHOT MXT_T61_TIMER_CMD_START 1000
    else
      let b := mxt_t8_cal_set { d with check_antitouch := 0, check_timer := 0 } 0
      mxt_t61_timer_set
        { b with check_calgood := 1, coin_check := 0, FirstCal_tch := b.tch_value,
                 FirstCal_atch := b.atch_value, FirstCal_t57tch := b.T57_touch }
        MXT_T61_TIMER_ONESHOT MXT_T61_TIMER_CMD_START 3000
  else d

/-- The statement `if (!data->Press_Release_check) { ... }` of
`mxt_treat_T61_object`. -/
def mxt_treat_T61_final (d : mxt_data) : mxt_data :=
  if d.Press_Release_check = 0 then
    if d.check_afterCalgood ≠ 0 then
      mxt_t61_timer_set { d with check_afterCalgood := 0 } MXT_T61_TIMER_ONESHOT
        MXT_T61_TIMER_CMD_START 5000
    else if d.tch_value < d.atch_value then (calibrate_chip d).2
    else mxt_t61_timer_set d MXT_T61_TIMER_ONESHOT MXT_T61_TIMER_CMD_STOP 0
  else d

/-- The function `mxt_treat_T61_object(data, message)`. -/
def mxt_treat_T61_object (d : mxt_data) (message : mxt_message) : mxt_data :=
  if d.CHECK_ANTITOUCH = true ∧ msg_byte message 0 &&& 0xa0 = 0xa0 then
    mxt_treat_T61_final (mxt_treat_T61_check d)
  else d

/-- Body of the loop of `mxt_release_all_finger`, on the state and `count`. -/
def mxt_release_all_finger_slot (s : mxt_data × Nat) (i : Nat) : mxt_data × Nat :=
  if (s.1.fingers i).state = mxt_finger_state.MXT_STATE_INACTIVE then s
  else
    (set_finger s.1 i
      { s.1.fingers i with z := 0, state := mxt_finger_state.MXT_STATE_RELEASE }, s.2 + 1)

/-- The function `mxt_release_all_finger(data)`. -/
def mxt_release_all_finger (d : mxt_data) : mxt_data :=
  let s := (List.range MXT_MAX_FINGER).foldl mxt_release_all_finger_slot (d, 0)
  if s.2 ≠ 0 then mxt_report_input_data s.1 else s.1

/-- The function `mxt_release_all_keys(data)` of the `ENABLE_TOUCH_KEY` build. -/
def mxt_release_all_keys (d : mxt_data) : mxt_data :=
  if d.tsp_keystatus ≠ TOUCH_KEY_NULL then
    { d with
      sink := d.sink ++
        (if d.tsp_keystatus = TOUCH_KEY_MENU then
           [input_event.input_report_key input_code.KEY_MENU KEY_RELEASE]
         else if d.tsp_keystatus = TOUCH_KEY_BACK then
           [input_event.input_report_key input_code.KEY_BACK KEY_RELEASE]
         else []),
      tsp_keystatus := TOUCH_KEY_NULL }
  else d

/-- The function `mxt_power_off(data)`. -/
def mxt_power_off (d : mxt_data) : Int × mxt_data :=
  if d.mxt_enabled = false then (0, d)
  else
    match d.power_onoff with
    | none => (- EINVAL, d)
    | some f =>
      if f d.power_calls false ≠ 0 then
        (f d.power_calls false, { d with power_calls := d.power_calls + 1 })
      else (0, { d with power_calls := d.power_calls + 1, mxt_enabled := false })

/-- The function `mxt_stop(data)`.  (`mxt_set_dvfs_on` of the `TSP_BOOSTER`
build is not part of the source file.) -/
def mxt_stop (d : mxt_data) : Int × mxt_data :=
  if d.mxt_enabled = false then (0, d)
  else
    let r := mxt_power_off { d with irq_disable_depth := d.irq_disable_depth + 1 }
    if r.1 ≠ 0 then (r.1, { r.2 with irq_disable_depth := r.2.irq_disable_depth - 1 })
    else
      let d2 := mxt_release_all_finger r.2
      (0, if d2.ENABLE_TOUCH_KEY = true then mxt_release_all_keys d2 else d2)

end Mxts

namespace Mxts

/-! ## Devices for the calibration engine -/

/-- A running device with the objects the calibration engine talks to: T5 at
0x100, T6 at 0x120 (report-ID 1), T8 at 0x140, T9 at 0x150 (report-IDs 2 and
3), T57 at 0x180 (report-ID 4) and T61 at 0x190 (report-ID 5).  Every slot is
inactive and the bus accepts every transfer. -/
def device_engine : mxt_data :=
  { rdata := fun _ _ => 0xFF,
    info := { object_num := 6 },
    objects := some
      [ { type := 5, start_address := 0x100, size := 9, instances := 1 },
        { type := 6, start_address := 0x120, size := 6, instances := 1, num_report_ids := 1,
          max_reportid := 1 },
        { type := 8, start_address := 0x140, size := 10, instances := 1 },
        { type := 9, start_address := 0x150, size := 35, instances := 1, num_report_ids := 2,
          max_reportid := 3 },
        { type := 57, start_address := 0x180, size := 3, instances := 1, num_report_ids := 1,
          max_reportid := 4 },
        { type := 61, start_address := 0x190, size := 5, instances := 1, num_report_ids := 1,
          max_reportid := 5 } ],
    reportids := fun r => if r = 1 then { type := 6, index := 0 }
                          else if r = 2 then { type := 9, index := 0 }
                          else if r = 3 then { type := 9, index := 1 }
                          else if r = 4 then { type := 57, index := 0 }
                          else if r = 5 then { type := 61, index := 0 } else {},
    max_reportid := 5 }

/-- The engine device in a `TSP_INFORM_CHARGER` build, on the charger, with an
empty charger profile. -/
def device_charging : mxt_data :=
  { device_engine with TSP_INFORM_CHARGER := true, charging_mode := true, cfg_len := 0 }

/-- The engine device in the state the heuristics reach after a first good
check: `check_calgood` and `check_timer` set, `check_antitouch` clear, and the
stationary-object flag `coin_check` set. -/
def device_after_calgood : mxt_data :=
  { device_engine with check_calgood := 1, check_timer := 1, check_antitouch := 0,
                       coin_check := 1 }

/-- The T9 device with slot 0 pressed and contact events pending
(`finger_mask` 1), whose bus refuses every read and whose CHG line keeps
reporting a pending message. -/
def device_read_fails : mxt_data :=
  { device_with_fingers [{ state := mxt_finger_state.MXT_STATE_PRESS }] with
    i2c_transfer := fun _ => -1, finger_mask := 1, read_chg := fun _ => false }

/-- The engine device with one moving contact that has not travelled, the
timer already armed, and the low single-touch threshold `T_AREA_LOW_ST` 10. -/
def device_single_touch : mxt_data :=
  { device_engine with
    fingers := fun i => if i = 0 then { state := mxt_finger_state.MXT_STATE_MOVE } else {},
    Report_touch_number := 1, check_timer := 1, T_AREA_LOW_ST := 10, T_AREA_HIGH_ST := 20 }

/-- The single-touch device with the stationary-object flag set and
`cal_busy` clear. -/
def device_coin : mxt_data :=
  { device_single_touch with coin_check := 1 }

/-- The T9 device with slot 0 pressed, slot 1 inactive and slot 2 moving. -/
def device_two_contacts : mxt_data :=
  device_with_fingers
    [{ state := mxt_finger_state.MXT_STATE_PRESS, z := 40 }, {},
     { state := mxt_finger_state.MXT_STATE_MOVE, z := 30, mcount := 5 }]

/-- The T9 device with every slot inactive after a move message (status byte
0x90) for slot 0. -/
def device_stray_move : mxt_data :=
  mxt_treat_T9_object (device_with_fingers [])
    { reportid := 2, message := [0x90, 0, 0, 0, 0, 0, 0] }

/-- Consecutive calls of `mxt_tch_atch_area_check`, one for each triple
`(tch_area, atch_area, touch_area)` of the list, oldest first. -/
def mxt_tch_atch_area_check_run (d : mxt_data) (l : List (Nat × Nat × Nat)) : mxt_data :=
  l.foldl (fun s m => mxt_tch_atch_area_check s m.1 m.2.1 m.2.2) d

end Mxts

namespace Mxts

/-! ## Further devices and images -/

/-- A running device whose directory has no T6 command processor: a T5 at
0x100 and a T9 at 0x130 (report-ID 1).  `cal_busy` is clear. -/
def device_without_T6 : mxt_data :=
  { rdata := fun _ _ => 0xFF,
    info := { object_num := 2 },
    objects := some
      [ { type := 5, start_address := 0x100, size := 9, instances := 1 },
        { type := 9, start_address := 0x130, size := 35, instances := 1, num_report_ids := 1,
          max_reportid := 1 } ],
    reportids := fun r => if r = 1 then { type := 9, index := 0 } else {},
    max_reportid := 1 }

/-- The engine device on a bus that refuses every send. -/
def device_send_fails : mxt_data :=
  { device_engine with i2c_master_send := fun _ _ => -1 }

/-- A running device with a T7 object of four bytes at 0x130, one instance,
directly followed by a T8 object of ten bytes at 0x134. -/
def device_adjacent_objects : mxt_data :=
  { info := { object_num := 3 },
    objects := some
      [ { type := 5, start_address := 0x100, size := 9, instances := 1 },
        { type := 7, start_address := 0x130, size := 4, instances := 1 },
        { type := 8, start_address := 0x134, size := 10, instances := 1 } ] }

/-- An image of exactly 65536 bytes for firmware 0x10 build 0xAA: 16384
records of four bytes, each one byte (value 9) for instance 0 of T7. -/
def blob_tiling : mxt_fw_info :=
  { fw_ver := 0x10, build_ver := 0xAA, cfg_len := 65536, cfg_crc := 0x123456,
    cfg_raw_data := some (fun i =>
      if i % 4 = 0 then 7 else if i % 4 = 1 then 0 else if i % 4 = 2 then 1 else 9) }

/-- The step of the information-block CRC with the running value cut to 24
bits after the step, as the specification words it. -/
def crc24_step_masked (crc byte1 byte2 : Nat) : Nat :=
  mxt_make_crc24 crc byte1 byte2 &&& 0x00FFFFFF

/-- The loop of `mxt_calculate_infoblock_crc` with `crc24_step_masked` in
place of `mxt_make_crc24`: the fold that masks to 24 bits after every step. -/
def crc_loop_masked (mem : List Nat) : Nat → crc_loop_state → crc_loop_state
  | 0, s => s
  | fuel + 1, s =>
    if s.i < mem.length - 1 then
      crc_loop_masked mem fuel
        { i := s.i + 2,
          crc := crc24_step_masked s.crc (mem.getD s.i 0) (mem.getD (s.i + 1) 0),
          reads := s.reads ++ [s.i, s.i + 1] }
    else s

/-- The information-block CRC computed with a mask after every step. -/
def infoblock_crc_masked_of_mem (mem : List Nat) : Nat :=
  let s := crc_loop_masked mem mem.length { i := 0, crc := 0, reads := [] }
  crc24_step_masked s.crc (mem.getD s.i 0) 0

/-- The multi-contact decision table as the specification words it: with `n`
contacts, touch area `tch_area` and anti-touch area `atch_area`, a
recalibration is due when the touch area is at most 45 and, for two contacts,
more than 3 below the anti-touch area, or, for three and more, above `4n + 2`
and more than 2 below the anti-touch area; or when the touch area is above 48
and above the anti-touch area. -/
@[reducible]
def spec_multi_contact_recalibration (n tch_area atch_area : Nat) : Prop :=
  (tch_area ≤ 45 ∧ n = 2 ∧ (tch_area : Int) < (atch_area : Int) - 3) ∨
  (tch_area ≤ 45 ∧ n ≥ 3 ∧ tch_area > 4 * n + 2 ∧ (tch_area : Int) < (atch_area : Int) - 2) ∨
  (tch_area > 48 ∧ tch_area > atch_area)

/-- The engine device with three contacts reported and no calibration in
progress. -/
def device_three_contacts : mxt_data :=
  { device_engine with Report_touch_number := 3, check_timer := 1 }

/-- The engine device waiting for the first timer window to expire:
`check_antitouch` and `Press_Release_check` set, `check_calgood` clear, the
timer armed, `coin_check` set, and `check_autocal` as given.  The latest area
metrics are touch 9, anti-touch 2 and 4 touch nodes. -/
def device_first_window (check_autocal : Nat) : mxt_data :=
  { device_engine with
    check_antitouch := 1, Press_Release_check := 1, check_timer := 1, coin_check := 1,
    check_autocal := check_autocal, tch_value := 9, atch_value := 2, T57_touch := 4 }

/-- The recalibration condition of the confirmation window as the
specification words it: the latest touch or anti-touch value is not 0, or the
baseline touch and anti-touch values are 0 and the baseline node count equals
the latest one, which is 0 or above 12. -/
@[reducible]
def spec_confirmation_recalibration (d : mxt_data) : Prop :=
  (d.tch_value ≠ 0 ∨ d.atch_value ≠ 0) ∨
  (d.FirstCal_tch = 0 ∧ d.FirstCal_atch = 0 ∧ d.FirstCal_t57tch = d.T57_touch ∧
    (d.T57_touch = 0 ∨ d.T57_touch > 12))

/-- The engine device in the confirmation window (`check_calgood` 1) with as
many presses as releases, no touch and no anti-touch at the moment, a baseline
of 0, 0 and `first` touch nodes and `now` touch nodes at the moment. -/
def device_confirmation (first now : Nat) : mxt_data :=
  { device_engine with
    check_calgood := 1, check_timer := 1, Press_Release_check := 1, Press_cnt := 2,
    Release_cnt := 2, FirstCal_t57tch := first, T57_touch := now }

/-- A chip of 42 objects after `mxt_read_id_info`: the ID header is
`81 01 10 AA 12 0C 2A`, the object table that follows reads as zeros, and the
stack the driver runs on holds zeros.  The information block has
`7 + 6 * 42 = 259` bytes. -/
def chip_42_objects : mxt_data :=
  { rdata := fun _ a => ([0x81, 0x01, 0x10, 0xAA, 0x12, 0x0C, 42] : List Nat).getD a 0,
    info := { family_id := 0x81, variant_id := 0x01, version := 0x10, build := 0xAA,
              matrix_xsize := 0x12, matrix_ysize := 0x0C, object_num := 42 } }

/-- The chip `chip_42_objects` when the last byte of the stack buffer of
`mxt_calculate_infoblock_crc` happens to hold 1. -/
def chip_42_objects_dirty_stack : mxt_data :=
  { chip_42_objects with uninit := fun _ k => if k = 258 then 1 else 0 }

/-- A chip of 42 objects whose information block agrees with that of
`chip_42_objects` in its first three bytes only: every later byte, the object
count included, reads 0x55. -/
def chip_42_objects_other_block : mxt_data :=
  { chip_42_objects with rdata := fun _ a => ([0x81, 0x01, 0x10] : List Nat).getD a 0x55 }

end Mxts

namespace Mxts

/-! ## The information-block CRC -/

/-- The loop of `mxt_calculate_infoblock_crc`, started at an even index `2 * k`
with `m` byte pairs left, runs to the last index: it folds `mxt_make_crc24`
over those pairs and reads each of their bytes once. -/
theorem crc_loop_run (mem : List Nat) :
    ∀ (m k fuel crc : Nat) (reads : List Nat),
      2 * (k + m) + 1 = mem.length → m ≤ fuel →
      crc_loop mem fuel { i := 2 * k, crc := crc, reads := reads } =
        { i := mem.length - 1,
          crc := List.foldl (fun c j => mxt_make_crc24 c (mem.getD (2 * j) 0)
                    (mem.getD (2 * j + 1) 0)) crc (List.range' k m),
          reads := reads ++ List.range' (2 * k) (2 * m) } := by
  intro m
  induction m with
  | zero =>
    intro k fuel crc reads hlen _
    have hi : mem.length - 1 = 2 * k := by omega
    cases fuel with
    | zero => simp [crc_loop, hi]
    | succ f => simp [crc_loop, hi]
  | succ m ih =>
    intro k fuel crc reads hlen hfuel
    obtain ⟨f, rfl⟩ : ∃ f, fuel = f + 1 := ⟨fuel - 1, by omega⟩
    have hlt : 2 * k < mem.length - 1 := by omega
    have h2 : 2 * k + 2 = 2 * (k + 1) := by ring
    have h3 : 2 * (m + 1) = 2 * m + 1 + 1 := by ring
    simp only [crc_loop, hlt, if_true]
    rw [h2, ih (k + 1) f _ _ (by omega) (by omega), h3]
    simp [List.range'_succ, List.foldl_cons, List.append_assoc]
    right; ring

/-- Testing `res & 0x1000000` is testing bit 24. -/
theorem and_two_pow_24_ne_zero (x : Nat) : (x &&& 0x1000000 ≠ 0) ↔ x.testBit 24 = true := by
  have h : x &&& 0x1000000 = 2 ^ 24 * (x.testBit 24).toNat := by
    rw [Nat.and_comm]; exact Nat.two_pow_and x 24
  rw [h]
  cases x.testBit 24 <;> simp

/-- What one CRC step computes on in-range arguments. -/
theorem mxt_make_crc24_eq (crc b1 b2 : Nat) (h1 : b1 < 256) (h2 : b2 < 256) (hc : crc < 2 ^ 32) :
    mxt_make_crc24 crc b1 b2 =
      if (((crc <<< 1) % 2 ^ 32) ^^^ ((b2 <<< 8) ||| b1)).testBit 24
      then (((crc <<< 1) % 2 ^ 32) ^^^ ((b2 <<< 8) ||| b1)) ^^^ 0x80001B
      else ((crc <<< 1) % 2 ^ 32) ^^^ ((b2 <<< 8) ||| b1) := by
  have hw : (b2 <<< 8 ||| b1) < 65536 := by
    have : b2 <<< 8 < 2 ^ 16 := by
      rw [Nat.shiftLeft_eq]; omega
    exact Nat.or_lt_two_pow this (by omega)
  have hb1 : b1 % 256 = b1 := Nat.mod_eq_of_lt h1
  have hb2 : b2 % 256 = b2 := Nat.mod_eq_of_lt h2
  have hcm : crc % 2 ^ 32 = crc := Nat.mod_eq_of_lt hc
  have hwm : (b2 <<< 8 ||| b1) % 65536 = b2 <<< 8 ||| b1 := Nat.mod_eq_of_lt hw
  simp only [mxt_make_crc24, hb1, hb2, hcm, hwm, and_two_pow_24_ne_zero]

/-- A read leaves the length of the destination buffer unchanged when the
requested length fits in it. -/
theorem mxt_read_mem_length (d : mxt_data) (reg len : Nat) (buf : List Nat)
    (h : len % 256 ≤ buf.length) : (mxt_read_mem d reg len buf).2.1.length = buf.length := by
  unfold mxt_read_mem
  by_cases hb : d.block_access = true
  · simp [hb]
  · by_cases hr : (i2c_retry d.i2c_transfer 3 d.tick 0).1 = 2
    · simp [hb, hr]; omega
    · simp [hb, hr]

/-- The computation on the buffer.  For a buffer `mem` of `7 + 6 n` bytes the
value `mxt_calculate_infoblock_crc` computes from it is the left fold of
`mxt_make_crc24`, from 0, over the byte pairs `(mem[2k], mem[2k+1])`,
`k = 0 .. (len-3)/2`, followed by one step on `(mem[len-1], 0)` and the 24-bit
mask; every index of `mem` is read exactly once, in order; the result is below
`2^24`; a step computes `(crc << 1) ^ (byte2 << 8 | byte1)` and xors
`0x80001B` when bit 24 is set; and the function stores this value of the
buffer as `mxt_read_mem` left it, when that read succeeds.  What the buffer
holds then is the matter of `mxt_read_mem_untouched_tail` and
`mxt_calculate_infoblock_crc_of_block`. -/
theorem mxt_calculate_infoblock_crc_fold (n : Nat) (mem : List Nat)
    (hlen : mem.length = 7 + 6 * n) :
    (infoblock_crc_of_mem mem).1 =
        mxt_make_crc24
          (List.foldl (fun c k => mxt_make_crc24 c (mem.getD (2 * k) 0) (mem.getD (2 * k + 1) 0))
            0 (List.range ((mem.length - 1) / 2)))
          (mem.getD (mem.length - 1) 0) 0 % 2 ^ 24
    ∧ (infoblock_crc_of_mem mem).2 = List.range mem.length
    ∧ (infoblock_crc_of_mem mem).1 < 2 ^ 24
    ∧ (∀ crc b1 b2 : Nat, b1 < 256 → b2 < 256 → crc < 2 ^ 32 →
        mxt_make_crc24 crc b1 b2 =
          if (((crc <<< 1) % 2 ^ 32) ^^^ ((b2 <<< 8) ||| b1)).testBit 24
          then (((crc <<< 1) % 2 ^ 32) ^^^ ((b2 <<< 8) ||| b1)) ^^^ 0x80001B
          else ((crc <<< 1) % 2 ^ 32) ^^^ ((b2 <<< 8) ||| b1))
    ∧ (∀ (d : mxt_data) (crc0 : Nat), d.info.object_num = n →
        (mxt_calculate_infoblock_crc d crc0).1 = 0 →
        (mxt_read_mem d 0 (7 + n * 6) (uninit_buf d 247 (7 + n * 6))).2.1.length
            = 7 + 6 * n
        ∧ (mxt_calculate_infoblock_crc d crc0).2.1 =
            (infoblock_crc_of_mem
              (mxt_read_mem d 0 (7 + n * 6) (uninit_buf d 247 (7 + n * 6))).2.1).1) := by
  have hrun := crc_loop_run mem ((mem.length - 1) / 2) 0 mem.length 0 [] (by omega) (by omega)
  have hmask : ∀ x : Nat, x &&& 0x00FFFFFF = x % 2 ^ 24 := fun x =>
    Nat.and_pow_two_sub_one_eq_mod x 24
  have h1 : (infoblock_crc_of_mem mem).1 =
        mxt_make_crc24
          (List.foldl (fun c k => mxt_make_crc24 c (mem.getD (2 * k) 0) (mem.getD (2 * k + 1) 0))
            0 (List.range ((mem.length - 1) / 2)))
          (mem.getD (mem.length - 1) 0) 0 % 2 ^ 24 := by
    simp only [infoblock_crc_of_mem]
    rw [show (0 : Nat) = 2 * 0 from rfl, hrun, hmask, List.range_eq_range']
  refine ⟨h1, ?_, ?_, ?_, ?_⟩
  · simp only [infoblock_crc_of_mem]
    rw [show (0 : Nat) = 2 * 0 from rfl, hrun]
    have h2 : 2 * ((mem.length - 1) / 2) = mem.length - 1 := by omega
    have h3 : mem.length = (mem.length - 1) + 1 := by omega
    rw [h2, List.nil_append]
    conv_rhs => rw [h3, List.range_succ]
    rw [List.range_eq_range']
  · rw [h1]; exact Nat.mod_lt _ (by norm_num)
  · intro crc b1 b2 hb1 hb2 hc
    exact mxt_make_crc24_eq crc b1 b2 hb1 hb2 hc
  · intro d crc0 hn hret
    have hl : (mxt_read_mem d 0 (7 + n * 6) (uninit_buf d 247 (7 + n * 6))).2.1.length
        = 7 + 6 * n := by
      have hu : (uninit_buf d 247 (7 + n * 6)).length = 7 + n * 6 := by
        simp [uninit_buf]
      rw [mxt_read_mem_length]
      · rw [hu]; ring
      · rw [hu]; exact Nat.mod_le _ _
    refine ⟨hl, ?_⟩
    unfold mxt_calculate_infoblock_crc at hret ⊢
    rw [hn] at hret ⊢
    by_cases hr : (mxt_read_mem d 0 (7 + n * 6) (uninit_buf d 247 (7 + n * 6))).1 = 0
    · simp [hr]
    · simp [hr] at hret

/-- The fold on the seven-byte header of a chip with an empty table. -/
theorem mxt_calculate_infoblock_crc_fold_witness :
    ([0x81, 0x01, 0x10, 0xAA, 0x12, 0x0C, 0x00] : List Nat).length = 7 + 6 * 0
    ∧ (infoblock_crc_of_mem [0x81, 0x01, 0x10, 0xAA, 0x12, 0x0C, 0x00]).2 = List.range 7
    ∧ (infoblock_crc_of_mem [0x81, 0x01, 0x10, 0xAA, 0x12, 0x0C, 0x00]).1 < 2 ^ 24 :=
  ⟨by decide,
   (mxt_calculate_infoblock_crc_fold 0 [0x81, 0x01, 0x10, 0xAA, 0x12, 0x0C, 0x00] (by decide)).2.1,
   (mxt_calculate_infoblock_crc_fold 0 [0x81, 0x01, 0x10, 0xAA, 0x12, 0x0C, 0x00] (by decide)).2.2.1⟩

end Mxts

namespace Mxts

/-! ## Order sensitivity of the CRC -/

/-- Bit `i < 24` of the result of a CRC step: the running value shifted by
one, xor the data word, xor the polynomial when bit 23 of the running value
was set. -/
theorem mxt_make_crc24_testBit (c b1 b2 i : Nat) (hi : i < 24) :
    (mxt_make_crc24 c b1 b2).testBit i =
      (((decide (1 ≤ i) && c.testBit (i - 1)) ^^
        ((((b2 % 256) <<< 8) ||| (b1 % 256)) % 65536).testBit i) ^^
        (c.testBit 23 && (0x80001B : Nat).testBit i)) := by
  have h24 : ((((c % 2 ^ 32) <<< 1) % 2 ^ 32) ^^^
      ((((b2 % 256) <<< 8) ||| (b1 % 256)) % 65536)).testBit 24 = c.testBit 23 := by
    have hw : ((((b2 % 256) <<< 8) ||| (b1 % 256)) % 65536).testBit 24 = false :=
      Nat.testBit_lt_two_pow (Nat.lt_of_lt_of_le (Nat.mod_lt _ (by norm_num)) (by norm_num))
    rw [Nat.testBit_xor, Nat.testBit_mod_two_pow, Nat.testBit_shiftLeft,
      Nat.testBit_mod_two_pow, hw]
    simp
  have hlow : ((((c % 2 ^ 32) <<< 1) % 2 ^ 32) ^^^
      ((((b2 % 256) <<< 8) ||| (b1 % 256)) % 65536)).testBit i =
      ((decide (1 ≤ i) && c.testBit (i - 1)) ^^
        ((((b2 % 256) <<< 8) ||| (b1 % 256)) % 65536).testBit i) := by
    rw [Nat.testBit_xor, Nat.testBit_mod_two_pow, Nat.testBit_shiftLeft, Nat.testBit_mod_two_pow]
    have h1 : decide (i < 32) = true := by simp; omega
    by_cases h0 : 1 ≤ i
    · have h2 : decide (i - 1 < 32) = true := by simp; omega
      simp [h1, h2, h0]
    · simp [h1, h0]
  unfold mxt_make_crc24
  simp only [and_two_pow_24_ne_zero, h24]
  by_cases hb : c.testBit 23 = true
  · simp only [hb, if_true, Nat.testBit_xor, hlow, Bool.true_and]
  · simp only [hb, Bool.false_eq_true, if_false, hlow, Bool.false_and, Bool.xor_false]

/-- Bit 0 of the result of a CRC step. -/
theorem mxt_make_crc24_testBit_zero (c b1 b2 : Nat) :
    (mxt_make_crc24 c b1 b2).testBit 0 =
      (((((b2 % 256) <<< 8) ||| (b1 % 256)) % 65536).testBit 0 ^^ c.testBit 23) := by
  have hp : (0x80001B : Nat).testBit 0 = true := by decide
  have hd : decide (1 ≤ 0) = false := by decide
  rw [mxt_make_crc24_testBit c b1 b2 0 (by norm_num), hp, hd, Bool.false_and, Bool.false_xor,
    Bool.and_true]

/-- Bit `j + 1 < 24` of the result of a CRC step. -/
theorem mxt_make_crc24_testBit_succ (c b1 b2 j : Nat) (hj : j + 1 < 24) :
    (mxt_make_crc24 c b1 b2).testBit (j + 1) =
      ((c.testBit j ^^ ((((b2 % 256) <<< 8) ||| (b1 % 256)) % 65536).testBit (j + 1)) ^^
        (c.testBit 23 && (0x80001B : Nat).testBit (j + 1))) := by
  have hd : decide (1 ≤ j + 1) = true := by simp
  rw [mxt_make_crc24_testBit c b1 b2 (j + 1) hj, hd, Bool.true_and, Nat.add_sub_cancel]

/-- Cancelling equal terms in an equation between exclusive-ors. -/
theorem bool_xor_cancel (u p q m : Bool) (h : ((u ^^ q) ^^ m) = ((u ^^ p) ^^ m)) : p = q := by
  revert h
  cases u <;> cases p <;> cases q <;> cases m <;> decide

/-- Cancelling the right-hand terms in an equation between exclusive-ors. -/
theorem bool_xor_cancel_left (u v p m : Bool) (h : ((u ^^ p) ^^ m) = ((v ^^ p) ^^ m)) : u = v := by
  revert h
  cases u <;> cases v <;> cases p <;> cases m <;> decide

/-- Two numbers agree modulo `2^24` exactly when their low 24 bits agree. -/
theorem mod_two_pow_24_eq_iff (x y : Nat) :
    x % 2 ^ 24 = y % 2 ^ 24 ↔ ∀ i, i < 24 → x.testBit i = y.testBit i := by
  constructor
  · intro h i hi
    have hx := Nat.testBit_mod_two_pow x 24 i
    have hy := Nat.testBit_mod_two_pow y 24 i
    rw [h] at hx
    rw [hx] at hy
    simpa [hi] using hy
  · intro h
    apply Nat.eq_of_testBit_eq
    intro i
    rw [Nat.testBit_mod_two_pow, Nat.testBit_mod_two_pow]
    by_cases hi : i < 24
    · simp [hi, h i hi]
    · simp [hi]

/-- A CRC step is injective on the low 24 bits of the running value. -/
theorem mxt_make_crc24_low_injective (x y b1 b2 : Nat)
    (h : mxt_make_crc24 x b1 b2 % 2 ^ 24 = mxt_make_crc24 y b1 b2 % 2 ^ 24) :
    x % 2 ^ 24 = y % 2 ^ 24 := by
  rw [mod_two_pow_24_eq_iff] at h ⊢
  have h23 : x.testBit 23 = y.testBit 23 := by
    have h0 := h 0 (by norm_num)
    rw [mxt_make_crc24_testBit_zero x b1 b2, mxt_make_crc24_testBit_zero y b1 b2] at h0
    revert h0
    generalize x.testBit 23 = p
    generalize y.testBit 23 = q
    generalize ((((b2 % 256) <<< 8) ||| (b1 % 256)) % 65536).testBit 0 = w
    cases p <;> cases q <;> cases w <;> decide
  intro i hi
  by_cases h23i : i = 23
  · rw [h23i]; exact h23
  · have hs := h (i + 1) (by omega)
    rw [mxt_make_crc24_testBit_succ x b1 b2 i (by omega),
      mxt_make_crc24_testBit_succ y b1 b2 i (by omega), h23] at hs
    exact bool_xor_cancel_left _ _ _ _ hs

/-- Folding further byte pairs keeps two running values apart on their low
24 bits. -/
theorem crc24_fold_low_ne (suf : List (Nat × Nat)) :
    ∀ x y : Nat, x % 2 ^ 24 ≠ y % 2 ^ 24 →
      List.foldl (fun c p => mxt_make_crc24 c p.1 p.2) x suf % 2 ^ 24 ≠
      List.foldl (fun c p => mxt_make_crc24 c p.1 p.2) y suf % 2 ^ 24 := by
  induction suf with
  | nil => intro x y h; simpa using h
  | cons p t ih =>
    intro x y h
    simp only [List.foldl_cons]
    exact ih _ _ (fun hh => h (mxt_make_crc24_low_injective x y p.1 p.2 hh))

/-- If two steps in either order give the same low 24 bits, the two data
words are equal. -/
theorem mxt_make_crc24_swap_words (x a1 a2 b1 b2 : Nat)
    (h : mxt_make_crc24 (mxt_make_crc24 x a1 a2) b1 b2 % 2 ^ 24 =
         mxt_make_crc24 (mxt_make_crc24 x b1 b2) a1 a2 % 2 ^ 24) :
    (((a2 % 256) <<< 8) ||| (a1 % 256)) % 65536 = (((b2 % 256) <<< 8) ||| (b1 % 256)) % 65536 := by
  rw [mod_two_pow_24_eq_iff] at h
  have hw : ∀ u v i : Nat, 16 ≤ i →
      ((((v % 256) <<< 8) ||| (u % 256)) % 65536).testBit i = false := by
    intro u v i hi
    have h16 : (65536 : Nat) ≤ 2 ^ i :=
      calc (65536 : Nat) = 2 ^ 16 := by norm_num
        _ ≤ 2 ^ i := Nat.pow_le_pow_right (show 0 < 2 by norm_num) hi
    exact Nat.testBit_lt_two_pow (Nat.lt_of_lt_of_le
      (Nat.mod_lt _ (show 0 < 65536 by norm_num)) h16)
  have h23 : (mxt_make_crc24 x a1 a2).testBit 23 = (mxt_make_crc24 x b1 b2).testBit 23 := by
    rw [mxt_make_crc24_testBit_succ x a1 a2 22 (by norm_num),
      mxt_make_crc24_testBit_succ x b1 b2 22 (by norm_num),
      hw a1 a2 23 (by norm_num), hw b1 b2 23 (by norm_num)]
  have key : ∀ i, i < 24 →
      ((((a2 % 256) <<< 8) ||| (a1 % 256)) % 65536).testBit i =
      ((((b2 % 256) <<< 8) ||| (b1 % 256)) % 65536).testBit i := by
    intro i
    induction i with
    | zero =>
      intro _
      have h0 := h 0 (by norm_num)
      rw [mxt_make_crc24_testBit_zero (mxt_make_crc24 x a1 a2) b1 b2,
        mxt_make_crc24_testBit_zero (mxt_make_crc24 x b1 b2) a1 a2, h23] at h0
      revert h0
      generalize ((((a2 % 256) <<< 8) ||| (a1 % 256)) % 65536).testBit 0 = p
      generalize ((((b2 % 256) <<< 8) ||| (b1 % 256)) % 65536).testBit 0 = q
      generalize (mxt_make_crc24 x b1 b2).testBit 23 = r
      cases p <;> cases q <;> cases r <;> decide
    | succ j ih =>
      intro hj
      have hj' := ih (by omega)
      have hs := h (j + 1) hj
      have huv : (mxt_make_crc24 x a1 a2).testBit j = (mxt_make_crc24 x b1 b2).testBit j := by
        cases j with
        | zero =>
          rw [mxt_make_crc24_testBit_zero x a1 a2, mxt_make_crc24_testBit_zero x b1 b2, hj']
        | succ k =>
          rw [mxt_make_crc24_testBit_succ x a1 a2 k (by omega),
            mxt_make_crc24_testBit_succ x b1 b2 k (by omega), hj']
      rw [mxt_make_crc24_testBit_succ (mxt_make_crc24 x a1 a2) b1 b2 j hj,
        mxt_make_crc24_testBit_succ (mxt_make_crc24 x b1 b2) a1 a2 j hj, h23, huv] at hs
      exact bool_xor_cancel _ _ _ _ hs
  apply Nat.eq_of_testBit_eq
  intro i
  by_cases hi : i < 24
  · exact key i hi
  · rw [hw a1 a2 i (by omega), hw b1 b2 i (by omega)]

/-- The data word determines the two bytes. -/
theorem data_word_injective (a1 a2 b1 b2 : Nat) (ha1 : a1 < 256) (ha2 : a2 < 256)
    (hb1 : b1 < 256) (hb2 : b2 < 256)
    (h : (((a2 % 256) <<< 8) ||| (a1 % 256)) % 65536 = (((b2 % 256) <<< 8) ||| (b1 % 256)) % 65536) :
    a1 = b1 ∧ a2 = b2 := by
  have e : ∀ u v : Nat, u < 256 → v < 256 →
      (((v % 256) <<< 8) ||| (u % 256)) % 65536 = 256 * v + u := by
    intro u v hu hv
    have h1 : (v % 256) <<< 8 = 2 ^ 8 * v := by
      rw [Nat.mod_eq_of_lt hv, Nat.shiftLeft_eq, Nat.mul_comm]
    have h2 : u % 256 = u := Nat.mod_eq_of_lt hu
    have h3 : u < 2 ^ 8 := by norm_num; exact hu
    rw [h1, h2, ← Nat.mul_add_lt_is_or h3 v]
    omega
  rw [e a1 a2 ha1 ha2, e b1 b2 hb1 hb2] at h
  omega

/-- C3, as stated, fails: the three distinct byte pairs `(5,0) (15,0) (3,0)`
and their rotation `(3,0) (5,0) (15,0)` are different sequences, one a
permutation of the other, with the same CRC. -/
theorem crc24_of_pairs_rotation_collision :
    List.Perm [((3 : Nat), (0 : Nat)), (5, 0), (15, 0)] [(5, 0), (15, 0), (3, 0)]
    ∧ [((3 : Nat), (0 : Nat)), (5, 0), (15, 0)] ≠ [(5, 0), (15, 0), (3, 0)]
    ∧ List.Nodup [((5 : Nat), (0 : Nat)), (15, 0), (3, 0)]
    ∧ crc24_of_pairs [(3, 0), (5, 0), (15, 0)] = crc24_of_pairs [(5, 0), (15, 0), (3, 0)] := by
  refine ⟨by decide, by decide, by decide, by decide⟩

/-- C3, amended: the CRC depends on the order of its input in that exchanging
two adjacent byte pairs that differ always changes it, wherever they stand in
the sequence. -/
theorem crc24_of_pairs_adjacent_swap (pre suf : List (Nat × Nat)) (a b : Nat × Nat)
    (ha : a.1 < 256 ∧ a.2 < 256) (hb : b.1 < 256 ∧ b.2 < 256) (hab : a ≠ b) :
    crc24_of_pairs (pre ++ a :: b :: suf) ≠ crc24_of_pairs (pre ++ b :: a :: suf) := by
  have hmask : ∀ x : Nat, x &&& 0x00FFFFFF = x % 2 ^ 24 := fun x =>
    Nat.and_pow_two_sub_one_eq_mod x 24
  unfold crc24_of_pairs
  rw [hmask, hmask, List.foldl_append, List.foldl_append]
  simp only [List.foldl_cons]
  apply crc24_fold_low_ne
  intro h
  have hw := mxt_make_crc24_swap_words _ a.1 a.2 b.1 b.2 h
  have hb12 := data_word_injective a.1 a.2 b.1 b.2 ha.1 ha.2 hb.1 hb.2 hw
  exact hab (Prod.ext hb12.1 hb12.2)

/-- Witness for the amended C3: exchanging `(1,0)` and `(0,0)`. -/
theorem crc24_of_pairs_adjacent_swap_witness :
    crc24_of_pairs ([] ++ ((1 : Nat), (0 : Nat)) :: (0, 0) :: []) ≠
    crc24_of_pairs ([] ++ ((0 : Nat), (0 : Nat)) :: (1, 0) :: []) :=
  crc24_of_pairs_adjacent_swap [] [] (1, 0) (0, 0) (by decide) (by decide) (by decide)

end Mxts

namespace Mxts

/-! ## The bus read behind the information-block CRC -/

set_option maxRecDepth 1000000

/-- A read never stores to the buffer from index `len mod 256` on: the length
parameter of `mxt_read_mem` is a `u8`. -/
theorem mxt_read_mem_untouched_tail (d : mxt_data) (reg len : Nat) (buf : List Nat) :
    (mxt_read_mem d reg len buf).2.1.drop (len % 256) = buf.drop (len % 256) := by
  unfold mxt_read_mem
  by_cases hb : d.block_access = true
  · rw [if_pos hb]
  · rw [if_neg hb]
    dsimp only
    by_cases hr : (i2c_retry d.i2c_transfer 3 d.tick 0).1 = 2
    · rw [if_pos hr]
      dsimp only
      exact List.drop_left' (by simp)
    · rw [if_neg hr]

/-- For a chip of at most 41 objects, whose information block of at most 253
bytes fits the `u8` length of the read, with the bus unlocked: when
`mxt_calculate_infoblock_crc` returns 0, the value it stores is the CRC of the
block as the chip delivered it, byte `k` of the buffer being the byte the chip
holds at address `k`. -/
theorem mxt_calculate_infoblock_crc_of_block (d : mxt_data) (crc0 : Nat)
    (hn : d.info.object_num ≤ 41) (hb : d.block_access = false)
    (hret : (mxt_calculate_infoblock_crc d crc0).1 = 0) :
    (mxt_calculate_infoblock_crc d crc0).2.1 =
      (infoblock_crc_of_mem ((List.range (7 + d.info.object_num * 6)).map
        (fun k => d.rdata ((i2c_retry d.i2c_transfer 3 d.tick 0).2 - 1) k % 256))).1 := by
  have hsz : (7 + d.info.object_num * 6) % 256 = 7 + d.info.object_num * 6 :=
    Nat.mod_eq_of_lt (by omega)
  have hread : (mxt_read_mem d 0 (7 + d.info.object_num * 6)
        (uninit_buf d 247 (7 + d.info.object_num * 6))).1 = 0 →
      (mxt_read_mem d 0 (7 + d.info.object_num * 6)
        (uninit_buf d 247 (7 + d.info.object_num * 6))).2.1 =
      (List.range (7 + d.info.object_num * 6)).map
        (fun k => d.rdata ((i2c_retry d.i2c_transfer 3 d.tick 0).2 - 1) k % 256) := by
    unfold mxt_read_mem
    rw [if_neg (by rw [hb]; decide)]
    dsimp only
    by_cases hr : (i2c_retry d.i2c_transfer 3 d.tick 0).1 = 2
    · rw [if_pos hr]
      intro _
      dsimp only
      have hdrop : (uninit_buf d 247 (7 + d.info.object_num * 6)).drop
          ((7 + d.info.object_num * 6) % 256) = [] := by
        rw [hsz]
        apply List.drop_of_length_le
        simp [uninit_buf]
      rw [hdrop, List.append_nil, hsz]
      apply List.map_congr_left
      intro k _
      rw [Nat.zero_mod, Nat.zero_add]
    · rw [if_neg hr]
      intro h
      have hio : (- EIO : Int) ≠ 0 := by decide
      exact absurd h hio
  unfold mxt_calculate_infoblock_crc at hret ⊢
  dsimp only at hret ⊢
  by_cases hr : (mxt_read_mem d 0 (7 + d.info.object_num * 6)
      (uninit_buf d 247 (7 + d.info.object_num * 6))).1 = 0
  · rw [if_neg (not_not.mpr hr)]
    dsimp only
    rw [hread hr]
  · rw [if_pos hr] at hret
    exact absurd hret hr

/-- C2 fails on the code: for a chip of 42 objects the information block has
259 bytes, but `mxt_calculate_infoblock_crc` hands `sizeof(mem)` to
`mxt_read_mem`, whose length parameter is a `u8`: 3 bytes are read from the
chip and the other 256 bytes of the buffer keep what the stack held.  The
function returns 0 and stores the fold over those 259 bytes, which is not the
CRC of the block (0x735E7E against 0x5E1712); the value changes with the stack
contents and does not change when the chip's bytes from offset 3 on change.
Whatever the arguments, a read leaves the buffer from index `len mod 256` on
as it was. -/
theorem mxt_calculate_infoblock_crc_truncated_read :
    7 + chip_42_objects.info.object_num * 6 = 259 ∧
    (mxt_calculate_infoblock_crc chip_42_objects 0).1 = 0 ∧
    (mxt_read_mem chip_42_objects 0 259 (uninit_buf chip_42_objects 247 259)).2.1 =
      [0x81, 0x01, 0x10] ++ List.replicate 256 0 ∧
    (mxt_calculate_infoblock_crc chip_42_objects 0).2.1 = 0x735E7E ∧
    (infoblock_crc_of_mem
      ((List.range 259).map (fun a => chip_42_objects.rdata 0 a))).1 = 0x5E1712 ∧
    (mxt_calculate_infoblock_crc chip_42_objects_dirty_stack 0).2.1 = 0x735E7F ∧
    (mxt_calculate_infoblock_crc chip_42_objects_other_block 0).2.1 = 0x735E7E ∧
    (∀ (d : mxt_data) (reg len : Nat) (buf : List Nat),
      (mxt_read_mem d reg len buf).2.1.drop (len % 256) = buf.drop (len % 256)) := by
  refine ⟨by decide, by decide, by decide, by decide, by decide, by decide, by decide,
    mxt_read_mem_untouched_tail⟩

end Mxts

namespace Mxts

/-! ## The report-ID map -/

/-- The running sum of report-ID counts grows by the count of the next
descriptor. -/
theorem reportid_sum_succ (objects : List mxt_object) (i : Nat) :
    reportid_sum objects (i + 1) = reportid_sum objects i +
      (objects.getD i {}).num_report_ids * (objects.getD i {}).instances := by
  simp [reportid_sum, List.range_succ]

/-- The running sum of report-ID counts is monotone. -/
theorem reportid_sum_mono (objects : List mxt_object) {i j : Nat} (h : i ≤ j) :
    reportid_sum objects i ≤ reportid_sum objects j := by
  induction j with
  | zero => have : i = 0 := by omega
            rw [this]
  | succ k ih =>
    by_cases hk : i ≤ k
    · rw [reportid_sum_succ]; exact Nat.le_trans (ih hk) (Nat.le_add_right _ _)
    · have : i = k + 1 := by omega
      rw [this]

/-- The inner loop of `mxt_make_reportid_table` for one descriptor: `n` stores
at the next `n` indices. -/
theorem reportid_inner_loop (type : Nat) (n : Nat) (s : reportid_table_state) :
    ((List.range n).foldl (mxt_make_reportid_table_store type) s).id = s.id + n
    ∧ ((List.range n).foldl (mxt_make_reportid_table_store type) s).stores =
        s.stores ++ List.range' (s.id + 1) n
    ∧ ∀ r, ((List.range n).foldl (mxt_make_reportid_table_store type) s).reportids r =
        if s.id < r ∧ r ≤ s.id + n then { type := type, index := (r - s.id - 1) % 256 }
        else s.reportids r := by
  induction n with
  | zero =>
    refine ⟨rfl, by simp, ?_⟩
    intro r
    have : ¬ (s.id < r ∧ r ≤ s.id + 0) := by omega
    simp only [List.range_zero, List.foldl_nil, this, if_false]
  | succ n ih =>
    obtain ⟨h1, h2, h3⟩ := ih
    rw [List.range_succ, List.foldl_append]
    simp only [List.foldl_cons, List.foldl_nil, mxt_make_reportid_table_store]
    refine ⟨by rw [h1]; ring, ?_, ?_⟩
    · rw [h2, h1, List.range'_concat, List.append_assoc]
      simp
      omega
    · intro r
      rw [Function.update_apply, h1, h3 r]
      by_cases hr : r = s.id + n + 1
      · have : s.id < r ∧ r ≤ s.id + (n + 1) := by omega
        have e : r - s.id - 1 = n := by omega
        rw [if_pos hr, if_pos this, e]
      · by_cases hin : s.id < r ∧ r ≤ s.id + n
        · have : s.id < r ∧ r ≤ s.id + (n + 1) := by omega
          rw [if_neg hr, if_pos hin, if_pos this]
        · have : ¬ (s.id < r ∧ r ≤ s.id + (n + 1)) := by omega
          rw [if_neg hr, if_neg hin, if_neg this]

/-- Consecutive runs of consecutive numbers join into one. -/
theorem range'_one_append (a b : Nat) :
    List.range' 1 a ++ List.range' (a + 1) b = List.range' 1 (a + b) := by
  induction b with
  | zero => simp
  | succ b ih =>
    rw [List.range'_concat, ← List.append_assoc, ih, ← Nat.add_assoc, List.range'_concat]
    simp
    omega

/-- The outer loop of `mxt_make_reportid_table` unfolds one descriptor at a
time. -/
theorem mxt_make_reportid_table_loops_succ (objects : List mxt_object) (k : Nat)
    (s : reportid_table_state) :
    mxt_make_reportid_table_loops objects (k + 1) s =
      (List.range ((objects.getD k {}).num_report_ids * (objects.getD k {}).instances)).foldl
        (mxt_make_reportid_table_store (objects.getD k {}).type)
        (mxt_make_reportid_table_loops objects k s) := by
  simp [mxt_make_reportid_table_loops, List.range_succ, List.foldl_append]

/-- After the first `k` descriptors the counter is `S_k`, the stores went to
`1 .. S_k` in order, every other index is untouched, and each stored index
holds the type of its descriptor and its offset within the descriptor. -/
theorem mxt_make_reportid_table_loops_spec (objects : List mxt_object)
    (init : Nat → mxt_reportid) (k : Nat) :
    (mxt_make_reportid_table_loops objects k { id := 0, reportids := init, stores := [] }).id
        = reportid_sum objects k
    ∧ (mxt_make_reportid_table_loops objects k { id := 0, reportids := init, stores := [] }).stores
        = List.range' 1 (reportid_sum objects k)
    ∧ (∀ r, r = 0 ∨ reportid_sum objects k < r →
        (mxt_make_reportid_table_loops objects k
          { id := 0, reportids := init, stores := [] }).reportids r = init r)
    ∧ (∀ i r, i < k → reportid_sum objects i < r → r ≤ reportid_sum objects (i + 1) →
        (mxt_make_reportid_table_loops objects k
          { id := 0, reportids := init, stores := [] }).reportids r =
          { type := (objects.getD i {}).type,
            index := (r - reportid_sum objects i - 1) % 256 }) := by
  induction k with
  | zero =>
    refine ⟨by simp [mxt_make_reportid_table_loops, reportid_sum],
      by simp [mxt_make_reportid_table_loops, reportid_sum],
      by intro r _; simp [mxt_make_reportid_table_loops], ?_⟩
    intro i r hi
    omega
  | succ k ih =>
    obtain ⟨h1, h2, h3, h4⟩ := ih
    obtain ⟨g1, g2, g3⟩ := reportid_inner_loop (objects.getD k {}).type
      ((objects.getD k {}).num_report_ids * (objects.getD k {}).instances)
      (mxt_make_reportid_table_loops objects k { id := 0, reportids := init, stores := [] })
    rw [mxt_make_reportid_table_loops_succ, reportid_sum_succ]
    rw [h1] at g1 g2 g3
    refine ⟨g1, ?_, ?_, ?_⟩
    · rw [g2, h2, range'_one_append]
    · intro r hr
      rw [g3 r]
      have hno : ¬ (reportid_sum objects k < r ∧ r ≤ reportid_sum objects k +
          (objects.getD k {}).num_report_ids * (objects.getD k {}).instances) := by omega
      rw [if_neg hno]
      exact h3 r (by omega)
    · intro i r hi hlo hhi
      rw [g3 r]
      by_cases hik : i = k
      · subst hik
        rw [reportid_sum_succ] at hhi
        rw [if_pos ⟨hlo, hhi⟩]
      · have hle : reportid_sum objects (i + 1) ≤ reportid_sum objects k :=
          reportid_sum_mono objects (by omega)
        have hno : ¬ (reportid_sum objects k < r ∧ r ≤ reportid_sum objects k +
            (objects.getD k {}).num_report_ids * (objects.getD k {}).instances) := by omega
        rw [if_neg hno]
        exact h4 i r (by omega) hlo hhi

/-- C4: `mxt_make_reportid_table` assigns report-IDs sequentially from 1 in
table order.  With `S_i` the running sum of `num_report_ids * instances`, a
report-ID `r` (an 8-bit message tag) with `S_i < r <= S_(i+1)` maps to the
type of descriptor `i` and the index `r - S_i - 1`; the stores go to
`1, 2, .., S_n` in order, so entry 0 is never written and no ID is stored
twice; `r` belongs to no other descriptor; a descriptor without report-IDs
consumes none; and a report-ID of type T9 is dispatched to the T9 handler. -/
theorem mxt_make_reportid_table_sequential (d : mxt_data) (i r : Nat)
    (hi : i < d.info.object_num)
    (hlo : reportid_sum (d.objects.getD []) i < r)
    (hhi : r ≤ reportid_sum (d.objects.getD []) (i + 1))
    (hr : r < 256) :
    (mxt_make_reportid_table d).1.reportids r =
        { type := ((d.objects.getD []).getD i {}).type,
          index := r - reportid_sum (d.objects.getD []) i - 1 }
    ∧ (mxt_make_reportid_table d).2 =
        List.range' 1 (reportid_sum (d.objects.getD []) d.info.object_num)
    ∧ 0 ∉ (mxt_make_reportid_table d).2
    ∧ (mxt_make_reportid_table d).2.Nodup
    ∧ (mxt_make_reportid_table d).1.reportids 0 = d.reportids 0
    ∧ (∀ j, j < d.info.object_num → reportid_sum (d.objects.getD []) j < r →
        r ≤ reportid_sum (d.objects.getD []) (j + 1) → j = i)
    ∧ (∀ j, ((d.objects.getD []).getD j {}).num_report_ids = 0 →
        reportid_sum (d.objects.getD []) (j + 1) = reportid_sum (d.objects.getD []) j)
    ∧ (∀ (H : mxt_handlers) (d1 : mxt_data) (m : mxt_message),
        mxt_irq_dispatch H MXT_TOUCH_MULTITOUCHSCREEN_T9 d1 m =
          (H.mxt_treat_T9_object d1 m, [irq_event.treat MXT_TOUCH_MULTITOUCHSCREEN_T9])) := by
  obtain ⟨_, h2, h3, h4⟩ :=
    mxt_make_reportid_table_loops_spec (d.objects.getD []) d.reportids d.info.object_num
  have hstores : (mxt_make_reportid_table d).2 =
      List.range' 1 (reportid_sum (d.objects.getD []) d.info.object_num) := h2
  refine ⟨?_, hstores, ?_, ?_, ?_, ?_, ?_, ?_⟩
  · have h := h4 i r hi hlo hhi
    have hm : (r - reportid_sum (d.objects.getD []) i - 1) % 256 =
        r - reportid_sum (d.objects.getD []) i - 1 := Nat.mod_eq_of_lt (by omega)
    rw [hm] at h
    exact h
  · rw [hstores]
    simp only [List.mem_range', not_exists, not_and]
    intro x _
    omega
  · rw [hstores]
    exact List.nodup_range' 1 _
  · exact h3 0 (Or.inl rfl)
  · intro j _ hjlo hjhi
    by_contra hne
    rcases Nat.lt_or_gt_of_ne hne with hlt | hgt
    · have := reportid_sum_mono (d.objects.getD []) (show j + 1 ≤ i by omega)
      omega
    · have := reportid_sum_mono (d.objects.getD []) (show i + 1 ≤ j by omega)
      omega
  · intro j hj
    rw [reportid_sum_succ, hj, Nat.zero_mul, Nat.add_zero]
  · intro H d1 m
    simp [mxt_irq_dispatch, MXT_TOUCH_MULTITOUCHSCREEN_T9, MXT_GEN_COMMANDPROCESSOR_T6]

/-- Witness for C4, the scenario of the specification: with a T6 without
report-IDs followed by a T9 with one, report-ID 1 maps to `(T9, 0)`. -/
theorem mxt_make_reportid_table_sequential_witness :
    (1 < scenario_T6_T9.info.object_num
      ∧ reportid_sum (scenario_T6_T9.objects.getD []) 1 < 1
      ∧ 1 ≤ reportid_sum (scenario_T6_T9.objects.getD []) (1 + 1))
    ∧ (mxt_make_reportid_table scenario_T6_T9).1.reportids 1 = { type := 9, index := 0 } :=
  ⟨by decide,
   (mxt_make_reportid_table_sequential scenario_T6_T9 1 1 (by decide) (by decide) (by decide)
      (by decide)).1⟩

end Mxts

namespace Mxts

/-! ## The size of the report-ID map -/

/-- The stores of `mxt_make_reportid_table` go to `1 .. S_n`. -/
theorem mxt_make_reportid_table_stores (d : mxt_data) :
    (mxt_make_reportid_table d).2 =
      List.range' 1 (reportid_sum (d.objects.getD []) d.info.object_num)
    ∧ (mxt_make_reportid_table d).1.objects = d.objects
    ∧ (mxt_make_reportid_table d).1.info = d.info
    ∧ (mxt_make_reportid_table d).1.max_reportid = d.max_reportid :=
  ⟨(mxt_make_reportid_table_loops_spec (d.objects.getD []) d.reportids d.info.object_num).2.1,
    rfl, rfl, rfl⟩

/-- When the tables are built, the stores into the report-ID map went to
`1 .. S_n` for the directory just read. -/
theorem mxt_initialize_tables_stores (d : mxt_data) (h : (mxt_initialize_tables d).1 = 0) :
    (mxt_initialize_tables d).2.2 =
      List.range' 1 (reportid_sum ((mxt_initialize_tables d).2.1.objects.getD [])
        (mxt_initialize_tables d).2.1.info.object_num) := by
  unfold mxt_initialize_tables at h ⊢
  have hne : (- ENOMEM : Int) ≠ 0 := by decide
  dsimp only at h ⊢
  split_ifs at h ⊢ with c1 c2 c3 c4
  · exact absurd h c1
  · exact absurd h hne
  · exact absurd h c3
  · exact absurd h hne
  · exact (mxt_make_reportid_table_stores _).1

/-- C5 fails on the code: for a chip that declares one object with 255
report-IDs and two instances, `mxt_get_object_table` wraps its 8-bit
accumulator to `max_reportid = 254`, so the map has 255 entries, while
`mxt_make_reportid_table` counts in an `int` and stores to the indices
`1 .. 510`. -/
theorem mxt_make_reportid_table_overruns_map :
    (mxt_initialize_tables chip_510_reportids).1 = 0
    ∧ (mxt_initialize_tables chip_510_reportids).2.1.max_reportid = 254
    ∧ (mxt_initialize_tables chip_510_reportids).2.2 = List.range' 1 510
    ∧ 510 ∈ (mxt_initialize_tables chip_510_reportids).2.2 := by
  have h1 : (mxt_initialize_tables chip_510_reportids).1 = 0 := by decide
  have h2 : (mxt_initialize_tables chip_510_reportids).2.1.max_reportid = 254 := by decide
  have h4 : reportid_sum ((mxt_initialize_tables chip_510_reportids).2.1.objects.getD [])
      (mxt_initialize_tables chip_510_reportids).2.1.info.object_num = 510 := by decide
  have h3 : (mxt_initialize_tables chip_510_reportids).2.2 = List.range' 1 510 := by
    rw [mxt_initialize_tables_stores _ h1, h4]
  refine ⟨h1, h2, h3, ?_⟩
  rw [h3, List.mem_range']
  exact ⟨509, by norm_num, by norm_num⟩

end Mxts

namespace Mxts

/-! ## Bring-up: `mxt_initialize` -/

/-- A transfer that completes at once ends the retry loop after one attempt. -/
theorem i2c_retry_first (xfer : Nat → Int) (t : Nat) (n : Nat) (ret : Int) (h : ¬ xfer t < 0) :
    i2c_retry xfer (n + 1) t ret = (xfer t, t + 1) := by
  simp [i2c_retry, h]

/-- A read changes nothing in the state but the transaction counter. -/
theorem mxt_read_mem_frame (d : mxt_data) (reg len : Nat) (buf : List Nat) :
    (mxt_read_mem d reg len buf).2.2 =
      { d with tick := (mxt_read_mem d reg len buf).2.2.tick } := by
  unfold mxt_read_mem
  by_cases hb : d.block_access = true
  · rw [if_pos hb]
  · rw [if_neg hb]
    by_cases hr : (i2c_retry d.i2c_transfer 3 d.tick 0).1 = 2
    · simp only [hr, if_true]
    · simp only [hr, if_false]

/-- When every transfer completes, a read returns 0. -/
theorem mxt_read_mem_ok (d : mxt_data) (reg len : Nat) (buf : List Nat)
    (h : ∀ k, d.i2c_transfer k = 2) : (mxt_read_mem d reg len buf).1 = 0 := by
  unfold mxt_read_mem
  have hr : i2c_retry d.i2c_transfer 3 d.tick 0 = (2, d.tick + 1) := by
    rw [i2c_retry_first _ _ _ _ (by rw [h]; decide), h]
  by_cases hb : d.block_access = true
  · simp [hb]
  · simp [hb, hr]

/-- A read leaves the oracles of the bus and of the allocator as they were. -/
theorem mxt_read_mem_oracles (d : mxt_data) (reg len : Nat) (buf : List Nat) :
    (mxt_read_mem d reg len buf).2.2.i2c_transfer = d.i2c_transfer
    ∧ (mxt_read_mem d reg len buf).2.2.kalloc = d.kalloc
    ∧ (mxt_read_mem d reg len buf).2.2.info = d.info
    ∧ (mxt_read_mem d reg len buf).2.2.objects = d.objects
    ∧ (mxt_read_mem d reg len buf).2.2.max_reportid = d.max_reportid := by
  rw [mxt_read_mem_frame]
  exact ⟨rfl, rfl, rfl, rfl, rfl⟩

/-- When every transfer completes, each iteration of the loop of
`mxt_get_object_table` succeeds and leaves the oracles and the ID header as
they were. -/
theorem mxt_get_object_table_step_ok (s : object_table_state) (i : Nat)
    (he : s.error = 0) (h : ∀ k, s.d.i2c_transfer k = 2) :
    (mxt_get_object_table_step s i).error = 0
    ∧ (mxt_get_object_table_step s i).d.i2c_transfer = s.d.i2c_transfer
    ∧ (mxt_get_object_table_step s i).d.kalloc = s.d.kalloc
    ∧ (mxt_get_object_table_step s i).d.info = s.d.info := by
  have hok := mxt_read_mem_ok s.d
    ((MXT_OBJECT_TABLE_START_ADDRESS + MXT_OBJECT_TABLE_ELEMENT_SIZE * i) % 65536)
    MXT_OBJECT_TABLE_ELEMENT_SIZE s.buf h
  obtain ⟨o1, o2, o3, _, _⟩ := mxt_read_mem_oracles s.d
    ((MXT_OBJECT_TABLE_START_ADDRESS + MXT_OBJECT_TABLE_ELEMENT_SIZE * i) % 65536)
    MXT_OBJECT_TABLE_ELEMENT_SIZE s.buf
  unfold mxt_get_object_table_step
  simp only [he, ne_eq, not_true_eq_false, if_false, hok]
  exact ⟨trivial, o1, o2, o3⟩

/-- When every transfer completes, the loop of `mxt_get_object_table` ends
without error and leaves the oracles and the ID header as they were. -/
theorem mxt_get_object_table_loop_ok (l : List Nat) :
    ∀ s : object_table_state, s.error = 0 → (∀ k, s.d.i2c_transfer k = 2) →
      (l.foldl mxt_get_object_table_step s).error = 0
      ∧ (l.foldl mxt_get_object_table_step s).d.i2c_transfer = s.d.i2c_transfer
      ∧ (l.foldl mxt_get_object_table_step s).d.kalloc = s.d.kalloc
      ∧ (l.foldl mxt_get_object_table_step s).d.info = s.d.info := by
  induction l with
  | nil => intro s he _; exact ⟨he, rfl, rfl, rfl⟩
  | cons i t ih =>
    intro s he h
    obtain ⟨a1, a2, a3, a4⟩ := mxt_get_object_table_step_ok s i he h
    have h' : ∀ k, (mxt_get_object_table_step s i).d.i2c_transfer k = 2 := by
      intro k; rw [a2]; exact h k
    obtain ⟨b1, b2, b3, b4⟩ := ih (mxt_get_object_table_step s i) a1 h'
    simp only [List.foldl_cons]
    exact ⟨b1, b2.trans a2, b3.trans a3, b4.trans a4⟩

/-- When every transfer completes, `mxt_get_object_table` returns 0 and leaves
the oracles and the ID header as they were. -/
theorem mxt_get_object_table_ok (d : mxt_data) (h : ∀ k, d.i2c_transfer k = 2) :
    (mxt_get_object_table d).1 = 0
    ∧ (mxt_get_object_table d).2.i2c_transfer = d.i2c_transfer
    ∧ (mxt_get_object_table d).2.kalloc = d.kalloc
    ∧ (mxt_get_object_table d).2.info = d.info := by
  obtain ⟨b1, b2, b3, b4⟩ := mxt_get_object_table_loop_ok (List.range d.info.object_num)
    { error := 0, reportid := 0, buf := uninit_buf d 2345 MXT_OBJECT_TABLE_ELEMENT_SIZE, d := d }
    rfl h
  unfold mxt_get_object_table
  simp only [b1, ne_eq, not_true_eq_false, if_false]
  exact ⟨trivial, b2, b3, b4⟩

/-- When every transfer completes, `mxt_read_id_info` returns 0 and leaves the
oracles as they were. -/
theorem mxt_read_id_info_ok (d : mxt_data) (h : ∀ k, d.i2c_transfer k = 2) :
    (mxt_read_id_info d).1 = 0
    ∧ (mxt_read_id_info d).2.i2c_transfer = d.i2c_transfer
    ∧ (mxt_read_id_info d).2.kalloc = d.kalloc := by
  have hok := mxt_read_mem_ok d 0 MXT_INFOMATION_BLOCK_SIZE
    (uninit_buf d 2314 MXT_INFOMATION_BLOCK_SIZE) h
  obtain ⟨o1, o2, _, _, _⟩ := mxt_read_mem_oracles d 0 MXT_INFOMATION_BLOCK_SIZE
    (uninit_buf d 2314 MXT_INFOMATION_BLOCK_SIZE)
  unfold mxt_read_id_info
  simp only [hok, ne_eq, not_true_eq_false, if_false]
  exact ⟨trivial, o1, o2⟩

/-- An allocation leaves the oracles as they were, and succeeds when the
allocator never fails. -/
theorem kcalloc_ok (d : mxt_data) (n : Nat) :
    (kcalloc d n).2.i2c_transfer = d.i2c_transfer
    ∧ (kcalloc d n).2.kalloc = d.kalloc
    ∧ (kcalloc d n).2.info = d.info
    ∧ (kcalloc d n).2.max_reportid = d.max_reportid
    ∧ ((∀ k, d.kalloc k = true) → (kcalloc d n).1 = true) := by
  unfold kcalloc
  by_cases hn : n = 0
  · simp [hn]
  · simp only [hn, if_false]
    exact ⟨trivial, trivial, trivial, trivial, fun h => h _⟩

/-- When every transfer completes and the allocator never fails, the tables
are built: `mxt_initialize_tables` returns 0, and the bus oracle is as it
was. -/
theorem mxt_initialize_tables_ok (d : mxt_data) (hbus : ∀ k, d.i2c_transfer k = 2)
    (hmem : ∀ k, d.kalloc k = true) :
    (mxt_initialize_tables d).1 = 0
    ∧ (mxt_initialize_tables d).2.1.i2c_transfer = d.i2c_transfer
    ∧ (mxt_initialize_tables d).2.1.info = (mxt_read_id_info d).2.info := by
  obtain ⟨r1, r2, r3⟩ := mxt_read_id_info_ok d hbus
  obtain ⟨a1, a2, a3, _, a5⟩ := kcalloc_ok (mxt_read_id_info d).2
    (mxt_read_id_info d).2.info.object_num
  have ha : (kcalloc (mxt_read_id_info d).2 (mxt_read_id_info d).2.info.object_num).1 = true :=
    a5 (by intro k; rw [r3]; exact hmem k)
  have hbus1 : ∀ k, ({ (kcalloc (mxt_read_id_info d).2 (mxt_read_id_info d).2.info.object_num).2
      with objects := some (List.replicate (mxt_read_id_info d).2.info.object_num {}) }
        : mxt_data).i2c_transfer k = 2 := by
    intro k
    show (kcalloc (mxt_read_id_info d).2 (mxt_read_id_info d).2.info.object_num).2.i2c_transfer k = 2
    rw [a1, r2]; exact hbus k
  obtain ⟨t1, t2, t3, t4⟩ := mxt_get_object_table_ok _ hbus1
  obtain ⟨b1, b2, b3, _, b5⟩ := kcalloc_ok (mxt_get_object_table
      { (kcalloc (mxt_read_id_info d).2 (mxt_read_id_info d).2.info.object_num).2
        with objects := some (List.replicate (mxt_read_id_info d).2.info.object_num {}) }).2
    ((mxt_get_object_table
      { (kcalloc (mxt_read_id_info d).2 (mxt_read_id_info d).2.info.object_num).2
        with objects := some (List.replicate (mxt_read_id_info d).2.info.object_num {}) }).2.max_reportid + 1)
  have hb := b5 (by
    intro k
    rw [t3]
    show (kcalloc (mxt_read_id_info d).2 (mxt_read_id_info d).2.info.object_num).2.kalloc k = true
    rw [a2, r3]; exact hmem k)
  unfold mxt_initialize_tables
  simp only [r1, ha, t1, hb, ne_eq, not_true_eq_false, if_false, Bool.true_eq_false]
  refine ⟨trivial, ?_, ?_⟩
  · show (kcalloc _ _).2.i2c_transfer = _
    rw [b1, t2]
    show (kcalloc (mxt_read_id_info d).2 (mxt_read_id_info d).2.info.object_num).2.i2c_transfer = _
    rw [a1, r2]
  · show (kcalloc _ _).2.info = _
    rw [b3, t4]
    show (kcalloc (mxt_read_id_info d).2 (mxt_read_id_info d).2.info.object_num).2.info = _
    rw [a3]

/-- When every transfer completes, `mxt_read_info_crc` returns 0 and leaves
the bus oracle and the ID header as they were. -/
theorem mxt_read_info_crc_ok (d : mxt_data) (crc0 : Nat) (h : ∀ k, d.i2c_transfer k = 2) :
    (mxt_read_info_crc d crc0).1 = 0
    ∧ (mxt_read_info_crc d crc0).2.2.i2c_transfer = d.i2c_transfer
    ∧ (mxt_read_info_crc d crc0).2.2.info = d.info := by
  have hok := mxt_read_mem_ok d ((MXT_OBJECT_TABLE_START_ADDRESS +
      d.info.object_num * MXT_OBJECT_TABLE_ELEMENT_SIZE) % 65536) 3 (uninit_buf d 267 3) h
  obtain ⟨o1, _, o3, _, _⟩ := mxt_read_mem_oracles d ((MXT_OBJECT_TABLE_START_ADDRESS +
      d.info.object_num * MXT_OBJECT_TABLE_ELEMENT_SIZE) % 65536) 3 (uninit_buf d 267 3)
  unfold mxt_read_info_crc
  simp only [hok, ne_eq, not_true_eq_false, if_false]
  exact ⟨trivial, o1, o3⟩

/-- When every transfer completes, `mxt_calculate_infoblock_crc` returns 0. -/
theorem mxt_calculate_infoblock_crc_ok (d : mxt_data) (crc0 : Nat)
    (h : ∀ k, d.i2c_transfer k = 2) : (mxt_calculate_infoblock_crc d crc0).1 = 0 := by
  have hok := mxt_read_mem_ok d 0 (7 + d.info.object_num * 6)
    (uninit_buf d 247 (7 + d.info.object_num * 6)) h
  unfold mxt_calculate_infoblock_crc
  simp only [hok, ne_eq, not_true_eq_false, if_false]

/-- Whatever the bus does, `mxt_initialize` returns 0 only with equal CRCs. -/
theorem mxt_initialize_zero_only_if (d : mxt_data) (h : ( mxt_initialize d).ret = 0) :
    ( mxt_initialize d).read_info_crc = ( mxt_initialize d).calc_info_crc := by
  unfold mxt_initialize at h ⊢
  dsimp only at h ⊢
  have hne : (- EFAULT : Int) ≠ 0 := by decide
  split_ifs at h ⊢ with c1 c2 c3 c4
  · exact absurd h c1
  · exact absurd h c2
  · exact absurd h c3
  · exact absurd h hne
  · exact not_not.mp c4

/-- When every bus read succeeds and memory is available, `mxt_initialize`
gets through to the comparison: the tables are built, both CRC functions
return 0, and the two locals hold their results. -/
theorem mxt_initialize_reaches_compare (d : mxt_data) (hbus : ∀ k, d.i2c_transfer k = 2)
    (hmem : ∀ k, d.kalloc k = true) :
    (mxt_initialize_tables d).1 = 0
    ∧ (mxt_read_info_crc (mxt_initialize_tables d).2.1 0).1 = 0
    ∧ (mxt_calculate_infoblock_crc
        (mxt_read_info_crc (mxt_initialize_tables d).2.1 0).2.2 0).1 = 0
    ∧ ( mxt_initialize d).read_info_crc = (mxt_read_info_crc (mxt_initialize_tables d).2.1 0).2.1
    ∧ ( mxt_initialize d).calc_info_crc =
        (mxt_calculate_infoblock_crc
          (mxt_read_info_crc (mxt_initialize_tables d).2.1 0).2.2 0).2.1 := by
  obtain ⟨t1, t2, _⟩ := mxt_initialize_tables_ok d hbus hmem
  have hbus1 : ∀ k, (mxt_initialize_tables d).2.1.i2c_transfer k = 2 := by
    intro k; rw [t2]; exact hbus k
  obtain ⟨r1, r2, _⟩ := mxt_read_info_crc_ok (mxt_initialize_tables d).2.1 0 hbus1
  have hbus2 : ∀ k, (mxt_read_info_crc (mxt_initialize_tables d).2.1 0).2.2.i2c_transfer k = 2 := by
    intro k; rw [r2]; exact hbus1 k
  have c1 := mxt_calculate_infoblock_crc_ok
    (mxt_read_info_crc (mxt_initialize_tables d).2.1 0).2.2 0 hbus2
  refine ⟨t1, r1, c1, ?_, ?_⟩
  · unfold mxt_initialize
    simp only [t1, r1, c1, ne_eq, not_true_eq_false, if_false]
    split_ifs <;> rfl
  · unfold mxt_initialize
    simp only [t1, r1, c1, ne_eq, not_true_eq_false, if_false]
    split_ifs <;> rfl

/-- C1: when every bus read succeeds (and memory is available) the tables are
built, both CRCs are obtained, and `mxt_initialize` returns 0 exactly when the
24-bit CRC computed by `mxt_calculate_infoblock_crc` equals the three-byte CRC
read by `mxt_read_info_crc`; when the two differ it returns `-EFAULT`, which
is not 0. -/
theorem mxt_initialize_crc_check (d : mxt_data) (hbus : ∀ k, d.i2c_transfer k = 2)
    (hmem : ∀ k, d.kalloc k = true) :
    (mxt_initialize_tables d).1 = 0
    ∧ (mxt_read_info_crc (mxt_initialize_tables d).2.1 0).1 = 0
    ∧ (mxt_calculate_infoblock_crc
        (mxt_read_info_crc (mxt_initialize_tables d).2.1 0).2.2 0).1 = 0
    ∧ ( mxt_initialize d).read_info_crc = (mxt_read_info_crc (mxt_initialize_tables d).2.1 0).2.1
    ∧ ( mxt_initialize d).calc_info_crc =
        (mxt_calculate_infoblock_crc
          (mxt_read_info_crc (mxt_initialize_tables d).2.1 0).2.2 0).2.1
    ∧ (( mxt_initialize d).ret = 0 ↔
        ( mxt_initialize d).read_info_crc = ( mxt_initialize d).calc_info_crc)
    ∧ (( mxt_initialize d).read_info_crc ≠ ( mxt_initialize d).calc_info_crc →
        ( mxt_initialize d).ret = - EFAULT)
    ∧ (- EFAULT : Int) ≠ 0 := by
  obtain ⟨t1, r1, c1, e4, e5⟩ := mxt_initialize_reaches_compare d hbus hmem
  have hne : (- EFAULT : Int) ≠ 0 := by decide
  refine ⟨t1, r1, c1, e4, e5, ⟨mxt_initialize_zero_only_if d, ?_⟩, ?_, hne⟩
  · intro h
    rw [e4, e5] at h
    unfold mxt_initialize
    simp only [t1, r1, c1, ne_eq, not_true_eq_false, if_false, h]
  · intro h
    rw [e4, e5] at h
    unfold mxt_initialize
    simp only [t1, r1, c1, ne_eq, not_true_eq_false, if_false, h, not_false_eq_true, if_true]

/-- Witness for C1: the chip with the scenario table and a matching CRC. -/
theorem mxt_initialize_crc_check_witness :
    (∀ k, chip_T6_T9.i2c_transfer k = 2) ∧ (∀ k, chip_T6_T9.kalloc k = true)
    ∧ (( mxt_initialize chip_T6_T9).ret = 0 ↔
        ( mxt_initialize chip_T6_T9).read_info_crc = ( mxt_initialize chip_T6_T9).calc_info_crc) :=
  ⟨fun _ => rfl, fun _ => rfl,
   (mxt_initialize_crc_check chip_T6_T9 (fun _ => rfl) (fun _ => rfl)).2.2.2.2.2.1⟩

/-- C6, as stated, fails: a chip that declares zero objects and carries the
CRC of its seven-byte header passes `mxt_initialize`, which returns 0 with an
empty directory. -/
theorem mxt_initialize_accepts_empty_table :
    ( mxt_initialize chip_empty_table).ret = 0
    ∧ ( mxt_initialize chip_empty_table).d.info.object_num = 0
    ∧ ( mxt_initialize chip_empty_table).d.objects = some [] := by
  refine ⟨by decide, by decide, by decide⟩

end Mxts

namespace Mxts

/-! ## An empty object table -/

/-- With no object declared, `mxt_get_object_table` reads nothing and sets
`max_reportid` to 0. -/
theorem mxt_get_object_table_empty (d : mxt_data) (h : d.info.object_num = 0) :
    mxt_get_object_table d = (0, { d with max_reportid := 0 }) := by
  unfold mxt_get_object_table
  simp [h]

/-- An allocation leaves the directory as it is. -/
theorem kcalloc_objects (d : mxt_data) (n : Nat) : (kcalloc d n).2.objects = d.objects := by
  unfold kcalloc
  split_ifs <;> rfl

/-- With no object declared, the directory built by `mxt_initialize` is
empty. -/
theorem mxt_initialize_tables_objects_empty (d : mxt_data)
    (h : (mxt_initialize_tables d).1 = 0)
    (h0 : (mxt_read_id_info d).2.info.object_num = 0) :
    (mxt_initialize_tables d).2.1.objects = some [] := by
  have hi : (kcalloc (mxt_read_id_info d).2 (mxt_read_id_info d).2.info.object_num).2.info.object_num
      = 0 := by
    rw [(kcalloc_ok _ _).2.2.1]; exact h0
  have hne : (- ENOMEM : Int) ≠ 0 := by decide
  unfold mxt_initialize_tables at h ⊢
  dsimp only at h ⊢
  split_ifs at h ⊢ with c1 c2 c3 c4
  · exact absurd h c1
  · exact absurd h hne
  · exact absurd h c3
  · exact absurd h hne
  · show (kcalloc _ _).2.objects = some []
    rw [kcalloc_objects, mxt_get_object_table_empty
      { (kcalloc (mxt_read_id_info d).2 (mxt_read_id_info d).2.info.object_num).2 with
        objects := some (List.replicate (mxt_read_id_info d).2.info.object_num {}) } hi, h0]
    rfl

/-- C6, amended: `mxt_initialize` has no check of its own for an empty table.
When the chip declares zero objects (every bus read succeeding, memory
available) the directory is built empty, no report-ID is stored, and the
function returns 0 exactly when the CRC bytes read equal the CRC computed over
the seven-byte header, and `-EFAULT` when they differ. -/
theorem mxt_initialize_empty_table (d : mxt_data) (hbus : ∀ k, d.i2c_transfer k = 2)
    (hmem : ∀ k, d.kalloc k = true)
    (h0 : (mxt_read_id_info d).2.info.object_num = 0) :
    (mxt_initialize_tables d).1 = 0
    ∧ (mxt_initialize_tables d).2.1.info.object_num = 0
    ∧ (mxt_initialize_tables d).2.1.objects = some []
    ∧ (mxt_initialize_tables d).2.2 = []
    ∧ (( mxt_initialize d).ret = 0 ↔
        ( mxt_initialize d).read_info_crc = ( mxt_initialize d).calc_info_crc)
    ∧ (( mxt_initialize d).read_info_crc ≠ ( mxt_initialize d).calc_info_crc →
        ( mxt_initialize d).ret = - EFAULT) := by
  obtain ⟨t1, _, t3⟩ := mxt_initialize_tables_ok d hbus hmem
  obtain ⟨_, r1, c1, e4, e5⟩ := mxt_initialize_reaches_compare d hbus hmem
  have hn : (mxt_initialize_tables d).2.1.info.object_num = 0 := by rw [t3]; exact h0
  refine ⟨t1, hn, mxt_initialize_tables_objects_empty d t1 h0, ?_,
    ⟨mxt_initialize_zero_only_if d, ?_⟩, ?_⟩
  · rw [mxt_initialize_tables_stores d t1, hn]
    simp [reportid_sum]
  · intro h
    rw [e4, e5] at h
    unfold mxt_initialize
    simp only [t1, r1, c1, ne_eq, not_true_eq_false, if_false, h]
  · intro h
    rw [e4, e5] at h
    unfold mxt_initialize
    simp only [t1, r1, c1, ne_eq, not_true_eq_false, if_false, h, not_false_eq_true, if_true]

/-- Witness for the amended C6: the chip with no object and a matching CRC. -/
theorem mxt_initialize_empty_table_witness :
    (mxt_read_id_info chip_empty_table).2.info.object_num = 0
    ∧ (mxt_initialize_tables chip_empty_table).2.1.objects = some []
    ∧ (( mxt_initialize chip_empty_table).ret = 0 ↔
        ( mxt_initialize chip_empty_table).read_info_crc =
          ( mxt_initialize chip_empty_table).calc_info_crc) :=
  ⟨by decide,
   (mxt_initialize_empty_table chip_empty_table (fun _ => rfl) (fun _ => rfl) (by decide)).2.2.1,
   (mxt_initialize_empty_table chip_empty_table (fun _ => rfl) (fun _ => rfl) (by decide)).2.2.2.2.1⟩

end Mxts

namespace Mxts

/-! ## The drain loop of `mxt_irq_thread` -/

/-- The `switch` of the drain loop emits only handler events. -/
theorem mxt_irq_dispatch_events (H : mxt_handlers) (type : Nat) (d : mxt_data)
    (m : mxt_message) :
    ∀ e ∈ (mxt_irq_dispatch H type d m).2,
      e = irq_event.treat type ∨ e = irq_event.untreated type := by
  intro e he
  unfold mxt_irq_dispatch at he
  split_ifs at he <;> simp at he <;> simp [he]

/-- Reading a message changes nothing in the state but the transaction
counter. -/
theorem mxt_read_message_frame (d : mxt_data) (message : mxt_message) :
    (mxt_read_message d message).2.2 =
      { d with tick := (mxt_read_message d message).2.2.tick } := by
  unfold mxt_read_message
  cases mxt_get_object d MXT_GEN_MESSAGEPROCESSOR_T5 with
  | none => rfl
  | some object => exact mxt_read_mem_frame d _ _ _

/-- An iteration whose read fails ends by `goto end` with nothing done. -/
theorem mxt_irq_iteration_read_failed (H : mxt_handlers) (d : mxt_data) (message : mxt_message)
    (h1 : (mxt_read_message d message).1 ≠ 0) :
    mxt_irq_iteration H d message =
      { d := (mxt_read_message d message).2.2, message := (mxt_read_message d message).2.1,
        events := [irq_event.read_message (mxt_read_message d message).1
                    (mxt_read_message d message).2.1.reportid],
        next := irq_next.goto_end } := by
  unfold mxt_irq_iteration
  dsimp only
  rw [if_pos h1]

/-- An iteration whose message carries a report-ID above `max_reportid` ends
by `goto end` before the map is consulted. -/
theorem mxt_irq_iteration_overflow (H : mxt_handlers) (d : mxt_data) (message : mxt_message)
    (h1 : (mxt_read_message d message).1 = 0)
    (h2 : (mxt_read_message d message).2.1.reportid > (mxt_read_message d message).2.2.max_reportid) :
    mxt_irq_iteration H d message =
      { d := (mxt_read_message d message).2.2, message := (mxt_read_message d message).2.1,
        events := [irq_event.read_message (mxt_read_message d message).1
                    (mxt_read_message d message).2.1.reportid],
        next := irq_next.goto_end } := by
  unfold mxt_irq_iteration
  dsimp only
  rw [if_neg (not_not.mpr h1), if_pos h2]

/-- An iteration whose report-ID maps to `MXT_RESERVED_T0` ends by `goto end`
after the lookup. -/
theorem mxt_irq_iteration_reserved (H : mxt_handlers) (d : mxt_data) (message : mxt_message)
    (h1 : (mxt_read_message d message).1 = 0)
    (h2 : ¬ (mxt_read_message d message).2.1.reportid >
        (mxt_read_message d message).2.2.max_reportid)
    (h3 : ((mxt_read_message d message).2.2.reportids
        (mxt_read_message d message).2.1.reportid).type = MXT_RESERVED_T0) :
    mxt_irq_iteration H d message =
      { d := (mxt_read_message d message).2.2, message := (mxt_read_message d message).2.1,
        events := [irq_event.read_message (mxt_read_message d message).1
                    (mxt_read_message d message).2.1.reportid,
                   irq_event.index_reportids (mxt_read_message d message).2.1.reportid
                    (mxt_read_message d message).2.2.max_reportid],
        next := irq_next.goto_end } := by
  unfold mxt_irq_iteration
  dsimp only
  rw [if_neg (not_not.mpr h1), if_neg h2, if_pos h3]
  rfl

/-- The events of an iteration that dispatches its message: the read, the
lookup, the handler, the patch hook when compiled in, and the poll of the CHG
line. -/
theorem mxt_irq_iteration_dispatch (H : mxt_handlers) (d : mxt_data) (message : mxt_message)
    (h1 : (mxt_read_message d message).1 = 0)
    (h2 : ¬ (mxt_read_message d message).2.1.reportid >
        (mxt_read_message d message).2.2.max_reportid)
    (h3 : ((mxt_read_message d message).2.2.reportids
        (mxt_read_message d message).2.1.reportid).type ≠ MXT_RESERVED_T0) :
    (∃ v, (mxt_irq_iteration H d message).events =
      [irq_event.read_message (mxt_read_message d message).1
          (mxt_read_message d message).2.1.reportid,
       irq_event.index_reportids (mxt_read_message d message).2.1.reportid
          (mxt_read_message d message).2.2.max_reportid]
      ++ (mxt_irq_dispatch H ((mxt_read_message d message).2.2.reportids
            (mxt_read_message d message).2.1.reportid).type
            (mxt_read_message d message).2.2 (mxt_read_message d message).2.1).2
      ++ (if H.tsp_patch then [irq_event.patch_message] else [])
      ++ [irq_event.read_chg v])
    ∧ (mxt_irq_iteration H d message).next ≠ irq_next.goto_end := by
  unfold mxt_irq_iteration
  dsimp only
  rw [if_neg (not_not.mpr h1), if_neg h2, if_neg h3]
  dsimp only
  refine ⟨⟨_, rfl⟩, ?_⟩
  split_ifs <;> simp

/-- In one iteration, an access to the report-ID map uses an index that is at
most `max_reportid`. -/
theorem mxt_irq_iteration_index_in_bounds (H : mxt_handlers) (d : mxt_data)
    (message : mxt_message) (r m : Nat)
    (h : irq_event.index_reportids r m ∈ (mxt_irq_iteration H d message).events) : r ≤ m := by
  by_cases h1 : (mxt_read_message d message).1 = 0
  · by_cases h2 : (mxt_read_message d message).2.1.reportid >
        (mxt_read_message d message).2.2.max_reportid
    · rw [mxt_irq_iteration_overflow H d message h1 h2] at h
      simp at h
    · by_cases h3 : ((mxt_read_message d message).2.2.reportids
          (mxt_read_message d message).2.1.reportid).type = MXT_RESERVED_T0
      · rw [mxt_irq_iteration_reserved H d message h1 h2 h3] at h
        simp at h
        omega
      · obtain ⟨⟨v, hev⟩, _⟩ := mxt_irq_iteration_dispatch H d message h1 h2 h3
        rw [hev] at h
        simp only [List.mem_append, List.mem_singleton, List.mem_cons, List.not_mem_nil,
          or_false] at h
        rcases h with (((h | h) | h) | h) | h
        · cases h
        · injection h with e1 e2; omega
        · rcases mxt_irq_dispatch_events H _ _ _ _ h with h | h <;> cases h
        · split_ifs at h <;> simp at h
        · cases h
  · rw [mxt_irq_iteration_read_failed H d message h1] at h
    simp at h

/-- In every pass, each access to the report-ID map uses an index that is at
most `max_reportid`. -/
theorem mxt_irq_loop_index_in_bounds (H : mxt_handlers) :
    ∀ (fuel : Nat) (d : mxt_data) (message : mxt_message) (out : mxt_data × List irq_event),
      mxt_irq_loop H fuel d message = some out →
      ∀ r m, irq_event.index_reportids r m ∈ out.2 → r ≤ m := by
  intro fuel
  induction fuel with
  | zero => intro d message out h; simp [mxt_irq_loop] at h
  | succ n ih =>
    intro d message out h r m hmem
    unfold mxt_irq_loop at h
    cases hn : (mxt_irq_iteration H d message).next with
    | goto_end =>
      simp only [hn] at h
      injection h with h; subst h
      exact mxt_irq_iteration_index_in_bounds H d message r m hmem
    | again =>
      simp only [hn] at h
      rw [Option.map_eq_some'] at h
      obtain ⟨q, hq, rfl⟩ := h
      rcases List.mem_append.mp hmem with h' | h'
      · exact mxt_irq_iteration_index_in_bounds H d message r m h'
      · exact ih _ _ q hq r m h'
    | leave =>
      simp only [hn] at h
      split_ifs at h
      · injection h with h; subst h
        rcases List.mem_append.mp hmem with h' | h'
        · exact mxt_irq_iteration_index_in_bounds H d message r m h'
        · simp at h'
      · injection h with h; subst h
        exact mxt_irq_iteration_index_in_bounds H d message r m hmem

/-- C7: when a message is read whose report-ID exceeds `max_reportid`, or maps
to `MXT_RESERVED_T0`, the pass ends there: the state is the one left by the
read (only the bus transaction counter moved, so no contact slot changed), the
only events of the iteration are the read and, for an in-range ID, the lookup;
no handler is called, nothing is flushed, no further message is read.  And in
any pass whatever, the map is only indexed with `r <= max_reportid`. -/
theorem mxt_irq_thread_unknown_reportid (H : mxt_handlers) (fuel : Nat) (d : mxt_data)
    (message : mxt_message)
    (h1 : (mxt_read_message d message).1 = 0)
    (hbad : (mxt_read_message d message).2.1.reportid >
              (mxt_read_message d message).2.2.max_reportid
            ∨ ((mxt_read_message d message).2.2.reportids
                (mxt_read_message d message).2.1.reportid).type = MXT_RESERVED_T0) :
    mxt_irq_loop H (fuel + 1) d message =
        some ((mxt_read_message d message).2.2, (mxt_irq_iteration H d message).events)
    ∧ (mxt_read_message d message).2.2 =
        { d with tick := (mxt_read_message d message).2.2.tick }
    ∧ ((mxt_irq_iteration H d message).events =
          [irq_event.read_message 0 (mxt_read_message d message).2.1.reportid]
       ∨ ((mxt_irq_iteration H d message).events =
            [irq_event.read_message 0 (mxt_read_message d message).2.1.reportid,
             irq_event.index_reportids (mxt_read_message d message).2.1.reportid
               (mxt_read_message d message).2.2.max_reportid]
          ∧ (mxt_read_message d message).2.1.reportid ≤
              (mxt_read_message d message).2.2.max_reportid))
    ∧ (∀ t, irq_event.treat t ∉ (mxt_irq_iteration H d message).events)
    ∧ irq_event.patch_message ∉ (mxt_irq_iteration H d message).events
    ∧ irq_event.report_input_data ∉ (mxt_irq_iteration H d message).events
    ∧ (∀ (n : Nat) (d0 : mxt_data) (m0 : mxt_message) (out : mxt_data × List irq_event),
        mxt_irq_loop H n d0 m0 = some out →
        ∀ r m, irq_event.index_reportids r m ∈ out.2 → r ≤ m) := by
  have hit : mxt_irq_iteration H d message =
        { d := (mxt_read_message d message).2.2, message := (mxt_read_message d message).2.1,
          events := (mxt_irq_iteration H d message).events, next := irq_next.goto_end }
      ∧ ((mxt_irq_iteration H d message).events =
          [irq_event.read_message 0 (mxt_read_message d message).2.1.reportid]
       ∨ ((mxt_irq_iteration H d message).events =
            [irq_event.read_message 0 (mxt_read_message d message).2.1.reportid,
             irq_event.index_reportids (mxt_read_message d message).2.1.reportid
               (mxt_read_message d message).2.2.max_reportid]
          ∧ (mxt_read_message d message).2.1.reportid ≤
              (mxt_read_message d message).2.2.max_reportid)) := by
    by_cases h2 : (mxt_read_message d message).2.1.reportid >
        (mxt_read_message d message).2.2.max_reportid
    · have e := mxt_irq_iteration_overflow H d message h1 h2
      rw [h1] at e
      constructor
      · rw [e]
      · left; rw [e]
    · have h3 : ((mxt_read_message d message).2.2.reportids
          (mxt_read_message d message).2.1.reportid).type = MXT_RESERVED_T0 := by
        rcases hbad with hb | hb
        · exact absurd hb h2
        · exact hb
      have e := mxt_irq_iteration_reserved H d message h1 h2 h3
      rw [h1] at e
      constructor
      · rw [e]
      · right; rw [e]; exact ⟨rfl, by omega⟩
  obtain ⟨hshape, hev⟩ := hit
  have hnext : (mxt_irq_iteration H d message).next = irq_next.goto_end := by
    rw [hshape]
  have hd : (mxt_irq_iteration H d message).d = (mxt_read_message d message).2.2 := by
    rw [hshape]
  refine ⟨?_, mxt_read_message_frame d message, hev, ?_, ?_, ?_,
    mxt_irq_loop_index_in_bounds H⟩
  · unfold mxt_irq_loop
    simp only [hnext, hd]
  · intro t
    rcases hev with e | ⟨e, _⟩ <;> rw [e] <;> simp
  · rcases hev with e | ⟨e, _⟩ <;> rw [e] <;> simp
  · rcases hev with e | ⟨e, _⟩ <;> rw [e] <;> simp

/-- Witness for C7: a device whose message processor answers with report-ID
255 while `max_reportid` is 2, and a contact flush pending. -/
theorem mxt_irq_thread_unknown_reportid_witness :
    (mxt_read_message device_no_message {}).1 = 0
    ∧ (mxt_read_message device_no_message {}).2.1.reportid >
        (mxt_read_message device_no_message {}).2.2.max_reportid
    ∧ mxt_irq_loop idle_handlers (0 + 1) device_no_message {} =
        some ((mxt_read_message device_no_message {}).2.2,
              (mxt_irq_iteration idle_handlers device_no_message {}).events) :=
  ⟨by decide, by decide,
   (mxt_irq_thread_unknown_reportid idle_handlers 0 device_no_message {} (by decide)
      (Or.inl (by decide))).1⟩

end Mxts

namespace Mxts

/-! ## The configuration synchronizer: what happens before the record walk -/

/-- The retry loop makes at most as many attempts as it is allowed. -/
theorem i2c_retry_attempts (xfer : Nat → Int) :
    ∀ (n t : Nat) (ret : Int), ∃ k, k ≤ n ∧ (i2c_retry xfer n t ret).2 = t + k := by
  intro n
  induction n with
  | zero => intro t ret; exact ⟨0, le_refl _, rfl⟩
  | succ n ih =>
    intro t ret
    unfold i2c_retry
    by_cases h : xfer t < 0
    · obtain ⟨k, hk, e⟩ := ih (t + 1) (xfer t)
      refine ⟨k + 1, by omega, ?_⟩
      rw [if_pos h, e]; ring
    · exact ⟨1, by omega, by rw [if_neg h]⟩

/-- A write changes nothing in the state but the transaction counter and the
log of messages sent, to which it appends at most three copies of its
message. -/
theorem mxt_write_mem_frame (d : mxt_data) (reg len : Nat) (buf : List Nat) :
    ∃ k, k ≤ 3 ∧ (mxt_write_mem d reg len buf).2 =
      { d with tick := d.tick + k,
               wlog := d.wlog ++ List.replicate k
                 (reg % 65536, (List.range (len % 256)).map (fun j => buf.getD j 0 % 256)) } := by
  unfold mxt_write_mem
  by_cases hb : d.block_access = true
  · refine ⟨0, by omega, ?_⟩
    rw [if_pos hb]
    simp
  · obtain ⟨k, hk, e⟩ := i2c_retry_attempts (fun t => d.i2c_master_send t (len % 256 + 2)) 3 d.tick 0
    refine ⟨k, hk, ?_⟩
    rw [if_neg hb]
    dsimp only
    rw [e]
    have hk' : d.tick + k - d.tick = k := by omega
    rw [hk']
    split_ifs <;> rfl

/-- The command write of `mxt_write_object` changes nothing but the
transaction counter and the log, to which it appends at most three copies of
the one-byte message for `start_address + offset`. -/
theorem mxt_write_object_frame (d : mxt_data) (type offset val : Nat) :
    ∃ k, k ≤ 3 ∧ (mxt_write_object d type offset val).2 =
      { d with tick := d.tick + k,
               wlog := d.wlog ++ List.replicate k
                 ((((mxt_get_object d type).getD {}).start_address + offset) % 65536,
                  [val % 256]) } := by
  unfold mxt_write_object
  cases hobj : mxt_get_object d type with
  | none => exact ⟨0, by omega, by simp⟩
  | some object =>
    dsimp only
    by_cases ho : offset ≥ object.size * object.instances
    · rw [if_pos ho]
      exact ⟨0, by omega, by simp⟩
    · rw [if_neg ho]
      obtain ⟨k, hk, e⟩ := mxt_write_mem_frame d (object.start_address + offset) 1 [val]
      refine ⟨k, hk, ?_⟩
      have hp : (List.range (1 % 256)).map (fun j => [val].getD j 0 % 256) = [val % 256] := by
        simp [List.range_succ]
      rw [e, hp]
      rfl

/-- The polling loop of `mxt_read_message_reportid` only reads: it leaves the
write log, the ID header and the directory as they were. -/
theorem mxt_read_message_reportid_loop_frame :
    ∀ (n : Nat) (d : mxt_data) (message : mxt_message) (reportid : Nat),
      (mxt_read_message_reportid_loop n d message reportid).2.2 =
        { d with tick := (mxt_read_message_reportid_loop n d message reportid).2.2.tick } := by
  intro n
  induction n with
  | zero => intro d message reportid; rfl
  | succ n ih =>
    intro d message reportid
    unfold mxt_read_message_reportid_loop
    dsimp only
    have hf := mxt_read_message_frame d message
    split_ifs
    · exact hf
    · rw [ih]; rw [hf]
    · exact hf
    · rw [ih]; rw [hf]

/-- Reading the configuration checksum changes nothing but the transaction
counter and the log, to which it appends at most three copies of the report-all
command: the byte 1 written at offset `MXT_COMMAND_REPORTALL` of T6. -/
theorem mxt_read_config_crc_frame (d : mxt_data) (crc0 : Nat) :
    ∃ k, k ≤ 3 ∧ (mxt_read_config_crc d crc0).2.2 =
      { d with tick := (mxt_read_config_crc d crc0).2.2.tick,
               wlog := d.wlog ++ List.replicate k
                 ((((mxt_get_object d MXT_GEN_COMMANDPROCESSOR_T6).getD {}).start_address
                    + MXT_COMMAND_REPORTALL) % 65536, [1]) } := by
  unfold mxt_read_config_crc
  cases hobj : mxt_get_object d MXT_GEN_COMMANDPROCESSOR_T6 with
  | none => exact ⟨0, by omega, by simp⟩
  | some object =>
    dsimp only
    obtain ⟨k, hk, e⟩ := mxt_write_object_frame d MXT_GEN_COMMANDPROCESSOR_T6
      MXT_COMMAND_REPORTALL 1
    rw [hobj] at e
    refine ⟨k, hk, ?_⟩
    have hl := mxt_read_message_reportid_loop_frame
      ((mxt_write_object d MXT_GEN_COMMANDPROCESSOR_T6 MXT_COMMAND_REPORTALL 1).2.max_reportid * 2 - 1)
      (mxt_write_object d MXT_GEN_COMMANDPROCESSOR_T6 MXT_COMMAND_REPORTALL 1).2
      (mxt_message_of_bytes
        (uninit_buf (mxt_write_object d MXT_GEN_COMMANDPROCESSOR_T6 MXT_COMMAND_REPORTALL 1).2 285 9))
      object.max_reportid
    unfold mxt_read_message_reportid
    split_ifs
    · rw [hl, e]
    · rw [hl, e]

/-- Reading the configuration checksum leaves the ID header as it was. -/
theorem mxt_read_config_crc_info (d : mxt_data) (crc0 : Nat) :
    (mxt_read_config_crc d crc0).2.2.info = d.info := by
  obtain ⟨k, _, e⟩ := mxt_read_config_crc_frame d crc0
  rw [e]

/-- Compiled without `DUAL_CFG`: with an image present, `mxt_write_config`
returns right after reading the checksum, with the status of that read, when
the read fails, a version differs, or the checksums agree. -/
theorem mxt_write_config_no_walk (fuel : Nat) (fw_info : mxt_fw_info) (d : mxt_data)
    (hblob : fw_info.cfg_raw_data.isSome = true)
    (h : (mxt_read_config_crc d 0).1 ≠ 0 ∨ fw_info.fw_ver ≠ d.info.version
          ∨ fw_info.build_ver ≠ d.info.build
          ∨ (mxt_read_config_crc d 0).2.1 = fw_info.cfg_crc) :
    mxt_write_config fuel fw_info d =
      some ((mxt_read_config_crc d 0).1, (mxt_read_config_crc d 0).2.2) := by
  unfold mxt_write_config
  cases hraw : fw_info.cfg_raw_data with
  | none => rw [hraw] at hblob; simp at hblob
  | some raw =>
    dsimp only
    rw [mxt_read_config_crc_info]
    by_cases c1 : (mxt_read_config_crc d 0).1 ≠ 0
    · rw [if_pos c1]
    · rw [if_neg c1]
      have c1' : (mxt_read_config_crc d 0).1 = 0 := not_not.mp c1
      rw [c1']
      by_cases c2 : fw_info.fw_ver ≠ d.info.version
      · rw [if_pos c2]
      · rw [if_neg c2]
        by_cases c3 : fw_info.build_ver ≠ d.info.build
        · rw [if_pos c3]
        · rw [if_neg c3]
          have c4 : (mxt_read_config_crc d 0).2.1 = fw_info.cfg_crc := by
            rcases h with h | h | h | h
            · exact absurd h c1
            · exact absurd h c2
            · exact absurd h c3
            · exact h
          rw [if_pos c4]

/-- Compiled with `DUAL_CFG`: with an image present, `mxt_write_config`
returns right after recording the profile length and reading the checksum,
with the status of that read, when the read fails, a version differs, or the
checksums agree. -/
theorem mxt_write_config_dual_no_walk (fuel : Nat) (fw_info : mxt_fw_info) (d : mxt_data)
    (hblob : ¬ (fw_info.ta_cfg_raw_data.isNone = true ∧ fw_info.batt_cfg_raw_data.isNone = true))
    (h : (mxt_read_config_crc { d with cfg_len := fw_info.cfg_len / 2 } 0).1 ≠ 0
          ∨ fw_info.fw_ver ≠ d.info.version
          ∨ fw_info.build_ver ≠ d.info.build
          ∨ (mxt_read_config_crc { d with cfg_len := fw_info.cfg_len / 2 } 0).2.1
              = fw_info.cfg_crc) :
    mxt_write_config_dual fuel fw_info d =
      some ((mxt_read_config_crc { d with cfg_len := fw_info.cfg_len / 2 } 0).1, fw_info,
            (mxt_read_config_crc { d with cfg_len := fw_info.cfg_len / 2 } 0).2.2) := by
  unfold mxt_write_config_dual
  dsimp only
  rw [if_neg hblob, mxt_read_config_crc_info]
  by_cases c1 : (mxt_read_config_crc { d with cfg_len := fw_info.cfg_len / 2 } 0).1 ≠ 0
  · rw [if_pos c1]
  · rw [if_neg c1]
    have c1' : (mxt_read_config_crc { d with cfg_len := fw_info.cfg_len / 2 } 0).1 = 0 :=
      not_not.mp c1
    rw [c1']
    by_cases c2 : fw_info.fw_ver ≠ d.info.version
    · rw [if_pos c2]
    · rw [if_neg c2]
      by_cases c3 : fw_info.build_ver ≠ d.info.build
      · rw [if_pos c3]
      · rw [if_neg c3]
        have c4 : (mxt_read_config_crc { d with cfg_len := fw_info.cfg_len / 2 } 0).2.1
            = fw_info.cfg_crc := by
          rcases h with h | h | h | h
          · exact absurd h c1
          · exact absurd h c2
          · exact absurd h c3
          · exact h
        rw [if_pos c4]

end Mxts

namespace Mxts

/-! ## The configuration synchronizer: version and checksum gates -/

/-- The bus writes made while reading the configuration checksum are at most
three attempts of the report-all command to T6. -/
theorem mxt_read_config_crc_wlog (d : mxt_data) (crc0 : Nat) :
    ∃ k, k ≤ 3 ∧ (mxt_read_config_crc d crc0).2.2.wlog =
      d.wlog ++ List.replicate k
        ((((mxt_get_object d MXT_GEN_COMMANDPROCESSOR_T6).getD {}).start_address
            + MXT_COMMAND_REPORTALL) % 65536, [1]) := by
  obtain ⟨k, hk, e⟩ := mxt_read_config_crc_frame d crc0
  exact ⟨k, hk, by rw [e]⟩

/-- C8, as stated, fails: with mismatching versions `mxt_write_config` does not
always return 0.  Against a device that never answers the checksum request the
function returns `-EINVAL`, in both builds. -/
theorem mxt_write_config_mismatch_returns_error :
    blob_T7.fw_ver ≠ device_no_message.info.version
    ∧ (mxt_write_config 4 blob_T7 device_no_message).map Prod.fst = some (- EINVAL)
    ∧ (mxt_write_config_dual 4 blob_T7 device_no_message).map Prod.fst = some (- EINVAL) := by
  refine ⟨by decide, by decide, by decide⟩

/-- C8, amended: when the image's `fw_ver` or `build_ver` differs from the
device's, `mxt_write_config` (in either build) stops right after reading the
device checksum: it returns the status of that read, which is 0 when the read
succeeded, and the only messages put on the bus are at most three attempts of
the one-byte report-all command to T6; no configuration record is written. -/
theorem mxt_write_config_version_mismatch (fuel : Nat) (fw_info : mxt_fw_info) (d : mxt_data)
    (hblob : fw_info.cfg_raw_data.isSome = true)
    (hdual : ¬ (fw_info.ta_cfg_raw_data.isNone = true ∧ fw_info.batt_cfg_raw_data.isNone = true))
    (hver : fw_info.fw_ver ≠ d.info.version ∨ fw_info.build_ver ≠ d.info.build) :
    mxt_write_config fuel fw_info d =
        some ((mxt_read_config_crc d 0).1, (mxt_read_config_crc d 0).2.2)
    ∧ ((mxt_read_config_crc d 0).1 = 0 →
        mxt_write_config fuel fw_info d = some (0, (mxt_read_config_crc d 0).2.2))
    ∧ (∃ k, k ≤ 3 ∧ (mxt_read_config_crc d 0).2.2.wlog =
        d.wlog ++ List.replicate k
          ((((mxt_get_object d MXT_GEN_COMMANDPROCESSOR_T6).getD {}).start_address
              + MXT_COMMAND_REPORTALL) % 65536, [1]))
    ∧ mxt_write_config_dual fuel fw_info d =
        some ((mxt_read_config_crc { d with cfg_len := fw_info.cfg_len / 2 } 0).1, fw_info,
              (mxt_read_config_crc { d with cfg_len := fw_info.cfg_len / 2 } 0).2.2)
    ∧ (∃ k, k ≤ 3 ∧ (mxt_read_config_crc { d with cfg_len := fw_info.cfg_len / 2 } 0).2.2.wlog =
        d.wlog ++ List.replicate k
          ((((mxt_get_object d MXT_GEN_COMMANDPROCESSOR_T6).getD {}).start_address
              + MXT_COMMAND_REPORTALL) % 65536, [1])) := by
  have hgate : (mxt_read_config_crc d 0).1 ≠ 0 ∨ fw_info.fw_ver ≠ d.info.version
      ∨ fw_info.build_ver ≠ d.info.build ∨ (mxt_read_config_crc d 0).2.1 = fw_info.cfg_crc := by
    rcases hver with h | h
    · exact Or.inr (Or.inl h)
    · exact Or.inr (Or.inr (Or.inl h))
  have hgate2 : (mxt_read_config_crc { d with cfg_len := fw_info.cfg_len / 2 } 0).1 ≠ 0
      ∨ fw_info.fw_ver ≠ d.info.version ∨ fw_info.build_ver ≠ d.info.build
      ∨ (mxt_read_config_crc { d with cfg_len := fw_info.cfg_len / 2 } 0).2.1
          = fw_info.cfg_crc := by
    rcases hver with h | h
    · exact Or.inr (Or.inl h)
    · exact Or.inr (Or.inr (Or.inl h))
  have e1 := mxt_write_config_no_walk fuel fw_info d hblob hgate
  refine ⟨e1, ?_, mxt_read_config_crc_wlog d 0,
    mxt_write_config_dual_no_walk fuel fw_info d hdual hgate2,
    mxt_read_config_crc_wlog { d with cfg_len := fw_info.cfg_len / 2 } 0⟩
  intro h0
  rw [e1, h0]

/-- Witness for the amended C8: an image for firmware 0x10 against a device
that reports version 0 and never answers the checksum request. -/
theorem mxt_write_config_version_mismatch_witness :
    (blob_T7.fw_ver ≠ device_no_message.info.version
      ∨ blob_T7.build_ver ≠ device_no_message.info.build)
    ∧ mxt_write_config 4 blob_T7 device_no_message =
        some ((mxt_read_config_crc device_no_message 0).1,
              (mxt_read_config_crc device_no_message 0).2.2) :=
  ⟨Or.inl (by decide),
   (mxt_write_config_version_mismatch 4 blob_T7 device_no_message (by decide) (by decide)
      (Or.inl (by decide))).1⟩

/-- C9: if the device reports the checksum `cfg_crc` of the image then
`mxt_write_config` (in either build, and in particular when the versions of
the image match the device) returns 0 in the state left by the checksum read:
no record is walked, and the only messages put on the bus are at most three
attempts of the one-byte report-all command to T6. -/
theorem mxt_write_config_same_checksum (fuel : Nat) (fw_info : mxt_fw_info) (d : mxt_data)
    (hblob : fw_info.cfg_raw_data.isSome = true)
    (hread : (mxt_read_config_crc d 0).1 = 0)
    (hcrc : (mxt_read_config_crc d 0).2.1 = fw_info.cfg_crc) :
    mxt_write_config fuel fw_info d = some (0, (mxt_read_config_crc d 0).2.2)
    ∧ (∃ k, k ≤ 3 ∧ (mxt_read_config_crc d 0).2.2.wlog =
        d.wlog ++ List.replicate k
          ((((mxt_get_object d MXT_GEN_COMMANDPROCESSOR_T6).getD {}).start_address
              + MXT_COMMAND_REPORTALL) % 65536, [1]))
    ∧ (¬ (fw_info.ta_cfg_raw_data.isNone = true ∧ fw_info.batt_cfg_raw_data.isNone = true) →
        (mxt_read_config_crc { d with cfg_len := fw_info.cfg_len / 2 } 0).1 = 0 →
        (mxt_read_config_crc { d with cfg_len := fw_info.cfg_len / 2 } 0).2.1 = fw_info.cfg_crc →
        mxt_write_config_dual fuel fw_info d =
          some (0, fw_info, (mxt_read_config_crc { d with cfg_len := fw_info.cfg_len / 2 } 0).2.2)
        ∧ ∃ k, k ≤ 3 ∧
          (mxt_read_config_crc { d with cfg_len := fw_info.cfg_len / 2 } 0).2.2.wlog =
            d.wlog ++ List.replicate k
              ((((mxt_get_object d MXT_GEN_COMMANDPROCESSOR_T6).getD {}).start_address
                  + MXT_COMMAND_REPORTALL) % 65536, [1])) := by
  refine ⟨?_, mxt_read_config_crc_wlog d 0, ?_⟩
  · rw [mxt_write_config_no_walk fuel fw_info d hblob (Or.inr (Or.inr (Or.inr hcrc))), hread]
  · intro hdual hread2 hcrc2
    refine ⟨?_, mxt_read_config_crc_wlog { d with cfg_len := fw_info.cfg_len / 2 } 0⟩
    rw [mxt_write_config_dual_no_walk fuel fw_info d hdual (Or.inr (Or.inr (Or.inr hcrc2))),
      hread2]

/-- Witness for C9: the device reports the checksum 0x123456 of the image. -/
theorem mxt_write_config_same_checksum_witness :
    ((blob_T7.fw_ver = (device_reporting 0x56 0x34 0x12).info.version
        ∧ blob_T7.build_ver = (device_reporting 0x56 0x34 0x12).info.build)
      ∧ (mxt_read_config_crc (device_reporting 0x56 0x34 0x12) 0).1 = 0
      ∧ (mxt_read_config_crc (device_reporting 0x56 0x34 0x12) 0).2.1 = blob_T7.cfg_crc)
    ∧ mxt_write_config 4 blob_T7 (device_reporting 0x56 0x34 0x12) =
        some (0, (mxt_read_config_crc (device_reporting 0x56 0x34 0x12) 0).2.2) :=
  ⟨by decide,
   (mxt_write_config_same_checksum 4 blob_T7 (device_reporting 0x56 0x34 0x12) (by decide)
      (by decide) (by decide)).1⟩

/-- C10, as stated, fails: the device reports the checksum 0 on both calls,
the image carries 0x123456, and the second call writes the T7 record again
after its own report-all command. -/
theorem mxt_write_config_second_call_rewrites :
    (mxt_read_config_crc (device_reporting 0 0 0) 0).2.1 = 0
    ∧ (mxt_write_config 4 blob_T7 (device_reporting 0 0 0)).map
        (fun o => (o.1, o.2.wlog, (mxt_read_config_crc o.2 0).2.1)) =
        some (0, [(0x123, [1]), (0x130, [10, 20, 30, 40])], 0)
    ∧ ((mxt_write_config 4 blob_T7 (device_reporting 0 0 0)).bind
        (fun o => mxt_write_config 4 blob_T7 o.2)).map (fun o => (o.1, o.2.wlog)) =
        some (0, [(0x123, [1]), (0x130, [10, 20, 30, 40]),
                  (0x123, [1]), (0x130, [10, 20, 30, 40])]) := by
  refine ⟨by decide, by decide, by decide⟩

/-- C10, amended: when `mxt_write_config` is run twice with the same image
and, after the first call, the device reports the checksum `cfg_crc` of the
image, the second call returns 0 and writes no configuration record: the only
messages it puts on the bus are at most three attempts of the report-all
command to T6. -/
theorem mxt_write_config_second_call (fuel : Nat) (fw_info : mxt_fw_info) (d : mxt_data)
    (r1 : Int) (d1 : mxt_data)
    (hblob : fw_info.cfg_raw_data.isSome = true)
    (hfirst : mxt_write_config fuel fw_info d = some (r1, d1))
    (hread : (mxt_read_config_crc d1 0).1 = 0)
    (hcrc : (mxt_read_config_crc d1 0).2.1 = fw_info.cfg_crc) :
    (mxt_write_config fuel fw_info d).bind (fun o => mxt_write_config fuel fw_info o.2) =
        some (0, (mxt_read_config_crc d1 0).2.2)
    ∧ ∃ k, k ≤ 3 ∧ (mxt_read_config_crc d1 0).2.2.wlog =
        d1.wlog ++ List.replicate k
          ((((mxt_get_object d1 MXT_GEN_COMMANDPROCESSOR_T6).getD {}).start_address
              + MXT_COMMAND_REPORTALL) % 65536, [1]) := by
  refine ⟨?_, mxt_read_config_crc_wlog d1 0⟩
  rw [hfirst, Option.some_bind]
  dsimp only
  rw [mxt_write_config_no_walk fuel fw_info d1 hblob (Or.inr (Or.inr (Or.inr hcrc))), hread]

/-- Witness for the amended C10: the device reports the checksum 0x123456 of
the image on both calls. -/
theorem mxt_write_config_second_call_witness :
    ((mxt_read_config_crc (mxt_read_config_crc (device_reporting 0x56 0x34 0x12) 0).2.2 0).1 = 0
      ∧ (mxt_read_config_crc (mxt_read_config_crc (device_reporting 0x56 0x34 0x12) 0).2.2 0).2.1
          = blob_T7.cfg_crc)
    ∧ (mxt_write_config 4 blob_T7 (device_reporting 0x56 0x34 0x12)).bind
        (fun o => mxt_write_config 4 blob_T7 o.2) =
        some (0, (mxt_read_config_crc
                    (mxt_read_config_crc (device_reporting 0x56 0x34 0x12) 0).2.2 0).2.2) :=
  ⟨by decide,
   (mxt_write_config_second_call 4 blob_T7 (device_reporting 0x56 0x34 0x12) 0
      (mxt_read_config_crc (device_reporting 0x56 0x34 0x12) 0).2.2 (by decide)
      (by
        have h0 : (mxt_read_config_crc (device_reporting 0x56 0x34 0x12) 0).1 = 0 := by decide
        rw [mxt_write_config_no_walk 4 blob_T7 (device_reporting 0x56 0x34 0x12) (by decide)
          (Or.inr (Or.inr (Or.inr (by decide)))), h0])
      (by decide) (by decide)).1⟩

end Mxts

namespace Mxts

/-! ## The configuration synchronizer: the record walk -/

set_option maxRecDepth 1000000

/-- At the top of an iteration of the record walk, a record whose object type
is not in the directory, whose size exceeds the size of the object, or whose
instance is not below the object's instance count ends the walk with `-EINVAL`
in the state the iteration started from. -/
theorem cfg_walk_bad_record (raw : Nat → Nat) (cfg_length fuel index : Nat) (ret : Int)
    (d : mxt_data) (hidx : index < cfg_length)
    (hbad : mxt_get_object d (raw index % 256) = none
      ∨ ∃ object, mxt_get_object d (raw index % 256) = some object
          ∧ (raw (index + 2) % 256 > object.size ∨ raw (index + 1) % 256 ≥ object.instances)) :
    cfg_walk raw cfg_length (fuel + 1) index ret d = some (- EINVAL, d) := by
  unfold cfg_walk
  rw [if_pos hidx]
  by_cases h1 : index + sizeof_mxt_cfg_data ≥ cfg_length
  · rw [if_pos h1]
  · rw [if_neg h1]
    dsimp only
    by_cases h2 : (index + sizeof_mxt_cfg_data + raw (index + 2) % 256) % 65536 > cfg_length
    · rw [if_pos h2]
    · rw [if_neg h2]
      rcases hbad with hn | ⟨object, ho, hb⟩
      · rw [hn]
      · rw [ho]
        dsimp only
        by_cases h3 : raw (index + 2) % 256 > object.size
        · rw [if_pos h3]
        · rw [if_neg h3]
          rcases hb with hb | hb
          · exact absurd hb h3
          · rw [if_pos hb]

/-- Looking up an object depends only on the directory and the object count. -/
theorem mxt_get_object_congr (d d1 : mxt_data) (type : Nat)
    (ho : d1.objects = d.objects) (hi : d1.info = d.info) :
    mxt_get_object d1 type = mxt_get_object d type := by
  unfold mxt_get_object
  rw [ho, hi]

/-- Reading the configuration checksum leaves the directory as it was. -/
theorem mxt_read_config_crc_get_object (d : mxt_data) (crc0 type : Nat) :
    mxt_get_object (mxt_read_config_crc d crc0).2.2 type = mxt_get_object d type := by
  obtain ⟨k, _, e⟩ := mxt_read_config_crc_frame d crc0
  apply mxt_get_object_congr
  · rw [e]
  · rw [e]

/-- C11: a record of the image whose object type is absent from the directory,
whose declared size exceeds the size of the target object, or whose instance
index is not below the object's instance count makes the walk return
`-EINVAL` in the very state in which the record was met: nothing is written
for that record or for any later one, and what earlier records wrote stays.
In particular, when the first record is such a record, `mxt_write_config` (in
either build, versions matching and checksums differing) returns `-EINVAL` in
the state left by the checksum read. -/
theorem mxt_write_config_bad_record (raw : Nat → Nat) (cfg_length fuel index : Nat) (ret : Int)
    (d : mxt_data) (hidx : index < cfg_length)
    (hbad : mxt_get_object d (raw index % 256) = none
      ∨ ∃ object, mxt_get_object d (raw index % 256) = some object
          ∧ (raw (index + 2) % 256 > object.size ∨ raw (index + 1) % 256 ≥ object.instances)) :
    cfg_walk raw cfg_length (fuel + 1) index ret d = some (- EINVAL, d)
    ∧ (∀ fw_info : mxt_fw_info, fw_info.cfg_raw_data = some raw → fw_info.cfg_len = cfg_length →
        index = 0 → (mxt_read_config_crc d 0).1 = 0 →
        fw_info.fw_ver = d.info.version → fw_info.build_ver = d.info.build →
        (mxt_read_config_crc d 0).2.1 ≠ fw_info.cfg_crc →
        mxt_write_config (fuel + 1) fw_info d = some (- EINVAL, (mxt_read_config_crc d 0).2.2))
    ∧ (∀ fw_info : mxt_fw_info, fw_info.batt_cfg_raw_data = some raw →
        fw_info.cfg_len / 2 = cfg_length → d.charging_mode = false →
        index = 0 → (mxt_read_config_crc { d with cfg_len := cfg_length } 0).1 = 0 →
        fw_info.fw_ver = d.info.version → fw_info.build_ver = d.info.build →
        (mxt_read_config_crc { d with cfg_len := cfg_length } 0).2.1 ≠ fw_info.cfg_crc →
        (mxt_write_config_dual (fuel + 1) fw_info d).map (fun o => (o.1, o.2.2.wlog)) =
          some (- EINVAL, (mxt_read_config_crc { d with cfg_len := cfg_length } 0).2.2.wlog)) := by
  refine ⟨cfg_walk_bad_record raw cfg_length fuel index ret d hidx hbad, ?_, ?_⟩
  · intro fw_info hraw hlen h0 hread hv hb hcrc
    subst h0
    have key : ∀ (D : mxt_data) (r : Int), D.objects = d.objects → D.info = d.info →
        cfg_walk raw cfg_length (fuel + 1) 0 r D = some (- EINVAL, D) := by
      intro D r ho hi
      apply cfg_walk_bad_record _ _ _ _ _ _ hidx
      rw [mxt_get_object_congr d D _ ho hi]
      exact hbad
    obtain ⟨k, _, e⟩ := mxt_read_config_crc_frame d 0
    unfold mxt_write_config
    rw [hraw]
    dsimp only
    rw [mxt_read_config_crc_info, hlen]
    rw [if_neg (not_not.mpr hread), if_neg (not_not.mpr hv), if_neg (not_not.mpr hb),
      if_neg hcrc]
    exact key _ _ (by rw [e]) (by rw [e])
  · intro fw_info hraw hlen hch h0 hread hv hb hcrc
    subst h0
    subst hlen
    have key : ∀ (D : mxt_data) (r : Int), D.objects = d.objects → D.info = d.info →
        cfg_walk raw (fw_info.cfg_len / 2) (fuel + 1) 0 r D = some (- EINVAL, D) := by
      intro D r ho hi
      apply cfg_walk_bad_record _ _ _ _ _ _ hidx
      rw [mxt_get_object_congr d D _ ho hi]
      exact hbad
    obtain ⟨k, _, e⟩ := mxt_read_config_crc_frame { d with cfg_len := fw_info.cfg_len / 2 } 0
    have hblob : ¬ (fw_info.ta_cfg_raw_data.isNone = true
        ∧ fw_info.batt_cfg_raw_data.isNone = true) := by
      rw [hraw]; simp
    have hcm : (mxt_read_config_crc { d with cfg_len := fw_info.cfg_len / 2 } 0).2.2.charging_mode
        = false := by
      rw [e]; exact hch
    have hob : (mxt_read_config_crc { d with cfg_len := fw_info.cfg_len / 2 } 0).2.2.objects
        = d.objects := by rw [e]
    have hin : (mxt_read_config_crc { d with cfg_len := fw_info.cfg_len / 2 } 0).2.2.info
        = d.info := by rw [e]
    unfold mxt_write_config_dual
    dsimp only
    rw [if_neg hblob, mxt_read_config_crc_info]
    rw [if_neg (not_not.mpr hread), if_neg (not_not.mpr hv), if_neg (not_not.mpr hb),
      if_neg hcrc, hraw]
    dsimp only
    rw [hcm]
    simp only [Bool.false_eq_true, if_false]
    rw [key _ _ ?_ ?_]
    · rfl
    · dsimp only; exact hob
    · rw [← hin]

/-- Witness for C11, the scenario of the specification: the second record of
the image declares 20 bytes for a T7 object of 10 bytes.  Met at offset 5 it
ends the walk with `-EINVAL` and no write; the whole run returns `-EINVAL`
after the writes of the first record only (its two bytes, then the zero
fill). -/
theorem mxt_write_config_bad_record_witness :
    (∃ object, mxt_get_object (device_with_T7 10)
          ((blob_two_records.cfg_raw_data.getD (fun _ => 0)) 5 % 256) = some object
        ∧ ((blob_two_records.cfg_raw_data.getD (fun _ => 0)) (5 + 2) % 256 > object.size
            ∨ (blob_two_records.cfg_raw_data.getD (fun _ => 0)) (5 + 1) % 256 ≥ object.instances))
    ∧ cfg_walk (blob_two_records.cfg_raw_data.getD (fun _ => 0)) 28 (0 + 1) 5 0 (device_with_T7 10)
        = some (- EINVAL, device_with_T7 10)
    ∧ (mxt_write_config 12 blob_two_records (device_with_T7 10)).map (fun o => (o.1, o.2.wlog))
        = some (- EINVAL,
            [(0x123, [1]), (0x130, [10, 20]), (0x133, [0]), (0x134, [0]), (0x135, [0]),
             (0x136, [0]), (0x137, [0]), (0x138, [0]), (0x139, [0])]) :=
  ⟨⟨{ type := 7, start_address := 0x130, size := 10, instances := 1 }, by decide,
      Or.inl (by decide)⟩,
   (mxt_write_config_bad_record (blob_two_records.cfg_raw_data.getD (fun _ => 0)) 28 0 5 0
      (device_with_T7 10) (by decide)
      (Or.inr ⟨{ type := 7, start_address := 0x130, size := 10, instances := 1 }, by decide,
        Or.inl (by decide)⟩)).1,
   by decide⟩

/-- At the top of an iteration of the record walk, a record whose header and
payload end beyond `cfg_length` ends the walk with `-EINVAL` and no write,
provided the end offset still fits the 16-bit index. -/
theorem cfg_walk_overflow_rejected (raw : Nat → Nat) (cfg_length fuel index : Nat) (ret : Int)
    (d : mxt_data) (hidx : index < cfg_length)
    (hover : index + 3 + raw (index + 2) % 256 > cfg_length)
    (hfit : index + 3 + raw (index + 2) % 256 < 65536) :
    cfg_walk raw cfg_length (fuel + 1) index ret d = some (- EINVAL, d) := by
  unfold cfg_walk
  rw [if_pos hidx]
  by_cases h1 : index + sizeof_mxt_cfg_data ≥ cfg_length
  · rw [if_pos h1]
  · rw [if_neg h1]
    dsimp only
    have h2 : (index + sizeof_mxt_cfg_data + raw (index + 2) % 256) % 65536 > cfg_length := by
      rw [Nat.mod_eq_of_lt (by unfold sizeof_mxt_cfg_data; exact hfit)]
      unfold sizeof_mxt_cfg_data
      exact hover
    rw [if_pos h2]

/-- C12 fails on the code: in an image of 65536 bytes the record at offset
65532 declares 255 payload bytes, so it ends at 65790, beyond the image.  The
16-bit index wraps to 254, the length test passes, and the record is written:
one byte of the image followed by 254 bytes of what lies after it.  The walk
only stops at the next iteration. -/
theorem mxt_write_config_index_wraps :
    (65532 + 3 + (blob_wrapping.cfg_raw_data.getD (fun _ => 0)) (65532 + 2) % 256
        > blob_wrapping.cfg_len)
    ∧ (mxt_write_config 300 blob_wrapping (device_with_T7 255)).map
        (fun o => (o.1, o.2.wlog.length,
          o.2.wlog.getLast?.map (fun w => (w.1, w.2.take 3, w.2.length))))
        = some (- EINVAL, 256, some (0x130, [0, 0xEE, 0xEE], 255)) := by
  refine ⟨by decide, by decide⟩

/-- C13 fails on the code: a record of two bytes for a T7 object of four bytes
is followed by a single zero write at offset 3.  The zero fill starts at
`size + 1`, so offset 2 of the instance (address 0x132) is never written. -/
theorem mxt_write_config_zero_fill_skips_first :
    (mxt_write_config 4 blob_short_record (device_reporting 0 0 0)).map
        (fun o => (o.1, o.2.wlog))
        = some (0, [(0x123, [1]), (0x130, [10, 20]), (0x133, [0])])
    ∧ (mxt_write_config_dual 4 blob_short_record_dual (device_reporting 0 0 0)).map
        (fun o => (o.1, o.2.2.wlog))
        = some (0, [(0x123, [1]), (0x130, [10, 20]), (0x133, [0])]) := by
  refine ⟨by decide, by decide⟩

end Mxts

namespace Mxts

/-! ## The flush to the input layer -/

/-- The slot loop leaves every slot other than the one it visits alone. -/
theorem mxt_report_input_data_slot_other (s : report_loop_state) (n i : Nat) (h : i ≠ n) :
    (mxt_report_input_data_slot s n).d.fingers i = s.d.fingers i := by
  unfold mxt_report_input_data_slot
  split_ifs <;> simp [Function.update, h]

/-- The slot loop turns a released slot inactive and any other active slot
into a moving one. -/
theorem mxt_report_input_data_slot_self (s : report_loop_state) (n : Nat) :
    ((mxt_report_input_data_slot s n).d.fingers n).state =
      if (s.d.fingers n).state = mxt_finger_state.MXT_STATE_INACTIVE ∨
         (s.d.fingers n).state = mxt_finger_state.MXT_STATE_RELEASE
      then mxt_finger_state.MXT_STATE_INACTIVE else mxt_finger_state.MXT_STATE_MOVE := by
  unfold mxt_report_input_data_slot
  by_cases h1 : (s.d.fingers n).state = mxt_finger_state.MXT_STATE_INACTIVE
  · rw [if_pos h1, if_pos (Or.inl h1)]; exact h1
  · rw [if_neg h1]
    by_cases h2 : (s.d.fingers n).state = mxt_finger_state.MXT_STATE_RELEASE
    · rw [if_pos h2, if_pos (Or.inr h2)]; simp [Function.update]
    · have hn : ¬ ((s.d.fingers n).state = mxt_finger_state.MXT_STATE_INACTIVE ∨
          (s.d.fingers n).state = mxt_finger_state.MXT_STATE_RELEASE) := by tauto
      rw [if_neg h2, if_neg hn]; simp [Function.update]

/-- Slots at or above the loop bound are not touched by the slot loop. -/
theorem report_loop_above (n : Nat) (s : report_loop_state) (i : Nat) (h : n ≤ i) :
    ((List.range n).foldl mxt_report_input_data_slot s).d.fingers i = s.d.fingers i := by
  induction n with
  | zero => rfl
  | succ n ih =>
    rw [List.range_succ, List.foldl_append]
    simp only [List.foldl_cons, List.foldl_nil]
    rw [mxt_report_input_data_slot_other _ _ _ (by omega), ih (by omega)]

/-- State of a slot after the slot loop. -/
theorem report_loop_state_after (n : Nat) (s : report_loop_state) (i : Nat) :
    (((List.range n).foldl mxt_report_input_data_slot s).d.fingers i).state =
      if i < n then
        (if (s.d.fingers i).state = mxt_finger_state.MXT_STATE_INACTIVE ∨
            (s.d.fingers i).state = mxt_finger_state.MXT_STATE_RELEASE
         then mxt_finger_state.MXT_STATE_INACTIVE else mxt_finger_state.MXT_STATE_MOVE)
      else (s.d.fingers i).state := by
  induction n with
  | zero => rfl
  | succ n ih =>
    rw [List.range_succ, List.foldl_append]
    simp only [List.foldl_cons, List.foldl_nil]
    by_cases hi : i = n
    · subst hi
      rw [mxt_report_input_data_slot_self, report_loop_above _ _ _ (le_refl _),
        if_pos (Nat.lt_succ_self _)]
    · rw [mxt_report_input_data_slot_other _ _ _ hi, ih]
      by_cases hlt : i < n
      · rw [if_pos hlt, if_pos (show i < n + 1 by omega)]
      · rw [if_neg hlt, if_neg (show ¬ i < n + 1 by omega)]

/-- The flush changes the slots below `MXT_MAX_FINGER` as the slot loop does
and no other slot. -/
theorem mxt_report_input_data_fingers (d : mxt_data) (i : Nat) :
    (mxt_report_input_data d).fingers i =
      ((List.range MXT_MAX_FINGER).foldl mxt_report_input_data_slot
        { d := d, count := 0, report_count := 0 }).d.fingers i := by
  unfold mxt_report_input_data
  generalize (List.range MXT_MAX_FINGER).foldl mxt_report_input_data_slot
    { d := d, count := 0, report_count := 0 } = s
  dsimp only
  split_ifs <;> rfl

/-- State of a slot after the flush. -/
theorem mxt_report_input_data_state (d : mxt_data) (i : Nat) :
    ((mxt_report_input_data d).fingers i).state =
      if i < MXT_MAX_FINGER then
        (if (d.fingers i).state = mxt_finger_state.MXT_STATE_INACTIVE ∨
            (d.fingers i).state = mxt_finger_state.MXT_STATE_RELEASE
         then mxt_finger_state.MXT_STATE_INACTIVE else mxt_finger_state.MXT_STATE_MOVE)
      else (d.fingers i).state := by
  rw [mxt_report_input_data_fingers, report_loop_state_after]

/-- One round of the slot loop: the active-slot counter grows exactly when the
slot is pressed or moving; what the round sends never contains
`BTN_TOOL_FINGER 0`, and contains no `BTN_TOUCH 0` unless the counter grew. -/
theorem mxt_report_input_data_slot_sink (s : report_loop_state) (n : Nat) :
    s.count ≤ (mxt_report_input_data_slot s n).count ∧
    ((mxt_report_input_data_slot s n).count = s.count ↔
      ((s.d.fingers n).state = mxt_finger_state.MXT_STATE_INACTIVE ∨
       (s.d.fingers n).state = mxt_finger_state.MXT_STATE_RELEASE)) ∧
    ∃ batch, (mxt_report_input_data_slot s n).d.sink = s.d.sink ++ batch ∧
      input_event.input_report_key input_code.BTN_TOOL_FINGER 0 ∉ batch ∧
      ((mxt_report_input_data_slot s n).count = s.count →
        input_event.input_report_key input_code.BTN_TOUCH 0 ∉ batch) := by
  unfold mxt_report_input_data_slot
  by_cases h1 : (s.d.fingers n).state = mxt_finger_state.MXT_STATE_INACTIVE
  · rw [if_pos h1]
    exact ⟨le_refl _, by simp [h1], [], by simp, by simp, by simp⟩
  · rw [if_neg h1]
    by_cases h2 : (s.d.fingers n).state = mxt_finger_state.MXT_STATE_RELEASE
    · rw [if_pos h2]
      exact ⟨le_refl _, by simp [h2], _, rfl, by simp, by simp⟩
    · rw [if_neg h2]
      refine ⟨by simp, by simp [h1, h2], _, by simp only [List.append_assoc]; rfl, ?_, by simp⟩
      split_ifs <;> simp

/-- Invariant of the slot loop of the flush. -/
theorem report_loop_sink (n : Nat) (s : report_loop_state) :
    s.count ≤ ((List.range n).foldl mxt_report_input_data_slot s).count ∧
    (((List.range n).foldl mxt_report_input_data_slot s).count = s.count ↔
      ∀ i, i < n → ((s.d.fingers i).state = mxt_finger_state.MXT_STATE_INACTIVE ∨
                    (s.d.fingers i).state = mxt_finger_state.MXT_STATE_RELEASE)) ∧
    ∃ batch, ((List.range n).foldl mxt_report_input_data_slot s).d.sink = s.d.sink ++ batch ∧
      input_event.input_report_key input_code.BTN_TOOL_FINGER 0 ∉ batch ∧
      (((List.range n).foldl mxt_report_input_data_slot s).count = s.count →
        input_event.input_report_key input_code.BTN_TOUCH 0 ∉ batch) := by
  induction n with
  | zero => exact ⟨le_refl _, by simp, [], by simp, by simp, by simp⟩
  | succ n ih =>
    rw [List.range_succ, List.foldl_append]
    simp only [List.foldl_cons, List.foldl_nil]
    obtain ⟨hle, hiff, b, hb, hb1, hb2⟩ := ih
    obtain ⟨sle, siff, c, hc, hc1, hc2⟩ :=
      mxt_report_input_data_slot_sink ((List.range n).foldl mxt_report_input_data_slot s) n
    rw [report_loop_above n s n (le_refl _)] at siff
    refine ⟨le_trans hle sle, ?_, b ++ c, ?_, ?_, ?_⟩
    · constructor
      · intro h i hi
        have e1 : ((List.range n).foldl mxt_report_input_data_slot s).count = s.count := by omega
        by_cases hin : i = n
        · subst hin; exact siff.mp (by omega)
        · exact hiff.mp e1 i (by omega)
      · intro h
        have e1 := hiff.mpr (fun i hi => h i (by omega))
        have e2 := siff.mpr (h n (by omega))
        omega
    · rw [hc, hb, List.append_assoc]
    · simp only [List.mem_append, not_or]; exact ⟨hb1, hc1⟩
    · intro h
      have e1 : ((List.range n).foldl mxt_report_input_data_slot s).count = s.count := by omega
      simp only [List.mem_append, not_or]
      exact ⟨hb2 e1, hc2 (by omega)⟩

/-- With every slot below the bound inactive the slot loop does nothing. -/
theorem report_loop_idle (n : Nat) (s : report_loop_state)
    (h : ∀ i, i < n → (s.d.fingers i).state = mxt_finger_state.MXT_STATE_INACTIVE) :
    (List.range n).foldl mxt_report_input_data_slot s = s := by
  induction n with
  | zero => rfl
  | succ n ih =>
    rw [List.range_succ, List.foldl_append, ih (fun i hi => h i (by omega))]
    simp only [List.foldl_cons, List.foldl_nil]
    unfold mxt_report_input_data_slot
    rw [if_pos (h n (by omega))]

/-- What the flush sends: the slot reports, the no-contact assertion when no
slot stays active, and the frame mark when a slot was reported. -/
theorem mxt_report_input_data_sink (d : mxt_data) :
    (mxt_report_input_data d).sink =
      ((List.range MXT_MAX_FINGER).foldl mxt_report_input_data_slot
        { d := d, count := 0, report_count := 0 }).d.sink ++
      (if ((List.range MXT_MAX_FINGER).foldl mxt_report_input_data_slot
            { d := d, count := 0, report_count := 0 }).count = 0
       then [input_event.input_report_key input_code.BTN_TOUCH 0,
             input_event.input_report_key input_code.BTN_TOOL_FINGER 0] else []) ++
      (if ((List.range MXT_MAX_FINGER).foldl mxt_report_input_data_slot
            { d := d, count := 0, report_count := 0 }).report_count > 0 ∧
          ((List.range MXT_MAX_FINGER).foldl mxt_report_input_data_slot
            { d := d, count := 0, report_count := 0 }).d.stop_sync = false
       then [input_event.input_sync] else []) := by
  unfold mxt_report_input_data
  generalize (List.range MXT_MAX_FINGER).foldl mxt_report_input_data_slot
    { d := d, count := 0, report_count := 0 } = s
  dsimp only
  split_ifs <;> simp_all

end Mxts

namespace Mxts

/-- C18.  Flush invariant of `mxt_report_input_data`.  The flush appends one
batch to the sink.  If every slot below `MXT_MAX_FINGER` is inactive after the
call, the batch holds the no-contact assertion, `BTN_TOUCH 0` followed by
`BTN_TOOL_FINGER 0`, and each of the two exactly once; if every slot was
already inactive before the call, the batch is that assertion alone; and if
some slot is still active after the call, the batch has no
`BTN_TOOL_FINGER 0`, so the assertion is not sent. -/
theorem mxt_report_input_data_no_contact (d : mxt_data) :
    ∃ batch, (mxt_report_input_data d).sink = d.sink ++ batch ∧
      ((∀ i, i < MXT_MAX_FINGER →
          ((mxt_report_input_data d).fingers i).state = mxt_finger_state.MXT_STATE_INACTIVE) →
        batch.count (input_event.input_report_key input_code.BTN_TOUCH 0) = 1 ∧
        batch.count (input_event.input_report_key input_code.BTN_TOOL_FINGER 0) = 1 ∧
        [input_event.input_report_key input_code.BTN_TOUCH 0,
         input_event.input_report_key input_code.BTN_TOOL_FINGER 0] <:+: batch) ∧
      ((∀ i, i < MXT_MAX_FINGER →
          (d.fingers i).state = mxt_finger_state.MXT_STATE_INACTIVE) →
        batch = [input_event.input_report_key input_code.BTN_TOUCH 0,
                 input_event.input_report_key input_code.BTN_TOOL_FINGER 0]) ∧
      ((∃ i, i < MXT_MAX_FINGER ∧
          ((mxt_report_input_data d).fingers i).state ≠ mxt_finger_state.MXT_STATE_INACTIVE) →
        input_event.input_report_key input_code.BTN_TOOL_FINGER 0 ∉ batch) := by
  obtain ⟨-, hiff, b, hb, hb1, hb2⟩ :=
    report_loop_sink MXT_MAX_FINGER { d := d, count := 0, report_count := 0 }
  have hafter : ∀ i, i < MXT_MAX_FINGER →
      (((mxt_report_input_data d).fingers i).state = mxt_finger_state.MXT_STATE_INACTIVE ↔
        ((d.fingers i).state = mxt_finger_state.MXT_STATE_INACTIVE ∨
         (d.fingers i).state = mxt_finger_state.MXT_STATE_RELEASE)) := by
    intro i hi
    rw [mxt_report_input_data_state, if_pos hi]
    split_ifs with h
    · simp [h]
    · simp [h]
  rw [mxt_report_input_data_sink]
  generalize hs : (List.range MXT_MAX_FINGER).foldl mxt_report_input_data_slot
    { d := d, count := 0, report_count := 0 } = s at hiff hb hb1 hb2
  dsimp only at hiff hb hb2
  refine ⟨b ++ (if s.count = 0
       then [input_event.input_report_key input_code.BTN_TOUCH 0,
             input_event.input_report_key input_code.BTN_TOOL_FINGER 0] else []) ++
      (if s.report_count > 0 ∧ s.d.stop_sync = false
       then [input_event.input_sync] else []), ?_, ?_, ?_, ?_⟩
  · rw [hb]; simp only [List.append_assoc]
  · intro hall
    have hc : s.count = 0 := hiff.mpr (fun i hi => (hafter i hi).mp (hall i hi))
    have t0 := hb2 hc
    rw [if_pos hc]
    refine ⟨?_, ?_, ?_⟩
    · simp only [List.count_append, List.count_eq_zero_of_not_mem t0]
      split_ifs <;> simp
    · simp only [List.count_append, List.count_eq_zero_of_not_mem hb1]
      split_ifs <;> simp
    · exact ⟨b, _, rfl⟩
  · intro hall
    have hidle := report_loop_idle MXT_MAX_FINGER { d := d, count := 0, report_count := 0 } hall
    rw [hs] at hidle
    subst hidle
    dsimp only at hb ⊢
    have hbnil : b = [] := by
      have := hb
      simpa using this
    subst hbnil
    simp
  · rintro ⟨i, hi, hne⟩
    have hc : s.count ≠ 0 := by
      intro hc
      exact hne ((hafter i hi).mpr (hiff.mp hc i hi))
    rw [if_neg hc]
    simp only [List.mem_append, not_or, List.append_nil]
    refine ⟨hb1, ?_⟩
    split_ifs <;> simp

/-- C18 on a device whose slot 0 is released and whose other slots are
inactive: the flush leaves every slot inactive and its batch holds the
no-contact assertion once. -/
theorem mxt_report_input_data_no_contact_witness :
    (∀ i, i < MXT_MAX_FINGER →
      ((mxt_report_input_data
          (device_with_fingers [{ state := mxt_finger_state.MXT_STATE_RELEASE }])).fingers
        i).state = mxt_finger_state.MXT_STATE_INACTIVE) ∧
    ∃ batch,
      (mxt_report_input_data
        (device_with_fingers [{ state := mxt_finger_state.MXT_STATE_RELEASE }])).sink =
        (device_with_fingers [{ state := mxt_finger_state.MXT_STATE_RELEASE }]).sink ++ batch ∧
      batch.count (input_event.input_report_key input_code.BTN_TOUCH 0) = 1 ∧
      batch.count (input_event.input_report_key input_code.BTN_TOOL_FINGER 0) = 1 ∧
      [input_event.input_report_key input_code.BTN_TOUCH 0,
       input_event.input_report_key input_code.BTN_TOOL_FINGER 0] <:+: batch :=
  ⟨by decide,
   (mxt_report_input_data_no_contact
      (device_with_fingers [{ state := mxt_finger_state.MXT_STATE_RELEASE }])).elim
     (fun b hb => ⟨b, hb.1, hb.2.1 (by decide)⟩)⟩

end Mxts

namespace Mxts

/-! ## The contact handlers -/

/-- A calibration request leaves the contact slots, the sink and the flush
counter alone. -/
theorem calibrate_chip_frame (d : mxt_data) :
    (calibrate_chip d).2.fingers = d.fingers ∧ (calibrate_chip d).2.sink = d.sink ∧
    (calibrate_chip d).2.report_calls = d.report_calls := by
  unfold calibrate_chip
  by_cases h : d.cal_busy = true
  · rw [if_pos h]; exact ⟨rfl, rfl, rfl⟩
  · rw [if_neg h]
    obtain ⟨k, -, e⟩ :=
      mxt_write_object_frame d MXT_GEN_COMMANDPROCESSOR_T6 MXT_COMMAND_CALIBRATE 1
    dsimp only
    rw [e]
    exact ⟨rfl, rfl, rfl⟩

/-- The scan of the pattern tracker leaves the contact slots, the sink and the
flush counter alone. -/
theorem mxt_check_coordinate_scan_frame (l : List Nat) (s : mxt_data) :
    (l.foldl mxt_check_coordinate_scan s).fingers = s.fingers ∧
    (l.foldl mxt_check_coordinate_scan s).sink = s.sink ∧
    (l.foldl mxt_check_coordinate_scan s).report_calls = s.report_calls := by
  induction l generalizing s with
  | nil => exact ⟨rfl, rfl, rfl⟩
  | cons a l ih =>
    rw [List.foldl_cons]
    obtain ⟨h1, h2, h3⟩ := ih (mxt_check_coordinate_scan s a)
    rw [h1, h2, h3]
    unfold mxt_check_coordinate_scan
    split_ifs
    · obtain ⟨c1, c2, c3⟩ := calibrate_chip_frame
        { s with Press_cnt := 0, Release_cnt := 0, Press_Release_check := 1, release_max := 3 }
      rw [c1, c2, c3]
      exact ⟨rfl, rfl, rfl⟩
    · exact ⟨rfl, rfl, rfl⟩

/-- The distance bookkeeping of the pattern tracker leaves the contact slots,
the sink and the flush counter alone. -/
theorem mxt_check_coordinate_track_frame (d : mxt_data) (detect id x y : Nat) :
    (mxt_check_coordinate_track d detect id x y).fingers = d.fingers ∧
    (mxt_check_coordinate_track d detect id x y).sink = d.sink ∧
    (mxt_check_coordinate_track d detect id x y).report_calls = d.report_calls := by
  unfold mxt_check_coordinate_track
  dsimp only
  repeat' split
  all_goals exact ⟨rfl, rfl, rfl⟩

/-- The pattern tracker leaves the contact slots, the sink and the flush
counter alone. -/
theorem mxt_check_coordinate_frame (d : mxt_data) (detect id x y : Nat) :
    (mxt_check_coordinate d detect id x y).fingers = d.fingers ∧
    (mxt_check_coordinate d detect id x y).sink = d.sink ∧
    (mxt_check_coordinate d detect id x y).report_calls = d.report_calls := by
  obtain ⟨t1, t2, t3⟩ := mxt_check_coordinate_track_frame d detect id x y
  unfold mxt_check_coordinate
  generalize mxt_check_coordinate_track d detect id x y = d1 at t1 t2 t3
  dsimp only
  repeat' split
  all_goals
    first
    | exact ⟨t1, t2, t3⟩
    | (rw [(mxt_check_coordinate_scan_frame _ _).1, (mxt_check_coordinate_scan_frame _ _).2.1,
        (mxt_check_coordinate_scan_frame _ _).2.2]
       exact ⟨t1, t2, t3⟩)

/-- State of every slot after `mxt_treat_T9_object`, by the branch the message
takes. -/
theorem mxt_treat_T9_object_state (d : mxt_data) (m : mxt_message) (i : Nat) :
    ((mxt_treat_T9_object d m).fingers i).state =
      if (d.reportids m.reportid).index ≥ MXT_MAX_FINGER then (d.fingers i).state
      else if msg_byte m 0 &&& MXT_RELEASE_MSG_MASK ≠ 0 then
        (if i < MXT_MAX_FINGER then
          (if i = (d.reportids m.reportid).index ∨
              (d.fingers i).state = mxt_finger_state.MXT_STATE_INACTIVE ∨
              (d.fingers i).state = mxt_finger_state.MXT_STATE_RELEASE
           then mxt_finger_state.MXT_STATE_INACTIVE else mxt_finger_state.MXT_STATE_MOVE)
         else (d.fingers i).state)
      else if msg_byte m 0 &&& MXT_DETECT_MSG_MASK ≠ 0 ∧
          msg_byte m 0 &&& (MXT_PRESS_MSG_MASK ||| MXT_MOVE_MSG_MASK) ≠ 0 then
        (if i = (d.reportids m.reportid).index ∧ msg_byte m 0 &&& MXT_PRESS_MSG_MASK ≠ 0
         then mxt_finger_state.MXT_STATE_PRESS else (d.fingers i).state)
      else if msg_byte m 0 &&& MXT_SUPPRESS_MSG_MASK ≠ 0 ∧
          (d.fingers (d.reportids m.reportid).index).state ≠
            mxt_finger_state.MXT_STATE_INACTIVE then
        (if i = (d.reportids m.reportid).index then mxt_finger_state.MXT_STATE_RELEASE
         else (d.fingers i).state)
      else (d.fingers i).state := by
  unfold mxt_treat_T9_object
  dsimp only
  by_cases h0 : (d.reportids m.reportid).index ≥ MXT_MAX_FINGER
  · rw [if_pos h0, if_pos h0]
  · rw [if_neg h0, if_neg h0]
    by_cases h1 : msg_byte m 0 &&& MXT_RELEASE_MSG_MASK ≠ 0
    · rw [if_pos h1, if_pos h1, mxt_report_input_data_state]
      by_cases hi : i < MXT_MAX_FINGER
      · rw [if_pos hi, if_pos hi]
        by_cases hc : d.CHECK_ANTITOUCH = true
        · by_cases hid : i = (d.reportids m.reportid).index
          · subst hid
            simp [set_finger, hc]
          · simp [set_finger, hc, hid]
        · by_cases hid : i = (d.reportids m.reportid).index
          · subst hid
            simp [set_finger, hc]
          · simp [set_finger, hc, hid]
      · rw [if_neg hi, if_neg hi]
        have hid : i ≠ (d.reportids m.reportid).index := by omega
        by_cases hc : d.CHECK_ANTITOUCH = true
        · simp [set_finger, hc, hid]
        · simp [set_finger, hc, hid]
    · rw [if_neg h1, if_neg h1]
      have hcf : ∀ (D : mxt_data) (a b c e : Nat),
          (mxt_check_coordinate D a b c e).fingers = D.fingers :=
        fun D a b c e => (mxt_check_coordinate_frame D a b c e).1
      by_cases h2 : msg_byte m 0 &&& MXT_DETECT_MSG_MASK ≠ 0 ∧
          msg_byte m 0 &&& (MXT_PRESS_MSG_MASK ||| MXT_MOVE_MSG_MASK) ≠ 0
      · rw [if_pos h2, if_pos h2]
        by_cases hp : msg_byte m 0 &&& MXT_PRESS_MSG_MASK ≠ 0
        · rw [if_pos hp]
          by_cases hc : d.CHECK_ANTITOUCH = true <;>
            by_cases hid : i = (d.reportids m.reportid).index <;>
              simp [set_finger, hc, hid, hp, hcf]
        · rw [if_neg hp]
          by_cases hmv : msg_byte m 0 &&& MXT_MOVE_MSG_MASK ≠ 0
          · rw [if_pos hmv]
            by_cases hc : d.CHECK_ANTITOUCH = true <;>
              by_cases hid : i = (d.reportids m.reportid).index <;>
                simp [set_finger, hc, hid, hp, hcf]
          · rw [if_neg hmv]
            by_cases hid : i = (d.reportids m.reportid).index <;>
              simp [set_finger, hid, hp]
      · rw [if_neg h2, if_neg h2]
        by_cases h3 : msg_byte m 0 &&& MXT_SUPPRESS_MSG_MASK ≠ 0 ∧
            (d.fingers (d.reportids m.reportid).index).state ≠
              mxt_finger_state.MXT_STATE_INACTIVE
        · rw [if_pos h3, if_pos h3]
          by_cases hid : i = (d.reportids m.reportid).index <;>
            simp [set_finger, hid]
        · rw [if_neg h3, if_neg h3]


/-- State of every slot after `mxt_treat_T100_object`, by the branch the
message takes. -/
theorem mxt_treat_T100_object_state (d : mxt_data) (m : mxt_message) (i : Nat) :
    ((mxt_treat_T100_object d m).fingers i).state =
      if (d.reportids m.reportid).index % 256 < MXT_T100_SCREEN_MESSAGE_NUM_RPT_ID then
        (d.fingers i).state
      else if (msg_byte m 0 &&& 0x70) >>> 4 = MXT_T100_TYPE_FINGER ∨
          (msg_byte m 0 &&& 0x70) >>> 4 = MXT_T100_TYPE_PASSIVE_STYLUS ∨
          (msg_byte m 0 &&& 0x70) >>> 4 = MXT_T100_TYPE_HOVERING_FINGER then
        if (msg_byte m 0 >>> MXT_T100_DETECT_MSG_MASK) % 256 = 0 then
          if msg_byte m 0 &&& 0x0F = MXT_T100_EVENT_UP ∨
              msg_byte m 0 &&& 0x0F = MXT_T100_EVENT_SUPPESS then
            (if i < MXT_MAX_FINGER then
              (if i = ((d.reportids m.reportid).index % 256 -
                    MXT_T100_SCREEN_MESSAGE_NUM_RPT_ID) % 256 ∨
                  (d.fingers i).state = mxt_finger_state.MXT_STATE_INACTIVE ∨
                  (d.fingers i).state = mxt_finger_state.MXT_STATE_RELEASE
               then mxt_finger_state.MXT_STATE_INACTIVE else mxt_finger_state.MXT_STATE_MOVE)
             else if i = ((d.reportids m.reportid).index % 256 -
                    MXT_T100_SCREEN_MESSAGE_NUM_RPT_ID) % 256
               then mxt_finger_state.MXT_STATE_RELEASE else (d.fingers i).state)
          else (d.fingers i).state
        else if msg_byte m 0 &&& 0x0F = MXT_T100_EVENT_DOWN ∨
            msg_byte m 0 &&& 0x0F = MXT_T100_EVENT_UNSUPPRESS ∨
            msg_byte m 0 &&& 0x0F = MXT_T100_EVENT_MOVE ∨
            msg_byte m 0 &&& 0x0F = MXT_T100_EVENT_NONE then
          (if i < MXT_MAX_FINGER then
            (if i = ((d.reportids m.reportid).index % 256 -
                  MXT_T100_SCREEN_MESSAGE_NUM_RPT_ID) % 256 then mxt_finger_state.MXT_STATE_MOVE
             else if (d.fingers i).state = mxt_finger_state.MXT_STATE_INACTIVE ∨
                  (d.fingers i).state = mxt_finger_state.MXT_STATE_RELEASE
               then mxt_finger_state.MXT_STATE_INACTIVE else mxt_finger_state.MXT_STATE_MOVE)
           else if i = ((d.reportids m.reportid).index % 256 -
                  MXT_T100_SCREEN_MESSAGE_NUM_RPT_ID) % 256
             then (if msg_byte m 0 &&& 0x0F = MXT_T100_EVENT_DOWN ∨
                      msg_byte m 0 &&& 0x0F = MXT_T100_EVENT_UNSUPPRESS
                   then mxt_finger_state.MXT_STATE_PRESS else mxt_finger_state.MXT_STATE_MOVE)
             else (d.fingers i).state)
        else (d.fingers i).state
      else (d.fingers i).state := by
  unfold mxt_treat_T100_object
  dsimp only
  by_cases h0 : (d.reportids m.reportid).index % 256 < MXT_T100_SCREEN_MESSAGE_NUM_RPT_ID
  · rw [if_pos h0, if_pos h0]
    split <;> rfl
  · rw [if_neg h0, if_neg h0]
    by_cases ht : (msg_byte m 0 &&& 0x70) >>> 4 = MXT_T100_TYPE_FINGER ∨
          (msg_byte m 0 &&& 0x70) >>> 4 = MXT_T100_TYPE_PASSIVE_STYLUS ∨
          (msg_byte m 0 &&& 0x70) >>> 4 = MXT_T100_TYPE_HOVERING_FINGER
    · rw [if_pos ht, if_pos ht]
      by_cases hd : (msg_byte m 0 >>> MXT_T100_DETECT_MSG_MASK) % 256 = 0
      · rw [if_pos hd, if_pos hd]
        by_cases he : msg_byte m 0 &&& 0x0F = MXT_T100_EVENT_UP ∨
              msg_byte m 0 &&& 0x0F = MXT_T100_EVENT_SUPPESS
        · rw [if_pos he, if_pos he, mxt_report_input_data_state]
          by_cases hi : i < MXT_MAX_FINGER <;>
            by_cases hid : i = ((d.reportids m.reportid).index % 256 -
                    MXT_T100_SCREEN_MESSAGE_NUM_RPT_ID) % 256 <;>
              simp [set_finger, hi, hid]
        · rw [if_neg he, if_neg he]
      · rw [if_neg hd, if_neg hd]
        by_cases he : msg_byte m 0 &&& 0x0F = MXT_T100_EVENT_DOWN ∨
            msg_byte m 0 &&& 0x0F = MXT_T100_EVENT_UNSUPPRESS ∨
            msg_byte m 0 &&& 0x0F = MXT_T100_EVENT_MOVE ∨
            msg_byte m 0 &&& 0x0F = MXT_T100_EVENT_NONE
        · rw [if_pos he, if_pos he]
          by_cases hp : msg_byte m 0 &&& 0x0F = MXT_T100_EVENT_DOWN ∨
                      msg_byte m 0 &&& 0x0F = MXT_T100_EVENT_UNSUPPRESS
          · rw [if_pos hp, mxt_report_input_data_state]
            by_cases hi : i < MXT_MAX_FINGER <;>
              by_cases hid : i = ((d.reportids m.reportid).index % 256 -
                      MXT_T100_SCREEN_MESSAGE_NUM_RPT_ID) % 256 <;>
                simp [set_finger, hi, hid, hp]
          · rw [if_neg hp, mxt_report_input_data_state]
            by_cases hi : i < MXT_MAX_FINGER <;>
              by_cases hid : i = ((d.reportids m.reportid).index % 256 -
                      MXT_T100_SCREEN_MESSAGE_NUM_RPT_ID) % 256 <;>
                simp [set_finger, hi, hid, hp]
        · rw [if_neg he, if_neg he]
    · rw [if_neg ht, if_neg ht]

end Mxts

namespace Mxts

/-! ## Contact lifecycle -/

/-- A release message for an inactive slot is not ignored: the T9 handler
(release bit, slot 0) and the T100 handler (event UP without detect, contact 0)
both report the slot as released to the sink although it was inactive
immediately before the message; the slot is inactive again afterwards. -/
theorem mxt_treat_release_of_inactive_slot :
    ((device_with_fingers []).fingers 0).state = mxt_finger_state.MXT_STATE_INACTIVE ∧
    (mxt_treat_T9_object (device_with_fingers [])
        { reportid := 2, message := [0x20, 0, 0, 0, 7, 0, 0, 0] }).sink =
      [input_event.input_mt_slot 0, input_event.input_mt_report_slot_state false,
       input_event.input_report_key input_code.BTN_TOUCH 0,
       input_event.input_report_key input_code.BTN_TOOL_FINGER 0, input_event.input_sync] ∧
    ((device_T100_with_fingers []).fingers 0).state = mxt_finger_state.MXT_STATE_INACTIVE ∧
    (mxt_treat_T100_object (device_T100_with_fingers [])
        { reportid := 4, message := [0x15, 0, 0, 0, 0, 0, 0, 0] }).sink =
      [input_event.input_mt_slot 0, input_event.input_mt_report_slot_state false,
       input_event.input_report_key input_code.BTN_TOUCH 0,
       input_event.input_report_key input_code.BTN_TOOL_FINGER 0, input_event.input_sync] := by
  decide

/-- C14 (as the code has it).  After a step of `mxt_treat_T9_object` a slot
below `MXT_MAX_FINGER` is in state released only if it was pressed, moving or
already released immediately before the message, never if it was inactive;
after a step of `mxt_treat_T100_object` it is released only if it was released
before.  (A release message still passes an inactive slot through the released
state inside the step: the flush reports it and returns it to inactive.) -/
theorem mxt_treat_release_rule (d : mxt_data) (m : mxt_message) (i : Nat)
    (hi : i < MXT_MAX_FINGER) :
    (((mxt_treat_T9_object d m).fingers i).state = mxt_finger_state.MXT_STATE_RELEASE →
      ((d.fingers i).state = mxt_finger_state.MXT_STATE_PRESS ∨
       (d.fingers i).state = mxt_finger_state.MXT_STATE_MOVE ∨
       (d.fingers i).state = mxt_finger_state.MXT_STATE_RELEASE)) ∧
    (((mxt_treat_T100_object d m).fingers i).state = mxt_finger_state.MXT_STATE_RELEASE →
      (d.fingers i).state = mxt_finger_state.MXT_STATE_RELEASE) := by
  constructor
  · rw [mxt_treat_T9_object_state]
    intro h
    cases hst : (d.fingers i).state
    · rw [hst] at h
      split_ifs at h
      simp_all
    · exact Or.inr (Or.inr rfl)
    · exact Or.inl rfl
    · exact Or.inr (Or.inl rfl)
  · rw [mxt_treat_T100_object_state]
    intro h
    split_ifs at h <;> exact h

/-- C14 on a pressed slot 0 and a T9 suppress message for it: the slot is
released afterwards and was pressed before. -/
theorem mxt_treat_release_rule_witness :
    ((mxt_treat_T9_object (device_with_fingers [{ state := mxt_finger_state.MXT_STATE_PRESS }])
        { reportid := 2, message := [0x02, 0, 0, 0, 7, 0, 0, 0] }).fingers 0).state =
      mxt_finger_state.MXT_STATE_RELEASE ∧
    (((device_with_fingers [{ state := mxt_finger_state.MXT_STATE_PRESS }]).fingers 0).state =
        mxt_finger_state.MXT_STATE_PRESS ∨
     ((device_with_fingers [{ state := mxt_finger_state.MXT_STATE_PRESS }]).fingers 0).state =
        mxt_finger_state.MXT_STATE_MOVE ∨
     ((device_with_fingers [{ state := mxt_finger_state.MXT_STATE_PRESS }]).fingers 0).state =
        mxt_finger_state.MXT_STATE_RELEASE) :=
  ⟨by decide,
   (mxt_treat_release_rule (device_with_fingers [{ state := mxt_finger_state.MXT_STATE_PRESS }])
      { reportid := 2, message := [0x02, 0, 0, 0, 7, 0, 0, 0] } 0 (by decide)).1 (by decide)⟩

/-- A T100 message with detect set takes an inactive slot straight to moving:
with event MOVE the handler stores the moving state itself, with event DOWN it
stores pressed and the flush it calls makes that moving.  Both report the slot
as an active contact. -/
theorem mxt_treat_T100_object_inactive_to_move :
    ((device_T100_with_fingers []).fingers 0).state = mxt_finger_state.MXT_STATE_INACTIVE ∧
    ((mxt_treat_T100_object (device_T100_with_fingers [])
        { reportid := 4, message := [0x91, 0x34, 0x01, 0x78, 0x02, 0, 30, 5] }).fingers 0).state =
      mxt_finger_state.MXT_STATE_MOVE ∧
    (mxt_treat_T100_object (device_T100_with_fingers [])
        { reportid := 4, message := [0x91, 0x34, 0x01, 0x78, 0x02, 0, 30, 5] }).sink =
      [input_event.input_mt_slot 0, input_event.input_mt_report_slot_state true,
       input_event.input_report_abs input_code.ABS_MT_POSITION_X 0x134,
       input_event.input_report_abs input_code.ABS_MT_POSITION_Y 0x278,
       input_event.input_report_abs input_code.ABS_MT_TOUCH_MAJOR 5,
       input_event.input_report_abs input_code.ABS_MT_PRESSURE 30,
       input_event.input_report_key input_code.BTN_TOOL_FINGER 1,
       input_event.input_report_key input_code.BTN_TOUCH 1, input_event.input_sync] ∧
    ((mxt_treat_T100_object (device_T100_with_fingers [])
        { reportid := 4, message := [0x94, 0x34, 0x01, 0x78, 0x02, 0, 30, 5] }).fingers 0).state =
      mxt_finger_state.MXT_STATE_MOVE := by
  decide

/-- C15 (as the code has it).  A step of `mxt_treat_T9_object` never takes an
inactive slot to moving.  A step of `mxt_treat_T100_object` takes an inactive
slot to moving only if it is the slot the message addresses and the detect bit
is set; and it always does so when the message addresses a slot below
`MXT_MAX_FINGER` with a finger, passive-stylus or hovering type, the detect bit
set and one of the events DOWN, UNSUPPRESS, MOVE, NONE. -/
theorem mxt_treat_move_rule (d : mxt_data) (m : mxt_message) (i : Nat)
    (h : (d.fingers i).state = mxt_finger_state.MXT_STATE_INACTIVE) :
    ((mxt_treat_T9_object d m).fingers i).state ≠ mxt_finger_state.MXT_STATE_MOVE ∧
    (((mxt_treat_T100_object d m).fingers i).state = mxt_finger_state.MXT_STATE_MOVE →
      i = ((d.reportids m.reportid).index % 256 - MXT_T100_SCREEN_MESSAGE_NUM_RPT_ID) % 256 ∧
      (msg_byte m 0 >>> MXT_T100_DETECT_MSG_MASK) % 256 ≠ 0) ∧
    (i < MXT_MAX_FINGER →
      i = ((d.reportids m.reportid).index % 256 - MXT_T100_SCREEN_MESSAGE_NUM_RPT_ID) % 256 →
      ¬ (d.reportids m.reportid).index % 256 < MXT_T100_SCREEN_MESSAGE_NUM_RPT_ID →
      ((msg_byte m 0 &&& 0x70) >>> 4 = MXT_T100_TYPE_FINGER ∨
        (msg_byte m 0 &&& 0x70) >>> 4 = MXT_T100_TYPE_PASSIVE_STYLUS ∨
        (msg_byte m 0 &&& 0x70) >>> 4 = MXT_T100_TYPE_HOVERING_FINGER) →
      (msg_byte m 0 >>> MXT_T100_DETECT_MSG_MASK) % 256 ≠ 0 →
      (msg_byte m 0 &&& 0x0F = MXT_T100_EVENT_DOWN ∨
        msg_byte m 0 &&& 0x0F = MXT_T100_EVENT_UNSUPPRESS ∨
        msg_byte m 0 &&& 0x0F = MXT_T100_EVENT_MOVE ∨
        msg_byte m 0 &&& 0x0F = MXT_T100_EVENT_NONE) →
      ((mxt_treat_T100_object d m).fingers i).state = mxt_finger_state.MXT_STATE_MOVE) := by
  refine ⟨?_, ?_, ?_⟩
  · rw [mxt_treat_T9_object_state, h]
    split_ifs <;> simp_all
  · rw [mxt_treat_T100_object_state, h]
    intro hm
    split_ifs at hm <;> simp_all
  · intro hi hid h0 ht hd he
    rw [mxt_treat_T100_object_state, if_neg h0, if_pos ht, if_neg hd, if_pos he, if_pos hi,
      if_pos hid]

/-- C15 on a device with every slot inactive and a T100 MOVE message for
contact 0: the slot is moving after the step. -/
theorem mxt_treat_move_rule_witness :
    ((device_T100_with_fingers []).fingers 0).state = mxt_finger_state.MXT_STATE_INACTIVE ∧
    ((mxt_treat_T100_object (device_T100_with_fingers [])
        { reportid := 4, message := [0x91, 0x34, 0x01, 0x78, 0x02, 0, 30, 5] }).fingers 0).state =
      mxt_finger_state.MXT_STATE_MOVE :=
  ⟨by decide,
   (mxt_treat_move_rule (device_T100_with_fingers [])
      { reportid := 4, message := [0x91, 0x34, 0x01, 0x78, 0x02, 0, 30, 5] } 0 (by decide)).2.2
     (by decide) (by decide) (by decide) (by decide) (by decide) (by decide)⟩

end Mxts

namespace Mxts

/-! ## Slot bound and coordinates -/

set_option maxRecDepth 1000000

/-- The T9 handler rejects a message whose slot index is not below
`MXT_MAX_FINGER`: the state is left as it was. -/
theorem mxt_treat_T9_object_rejects (d : mxt_data) (m : mxt_message)
    (h : (d.reportids m.reportid).index ≥ MXT_MAX_FINGER) :
    mxt_treat_T9_object d m = d := by
  unfold mxt_treat_T9_object
  dsimp only
  rw [if_pos h]

/-- C16 fails for the T100 handler.  On a T100 object with sixteen contact
report-IDs, a DOWN message on report-ID 14 decodes to slot 14 - 2 - 2 = 10,
which is not below `MXT_MAX_FINGER`; the handler does not reject it but stores
the contact in `fingers[10]`, past the end of the slot array, where the flush
never reaches it: it stays pressed. -/
theorem mxt_treat_T100_object_slot_beyond_bound :
    (((device_T100_with_fingers []).reportids 14).index % 256 -
        MXT_T100_SCREEN_MESSAGE_NUM_RPT_ID) % 256 = 10 ∧
    10 ≥ MXT_MAX_FINGER ∧
    (device_T100_with_fingers []).fingers 10 = {} ∧
    (mxt_treat_T100_object (device_T100_with_fingers [])
        { reportid := 14, message := [0x94, 0x34, 0x12, 0x78, 0x06, 0, 30, 5] }).fingers 10 =
      { state := mxt_finger_state.MXT_STATE_PRESS, x := 0x1234, y := 0x678, w := 5, z := 30,
        mcount := 0, type := 1, event := 4, component := 0 } := by
  decide

/-- The press-or-move test of the T9 handler succeeds when either bit is set. -/
theorem press_or_move_bits : ∀ a, a < 256 →
    (a &&& MXT_PRESS_MSG_MASK ≠ 0 ∨ a &&& MXT_MOVE_MSG_MASK ≠ 0) →
    a &&& (MXT_PRESS_MSG_MASK ||| MXT_MOVE_MSG_MASK) ≠ 0 := by
  decide

/-- C17.  For a T9 message with the release bit clear, the detect bit set and
the press or the move bit set, for a slot below `MXT_MAX_FINGER`, the handler
stores x = ((msg[1] << 4) | (msg[3] >> 4)) >> sx and
y = ((msg[2] << 4) | (msg[3] & 0xF)) >> sy, where sx is 2 if `max_x` is below
1024 and 0 otherwise, and sy likewise for `max_y`; so x and y are at most
4095, and at most 1023 on an axis whose maximum is below 1024. -/
theorem mxt_treat_T9_object_coordinates (d : mxt_data) (m : mxt_message)
    (hid : (d.reportids m.reportid).index < MXT_MAX_FINGER)
    (hrel : msg_byte m 0 &&& MXT_RELEASE_MSG_MASK = 0)
    (hdet : msg_byte m 0 &&& MXT_DETECT_MSG_MASK ≠ 0)
    (hpm : msg_byte m 0 &&& MXT_PRESS_MSG_MASK ≠ 0 ∨ msg_byte m 0 &&& MXT_MOVE_MSG_MASK ≠ 0) :
    ((mxt_treat_T9_object d m).fingers (d.reportids m.reportid).index).x =
      ((msg_byte m 1 <<< 4) ||| (msg_byte m 3 >>> 4)) >>> (if d.max_x < 1024 then 2 else 0) ∧
    ((mxt_treat_T9_object d m).fingers (d.reportids m.reportid).index).y =
      ((msg_byte m 2 <<< 4) ||| (msg_byte m 3 &&& 0xF)) >>> (if d.max_y < 1024 then 2 else 0) ∧
    ((mxt_treat_T9_object d m).fingers (d.reportids m.reportid).index).x ≤ 4095 ∧
    ((mxt_treat_T9_object d m).fingers (d.reportids m.reportid).index).y ≤ 4095 ∧
    (d.max_x < 1024 →
      ((mxt_treat_T9_object d m).fingers (d.reportids m.reportid).index).x ≤ 1023) ∧
    (d.max_y < 1024 →
      ((mxt_treat_T9_object d m).fingers (d.reportids m.reportid).index).y ≤ 1023) := by
  have hb : ∀ k, msg_byte m k < 256 := fun k => Nat.mod_lt _ (by decide)
  have hpm2 := press_or_move_bits (msg_byte m 0) (hb 0) hpm
  have hcf : ∀ (D : mxt_data) (a b c e : Nat),
      (mxt_check_coordinate D a b c e).fingers = D.fingers :=
    fun D a b c e => (mxt_check_coordinate_frame D a b c e).1
  have hx0 : (msg_byte m 1 <<< 4) ||| (msg_byte m 3 >>> 4) < 2 ^ 12 := by
    apply Nat.or_lt_two_pow
    · rw [Nat.shiftLeft_eq]; have := hb 1; omega
    · rw [Nat.shiftRight_eq_div_pow]; have := hb 3; omega
  have hy0 : (msg_byte m 2 <<< 4) ||| (msg_byte m 3 &&& 0xF) < 2 ^ 12 := by
    apply Nat.or_lt_two_pow
    · rw [Nat.shiftLeft_eq]; have := hb 2; omega
    · have := @Nat.and_le_right (msg_byte m 3) 0xF; omega
  have key :
      ((mxt_treat_T9_object d m).fingers (d.reportids m.reportid).index).x =
        (if d.max_x < 1024 then ((msg_byte m 1 <<< 4) ||| (msg_byte m 3 >>> 4)) >>> 2
         else (msg_byte m 1 <<< 4) ||| (msg_byte m 3 >>> 4)) ∧
      ((mxt_treat_T9_object d m).fingers (d.reportids m.reportid).index).y =
        (if d.max_y < 1024 then ((msg_byte m 2 <<< 4) ||| (msg_byte m 3 &&& 0xF)) >>> 2
         else (msg_byte m 2 <<< 4) ||| (msg_byte m 3 &&& 0xF)) := by
    unfold mxt_treat_T9_object
    dsimp only
    rw [if_neg (not_le.mpr hid), if_neg (not_not.mpr hrel), if_pos ⟨hdet, hpm2⟩]
    by_cases hp : msg_byte m 0 &&& MXT_PRESS_MSG_MASK ≠ 0
    · rw [if_pos hp]
      by_cases hc : d.CHECK_ANTITOUCH = true <;> simp [set_finger, hc, hcf]
    · rw [if_neg hp]
      by_cases hmv : msg_byte m 0 &&& MXT_MOVE_MSG_MASK ≠ 0
      · rw [if_pos hmv]
        by_cases hc : d.CHECK_ANTITOUCH = true <;> simp [set_finger, hc, hcf]
      · rw [if_neg hmv]
        simp [set_finger]
  obtain ⟨kx, ky⟩ := key
  rw [kx, ky]
  refine ⟨?_, ?_, ?_, ?_, ?_, ?_⟩
  · split_ifs <;> simp
  · split_ifs <;> simp
  · split_ifs
    · rw [Nat.shiftRight_eq_div_pow]; omega
    · omega
  · split_ifs
    · rw [Nat.shiftRight_eq_div_pow]; omega
    · omega
  · intro h
    rw [if_pos h, Nat.shiftRight_eq_div_pow]; omega
  · intro h
    rw [if_pos h, Nat.shiftRight_eq_div_pow]; omega

/-- C17 on a T9 press message for slot 0 with position bytes 0xAB, 0xCD, 0xEF
on a panel of 800 by 1280: x is 0xABE >> 2 = 687 and y is 0xCDF = 3295. -/
theorem mxt_treat_T9_object_coordinates_witness :
    ((mxt_treat_T9_object (device_with_resolution 800 1280)
        { reportid := 2, message := [0xC0, 0xAB, 0xCD, 0xEF, 9, 40, 0, 0] }).fingers 0).x = 687 ∧
    ((mxt_treat_T9_object (device_with_resolution 800 1280)
        { reportid := 2, message := [0xC0, 0xAB, 0xCD, 0xEF, 9, 40, 0, 0] }).fingers 0).y = 3295 ∧
    ((mxt_treat_T9_object (device_with_resolution 800 1280)
        { reportid := 2, message := [0xC0, 0xAB, 0xCD, 0xEF, 9, 40, 0, 0] }).fingers 0).x ≤ 1023 :=
  ⟨(mxt_treat_T9_object_coordinates (device_with_resolution 800 1280)
      { reportid := 2, message := [0xC0, 0xAB, 0xCD, 0xEF, 9, 40, 0, 0] }
      (by decide) (by decide) (by decide) (Or.inl (by decide))).1,
   by decide, by decide⟩

end Mxts

namespace Mxts

/-! ## Flushes of one drain pass -/

set_option maxRecDepth 1000000

/-- An iteration of the drain loop does not itself call the flush: its events
hold no `report_input_data`. -/
theorem mxt_irq_iteration_no_flush (H : mxt_handlers) (d : mxt_data) (message : mxt_message) :
    irq_event.report_input_data ∉ (mxt_irq_iteration H d message).events := by
  intro h
  by_cases h1 : (mxt_read_message d message).1 = 0
  · by_cases h2 : (mxt_read_message d message).2.1.reportid >
        (mxt_read_message d message).2.2.max_reportid
    · rw [mxt_irq_iteration_overflow H d message h1 h2] at h
      simp at h
    · by_cases h3 : ((mxt_read_message d message).2.2.reportids
          (mxt_read_message d message).2.1.reportid).type = MXT_RESERVED_T0
      · rw [mxt_irq_iteration_reserved H d message h1 h2 h3] at h
        simp at h
      · obtain ⟨⟨v, hev⟩, _⟩ := mxt_irq_iteration_dispatch H d message h1 h2 h3
        rw [hev] at h
        simp only [List.mem_append, List.mem_singleton, List.mem_cons, List.not_mem_nil,
          or_false] at h
        rcases h with (((h | h) | h) | h) | h
        · cases h
        · cases h
        · rcases mxt_irq_dispatch_events H _ _ _ _ h with h | h <;> cases h
        · split_ifs at h <;> simp at h
        · cases h
  · rw [mxt_irq_iteration_read_failed H d message h1] at h
    simp at h

/-- An iteration that leaves the drain loop ends with a poll of the CHG line
that returned true. -/
theorem mxt_irq_iteration_leave (H : mxt_handlers) (d : mxt_data) (message : mxt_message)
    (h : (mxt_irq_iteration H d message).next = irq_next.leave) :
    ∃ pre, (mxt_irq_iteration H d message).events = pre ++ [irq_event.read_chg true] := by
  by_cases h1 : (mxt_read_message d message).1 = 0
  · by_cases h2 : (mxt_read_message d message).2.1.reportid >
        (mxt_read_message d message).2.2.max_reportid
    · rw [mxt_irq_iteration_overflow H d message h1 h2] at h
      cases h
    · by_cases h3 : ((mxt_read_message d message).2.2.reportids
          (mxt_read_message d message).2.1.reportid).type = MXT_RESERVED_T0
      · rw [mxt_irq_iteration_reserved H d message h1 h2 h3] at h
        cases h
      · unfold mxt_irq_iteration at h ⊢
        dsimp only at h ⊢
        rw [if_neg (not_not.mpr h1), if_neg h2, if_neg h3] at h ⊢
        dsimp only at h ⊢
        generalize (if H.tsp_patch = true then H.mxt_patch_message _ _ else _ : mxt_data) = p
          at h ⊢
        by_cases hc : p.read_chg p.chg_polls = false
        · rw [if_pos hc] at h
          cases h
        · rw [Bool.not_eq_false] at hc
          rw [hc]
          exact ⟨_, rfl⟩
  · rw [mxt_irq_iteration_read_failed H d message h1] at h
    cases h

/-- In every pass of the drain loop the loop's own flush is called at most
once, as the last step, right after a poll of the CHG line returned true. -/
theorem mxt_irq_loop_flushes_once (H : mxt_handlers) :
    ∀ (fuel : Nat) (d : mxt_data) (message : mxt_message) (out : mxt_data × List irq_event),
      mxt_irq_loop H fuel d message = some out →
      out.2.count irq_event.report_input_data ≤ 1 ∧
      (irq_event.report_input_data ∈ out.2 →
        ∃ pre, out.2 = pre ++ [irq_event.read_chg true, irq_event.report_input_data]) := by
  intro fuel
  induction fuel with
  | zero => intro d message out h; simp [mxt_irq_loop] at h
  | succ n ih =>
    intro d message out h
    have hno := mxt_irq_iteration_no_flush H d message
    unfold mxt_irq_loop at h
    cases hn : (mxt_irq_iteration H d message).next with
    | goto_end =>
      simp only [hn] at h
      injection h with h; subst h
      exact ⟨by rw [List.count_eq_zero_of_not_mem hno]; omega, fun hm => absurd hm hno⟩
    | again =>
      simp only [hn] at h
      cases hq : mxt_irq_loop H n (mxt_irq_iteration H d message).d
          (mxt_irq_iteration H d message).message with
      | none => rw [hq] at h; simp at h
      | some q =>
        rw [hq] at h
        simp only [Option.map_some'] at h
        injection h with h; subst h
        obtain ⟨c, hm⟩ := ih _ _ q hq
        refine ⟨?_, ?_⟩
        · dsimp only
          rw [List.count_append, List.count_eq_zero_of_not_mem hno]
          omega
        · intro hmem
          dsimp only at hmem ⊢
          rcases List.mem_append.mp hmem with h1 | h1
          · exact absurd h1 hno
          · obtain ⟨pre, hpre⟩ := hm h1
            exact ⟨(mxt_irq_iteration H d message).events ++ pre, by
              rw [hpre, List.append_assoc]⟩
    | leave =>
      obtain ⟨pre, hpre⟩ := mxt_irq_iteration_leave H d message hn
      simp only [hn] at h
      split_ifs at h
      · injection h with h; subst h
        refine ⟨?_, ?_⟩
        · dsimp only
          rw [List.count_append, List.count_eq_zero_of_not_mem hno]
          simp
        · intro _
          exact ⟨pre, by dsimp only; rw [hpre, List.append_assoc]; rfl⟩
      · injection h with h; subst h
        exact ⟨by rw [List.count_eq_zero_of_not_mem hno]; omega, fun hm => absurd hm hno⟩

/-- One drain pass can flush more than once, and before the pending signal has
gone false.  Two T9 release messages for slot 0 are pending; the handler
flushes on each of them, the first time while the CHG line still reports a
pending message: `mxt_report_input_data` runs twice in the pass and the sink
receives two batches. -/
theorem mxt_irq_thread_flushes_twice :
    (mxt_irq_thread contact_handlers 2 device_two_releases).map
        (fun q => (q.1.report_calls, q.1.sink, q.2)) =
      some (2,
        [input_event.input_mt_slot 0, input_event.input_mt_report_slot_state false,
         input_event.input_report_key input_code.BTN_TOUCH 0,
         input_event.input_report_key input_code.BTN_TOOL_FINGER 0, input_event.input_sync,
         input_event.input_mt_slot 0, input_event.input_mt_report_slot_state false,
         input_event.input_report_key input_code.BTN_TOUCH 0,
         input_event.input_report_key input_code.BTN_TOOL_FINGER 0, input_event.input_sync],
        [irq_event.read_message 0 2, irq_event.index_reportids 2 3, irq_event.treat 9,
         irq_event.read_chg false,
         irq_event.read_message 0 2, irq_event.index_reportids 2 3, irq_event.treat 9,
         irq_event.read_chg true]) := by
  decide

/-- An option that holds a value is `some` of what `getD` extracts. -/
theorem option_eq_some_getD {α : Type} (x : Option α) (a : α) (h : x.isSome = true) :
    x = some (x.getD a) := by
  cases x with
  | none => simp at h
  | some v => rfl

/-- When the loop's own flush happens.  The pass ends with a last iteration,
started in some state `dl` with the message variable holding `ml`, that does
not go round again.  The flush is called exactly when that iteration left the
loop (its poll of the CHG line returned true) and `finger_mask` is non-zero in
the state the iteration left; it is applied to that state and is the last
event.  Otherwise the pass ends in the state the last iteration left. -/
theorem mxt_irq_loop_flush_condition (H : mxt_handlers) :
    ∀ (fuel : Nat) (d : mxt_data) (message : mxt_message) (out : mxt_data × List irq_event),
      mxt_irq_loop H fuel d message = some out →
      ∃ (dl : mxt_data) (ml : mxt_message) (pre : List irq_event),
        (mxt_irq_iteration H dl ml).next ≠ irq_next.again ∧
        (irq_event.report_input_data ∈ out.2 ↔
          ((mxt_irq_iteration H dl ml).next = irq_next.leave ∧
            (mxt_irq_iteration H dl ml).d.finger_mask ≠ 0)) ∧
        (irq_event.report_input_data ∈ out.2 →
          out.1 = H.mxt_report_input_data (mxt_irq_iteration H dl ml).d ∧
          out.2 = pre ++ (mxt_irq_iteration H dl ml).events ++
            [irq_event.report_input_data]) ∧
        (irq_event.report_input_data ∉ out.2 →
          out.1 = (mxt_irq_iteration H dl ml).d ∧
          out.2 = pre ++ (mxt_irq_iteration H dl ml).events) := by
  intro fuel
  induction fuel with
  | zero => intro d message out h; simp [mxt_irq_loop] at h
  | succ n ih =>
    intro d message out h
    have hno := mxt_irq_iteration_no_flush H d message
    unfold mxt_irq_loop at h
    cases hn : (mxt_irq_iteration H d message).next with
    | goto_end =>
      simp only [hn] at h
      injection h with h; subst h
      refine ⟨d, message, [], by rw [hn]; decide, ?_, fun hm => absurd hm hno,
        fun _ => ⟨rfl, rfl⟩⟩
      constructor
      · intro hm
        exact absurd hm hno
      · intro hh
        rw [hn] at hh
        exact absurd hh.1 (by decide)
    | again =>
      simp only [hn] at h
      cases hq : mxt_irq_loop H n (mxt_irq_iteration H d message).d
          (mxt_irq_iteration H d message).message with
      | none => rw [hq] at h; simp at h
      | some q =>
        rw [hq] at h
        simp only [Option.map_some'] at h
        injection h with h; subst h
        obtain ⟨dl, ml, pre, g1, g2, g3, g4⟩ := ih _ _ q hq
        have hmem : irq_event.report_input_data ∈
            (mxt_irq_iteration H d message).events ++ q.2 ↔
            irq_event.report_input_data ∈ q.2 := by
          rw [List.mem_append]
          constructor
          · intro hh
            rcases hh with hh | hh
            · exact absurd hh hno
            · exact hh
          · exact Or.inr
        refine ⟨dl, ml, (mxt_irq_iteration H d message).events ++ pre, g1, ?_, ?_, ?_⟩
        · dsimp only
          rw [hmem]
          exact g2
        · dsimp only
          intro hm
          obtain ⟨e1, e2⟩ := g3 (hmem.mp hm)
          exact ⟨e1, by rw [e2]; simp only [List.append_assoc]⟩
        · dsimp only
          intro hm
          obtain ⟨e1, e2⟩ := g4 (fun hh => hm (hmem.mpr hh))
          exact ⟨e1, by rw [e2]; simp only [List.append_assoc]⟩
    | leave =>
      simp only [hn] at h
      by_cases hf : (mxt_irq_iteration H d message).d.finger_mask ≠ 0
      · rw [if_pos hf] at h
        injection h with h; subst h
        have hin : irq_event.report_input_data ∈
            (mxt_irq_iteration H d message).events ++ [irq_event.report_input_data] :=
          List.mem_append_right _ (List.mem_singleton_self _)
        refine ⟨d, message, [], by rw [hn]; decide, ?_, fun _ => ⟨rfl, rfl⟩,
          fun hm => absurd hin hm⟩
        exact ⟨fun _ => ⟨hn, hf⟩, fun _ => hin⟩
      · rw [if_neg hf] at h
        injection h with h; subst h
        refine ⟨d, message, [], by rw [hn]; decide, ?_, fun hm => absurd hm hno,
          fun _ => ⟨rfl, rfl⟩⟩
        exact ⟨fun hm => absurd hm hno, fun hh => absurd hh.2 hf⟩

/-- C19 (as the code has it).  In one invocation of `mxt_irq_thread`, whatever
the handlers, the flush that the drain loop itself calls happens at most once,
and when it happens it is the last step of the pass, right after the poll of
the CHG line that returned true, and `finger_mask` is non-zero: the flush is
called exactly when the last iteration left the loop by such a poll with
`finger_mask` non-zero in the state it left, and it is applied to that state;
a pass that ends otherwise ends in the state of its last iteration, without a
flush of the loop.  (Handlers flush on their own besides.) -/
theorem mxt_irq_thread_flushes_once (H : mxt_handlers) (fuel : Nat) (d : mxt_data)
    (out : mxt_data × List irq_event) (h : mxt_irq_thread H fuel d = some out) :
    out.2.count irq_event.report_input_data ≤ 1 ∧
    (irq_event.report_input_data ∈ out.2 →
      ∃ pre, out.2 = pre ++ [irq_event.read_chg true, irq_event.report_input_data]) ∧
    (∃ (dl : mxt_data) (ml : mxt_message) (pre : List irq_event),
      (mxt_irq_iteration H dl ml).next ≠ irq_next.again ∧
      (irq_event.report_input_data ∈ out.2 ↔
        ((mxt_irq_iteration H dl ml).next = irq_next.leave ∧
          (mxt_irq_iteration H dl ml).d.finger_mask ≠ 0)) ∧
      (irq_event.report_input_data ∈ out.2 →
        out.1 = H.mxt_report_input_data (mxt_irq_iteration H dl ml).d ∧
        out.2 = pre ++ (mxt_irq_iteration H dl ml).events ++
          [irq_event.report_input_data]) ∧
      (irq_event.report_input_data ∉ out.2 →
        out.1 = (mxt_irq_iteration H dl ml).d ∧
        out.2 = pre ++ (mxt_irq_iteration H dl ml).events)) := by
  unfold mxt_irq_thread at h
  obtain ⟨c1, c2⟩ := mxt_irq_loop_flushes_once H fuel d _ out h
  exact ⟨c1, c2, mxt_irq_loop_flush_condition H fuel d _ out h⟩

/-- C19 on two passes.  With one T9 press message pending the handler marks
the slot (`finger_mask` 1), the CHG line reports nothing more, and the loop
flushes once, last.  On the device whose `finger_mask` is 1 but whose reads
are refused, the pass ends by `goto end` and the loop does not flush. -/
theorem mxt_irq_thread_flushes_once_witness :
    (mxt_irq_thread contact_handlers 1 device_one_press).isSome = true ∧
    ((mxt_irq_thread contact_handlers 1 device_one_press).getD (device_one_press, [])).2 =
      [irq_event.read_message 0 2, irq_event.index_reportids 2 3, irq_event.treat 9,
       irq_event.read_chg true, irq_event.report_input_data] ∧
    ((mxt_irq_thread contact_handlers 1 device_one_press).getD
      (device_one_press, [])).2.count irq_event.report_input_data ≤ 1 ∧
    (∃ pre,
      ((mxt_irq_thread contact_handlers 1 device_one_press).getD (device_one_press, [])).2 =
        pre ++ [irq_event.read_chg true, irq_event.report_input_data]) ∧
    (mxt_irq_thread contact_handlers 1 device_read_fails).isSome = true ∧
    irq_event.report_input_data ∉
      ((mxt_irq_thread contact_handlers 1 device_read_fails).getD (device_read_fails, [])).2 ∧
    ((mxt_irq_thread contact_handlers 1 device_read_fails).getD
      (device_read_fails, [])).2.count irq_event.report_input_data ≤ 1 :=
  have t1 := mxt_irq_thread_flushes_once contact_handlers 1 device_one_press
    ((mxt_irq_thread contact_handlers 1 device_one_press).getD (device_one_press, []))
    (option_eq_some_getD _ _ (by decide))
  have t2 := mxt_irq_thread_flushes_once contact_handlers 1 device_read_fails
    ((mxt_irq_thread contact_handlers 1 device_read_fails).getD (device_read_fails, []))
    (option_eq_some_getD _ _ (by decide))
  ⟨by decide, by decide, t1.1, t1.2.1 (by decide), by decide, by decide, t2.1⟩

end Mxts

namespace Mxts

/-! ## Recalibration requests of the area-metric handler -/

/-- What `mxt_write_object` puts on the bus depends on the object table and
the bus only. -/
theorem mxt_write_object_wlog_congr (d D : mxt_data) (type offset val : Nat)
    (ho : D.objects = d.objects) (hi : D.info = d.info)
    (hb : D.block_access = d.block_access) (hs : D.i2c_master_send = d.i2c_master_send)
    (ht : D.tick = d.tick) (hw : D.wlog = d.wlog) :
    (mxt_write_object D type offset val).2.wlog = (mxt_write_object d type offset val).2.wlog := by
  unfold mxt_write_object
  rw [mxt_get_object_congr d D type ho hi]
  cases mxt_get_object d type with
  | none => exact hw
  | some object =>
    dsimp only
    split
    · exact hw
    · unfold mxt_write_mem
      rw [hb, hs, ht, hw]
      split
      · exact hw.symm ▸ rfl
      · dsimp only
        split <;> rfl

/-- A calibration request while `cal_busy` is set does nothing. -/
theorem calibrate_chip_busy (d : mxt_data) (h : d.cal_busy = true) :
    (calibrate_chip d).2 = d := by
  unfold calibrate_chip
  rw [if_pos h]

/-- A calibration request while `cal_busy` is clear is one call of
`mxt_write_object` for the calibrate command of T6, and sets `cal_busy`. -/
theorem calibrate_chip_idle (d : mxt_data) (h : d.cal_busy = false) :
    (calibrate_chip d).2 =
      { d with
        tick := (mxt_write_object d MXT_GEN_COMMANDPROCESSOR_T6 MXT_COMMAND_CALIBRATE 1).2.tick,
        wlog := (mxt_write_object d MXT_GEN_COMMANDPROCESSOR_T6 MXT_COMMAND_CALIBRATE 1).2.wlog,
        cal_busy := true } := by
  unfold calibrate_chip
  rw [if_neg (by rw [h]; decide)]
  obtain ⟨k, -, e⟩ :=
    mxt_write_object_frame d MXT_GEN_COMMANDPROCESSOR_T6 MXT_COMMAND_CALIBRATE 1
  dsimp only
  rw [e]

/-- With no touch area and some anti-touch area the area check is one
calibration request and nothing else. -/
theorem mxt_tch_atch_area_check_abnormal (d : mxt_data) (tch_area atch_area touch_area : Nat)
    (htch : tch_area = 0) (hatch : 0 < atch_area) :
    mxt_tch_atch_area_check d tch_area atch_area touch_area = (calibrate_chip d).2 := by
  subst htch
  unfold mxt_tch_atch_area_check
  simp only [ne_eq, not_true_eq_false, if_false, true_and, gt_iff_lt, hatch, if_true]

/-- While `cal_busy` is set the palm check sends nothing and leaves the flags
of the later checks alone. -/
theorem mxt_treat_T57_palm_busy (a : mxt_data) (t : Nat) (h : a.cal_busy = true) :
    (mxt_treat_T57_palm a t).wlog = a.wlog ∧ (mxt_treat_T57_palm a t).cal_busy = true ∧
    (mxt_treat_T57_palm a t).TSP_USE_SHAPETOUCH = a.TSP_USE_SHAPETOUCH := by
  have hb : (calibrate_chip { a with palm_cnt := 0 }).2 = { a with palm_cnt := 0 } :=
    calibrate_chip_busy _ h
  unfold mxt_treat_T57_palm
  rw [hb]
  repeat' split
  all_goals exact ⟨rfl, h, rfl⟩

/-- While `cal_busy` is set the calibration-quality check does nothing. -/
theorem mxt_treat_T57_calgood_busy (d : mxt_data) (tch_area atch_area : Nat)
    (h : d.cal_busy = true) :
    mxt_treat_T57_calgood d tch_area atch_area = d := by
  unfold mxt_treat_T57_calgood
  simp [calibrate_chip_busy d h]

/-- While `cal_busy` is clear and the touch area is zero, the
calibration-quality check makes one calibration request when `check_calgood`
is 1 and the anti-touch area exceeds 15, and none otherwise. -/
theorem mxt_treat_T57_calgood_idle (d : mxt_data) (tch_area atch_area : Nat)
    (htch : tch_area = 0) (h : d.cal_busy = false) :
    (mxt_treat_T57_calgood d tch_area atch_area).wlog =
      if d.check_calgood = 1 ∧ 15 < atch_area then
        (mxt_write_object d MXT_GEN_COMMANDPROCESSOR_T6 MXT_COMMAND_CALIBRATE 1).2.wlog
      else d.wlog := by
  subst htch
  unfold mxt_treat_T57_calgood
  have h48 : ¬ ((0 : Nat) : Int) - (atch_area : Int) > 48 := by omega
  by_cases hg : d.check_calgood = 1
  · rw [if_pos hg]
    dsimp only
    rw [if_neg h48]
    by_cases ha : 15 < atch_area
    · rw [if_pos (by omega), if_pos (by decide), if_pos ⟨hg, ha⟩, calibrate_chip_idle d h]
    · rw [if_neg (by omega), if_neg (fun hh => ha hh.2)]
  · rw [if_neg hg, if_neg (fun hh => hg hh.1)]

end Mxts

namespace Mxts

set_option maxRecDepth 1000000

/-- The recalibration request on "touch area 0, anti-touch area 5" depends on
the prior state of the engine.  With both checks switched off
(`check_antitouch` 0, `check_calgood` 0) the handler sends nothing, and with
`check_antitouch` set but `cal_busy` already set it sends nothing either. -/
theorem mxt_treat_T57_object_no_request :
    (mxt_treat_T57_object (device_with_checks 0 0 false)
        { reportid := 0, message := [0, 0, 0, 0, 5, 0, 0, 0] }).wlog = [] ∧
    (mxt_treat_T57_object (device_with_checks 1 0 true)
        { reportid := 0, message := [0, 0, 0, 0, 5, 0, 0, 0] }).wlog = [] := by
  decide

/-- C20 (as the code has it).  In a build with `CHECK_ANTITOUCH`, on a T57
message with touch area 0 and anti-touch area above 0, `mxt_treat_T57_object`
puts on the bus exactly what one call of `mxt_write_object` for the calibrate
command of T6 does, provided `cal_busy` is clear and either `check_antitouch`
is set or `check_calgood` is 1 with an anti-touch area above 15; in every
other prior state it sends nothing.  That one call is a single one-byte write
of 1 to the calibrate command when T6 is in the object table and the first
send is accepted. -/
theorem mxt_treat_T57_object_request (d : mxt_data) (m : mxt_message)
    (hc : d.CHECK_ANTITOUCH = true)
    (htch : msg_byte m 2 ||| (msg_byte m 3 <<< 8) = 0)
    (hatch : 0 < msg_byte m 4 ||| (msg_byte m 5 <<< 8)) :
    (mxt_treat_T57_object d m).wlog =
      (if d.cal_busy = false ∧
          (d.check_antitouch ≠ 0 ∨
            (d.check_calgood = 1 ∧ 15 < msg_byte m 4 ||| (msg_byte m 5 <<< 8))) then
        (mxt_write_object d MXT_GEN_COMMANDPROCESSOR_T6 MXT_COMMAND_CALIBRATE 1).2.wlog
      else d.wlog) ∧
    (∀ o, mxt_get_object d MXT_GEN_COMMANDPROCESSOR_T6 = some o →
      MXT_COMMAND_CALIBRATE < o.size * o.instances → d.block_access = false →
      0 ≤ d.i2c_master_send d.tick 3 →
      (mxt_write_object d MXT_GEN_COMMANDPROCESSOR_T6 MXT_COMMAND_CALIBRATE 1).2.wlog =
        d.wlog ++ [((o.start_address + MXT_COMMAND_CALIBRATE) % 65536, [1])]) := by
  constructor
  · unfold mxt_treat_T57_object
    dsimp only
    rw [if_pos hc]
    generalize hd1 : ({ d with
        tch_value := msg_byte m 2 ||| (msg_byte m 3 <<< 8),
        atch_value := msg_byte m 4 ||| (msg_byte m 5 <<< 8),
        T57_touch := msg_byte m 0 ||| (msg_byte m 1 <<< 8),
        Report_touch_number := (List.range MXT_MAX_FINGER).foldl
          (fun n i =>
            if (d.fingers i).state ≠ mxt_finger_state.MXT_STATE_INACTIVE ∧
               (d.fingers i).state ≠ mxt_finger_state.MXT_STATE_RELEASE then n + 1 else n) 0 }
        : mxt_data) = d1
    have e1 : d1.cal_busy = d.cal_busy := by rw [← hd1]
    have e2 : d1.check_antitouch = d.check_antitouch := by rw [← hd1]
    have e3 : d1.check_calgood = d.check_calgood := by rw [← hd1]
    have e4 : d1.wlog = d.wlog := by rw [← hd1]
    have e5 : (mxt_write_object d1 MXT_GEN_COMMANDPROCESSOR_T6 MXT_COMMAND_CALIBRATE 1).2.wlog =
        (mxt_write_object d MXT_GEN_COMMANDPROCESSOR_T6 MXT_COMMAND_CALIBRATE 1).2.wlog := by
      apply mxt_write_object_wlog_congr <;> rw [← hd1]
    have hsh : ∀ (X : mxt_data) (v : Nat),
        (if X.TSP_USE_SHAPETOUCH = true then { X with sumsize := v } else X).wlog = X.wlog := by
      intro X v; split <;> rfl
    have hgoal : ∀ (X : mxt_data) (W : List (Nat × List Nat)), X.wlog = W →
        (if X.TSP_USE_SHAPETOUCH = true then
          { X with sumsize := (msg_byte m 0 + (msg_byte m 1 <<< 8)) % 65536 } else X).wlog = W :=
      fun X W h => (hsh X _).trans h
    apply hgoal
    by_cases ha : d.check_antitouch ≠ 0
    · rw [if_pos ha, mxt_tch_atch_area_check_abnormal d1 _ _ _ htch hatch]
      cases hb : d1.cal_busy with
      | true =>
        rw [calibrate_chip_busy d1 hb]
        obtain ⟨p1, p2, -⟩ := mxt_treat_T57_palm_busy d1 (msg_byte m 0 ||| (msg_byte m 1 <<< 8)) hb
        rw [mxt_treat_T57_calgood_busy _ _ _ p2, p1, e4]
        rw [e1] at hb
        simp [hb]
      | false =>
        rw [calibrate_chip_idle d1 hb]
        obtain ⟨p1, p2, -⟩ := mxt_treat_T57_palm_busy
          { d1 with
            tick := (mxt_write_object d1 MXT_GEN_COMMANDPROCESSOR_T6 MXT_COMMAND_CALIBRATE 1).2.tick,
            wlog := (mxt_write_object d1 MXT_GEN_COMMANDPROCESSOR_T6 MXT_COMMAND_CALIBRATE 1).2.wlog,
            cal_busy := true }
          (msg_byte m 0 ||| (msg_byte m 1 <<< 8)) rfl
        rw [mxt_treat_T57_calgood_busy _ _ _ p2, p1]
        dsimp only
        rw [e5]
        rw [e1] at hb
        simp [hb, ha]
    · rw [if_neg ha]
      cases hb : d1.cal_busy with
      | true =>
        rw [mxt_treat_T57_calgood_busy _ _ _ hb, e4]
        rw [e1] at hb
        simp [hb]
      | false =>
        rw [mxt_treat_T57_calgood_idle d1 _ _ htch hb, e3, e4, e5]
        rw [e1] at hb
        simp [hb, ha]
  · intro o hget hoff hblk hsend
    unfold mxt_write_object
    rw [hget]
    dsimp only
    rw [if_neg (by omega)]
    unfold mxt_write_mem
    rw [if_neg (by rw [hblk]; decide)]
    have hr : i2c_retry (fun t => d.i2c_master_send t (1 % 256 + 2)) 3 d.tick 0 =
        (d.i2c_master_send d.tick 3, d.tick + 1) := by
      unfold i2c_retry
      rw [if_neg (by simpa using hsend)]
    dsimp only
    rw [hr]
    have h1 : d.tick + 1 - d.tick = 1 := by omega
    dsimp only
    rw [h1]
    split <;> simp [List.range_succ]

/-- C20 on a device with `check_antitouch` set and `cal_busy` clear, for the
message "touch area 0, anti-touch area 5": one write of 1 to the calibrate
command of T6 at 0x120 + 2. -/
theorem mxt_treat_T57_object_request_witness :
    (mxt_treat_T57_object (device_with_checks 1 0 false)
        { reportid := 0, message := [0, 0, 0, 0, 5, 0, 0, 0] }).wlog = [(0x122, [1])] :=
  ((mxt_treat_T57_object_request (device_with_checks 1 0 false)
      { reportid := 0, message := [0, 0, 0, 0, 5, 0, 0, 0] }
      (by decide) (by decide) (by decide)).1).trans (by decide)

end Mxts

namespace Mxts

/-! ## Bus retries -/

/-- The retry loop with `n + 1` attempts allowed makes `k` attempts, between 1
and `n + 1`: every attempt before the last failed with a negative result, the
last one did not unless the allowance was used up, and the loop returns the
result of the last attempt. -/
theorem i2c_retry_spec (xfer : Nat → Int) :
    ∀ (n t : Nat) (ret : Int), ∃ k, 1 ≤ k ∧ k ≤ n + 1 ∧
      i2c_retry xfer (n + 1) t ret = (xfer (t + k - 1), t + k) ∧
      (∀ j, j + 1 < k → xfer (t + j) < 0) ∧
      (k < n + 1 → 0 ≤ xfer (t + k - 1)) := by
  intro n
  induction n with
  | zero =>
    intro t ret
    refine ⟨1, le_refl _, le_refl _, ?_, fun j hj => absurd hj (by omega),
      fun h => absurd h (by omega)⟩
    unfold i2c_retry
    split
    · unfold i2c_retry; rfl
    · rfl
  | succ n ih =>
    intro t ret
    unfold i2c_retry
    by_cases h : xfer t < 0
    · rw [if_pos h]
      obtain ⟨k, h1, h2, e, hfail, hlast⟩ := ih (t + 1) (xfer t)
      refine ⟨k + 1, by omega, by omega, ?_, ?_, ?_⟩
      · rw [e]
        have e1 : t + 1 + k - 1 = t + (k + 1) - 1 := by omega
        have e2 : t + 1 + k = t + (k + 1) := by omega
        rw [e1, e2]
      · intro j hj
        cases j with
        | zero => exact h
        | succ j =>
          have := hfail j (by omega)
          have e3 : t + 1 + j = t + (j + 1) := by omega
          rw [e3] at this
          exact this
      · intro hk
        have := hlast (by omega)
        have e1 : t + 1 + k - 1 = t + (k + 1) - 1 := by omega
        rw [e1] at this
        exact this
    · rw [if_neg h]
      exact ⟨1, le_refl _, by omega, rfl, fun j hj => absurd hj (by omega),
        fun _ => not_lt.mp h⟩

/-- C25.  With the debug lock `block_access` off, `mxt_read_mem` and
`mxt_write_mem` attempt the transfer `k` times, with `k` between 1 and 3:
every attempt before the last returned a negative result, the last did not
unless it was the third; the function returns 0 exactly when the last attempt
transferred the complete request (2 messages for a read, `len + 2` bytes for a
write) and `-EIO` in every other case.  Every attempt of a write puts the same
message on the bus. -/
theorem mxt_bus_retry (d : mxt_data) (reg len : Nat) (buf : List Nat)
    (hb : d.block_access = false) :
    (∃ k, 1 ≤ k ∧ k ≤ 3 ∧
      (mxt_read_mem d reg len buf).2.2.tick = d.tick + k ∧
      (∀ j, j + 1 < k → d.i2c_transfer (d.tick + j) < 0) ∧
      (k < 3 → 0 ≤ d.i2c_transfer (d.tick + k - 1)) ∧
      ((mxt_read_mem d reg len buf).1 = 0 ↔ d.i2c_transfer (d.tick + k - 1) = 2) ∧
      ((mxt_read_mem d reg len buf).1 ≠ 0 → (mxt_read_mem d reg len buf).1 = - EIO)) ∧
    (∃ k, 1 ≤ k ∧ k ≤ 3 ∧
      (mxt_write_mem d reg len buf).2.tick = d.tick + k ∧
      (mxt_write_mem d reg len buf).2.wlog = d.wlog ++ List.replicate k
        (reg % 65536, (List.range (len % 256)).map (fun j => buf.getD j 0 % 256)) ∧
      (∀ j, j + 1 < k → d.i2c_master_send (d.tick + j) (len % 256 + 2) < 0) ∧
      (k < 3 → 0 ≤ d.i2c_master_send (d.tick + k - 1) (len % 256 + 2)) ∧
      ((mxt_write_mem d reg len buf).1 = 0 ↔
        d.i2c_master_send (d.tick + k - 1) (len % 256 + 2) = ((len % 256 + 2 : Nat) : Int)) ∧
      ((mxt_write_mem d reg len buf).1 ≠ 0 → (mxt_write_mem d reg len buf).1 = - EIO)) := by
  have hnb : ¬ d.block_access = true := by rw [hb]; decide
  have hio : (- EIO : Int) ≠ 0 := by decide
  constructor
  · obtain ⟨k, h1, h2, e, hfail, hlast⟩ := i2c_retry_spec d.i2c_transfer 2 d.tick 0
    refine ⟨k, h1, h2, ?_⟩
    unfold mxt_read_mem
    rw [if_neg hnb]
    dsimp only
    rw [e]
    dsimp only
    by_cases h : d.i2c_transfer (d.tick + k - 1) = 2
    · rw [if_pos h]
      exact ⟨rfl, hfail, hlast, ⟨fun _ => h, fun _ => rfl⟩, fun hne => absurd rfl hne⟩
    · rw [if_neg h]
      refine ⟨rfl, hfail, hlast, ⟨fun h0 => ?_, fun h2 => absurd h2 h⟩, fun _ => rfl⟩
      exact absurd h0 hio
  · obtain ⟨k, h1, h2, e, hfail, hlast⟩ :=
      i2c_retry_spec (fun t => d.i2c_master_send t (len % 256 + 2)) 2 d.tick 0
    refine ⟨k, h1, h2, ?_⟩
    unfold mxt_write_mem
    rw [if_neg hnb]
    dsimp only
    rw [e]
    dsimp only
    have hk : d.tick + k - d.tick = k := by omega
    rw [hk]
    by_cases h : d.i2c_master_send (d.tick + k - 1) (len % 256 + 2) =
        ((len % 256 + 2 : Nat) : Int)
    · rw [if_pos h]
      exact ⟨rfl, rfl, hfail, hlast, ⟨fun _ => h, fun _ => rfl⟩, fun hne => absurd rfl hne⟩
    · rw [if_neg h]
      refine ⟨rfl, rfl, hfail, hlast, ⟨fun h0 => ?_, fun h2 => absurd h2 h⟩, fun _ => rfl⟩
      exact absurd h0 hio

/-- C25 on the idle device: the bus is not locked, and a read of nine bytes at
0x100 and a write of one byte there each go through the retry loop. -/
theorem mxt_bus_retry_witness :
    device_no_message.block_access = false ∧
    (∃ k, 1 ≤ k ∧ k ≤ 3 ∧
      (mxt_read_mem device_no_message 0x100 9 []).2.2.tick = device_no_message.tick + k) ∧
    (∃ k, 1 ≤ k ∧ k ≤ 3 ∧
      (mxt_write_mem device_no_message 0x100 1 [7]).2.tick = device_no_message.tick + k) :=
  ⟨by decide,
   (mxt_bus_retry device_no_message 0x100 9 [] (by decide)).1.elim
     (fun k h => ⟨k, h.1, h.2.1, h.2.2.1⟩),
   (mxt_bus_retry device_no_message 0x100 1 [7] (by decide)).2.elim
     (fun k h => ⟨k, h.1, h.2.1, h.2.2.1⟩)⟩

end Mxts

namespace Mxts

/-! ## Calibration requests and the busy flag -/

/-- A command write to an object of the table, at an offset inside it, is one
message on the bus when the bus is not locked and the first send is not
refused. -/
theorem mxt_write_object_once (d : mxt_data) (type offset val : Nat) (o : mxt_object)
    (hget : mxt_get_object d type = some o) (hoff : offset < o.size * o.instances)
    (hblk : d.block_access = false) (hsend : 0 ≤ d.i2c_master_send d.tick 3) :
    (mxt_write_object d type offset val).2.wlog =
      d.wlog ++ [((o.start_address + offset) % 65536, [val % 256])] := by
  unfold mxt_write_object
  rw [hget]
  dsimp only
  rw [if_neg (by omega)]
  unfold mxt_write_mem
  rw [if_neg (by rw [hblk]; decide)]
  have hr : i2c_retry (fun t => d.i2c_master_send t (1 % 256 + 2)) 3 d.tick 0 =
      (d.i2c_master_send d.tick 3, d.tick + 1) := by
    unfold i2c_retry
    rw [if_neg (by simpa using hsend)]
  dsimp only
  rw [hr]
  have h1 : d.tick + 1 - d.tick = 1 := by omega
  dsimp only
  rw [h1]
  split <;> simp [List.range_succ]

/-- Once `cal_busy` is set, any number of calibration requests does nothing. -/
theorem calibrate_chip_iterate_busy (n : Nat) (d : mxt_data) (h : d.cal_busy = true) :
    Nat.iterate (fun x => (calibrate_chip x).2) n d = d := by
  induction n with
  | zero => rfl
  | succ n ih =>
    rw [Function.iterate_succ_apply']
    rw [ih]
    exact calibrate_chip_busy d h

/-- A calibration request always leaves `cal_busy` set. -/
theorem calibrate_chip_sets_busy (d : mxt_data) : (calibrate_chip d).2.cal_busy = true := by
  cases h : d.cal_busy with
  | true => rw [calibrate_chip_busy d h]; exact h
  | false => rw [calibrate_chip_idle d h]

/-- C21.  With `cal_busy` set, `calibrate_chip` returns 0 and leaves the whole
state, the bus log included, as it was.  Every call leaves `cal_busy` set, so
`n + 1` consecutive calls do what the first one alone does.  The first call
puts on the bus only copies of one message, the one-byte write of 1 to the
calibrate offset of T6: none if it was absorbed or refused, and otherwise one
per attempt of the retry loop, which is exactly one when the first send is
accepted. -/
theorem calibrate_chip_debounce (d : mxt_data) (n : Nat) :
    (d.cal_busy = true → calibrate_chip d = (0, d)) ∧
    Nat.iterate (fun x => (calibrate_chip x).2) (n + 1) d = (calibrate_chip d).2 ∧
    (∃ k, k ≤ 3 ∧ (calibrate_chip d).2.wlog = d.wlog ++ List.replicate k
      ((((mxt_get_object d MXT_GEN_COMMANDPROCESSOR_T6).getD {}).start_address +
          MXT_COMMAND_CALIBRATE) % 65536, [1])) ∧
    (∀ o, d.cal_busy = false → mxt_get_object d MXT_GEN_COMMANDPROCESSOR_T6 = some o →
      MXT_COMMAND_CALIBRATE < o.size * o.instances → d.block_access = false →
      0 ≤ d.i2c_master_send d.tick 3 →
      (calibrate_chip d).2.wlog =
        d.wlog ++ [((o.start_address + MXT_COMMAND_CALIBRATE) % 65536, [1])]) := by
  refine ⟨?_, ?_, ?_, ?_⟩
  · intro h
    unfold calibrate_chip
    rw [if_pos h]
  · rw [Function.iterate_succ_apply]
    exact calibrate_chip_iterate_busy n _ (calibrate_chip_sets_busy d)
  · cases h : d.cal_busy with
    | true =>
      rw [calibrate_chip_busy d h]
      exact ⟨0, by omega, by simp⟩
    | false =>
      rw [calibrate_chip_idle d h]
      obtain ⟨k, hk, e⟩ :=
        mxt_write_object_frame d MXT_GEN_COMMANDPROCESSOR_T6 MXT_COMMAND_CALIBRATE 1
      refine ⟨k, hk, ?_⟩
      dsimp only
      rw [e]
  · intro o hb hget hoff hblk hsend
    rw [calibrate_chip_idle d hb]
    exact mxt_write_object_once d _ _ 1 o hget hoff hblk hsend

/-- C21 on a device whose `cal_busy` is set: the request returns 0 and changes
nothing, and on the same device with `cal_busy` clear one message goes out. -/
theorem calibrate_chip_debounce_witness :
    (device_with_checks 1 0 true).cal_busy = true ∧
    calibrate_chip (device_with_checks 1 0 true) = (0, device_with_checks 1 0 true) ∧
    (calibrate_chip (device_with_checks 1 0 false)).2.wlog = [(0x122, [1])] :=
  ⟨by decide,
   (calibrate_chip_debounce (device_with_checks 1 0 true) 0).1 (by decide),
   ((calibrate_chip_debounce (device_with_checks 1 0 false) 0).2.2.2
      { type := 6, start_address := 0x120, size := 6, instances := 1, num_report_ids := 1,
        max_reportid := 1 }
      (by decide) (by decide) (by decide) (by decide) (by decide)).trans (by decide)⟩

end Mxts

namespace Mxts

/-! ## What the calibration engine can change -/

/-- Setting the T8 auto-calibration time changes the `check_autocal` flag, the
transaction counter and the bus log, and nothing else. -/
theorem mxt_t8_cal_set_frame (d : mxt_data) (mstime : Nat) :
    ∃ t w, mxt_t8_cal_set d mstime =
      { d with check_autocal := if mstime % 256 ≠ 0 then 1 else 0, tick := t, wlog := w } := by
  unfold mxt_t8_cal_set
  obtain ⟨k, -, e⟩ := mxt_write_object_frame
    { d with check_autocal := if mstime % 256 ≠ 0 then 1 else 0 }
    MXT_GEN_ACQUISITIONCONFIG_T8 4 (mstime % 256)
  rw [e]
  exact ⟨_, _, rfl⟩

/-- Programming the T61 timer changes the transaction counter and the bus
log, or, without a T61 object, ends in the NULL dereference; nothing else. -/
theorem mxt_t61_timer_set_frame (d : mxt_data) (mode cmd msPeriod : Nat) :
    ∃ t w o, mxt_t61_timer_set d mode cmd msPeriod =
      { d with tick := t, wlog := w, oops := o } := by
  unfold mxt_t61_timer_set
  cases mxt_get_object d MXT_SPT_TIMER_T61 with
  | none => exact ⟨_, _, _, rfl⟩
  | some object =>
    dsimp only
    obtain ⟨k, -, e⟩ := mxt_write_mem_frame d (object.start_address % 65536) 5
      [3, cmd % 256, mode % 256, (msPeriod % 65536) &&& 0xFF,
       ((msPeriod % 65536) >>> 8) &&& 0xFF]
    rw [e]
    exact ⟨_, _, _, rfl⟩

/-- A calibration request changes the transaction counter, the bus log and
`cal_busy`, and nothing else. -/
theorem calibrate_chip_record (d : mxt_data) :
    ∃ t w b, (calibrate_chip d).2 = { d with tick := t, wlog := w, cal_busy := b } := by
  cases h : d.cal_busy with
  | true => rw [calibrate_chip_busy d h]; exact ⟨_, _, _, rfl⟩
  | false => rw [calibrate_chip_idle d h]; exact ⟨_, _, _, rfl⟩

/-- Reading a byte of an object changes the transaction counter only. -/
theorem mxt_read_object_frame (d : mxt_data) (type offset val : Nat) :
    ∃ t, (mxt_read_object d type offset val).2.2 = { d with tick := t } := by
  unfold mxt_read_object
  cases mxt_get_object d type with
  | none => exact ⟨_, rfl⟩
  | some object =>
    dsimp only
    exact ⟨_, mxt_read_mem_frame d _ _ _⟩

/-- The distance check clears entries of the distance table and nothing
else. -/
theorem mxt_dist_check_frame (d : mxt_data) :
    ∃ ds, (mxt_dist_check d).2 = { d with distance := ds } := by
  unfold mxt_dist_check
  dsimp only
  generalize (MAX_USING_FINGER_NUM - (d.max_id + 1)) = n
  induction n with
  | zero => exact ⟨_, rfl⟩
  | succ n ih =>
    obtain ⟨ds, e⟩ := ih
    rw [List.range_succ, List.foldl_append, e]
    exact ⟨_, rfl⟩

/-- Setting the T8 auto-calibration time leaves the contact slots alone. -/
theorem mxt_t8_cal_set_fingers (d : mxt_data) (mstime : Nat) :
    (mxt_t8_cal_set d mstime).fingers = d.fingers := by
  obtain ⟨t, w, e⟩ := mxt_t8_cal_set_frame d mstime
  rw [e]

/-- Programming the T61 timer leaves the contact slots alone. -/
theorem mxt_t61_timer_set_fingers (d : mxt_data) (mode cmd msPeriod : Nat) :
    (mxt_t61_timer_set d mode cmd msPeriod).fingers = d.fingers := by
  obtain ⟨t, w, o, e⟩ := mxt_t61_timer_set_frame d mode cmd msPeriod
  rw [e]

/-- The distance check leaves the contact slots alone. -/
theorem mxt_dist_check_fingers (d : mxt_data) : (mxt_dist_check d).2.fingers = d.fingers := by
  obtain ⟨ds, e⟩ := mxt_dist_check_frame d
  rw [e]

/-- The area check leaves the contact slots alone. -/
theorem mxt_tch_atch_area_check_fingers (d : mxt_data) (tch_area atch_area touch_area : Nat) :
    (mxt_tch_atch_area_check d tch_area atch_area touch_area).fingers = d.fingers := by
  have hcal : ∀ D : mxt_data, (calibrate_chip D).2.fingers = D.fingers :=
    fun D => (calibrate_chip_frame D).1
  unfold mxt_tch_atch_area_check
  simp only [apply_ite mxt_data.fingers, hcal, mxt_t8_cal_set_fingers,
    mxt_t61_timer_set_fingers, mxt_dist_check_fingers, ite_self]

/-- The area-metric handler leaves the contact slots alone. -/
theorem mxt_treat_T57_object_fingers (d : mxt_data) (m : mxt_message) :
    (mxt_treat_T57_object d m).fingers = d.fingers := by
  have hcal : ∀ D : mxt_data, (calibrate_chip D).2.fingers = D.fingers :=
    fun D => (calibrate_chip_frame D).1
  unfold mxt_treat_T57_object mxt_treat_T57_calgood mxt_treat_T57_palm
  simp only [apply_ite mxt_data.fingers, hcal, mxt_tch_atch_area_check_fingers, ite_self]

/-- The timer handler leaves the contact slots alone. -/
theorem mxt_treat_T61_object_fingers (d : mxt_data) (m : mxt_message) :
    (mxt_treat_T61_object d m).fingers = d.fingers := by
  have hcal : ∀ D : mxt_data, (calibrate_chip D).2.fingers = D.fingers :=
    fun D => (calibrate_chip_frame D).1
  unfold mxt_treat_T61_object mxt_treat_T61_final mxt_treat_T61_check mxt_t61_cal_good
  simp only [apply_ite mxt_data.fingers, hcal, mxt_t8_cal_set_fingers,
    mxt_t61_timer_set_fingers, ite_self]

/-- C24.  The calibration heuristic engine never writes a contact slot:
`mxt_treat_T57_object`, `mxt_treat_T61_object`, `mxt_tch_atch_area_check`,
`mxt_check_coordinate`, `mxt_dist_check` and `calibrate_chip` return a state
whose slot array `fingers` is the one they were given, every field of every
slot included. -/
theorem calibration_engine_keeps_fingers (d : mxt_data) (m : mxt_message)
    (tch_area atch_area touch_area detect id x y : Nat) :
    (mxt_treat_T57_object d m).fingers = d.fingers ∧
    (mxt_treat_T61_object d m).fingers = d.fingers ∧
    (mxt_tch_atch_area_check d tch_area atch_area touch_area).fingers = d.fingers ∧
    (mxt_check_coordinate d detect id x y).fingers = d.fingers ∧
    (mxt_dist_check d).2.fingers = d.fingers ∧
    (calibrate_chip d).2.fingers = d.fingers :=
  ⟨mxt_treat_T57_object_fingers d m, mxt_treat_T61_object_fingers d m,
   mxt_tch_atch_area_check_fingers d tch_area atch_area touch_area,
   (mxt_check_coordinate_frame d detect id x y).1, mxt_dist_check_fingers d,
   (calibrate_chip_frame d).1⟩

end Mxts

namespace Mxts

/-! ## Status messages of the command processor -/

/-- With the bus not locked a write makes at least one and at most three
attempts, each logged. -/
theorem mxt_write_mem_attempts (d : mxt_data) (reg len : Nat) (buf : List Nat)
    (hb : d.block_access = false) :
    ∃ k, 1 ≤ k ∧ k ≤ 3 ∧ (mxt_write_mem d reg len buf).2 =
      { d with tick := d.tick + k,
               wlog := d.wlog ++ List.replicate k
                 (reg % 65536, (List.range (len % 256)).map (fun j => buf.getD j 0 % 256)) } := by
  obtain ⟨k, h1, h2, e, -, -⟩ :=
    i2c_retry_spec (fun t => d.i2c_master_send t (len % 256 + 2)) 2 d.tick 0
  refine ⟨k, h1, h2, ?_⟩
  unfold mxt_write_mem
  rw [if_neg (by rw [hb]; decide)]
  dsimp only
  rw [e]
  dsimp only
  have hk : d.tick + k - d.tick = k := by omega
  rw [hk]
  split <;> rfl

/-- The zero-fill loop changes the transaction counter and the bus log only. -/
theorem cfg_zero_loop_frame (reg osize : Nat) :
    ∀ (fuel i : Nat) (ret : Int) (d : mxt_data) (out : Int × mxt_data),
      cfg_zero_loop reg osize fuel i ret d = some out →
      ∃ t w, out.2 = { d with tick := t, wlog := w } := by
  intro fuel
  induction fuel with
  | zero => intro i ret d out h; simp [cfg_zero_loop] at h
  | succ n ih =>
    intro i ret d out h
    unfold cfg_zero_loop at h
    by_cases hi : i < osize
    · rw [if_pos hi] at h
      dsimp only at h
      obtain ⟨k, -, e⟩ := mxt_write_mem_frame d (reg + i) 1 [0]
      by_cases hr : (mxt_write_mem d (reg + i) 1 [0]).1 ≠ 0
      · rw [if_pos hr] at h
        injection h with h
        subst h
        rw [e]
        exact ⟨_, _, rfl⟩
      · rw [if_neg hr] at h
        obtain ⟨t, w, e2⟩ := ih _ _ _ _ h
        rw [e2, e]
        exact ⟨_, _, rfl⟩
    · rw [if_neg hi] at h
      injection h with h
      subst h
      exact ⟨_, _, rfl⟩

/-- The record walk changes the transaction counter and the bus log only. -/
theorem cfg_walk_frame (raw : Nat → Nat) (cfg_length : Nat) :
    ∀ (fuel index : Nat) (ret : Int) (d : mxt_data) (out : Int × mxt_data),
      cfg_walk raw cfg_length fuel index ret d = some out →
      ∃ t w, out.2 = { d with tick := t, wlog := w } := by
  intro fuel
  induction fuel with
  | zero => intro index ret d out h; simp [cfg_walk] at h
  | succ n ih =>
    intro index ret d out h
    unfold cfg_walk at h
    split at h
    · split at h
      · injection h with h; subst h; exact ⟨_, _, rfl⟩
      · dsimp only at h
        split at h
        · injection h with h; subst h; exact ⟨_, _, rfl⟩
        · split at h
          · injection h with h; subst h; exact ⟨_, _, rfl⟩
          · rename_i object hobj
            split at h
            · injection h with h; subst h; exact ⟨_, _, rfl⟩
            · split at h
              · injection h with h; subst h; exact ⟨_, _, rfl⟩
              · obtain ⟨k, -, e⟩ := mxt_write_mem_frame d
                  ((object.start_address + object.size * (raw (index + 1) % 256)) % 65536)
                  (raw (index + 2) % 256)
                  ((List.range (raw (index + 2) % 256)).map
                    (fun k => raw (index + sizeof_mxt_cfg_data + k)))
                split at h
                · injection h with h; subst h; rw [e]; exact ⟨_, _, rfl⟩
                · split at h
                  · split at h
                    · simp at h
                    · rename_i z hz
                      obtain ⟨t1, w1, e1⟩ := cfg_zero_loop_frame _ _ _ _ _ _ _ hz
                      split at h
                      · injection h with h; subst h; rw [e1, e]; exact ⟨_, _, rfl⟩
                      · obtain ⟨t2, w2, e2⟩ := ih _ _ _ _ h
                        rw [e2, e1, e]
                        exact ⟨_, _, rfl⟩
                  · obtain ⟨t2, w2, e2⟩ := ih _ _ _ _ h
                    rw [e2, e]
                    exact ⟨_, _, rfl⟩
    · injection h with h; subst h; exact ⟨_, _, rfl⟩

/-- The charger reconfiguration changes the transaction counter, the bus log,
the NULL-dereference mark and `cal_busy`, which it leaves as it was or sets. -/
theorem set_charger_config_frame (fuel : Nat) (d : mxt_data) (out : Int × mxt_data)
    (h : set_charger_config fuel d = some out) :
    ∃ t w o b, out.2 = { d with tick := t, wlog := w, oops := o, cal_busy := b } ∧
      (b = d.cal_busy ∨ b = true) := by
  unfold set_charger_config at h
  split at h
  · split at h
    · injection h with h; subst h
      obtain ⟨t, w, b, e⟩ := calibrate_chip_record d
      exact ⟨t, w, d.oops, (calibrate_chip d).2.cal_busy, by rw [e],
        Or.inr (calibrate_chip_sets_busy d)⟩
    · split at h
      · injection h with h; subst h; exact ⟨_, _, _, _, rfl, Or.inl rfl⟩
      · injection h with h; subst h; exact ⟨_, _, _, _, rfl, Or.inl rfl⟩
  · split at h
    · simp at h
    · rename_i w hw
      obtain ⟨t1, w1, e1⟩ := cfg_walk_frame _ _ _ _ _ _ _ hw
      split at h
      · injection h with h; subst h
        obtain ⟨t, w2, b, e⟩ := calibrate_chip_record w.2
        refine ⟨t, w2, d.oops, (calibrate_chip w.2).2.cal_busy, ?_,
          Or.inr (calibrate_chip_sets_busy w.2)⟩
        dsimp only
        rw [e, e1]
      · injection h with h; subst h
        exact ⟨t1, w1, d.oops, d.cal_busy, e1, Or.inl rfl⟩

/-- Whatever does not depend on `check_autocal`, the transaction counter and
the bus log is the same after `mxt_t8_cal_set`. -/
theorem frame_t8 {α : Type} (f : mxt_data → α)
    (hf : ∀ (D : mxt_data) c t w, f { D with check_autocal := c, tick := t, wlog := w } = f D)
    (d : mxt_data) (v : Nat) : f (mxt_t8_cal_set d v) = f d := by
  obtain ⟨t, w, e⟩ := mxt_t8_cal_set_frame d v
  rw [e, hf]

/-- Whatever does not depend on the transaction counter, the bus log and the
NULL-dereference mark is the same after `mxt_t61_timer_set`. -/
theorem frame_timer {α : Type} (f : mxt_data → α)
    (hf : ∀ (D : mxt_data) t w o, f { D with tick := t, wlog := w, oops := o } = f D)
    (d : mxt_data) (mode cmd ms : Nat) : f (mxt_t61_timer_set d mode cmd ms) = f d := by
  obtain ⟨t, w, o, e⟩ := mxt_t61_timer_set_frame d mode cmd ms
  rw [e, hf]

/-- Whatever does not depend on the transaction counter, the bus log and
`cal_busy` is the same after `calibrate_chip`. -/
theorem frame_cal {α : Type} (f : mxt_data → α)
    (hf : ∀ (D : mxt_data) t w b, f { D with tick := t, wlog := w, cal_busy := b } = f D)
    (d : mxt_data) : f (calibrate_chip d).2 = f d := by
  obtain ⟨t, w, b, e⟩ := calibrate_chip_record d
  rw [e, hf]

/-- Whatever does not depend on the transaction counter and the bus log is
the same after `mxt_write_object`. -/
theorem frame_wobj {α : Type} (f : mxt_data → α)
    (hf : ∀ (D : mxt_data) t w, f { D with tick := t, wlog := w } = f D)
    (d : mxt_data) (type offset val : Nat) : f (mxt_write_object d type offset val).2 = f d := by
  obtain ⟨k, -, e⟩ := mxt_write_object_frame d type offset val
  rw [e, hf]

/-- Whatever does not depend on the transaction counter is the same after
`mxt_read_object`. -/
theorem frame_robj {α : Type} (f : mxt_data → α)
    (hf : ∀ (D : mxt_data) t, f { D with tick := t } = f D)
    (d : mxt_data) (type offset val : Nat) : f (mxt_read_object d type offset val).2.2 = f d := by
  obtain ⟨t, e⟩ := mxt_read_object_frame d type offset val
  rw [e, hf]

/-- The normal-mode branch clears `cal_busy` and keeps the build switches and
the charger state. -/
theorem mxt_treat_T6_normal_fields (d : mxt_data) :
    (mxt_treat_T6_normal d).cal_busy = false ∧
    (mxt_treat_T6_normal d).CHECK_ANTITOUCH = d.CHECK_ANTITOUCH ∧
    (mxt_treat_T6_normal d).TSP_INFORM_CHARGER = d.TSP_INFORM_CHARGER ∧
    (mxt_treat_T6_normal d).charging_mode = d.charging_mode := by
  unfold mxt_treat_T6_normal mxt_current_calibration
  refine ⟨?_, ?_, ?_, ?_⟩
  · cases h : d.cal_busy <;>
      simp only [apply_ite mxt_data.cal_busy, frame_wobj mxt_data.cal_busy (fun _ _ _ => rfl),
        ite_self, h, Bool.false_eq_true, if_false, if_true]
  · simp only [apply_ite mxt_data.CHECK_ANTITOUCH,
      frame_wobj mxt_data.CHECK_ANTITOUCH (fun _ _ _ => rfl), ite_self]
  · simp only [apply_ite mxt_data.TSP_INFORM_CHARGER,
      frame_wobj mxt_data.TSP_INFORM_CHARGER (fun _ _ _ => rfl), ite_self]
  · simp only [apply_ite mxt_data.charging_mode,
      frame_wobj mxt_data.charging_mode (fun _ _ _ => rfl), ite_self]

/-- The calibration branch sets `cal_busy` and the anti-touch check, clears
the other check flags and the stationary-object flag, and keeps the build
switches and the charger state. -/
theorem mxt_treat_T6_calibration_fields (d : mxt_data) :
    (mxt_treat_T6_calibration d).cal_busy = true ∧
    (mxt_treat_T6_calibration d).check_calgood = 0 ∧
    (mxt_treat_T6_calibration d).check_timer = 0 ∧
    (mxt_treat_T6_calibration d).check_antitouch = 1 ∧
    (mxt_treat_T6_calibration d).coin_check = 0 ∧
    (mxt_treat_T6_calibration d).CHECK_ANTITOUCH = d.CHECK_ANTITOUCH ∧
    (mxt_treat_T6_calibration d).TSP_INFORM_CHARGER = d.TSP_INFORM_CHARGER ∧
    (mxt_treat_T6_calibration d).charging_mode = d.charging_mode := by
  unfold mxt_treat_T6_calibration
  refine ⟨?_, ?_, ?_, ?_, ?_, ?_, ?_, ?_⟩
  · simp only [apply_ite mxt_data.cal_busy, ite_self]
  · simp only [apply_ite mxt_data.check_calgood, ite_self]
  · simp only [apply_ite mxt_data.check_timer, ite_self]
  · simp only [apply_ite mxt_data.check_antitouch, ite_self,
      frame_timer mxt_data.check_antitouch (fun _ _ _ _ => rfl)]
  · simp only [apply_ite mxt_data.coin_check, ite_self,
      frame_timer mxt_data.coin_check (fun _ _ _ _ => rfl),
      frame_t8 mxt_data.coin_check (fun _ _ _ _ => rfl)]
  · simp only [apply_ite mxt_data.CHECK_ANTITOUCH, ite_self,
      frame_timer mxt_data.CHECK_ANTITOUCH (fun _ _ _ _ => rfl),
      frame_t8 mxt_data.CHECK_ANTITOUCH (fun _ _ _ _ => rfl)]
  · simp only [apply_ite mxt_data.TSP_INFORM_CHARGER, ite_self,
      frame_timer mxt_data.TSP_INFORM_CHARGER (fun _ _ _ _ => rfl),
      frame_t8 mxt_data.TSP_INFORM_CHARGER (fun _ _ _ _ => rfl)]
  · simp only [apply_ite mxt_data.charging_mode, ite_self,
      frame_timer mxt_data.charging_mode (fun _ _ _ _ => rfl),
      frame_t8 mxt_data.charging_mode (fun _ _ _ _ => rfl)]

/-- The tail of the reset branch keeps `cal_busy`, the check flags, the
stationary-object flag and the bus log, and in a `CHECK_ANTITOUCH` build
resets the press/release bookkeeping. -/
theorem mxt_treat_T6_reset_fields (d : mxt_data) :
    (mxt_treat_T6_reset d).cal_busy = d.cal_busy ∧
    (mxt_treat_T6_reset d).check_calgood = d.check_calgood ∧
    (mxt_treat_T6_reset d).check_timer = d.check_timer ∧
    (mxt_treat_T6_reset d).check_antitouch = d.check_antitouch ∧
    (mxt_treat_T6_reset d).coin_check = d.coin_check ∧
    (mxt_treat_T6_reset d).wlog = d.wlog ∧
    (d.CHECK_ANTITOUCH = true →
      (mxt_treat_T6_reset d).Press_Release_check = 1 ∧ (mxt_treat_T6_reset d).Press_cnt = 0 ∧
      (mxt_treat_T6_reset d).Release_cnt = 0 ∧ (mxt_treat_T6_reset d).release_max = 3) := by
  unfold mxt_treat_T6_reset
  refine ⟨?_, ?_, ?_, ?_, ?_, ?_, ?_⟩
  · simp only [apply_ite mxt_data.cal_busy, ite_self,
      frame_robj mxt_data.cal_busy (fun _ _ => rfl)]
  · simp only [apply_ite mxt_data.check_calgood, ite_self,
      frame_robj mxt_data.check_calgood (fun _ _ => rfl)]
  · simp only [apply_ite mxt_data.check_timer, ite_self,
      frame_robj mxt_data.check_timer (fun _ _ => rfl)]
  · simp only [apply_ite mxt_data.check_antitouch, ite_self,
      frame_robj mxt_data.check_antitouch (fun _ _ => rfl)]
  · simp only [apply_ite mxt_data.coin_check, ite_self,
      frame_robj mxt_data.coin_check (fun _ _ => rfl)]
  · simp only [apply_ite mxt_data.wlog, ite_self,
      frame_robj mxt_data.wlog (fun _ _ => rfl)]
  · intro hc
    refine ⟨?_, ?_, ?_, ?_⟩
    · simp only [apply_ite mxt_data.Press_Release_check, ite_self, hc, if_true,
        frame_robj mxt_data.Press_Release_check (fun _ _ => rfl)]
    · simp only [apply_ite mxt_data.Press_cnt, ite_self, hc, if_true,
        frame_robj mxt_data.Press_cnt (fun _ _ => rfl)]
    · simp only [apply_ite mxt_data.Release_cnt, ite_self, hc, if_true,
        frame_robj mxt_data.Release_cnt (fun _ _ => rfl)]
    · simp only [apply_ite mxt_data.release_max, ite_self, hc, if_true,
        frame_robj mxt_data.release_max (fun _ _ => rfl)]

end Mxts

namespace Mxts

set_option maxRecDepth 1000000

/-- With a T61 object in the table and the bus not locked, programming the
timer puts its five-byte command on the bus. -/
theorem mxt_t61_timer_set_wlog (d : mxt_data) (mode cmd ms : Nat) (o : mxt_object)
    (hget : mxt_get_object d MXT_SPT_TIMER_T61 = some o) (hb : d.block_access = false) :
    (o.start_address % 65536,
      [3, cmd % 256 % 256, mode % 256 % 256, ((ms % 65536) &&& 0xFF) % 256,
       (((ms % 65536) >>> 8) &&& 0xFF) % 256]) ∈ (mxt_t61_timer_set d mode cmd ms).wlog := by
  unfold mxt_t61_timer_set
  rw [hget]
  dsimp only
  obtain ⟨k, h1, -, e⟩ := mxt_write_mem_attempts d (o.start_address % 65536) 5
    [3, cmd % 256, mode % 256, (ms % 65536) &&& 0xFF, ((ms % 65536) >>> 8) &&& 0xFF] hb
  rw [e]
  dsimp only
  apply List.mem_append_right
  rw [List.mem_replicate]
  refine ⟨by omega, ?_⟩
  simp [List.range_succ]

/-- C22 counterexample: in a `TSP_INFORM_CHARGER` build on the charger, a
status byte with only the reset bit 0x80 changes `cal_busy`: the charger
reconfiguration ends with a calibration request, which sets the flag (and
writes the calibrate command). -/
theorem mxt_treat_T6_object_reset_sets_busy :
    device_charging.cal_busy = false ∧
    (mxt_treat_T6_object 1 device_charging
        { reportid := 1, message := [0x80, 0, 0, 0, 0, 0, 0, 0] }).map
        (fun out => (out.cal_busy, out.wlog)) = some (true, [(0x122, [1])]) := by
  decide

/-- C22 (as the code has it).  After `mxt_treat_T6_object`, outside the
charger reconfiguration (the reset bit 0x80 in a `TSP_INFORM_CHARGER` build
with `charging_mode` set), `cal_busy` is set if the status byte has the
calibration bit 0x10 and the build has `CHECK_ANTITOUCH`, else clear if the
status byte is 0x00, else unchanged.  Whenever the handler returns, `cal_busy`
has that value or is set; the charger reconfiguration is what can set it. -/
theorem mxt_treat_T6_object_cal_busy (fuel : Nat) (d : mxt_data) (m : mxt_message) :
    (¬ (msg_byte m 0 &&& 0x80 ≠ 0 ∧ d.TSP_INFORM_CHARGER = true ∧ d.charging_mode = true) →
      ∃ out, mxt_treat_T6_object fuel d m = some out ∧
        out.cal_busy =
          (if msg_byte m 0 &&& 0x10 ≠ 0 ∧ d.CHECK_ANTITOUCH = true then true
           else if msg_byte m 0 = 0 then false else d.cal_busy)) ∧
    (∀ out, mxt_treat_T6_object fuel d m = some out →
      out.cal_busy =
          (if msg_byte m 0 &&& 0x10 ≠ 0 ∧ d.CHECK_ANTITOUCH = true then true
           else if msg_byte m 0 = 0 then false else d.cal_busy) ∨
      out.cal_busy = true) := by
  unfold mxt_treat_T6_object
  dsimp only
  generalize hD1 : (if msg_byte m 0 = 0 then mxt_treat_T6_normal d else d) = D1
  have a1 : D1.cal_busy = if msg_byte m 0 = 0 then false else d.cal_busy := by
    rw [← hD1]
    simp only [apply_ite mxt_data.cal_busy, (mxt_treat_T6_normal_fields d).1]
  have a2 : D1.CHECK_ANTITOUCH = d.CHECK_ANTITOUCH := by
    rw [← hD1]
    simp only [apply_ite mxt_data.CHECK_ANTITOUCH, (mxt_treat_T6_normal_fields d).2.1, ite_self]
  have a3 : D1.TSP_INFORM_CHARGER = d.TSP_INFORM_CHARGER := by
    rw [← hD1]
    simp only [apply_ite mxt_data.TSP_INFORM_CHARGER, (mxt_treat_T6_normal_fields d).2.2.1,
      ite_self]
  have a4 : D1.charging_mode = d.charging_mode := by
    rw [← hD1]
    simp only [apply_ite mxt_data.charging_mode, (mxt_treat_T6_normal_fields d).2.2.2, ite_self]
  rw [a2]
  generalize hD2 : (if msg_byte m 0 &&& 0x10 ≠ 0 ∧ d.CHECK_ANTITOUCH = true
      then mxt_treat_T6_calibration D1 else D1) = D2
  have b1 : D2.cal_busy =
      (if msg_byte m 0 &&& 0x10 ≠ 0 ∧ d.CHECK_ANTITOUCH = true then true
       else if msg_byte m 0 = 0 then false else d.cal_busy) := by
    rw [← hD2]
    simp only [apply_ite mxt_data.cal_busy, (mxt_treat_T6_calibration_fields D1).1, a1]
  have b3 : D2.TSP_INFORM_CHARGER = d.TSP_INFORM_CHARGER := by
    rw [← hD2]
    simp only [apply_ite mxt_data.TSP_INFORM_CHARGER,
      (mxt_treat_T6_calibration_fields D1).2.2.2.2.2.2.1, ite_self, a3]
  have b4 : D2.charging_mode = d.charging_mode := by
    rw [← hD2]
    simp only [apply_ite mxt_data.charging_mode,
      (mxt_treat_T6_calibration_fields D1).2.2.2.2.2.2.2, ite_self, a4]
  rw [b3, b4, ← b1]
  by_cases h80 : msg_byte m 0 &&& 0x80 ≠ 0
  · rw [if_pos h80]
    by_cases hch : d.TSP_INFORM_CHARGER = true ∧ d.charging_mode = true
    · rw [if_pos hch]
      refine ⟨fun hn => absurd ⟨h80, hch⟩ hn, ?_⟩
      intro out hout
      cases hr : set_charger_config fuel D2 with
      | none => rw [hr] at hout; simp at hout
      | some r =>
        rw [hr] at hout
        simp only [Option.map_some'] at hout
        injection hout with hout
        subst hout
        obtain ⟨t, w, o, b, e, hbv⟩ := set_charger_config_frame fuel D2 r hr
        rw [(mxt_treat_T6_reset_fields r.2).1, e]
        dsimp only
        rcases hbv with hbv | hbv
        · exact Or.inl hbv
        · exact Or.inr hbv
    · rw [if_neg hch]
      exact ⟨fun _ => ⟨_, rfl, (mxt_treat_T6_reset_fields D2).1⟩,
        fun out hout => by
          injection hout with hout
          subst hout
          exact Or.inl (mxt_treat_T6_reset_fields D2).1⟩
  · rw [if_neg h80]
    exact ⟨fun _ => ⟨_, rfl, rfl⟩,
      fun out hout => by
        injection hout with hout
        subst hout
        exact Or.inl rfl⟩

/-- C22 on the engine device with `cal_busy` set and a normal-mode status: the
flag is clear afterwards. -/
theorem mxt_treat_T6_object_cal_busy_witness :
    ∃ out, mxt_treat_T6_object 1 (device_with_checks 1 0 true)
        { reportid := 1, message := [0x00, 0, 0, 0, 0, 0, 0, 0] } = some out ∧
      out.cal_busy = false :=
  ((mxt_treat_T6_object_cal_busy 1 (device_with_checks 1 0 true)
      { reportid := 1, message := [0x00, 0, 0, 0, 0, 0, 0, 0] }).1 (by decide)).elim
    (fun out h => ⟨out, h.1, h.2.trans (by decide)⟩)

/-- The calibration branch issues the T61 stop command when the table has a
T61 object and the bus is not locked. -/
theorem mxt_treat_T6_calibration_stops_timer (d : mxt_data) (o : mxt_object)
    (hget : mxt_get_object d MXT_SPT_TIMER_T61 = some o) (hb : d.block_access = false) :
    (o.start_address % 65536, [3, 2, 0, 0, 0]) ∈ (mxt_treat_T6_calibration d).wlog := by
  have hget2 : mxt_get_object
      { mxt_t8_cal_set { d with coin_check := 0 } 0 with check_antitouch := 1 }
      MXT_SPT_TIMER_T61 = some o := by
    have := frame_t8 (fun D => mxt_get_object D MXT_SPT_TIMER_T61) (fun _ _ _ _ => rfl)
      { d with coin_check := 0 } 0
    exact this.trans hget
  have hb2 : ({ mxt_t8_cal_set { d with coin_check := 0 } 0 with check_antitouch := 1 }
      : mxt_data).block_access = false := by
    have := frame_t8 mxt_data.block_access (fun _ _ _ _ => rfl) { d with coin_check := 0 } 0
    exact this.trans hb
  have hm := mxt_t61_timer_set_wlog _ MXT_T61_TIMER_ONESHOT MXT_T61_TIMER_CMD_STOP 0 o hget2 hb2
  unfold mxt_treat_T6_calibration
  simp only [apply_ite mxt_data.wlog, ite_self]
  exact hm

/-- C23 counterexample: a status byte with only the reset bit 0x80 does not
reset the calibration state: `check_calgood`, `check_timer`, `check_antitouch` and `coin_check` stay
as they were, and no T61 stop command is sent (the bus log stays empty). -/
theorem mxt_treat_T6_object_reset_keeps_checks :
    (mxt_treat_T6_object 1 device_after_calgood
        { reportid := 1, message := [0x80, 0, 0, 0, 0, 0, 0, 0] }).map
        (fun out => [out.check_calgood, out.check_timer, out.check_antitouch, out.coin_check]) =
      some [1, 1, 0, 1] ∧
    (mxt_treat_T6_object 1 device_after_calgood
        { reportid := 1, message := [0x80, 0, 0, 0, 0, 0, 0, 0] }).map (fun out => out.wlog) =
      some [] := by
  decide

/-- C23 (as the code has it).  In a `CHECK_ANTITOUCH` build, outside the
charger reconfiguration, a status byte with the reset bit 0x80 resets the
press/release bookkeeping: `Press_Release_check` 1, `Press_cnt` and
`Release_cnt` 0, `release_max` 3.  The rest of the calibration state is reset
only if the byte also has the calibration bit 0x10: then `check_calgood` and
`check_timer` are 0, `check_antitouch` is 1, `coin_check` is 0 and the T61 stop
command is on the bus; without that bit these four flags and the bus log are
left as they were. -/
theorem mxt_treat_T6_object_reset (fuel : Nat) (d : mxt_data) (m : mxt_message)
    (hc : d.CHECK_ANTITOUCH = true) (h80 : msg_byte m 0 &&& 0x80 ≠ 0)
    (hch : ¬ (d.TSP_INFORM_CHARGER = true ∧ d.charging_mode = true)) :
    ∃ out, mxt_treat_T6_object fuel d m = some out ∧
      out.Press_Release_check = 1 ∧ out.Press_cnt = 0 ∧ out.Release_cnt = 0 ∧
      out.release_max = 3 ∧
      (msg_byte m 0 &&& 0x10 ≠ 0 →
        out.check_calgood = 0 ∧ out.check_timer = 0 ∧ out.check_antitouch = 1 ∧
        out.coin_check = 0 ∧
        (∀ o, mxt_get_object d MXT_SPT_TIMER_T61 = some o → d.block_access = false →
          (o.start_address % 65536, [3, 2, 0, 0, 0]) ∈ out.wlog)) ∧
      (msg_byte m 0 &&& 0x10 = 0 →
        out.check_calgood = d.check_calgood ∧ out.check_timer = d.check_timer ∧
        out.check_antitouch = d.check_antitouch ∧ out.coin_check = d.coin_check ∧
        out.wlog = d.wlog) := by
  have hne : ¬ msg_byte m 0 = 0 := by
    intro h0
    rw [h0] at h80
    exact h80 (by decide)
  unfold mxt_treat_T6_object
  dsimp only
  rw [if_neg hne, if_pos h80]
  by_cases h10 : msg_byte m 0 &&& 0x10 ≠ 0
  · have hD2 : (if msg_byte m 0 &&& 0x10 ≠ 0 ∧ d.CHECK_ANTITOUCH = true
        then mxt_treat_T6_calibration d else d) = mxt_treat_T6_calibration d :=
      if_pos ⟨h10, hc⟩
    rw [hD2]
    obtain ⟨-, c2, c3, c4, c5, c6, c7, c8⟩ := mxt_treat_T6_calibration_fields d
    rw [c7, c8, if_neg hch]
    obtain ⟨-, r2, r3, r4, r5, r6, r7⟩ := mxt_treat_T6_reset_fields (mxt_treat_T6_calibration d)
    obtain ⟨p1, p2, p3, p4⟩ := r7 (c6.trans hc)
    refine ⟨_, rfl, p1, p2, p3, p4, fun _ => ⟨r2.trans c2, r3.trans c3, r4.trans c4,
      r5.trans c5, ?_⟩, fun h => absurd h h10⟩
    intro o hget hb
    rw [r6]
    exact mxt_treat_T6_calibration_stops_timer d o hget hb
  · have hD2 : (if msg_byte m 0 &&& 0x10 ≠ 0 ∧ d.CHECK_ANTITOUCH = true
        then mxt_treat_T6_calibration d else d) = d :=
      if_neg (fun h => h10 h.1)
    rw [hD2, if_neg hch]
    obtain ⟨-, r2, r3, r4, r5, r6, r7⟩ := mxt_treat_T6_reset_fields d
    obtain ⟨p1, p2, p3, p4⟩ := r7 hc
    exact ⟨_, rfl, p1, p2, p3, p4, fun h => absurd h h10, fun _ => ⟨r2, r3, r4, r5, r6⟩⟩

/-- C23 on the engine device after a first good check, for a status byte with
the reset and the calibration bits (0x90): the check flags are reset and the
T61 stop command is on the bus. -/
theorem mxt_treat_T6_object_reset_witness :
    ∃ out, mxt_treat_T6_object 1 device_after_calgood
        { reportid := 1, message := [0x90, 0, 0, 0, 0, 0, 0, 0] } = some out ∧
      out.Press_Release_check = 1 ∧ out.check_calgood = 0 ∧ out.check_antitouch = 1 ∧
      out.coin_check = 0 ∧ (0x190, [3, 2, 0, 0, 0]) ∈ out.wlog :=
  (mxt_treat_T6_object_reset 1 device_after_calgood
      { reportid := 1, message := [0x90, 0, 0, 0, 0, 0, 0, 0] }
      (by decide) (by decide) (by decide)).elim
    (fun out h => ⟨out, h.1, h.2.1, (h.2.2.2.2.2.1 (by decide)).1,
      (h.2.2.2.2.2.1 (by decide)).2.2.1, (h.2.2.2.2.2.1 (by decide)).2.2.2.1,
      (h.2.2.2.2.2.1 (by decide)).2.2.2.2
        { type := 61, start_address := 0x190, size := 5, instances := 1, num_report_ids := 1,
          max_reportid := 5 } (by decide) (by decide)⟩)

end Mxts

namespace Mxts

/-! ## Errors inside a drain pass -/

set_option maxRecDepth 1000000

/-- C26 counterexample: a failed message read stops the drain pass.  The bus
refuses the read, the CHG line still reports a pending message and contact
events are waiting to be flushed (`finger_mask` 1): the pass ends after the
one failed read, without polling the CHG line and without a flush. -/
theorem mxt_irq_thread_read_failure_ends_pass :
    device_read_fails.finger_mask = 1 ∧
    device_read_fails.read_chg device_read_fails.chg_polls = false ∧
    (mxt_irq_thread contact_handlers 5 device_read_fails).map
        (fun q => (q.1.report_calls, q.1.sink, q.2)) =
      some (0, [], [irq_event.read_message (- EIO) 0]) := by
  decide

/-- C26 (as the code has it).  A failed message read ends the drain pass at
once: nothing but the read happens, no flush included.  A message that was
read and whose report-ID is in the map with a type other than T0 never ends
the pass by itself: the iteration goes on to the poll of the CHG line, which
alone decides whether the loop continues; in particular a type with no
handler is logged and leaves the state as it was. -/
theorem mxt_irq_thread_error_paths (H : mxt_handlers) (fuel : Nat) (d : mxt_data)
    (message : mxt_message) :
    ((mxt_read_message d message).1 ≠ 0 →
      mxt_irq_loop H (fuel + 1) d message =
        some ((mxt_read_message d message).2.2,
          [irq_event.read_message (mxt_read_message d message).1
            (mxt_read_message d message).2.1.reportid])) ∧
    ((mxt_read_message d message).1 = 0 →
      ¬ (mxt_read_message d message).2.1.reportid > (mxt_read_message d message).2.2.max_reportid →
      ((mxt_read_message d message).2.2.reportids
          (mxt_read_message d message).2.1.reportid).type ≠ MXT_RESERVED_T0 →
      (mxt_irq_iteration H d message).next ≠ irq_next.goto_end ∧
      ∃ pre v, (mxt_irq_iteration H d message).events = pre ++ [irq_event.read_chg v]) ∧
    (∀ type, type ≠ MXT_GEN_COMMANDPROCESSOR_T6 → type ≠ MXT_TOUCH_MULTITOUCHSCREEN_T9 →
      type ≠ MXT_TOUCH_KEYARRAY_T15 → type ≠ MXT_SPT_SELFTEST_T25 →
      type ≠ MXT_PROCI_TOUCHSUPPRESSION_T42 → type ≠ MXT_PROCI_EXTRATOUCHSCREENDATA_T57 →
      type ≠ MXT_SPT_TIMER_T61 → type ≠ MXT_PROCG_NOISESUPPRESSION_T62 →
      type ≠ MXT_TOUCH_MULTITOUCHSCREEN_T100 →
      mxt_irq_dispatch H type d message = (d, [irq_event.untreated type])) := by
  refine ⟨?_, ?_, ?_⟩
  · intro h1
    unfold mxt_irq_loop
    rw [mxt_irq_iteration_read_failed H d message h1]
  · intro h1 h2 h3
    obtain ⟨⟨v, hev⟩, hn⟩ := mxt_irq_iteration_dispatch H d message h1 h2 h3
    exact ⟨hn, _, v, hev⟩
  · intro type h6 h9 h15 h25 h42 h57 h61 h62 h100
    unfold mxt_irq_dispatch
    rw [if_neg h6, if_neg h9, if_neg (fun h => h15 h.1), if_neg h25, if_neg h42, if_neg h57,
      if_neg h61, if_neg h62, if_neg h100]

/-- C26 on a refused read and on a T9 press message: the first pass ends with
the read, the second reaches the poll of the CHG line. -/
theorem mxt_irq_thread_error_paths_witness :
    (mxt_read_message device_read_fails {}).1 ≠ 0 ∧
    mxt_irq_loop contact_handlers (0 + 1) device_read_fails {} =
      some ((mxt_read_message device_read_fails {}).2.2,
        [irq_event.read_message (mxt_read_message device_read_fails {}).1
          (mxt_read_message device_read_fails {}).2.1.reportid]) ∧
    (mxt_irq_iteration contact_handlers device_one_press {}).next ≠ irq_next.goto_end :=
  ⟨by decide,
   (mxt_irq_thread_error_paths contact_handlers 0 device_read_fails {}).1 (by decide),
   ((mxt_irq_thread_error_paths contact_handlers 0 device_one_press {}).2.1
      (by decide) (by decide) (by decide)).1⟩

end Mxts

namespace Mxts

/-! ## What a flush does to each slot -/

/-- One round of the slot loop on the slot it visits: a released slot becomes
inactive with its move counter cleared, any other active slot becomes moving,
an inactive slot is left alone. -/
theorem mxt_report_input_data_slot_finger (s : report_loop_state) (n : Nat) :
    (mxt_report_input_data_slot s n).d.fingers n =
      if (s.d.fingers n).state = mxt_finger_state.MXT_STATE_INACTIVE then s.d.fingers n
      else if (s.d.fingers n).state = mxt_finger_state.MXT_STATE_RELEASE then
        { s.d.fingers n with state := mxt_finger_state.MXT_STATE_INACTIVE, mcount := 0 }
      else { s.d.fingers n with state := mxt_finger_state.MXT_STATE_MOVE } := by
  unfold mxt_report_input_data_slot
  by_cases h1 : (s.d.fingers n).state = mxt_finger_state.MXT_STATE_INACTIVE
  · rw [if_pos h1, if_pos h1]
  · rw [if_neg h1, if_neg h1]
    by_cases h2 : (s.d.fingers n).state = mxt_finger_state.MXT_STATE_RELEASE
    · rw [if_pos h2, if_pos h2]; simp [Function.update]
    · rw [if_neg h2, if_neg h2]; simp [Function.update]

/-- Every slot after the slot loop. -/
theorem report_loop_finger_after (n : Nat) (s : report_loop_state) (i : Nat) :
    ((List.range n).foldl mxt_report_input_data_slot s).d.fingers i =
      if i < n then
        (if (s.d.fingers i).state = mxt_finger_state.MXT_STATE_INACTIVE then s.d.fingers i
         else if (s.d.fingers i).state = mxt_finger_state.MXT_STATE_RELEASE then
           { s.d.fingers i with state := mxt_finger_state.MXT_STATE_INACTIVE, mcount := 0 }
         else { s.d.fingers i with state := mxt_finger_state.MXT_STATE_MOVE })
      else s.d.fingers i := by
  induction n with
  | zero => rfl
  | succ n ih =>
    rw [List.range_succ, List.foldl_append]
    simp only [List.foldl_cons, List.foldl_nil]
    by_cases hi : i = n
    · subst hi
      rw [mxt_report_input_data_slot_finger, report_loop_above _ _ _ (le_refl _),
        if_pos (Nat.lt_succ_self _)]
    · rw [mxt_report_input_data_slot_other _ _ _ hi, ih]
      by_cases hlt : i < n
      · rw [if_pos hlt, if_pos (show i < n + 1 by omega)]
      · rw [if_neg hlt, if_neg (show ¬ i < n + 1 by omega)]

/-- Every slot after the flush. -/
theorem mxt_report_input_data_finger (d : mxt_data) (i : Nat) :
    (mxt_report_input_data d).fingers i =
      if i < MXT_MAX_FINGER then
        (if (d.fingers i).state = mxt_finger_state.MXT_STATE_INACTIVE then d.fingers i
         else if (d.fingers i).state = mxt_finger_state.MXT_STATE_RELEASE then
           { d.fingers i with state := mxt_finger_state.MXT_STATE_INACTIVE, mcount := 0 }
         else { d.fingers i with state := mxt_finger_state.MXT_STATE_MOVE })
      else d.fingers i := by
  rw [mxt_report_input_data_fingers, report_loop_finger_after]

/-- The flush clears `finger_mask`. -/
theorem mxt_report_input_data_finger_mask (d : mxt_data) :
    (mxt_report_input_data d).finger_mask = 0 := by
  unfold mxt_report_input_data
  rfl

/-- One round of the slot loop changes the sink and the slot array only, and
what it sends names no slot but the one it visits, and not even that one when
it is inactive. -/
theorem mxt_report_input_data_slot_frame (s : report_loop_state) (n : Nat) :
    ∃ batch fg, (mxt_report_input_data_slot s n).d =
        { s.d with sink := s.d.sink ++ batch, fingers := fg } ∧
      (∀ j, input_event.input_mt_slot j ∈ batch →
        j = n ∧ (s.d.fingers n).state ≠ mxt_finger_state.MXT_STATE_INACTIVE) := by
  unfold mxt_report_input_data_slot
  by_cases h1 : (s.d.fingers n).state = mxt_finger_state.MXT_STATE_INACTIVE
  · rw [if_pos h1]
    exact ⟨[], s.d.fingers, by simp, fun j hj => absurd hj (by simp)⟩
  · rw [if_neg h1]
    by_cases h2 : (s.d.fingers n).state = mxt_finger_state.MXT_STATE_RELEASE
    · rw [if_pos h2]
      refine ⟨_, _, rfl, ?_⟩
      intro j hj
      simp at hj
      exact ⟨hj, h1⟩
    · rw [if_neg h2]
      refine ⟨_, _, by simp only [List.append_assoc]; rfl, ?_⟩
      intro j hj
      refine ⟨?_, h1⟩
      split_ifs at hj <;> simpa using hj

/-- The slot loop changes the sink and the slot array only, and what it sends
names only slots below the bound that were not inactive. -/
theorem report_loop_frame (n : Nat) (s : report_loop_state) :
    ∃ batch fg, ((List.range n).foldl mxt_report_input_data_slot s).d =
        { s.d with sink := s.d.sink ++ batch, fingers := fg } ∧
      (∀ j, input_event.input_mt_slot j ∈ batch →
        j < n ∧ (s.d.fingers j).state ≠ mxt_finger_state.MXT_STATE_INACTIVE) := by
  induction n with
  | zero => exact ⟨[], s.d.fingers, by simp, fun j hj => absurd hj (by simp)⟩
  | succ n ih =>
    rw [List.range_succ, List.foldl_append]
    simp only [List.foldl_cons, List.foldl_nil]
    obtain ⟨b, fg, e, hb⟩ := ih
    obtain ⟨c, fg2, e2, hc⟩ :=
      mxt_report_input_data_slot_frame ((List.range n).foldl mxt_report_input_data_slot s) n
    rw [report_loop_above n s n (le_refl _)] at hc
    refine ⟨b ++ c, fg2, ?_, ?_⟩
    · rw [e2, e]
      simp only [List.append_assoc]
    · intro j hj
      rcases List.mem_append.mp hj with h | h
      · exact ⟨by have := (hb j h).1; omega, (hb j h).2⟩
      · obtain ⟨h1, h2⟩ := hc j h
        subst h1
        exact ⟨by omega, h2⟩

/-- What the flush sends names only slots below `MXT_MAX_FINGER` that were not
inactive. -/
theorem mxt_report_input_data_slots (d : mxt_data) (batch : List input_event)
    (h : (mxt_report_input_data d).sink = d.sink ++ batch) (j : Nat)
    (hj : input_event.input_mt_slot j ∈ batch) :
    j < MXT_MAX_FINGER ∧ (d.fingers j).state ≠ mxt_finger_state.MXT_STATE_INACTIVE := by
  obtain ⟨b, fg, e, hb⟩ := report_loop_frame MXT_MAX_FINGER { d := d, count := 0, report_count := 0 }
  rw [mxt_report_input_data_sink, e] at h
  dsimp only at h
  rw [List.append_assoc, List.append_assoc] at h
  have hbatch := List.append_cancel_left h
  rw [← hbatch] at hj
  rcases List.mem_append.mp hj with h1 | h1
  · exact hb j h1
  · exfalso
    rcases List.mem_append.mp h1 with h2 | h2
    · split_ifs at h2 <;> simp at h2
    · split_ifs at h2 <;> simp at h2

/-- C28.  After a flush, for every slot below `MXT_MAX_FINGER`: a slot that
was released is inactive with `mcount` 0, a slot that was pressed or moving is
moving, an inactive slot is unchanged and no report names it; so no slot is
left pressed or released.  The fields x, y, w, z of the slot are unchanged,
and `finger_mask` is 0. -/
theorem mxt_report_input_data_slot_states (d : mxt_data) (i : Nat) (hi : i < MXT_MAX_FINGER) :
    (mxt_report_input_data d).fingers i =
      (if (d.fingers i).state = mxt_finger_state.MXT_STATE_INACTIVE then d.fingers i
       else if (d.fingers i).state = mxt_finger_state.MXT_STATE_RELEASE then
         { d.fingers i with state := mxt_finger_state.MXT_STATE_INACTIVE, mcount := 0 }
       else { d.fingers i with state := mxt_finger_state.MXT_STATE_MOVE }) ∧
    ((mxt_report_input_data d).fingers i).state ≠ mxt_finger_state.MXT_STATE_PRESS ∧
    ((mxt_report_input_data d).fingers i).state ≠ mxt_finger_state.MXT_STATE_RELEASE ∧
    ((mxt_report_input_data d).fingers i).x = (d.fingers i).x ∧
    ((mxt_report_input_data d).fingers i).y = (d.fingers i).y ∧
    ((mxt_report_input_data d).fingers i).w = (d.fingers i).w ∧
    ((mxt_report_input_data d).fingers i).z = (d.fingers i).z ∧
    (mxt_report_input_data d).finger_mask = 0 ∧
    ((d.fingers i).state = mxt_finger_state.MXT_STATE_INACTIVE →
      ∀ batch, (mxt_report_input_data d).sink = d.sink ++ batch →
        input_event.input_mt_slot i ∉ batch) := by
  have e := mxt_report_input_data_finger d i
  rw [if_pos hi] at e
  refine ⟨e, ?_, ?_, ?_, ?_, ?_, ?_, mxt_report_input_data_finger_mask d, ?_⟩
  · rw [e]; split_ifs with h1 h2
    · rw [h1]; decide
    · simp
    · simp
  · rw [e]; split_ifs with h1 h2
    · rw [h1]; decide
    · simp
    · simp
  · rw [e]; split_ifs <;> rfl
  · rw [e]; split_ifs <;> rfl
  · rw [e]; split_ifs <;> rfl
  · rw [e]; split_ifs <;> rfl
  · intro hin batch hb hmem
    exact (mxt_report_input_data_slots d batch hb i hmem).2 hin

/-- C28 on a device whose slot 0 is released after three moves and whose slot
1 is pressed: after the flush slot 0 is inactive with `mcount` 0 and slot 1 is
moving. -/
theorem mxt_report_input_data_slot_states_witness :
    (mxt_report_input_data (device_with_fingers
        [{ state := mxt_finger_state.MXT_STATE_RELEASE, mcount := 3 },
         { state := mxt_finger_state.MXT_STATE_PRESS, x := 5 }])).fingers 0 =
      { state := mxt_finger_state.MXT_STATE_INACTIVE, mcount := 0 } ∧
    ((mxt_report_input_data (device_with_fingers
        [{ state := mxt_finger_state.MXT_STATE_RELEASE, mcount := 3 },
         { state := mxt_finger_state.MXT_STATE_PRESS, x := 5 }])).fingers 1).state ≠
      mxt_finger_state.MXT_STATE_PRESS :=
  ⟨((mxt_report_input_data_slot_states (device_with_fingers
        [{ state := mxt_finger_state.MXT_STATE_RELEASE, mcount := 3 },
         { state := mxt_finger_state.MXT_STATE_PRESS, x := 5 }]) 0 (by decide)).1).trans
      (by decide),
   (mxt_report_input_data_slot_states (device_with_fingers
        [{ state := mxt_finger_state.MXT_STATE_RELEASE, mcount := 3 },
         { state := mxt_finger_state.MXT_STATE_PRESS, x := 5 }]) 1 (by decide)).2.1⟩

end Mxts

namespace Mxts

/-! ## Releasing every contact -/

set_option maxRecDepth 1000000

/-- The marking loop of `mxt_release_all_finger` changes the slot array only:
below the loop bound every slot that was not inactive is released with zero
pressure, and the counter stays where it was exactly when every such slot was
inactive. -/
theorem release_loop_spec (n : Nat) (s : mxt_data × Nat) :
    ∃ fg, ((List.range n).foldl mxt_release_all_finger_slot s).1 = { s.1 with fingers := fg } ∧
      (∀ i, fg i =
        if i < n then
          (if (s.1.fingers i).state = mxt_finger_state.MXT_STATE_INACTIVE then s.1.fingers i
           else { s.1.fingers i with z := 0, state := mxt_finger_state.MXT_STATE_RELEASE })
        else s.1.fingers i) ∧
      s.2 ≤ ((List.range n).foldl mxt_release_all_finger_slot s).2 ∧
      (((List.range n).foldl mxt_release_all_finger_slot s).2 = s.2 ↔
        ∀ i, i < n → (s.1.fingers i).state = mxt_finger_state.MXT_STATE_INACTIVE) := by
  induction n with
  | zero => exact ⟨s.1.fingers, rfl, fun i => by simp, le_refl _, by simp⟩
  | succ n ih =>
    rw [List.range_succ, List.foldl_append]
    simp only [List.foldl_cons, List.foldl_nil]
    obtain ⟨fg, e, hfg, hle, hiff⟩ := ih
    generalize (List.range n).foldl mxt_release_all_finger_slot s = r at e hle hiff
    have hn : r.1.fingers n = s.1.fingers n := by
      rw [e]
      have := hfg n
      rw [if_neg (lt_irrefl n)] at this
      exact this
    unfold mxt_release_all_finger_slot
    rw [hn]
    by_cases h1 : (s.1.fingers n).state = mxt_finger_state.MXT_STATE_INACTIVE
    · rw [if_pos h1]
      refine ⟨fg, e, ?_, hle, ?_⟩
      · intro i
        rw [hfg i]
        by_cases hi : i < n
        · rw [if_pos hi, if_pos (show i < n + 1 by omega)]
        · rw [if_neg hi]
          by_cases hin : i = n
          · subst hin
            rw [if_pos (Nat.lt_succ_self _), if_pos h1]
          · rw [if_neg (show ¬ i < n + 1 by omega)]
      · constructor
        · intro h i hi
          by_cases hin : i = n
          · subst hin; exact h1
          · exact hiff.mp h i (by omega)
        · intro h
          exact hiff.mpr (fun i hi => h i (by omega))
    · rw [if_neg h1]
      refine ⟨Function.update fg n
          { s.1.fingers n with z := 0, state := mxt_finger_state.MXT_STATE_RELEASE },
        ?_, ?_, ?_, ?_⟩
      · unfold set_finger
        rw [e]
      · intro i
        by_cases hin : i = n
        · subst hin
          rw [Function.update_same, if_pos (Nat.lt_succ_self _), if_neg h1]
        · rw [Function.update_noteq hin, hfg i]
          by_cases hi : i < n
          · rw [if_pos hi, if_pos (show i < n + 1 by omega)]
          · rw [if_neg hi, if_neg (show ¬ i < n + 1 by omega)]
      · dsimp only
        omega
      · dsimp only
        constructor
        · intro h
          omega
        · intro h
          exact absurd (h n (Nat.lt_succ_self _)) h1

/-- The slot loop of the flush on slots that are inactive or released: it
sends one release report per released slot, in slot order, counts no active
slot, and has reported something exactly when some slot was released. -/
theorem report_loop_release (g : Nat → List input_event) (n : Nat) (s : report_loop_state)
    (h : ∀ i, i < n →
      ((s.d.fingers i).state = mxt_finger_state.MXT_STATE_INACTIVE ∧ g i = []) ∨
      ((s.d.fingers i).state = mxt_finger_state.MXT_STATE_RELEASE ∧
        g i = [input_event.input_mt_slot i, input_event.input_mt_report_slot_state false])) :
    ((List.range n).foldl mxt_report_input_data_slot s).d.sink =
        s.d.sink ++ (List.range n).flatMap g ∧
    ((List.range n).foldl mxt_report_input_data_slot s).count = s.count ∧
    s.report_count ≤ ((List.range n).foldl mxt_report_input_data_slot s).report_count ∧
    (((List.range n).foldl mxt_report_input_data_slot s).report_count = s.report_count ↔
      ∀ i, i < n → (s.d.fingers i).state = mxt_finger_state.MXT_STATE_INACTIVE) := by
  induction n with
  | zero => exact ⟨by simp, rfl, le_refl _, by simp⟩
  | succ n ih =>
    obtain ⟨e1, e2, e3, e4⟩ := ih (fun i hi => h i (by omega))
    rw [List.range_succ, List.foldl_append, List.flatMap_append]
    simp only [List.foldl_cons, List.foldl_nil, List.flatMap_cons, List.flatMap_nil,
      List.append_nil]
    have hn := report_loop_above n s n (le_refl _)
    generalize (List.range n).foldl mxt_report_input_data_slot s = r at e1 e2 e3 e4 hn
    unfold mxt_report_input_data_slot
    rw [hn]
    rcases h n (Nat.lt_succ_self _) with ⟨hs, hg⟩ | ⟨hs, hg⟩
    · rw [if_pos hs, hg, List.append_nil]
      refine ⟨e1, e2, e3, ?_⟩
      constructor
      · intro hh i hi
        by_cases hin : i = n
        · subst hin; exact hs
        · exact e4.mp hh i (by omega)
      · intro hh
        exact e4.mpr (fun i hi => hh i (by omega))
    · have hne : ¬ (s.d.fingers n).state = mxt_finger_state.MXT_STATE_INACTIVE := by
        rw [hs]; decide
      rw [if_neg hne, if_pos hs, hg]
      dsimp only
      refine ⟨by rw [e1, List.append_assoc], e2, by omega, ?_⟩
      constructor
      · intro hh; omega
      · intro hh
        exact absurd (hh n (Nat.lt_succ_self _)) hne

/-- What `mxt_release_all_finger` does: every slot below `MXT_MAX_FINGER` that
was not inactive ends inactive with zero pressure and `mcount` 0, every other
slot is unchanged; the sink receives one release report per slot that was not
inactive, in slot order, followed, if there was any, by the no-contact
assertion and the frame mark. -/
theorem mxt_release_all_finger_effect (d : mxt_data) :
    (∀ i, (mxt_release_all_finger d).fingers i =
      if i < MXT_MAX_FINGER then
        (if (d.fingers i).state = mxt_finger_state.MXT_STATE_INACTIVE then d.fingers i
         else { d.fingers i with z := 0, state := mxt_finger_state.MXT_STATE_INACTIVE,
                                 mcount := 0 })
      else d.fingers i) ∧
    (mxt_release_all_finger d).sink =
      d.sink ++
      (List.range MXT_MAX_FINGER).flatMap (fun i =>
        if (d.fingers i).state = mxt_finger_state.MXT_STATE_INACTIVE then []
        else [input_event.input_mt_slot i, input_event.input_mt_report_slot_state false]) ++
      (if ∀ i, i < MXT_MAX_FINGER → (d.fingers i).state = mxt_finger_state.MXT_STATE_INACTIVE
       then []
       else [input_event.input_report_key input_code.BTN_TOUCH 0,
             input_event.input_report_key input_code.BTN_TOOL_FINGER 0] ++
            (if d.stop_sync = false then [input_event.input_sync] else [])) := by
  obtain ⟨fg, e, hfg, -, hiff⟩ := release_loop_spec MXT_MAX_FINGER (d, 0)
  unfold mxt_release_all_finger
  dsimp only
  generalize (List.range MXT_MAX_FINGER).foldl mxt_release_all_finger_slot (d, 0) = r
    at e hiff
  dsimp only at e hfg hiff
  by_cases hall : ∀ i, i < MXT_MAX_FINGER →
      (d.fingers i).state = mxt_finger_state.MXT_STATE_INACTIVE
  · have h0 : r.2 = 0 := hiff.mpr hall
    have hfgd : fg = d.fingers := by
      funext i
      rw [hfg i]
      by_cases hi : i < MXT_MAX_FINGER
      · rw [if_pos hi, if_pos (hall i hi)]
      · rw [if_neg hi]
    rw [if_neg (not_not.mpr h0), e, hfgd, if_pos hall]
    refine ⟨?_, ?_⟩
    · intro i
      by_cases hi : i < MXT_MAX_FINGER
      · rw [if_pos hi, if_pos (hall i hi)]
      · rw [if_neg hi]
    · have hnil : (List.range MXT_MAX_FINGER).flatMap (fun i =>
          if (d.fingers i).state = mxt_finger_state.MXT_STATE_INACTIVE then []
          else [input_event.input_mt_slot i, input_event.input_mt_report_slot_state false])
          = [] := by
        rw [List.eq_nil_iff_forall_not_mem]
        intro a ha
        rw [List.mem_flatMap] at ha
        obtain ⟨i, hi, hm⟩ := ha
        rw [List.mem_range] at hi
        rw [if_pos (hall i hi)] at hm
        simp at hm
      rw [hnil]
      simp
  · have h0 : r.2 ≠ 0 := fun h => hall (hiff.mp h)
    rw [if_pos h0, if_neg hall]
    refine ⟨?_, ?_⟩
    · intro i
      rw [mxt_report_input_data_finger, e]
      dsimp only
      rw [hfg i]
      by_cases hi : i < MXT_MAX_FINGER
      · by_cases hs : (d.fingers i).state = mxt_finger_state.MXT_STATE_INACTIVE
        · simp only [hi, hs, if_true]
        · simp [hi, hs]
      · simp only [hi, if_false]
    · have hrel := report_loop_release
        (fun i => if (d.fingers i).state = mxt_finger_state.MXT_STATE_INACTIVE then []
          else [input_event.input_mt_slot i, input_event.input_mt_report_slot_state false])
        MXT_MAX_FINGER { d := r.1, count := 0, report_count := 0 }
        (by
          intro i hi
          dsimp only
          rw [e]
          dsimp only
          rw [hfg i, if_pos hi]
          by_cases hs : (d.fingers i).state = mxt_finger_state.MXT_STATE_INACTIVE
          · rw [if_pos hs, if_pos hs]
            exact Or.inl ⟨hs, rfl⟩
          · rw [if_neg hs, if_neg hs]
            exact Or.inr ⟨rfl, rfl⟩)
      have hfr := report_loop_frame MXT_MAX_FINGER { d := r.1, count := 0, report_count := 0 }
      rw [mxt_report_input_data_sink]
      generalize (List.range MXT_MAX_FINGER).foldl mxt_report_input_data_slot
        { d := r.1, count := 0, report_count := 0 } = F at hrel hfr
      obtain ⟨s1, s2, -, s4⟩ := hrel
      obtain ⟨b, fg2, ef, -⟩ := hfr
      dsimp only at s1 s2 s4 ef
      have hrc : F.report_count > 0 := by
        apply Nat.pos_of_ne_zero
        intro hz
        apply hall
        intro i hi
        have h1 := s4.mp hz i hi
        rw [e] at h1
        dsimp only at h1
        rw [hfg i, if_pos hi] at h1
        by_cases hs : (d.fingers i).state = mxt_finger_state.MXT_STATE_INACTIVE
        · exact hs
        · rw [if_neg hs] at h1
          exact absurd h1 (by simp)
      have hss : F.d.stop_sync = d.stop_sync := by
        rw [ef, e]
      have hsk : r.1.sink = d.sink := by rw [e]
      rw [s1, s2, hss, hsk, if_pos rfl]
      cases hst : d.stop_sync <;> simp [hrc]

/-- A projection that does not look at the slot array, the sink, `sumsize`,
`finger_mask` or the flush counter has the same value after the flush. -/
theorem frame_flush {α : Type} (f : mxt_data → α)
    (hf : ∀ (d : mxt_data) fg sk ss fm rc,
      f { d with fingers := fg, sink := sk, sumsize := ss, finger_mask := fm,
                 report_calls := rc } = f d)
    (d : mxt_data) : f (mxt_report_input_data d) = f d := by
  obtain ⟨b, fg, ef, -⟩ :=
    report_loop_frame MXT_MAX_FINGER { d := d, count := 0, report_count := 0 }
  unfold mxt_report_input_data
  generalize (List.range MXT_MAX_FINGER).foldl mxt_report_input_data_slot
    { d := d, count := 0, report_count := 0 } = s at ef
  obtain ⟨sd, c, rc⟩ := s
  dsimp only at ef ⊢
  subst ef
  split_ifs
  all_goals exact hf d _ _ _ _ _

/-- A projection that does not look at the slot array, the sink, `sumsize`,
`finger_mask` or the flush counter has the same value after
`mxt_release_all_finger`. -/
theorem frame_release {α : Type} (f : mxt_data → α)
    (hf : ∀ (d : mxt_data) fg sk ss fm rc,
      f { d with fingers := fg, sink := sk, sumsize := ss, finger_mask := fm,
                 report_calls := rc } = f d)
    (d : mxt_data) : f (mxt_release_all_finger d) = f d := by
  obtain ⟨fg, e, -, -, -⟩ := release_loop_spec MXT_MAX_FINGER (d, 0)
  unfold mxt_release_all_finger
  dsimp only
  generalize (List.range MXT_MAX_FINGER).foldl mxt_release_all_finger_slot (d, 0) = r at e
  dsimp only at e
  have h1 : f r.1 = f d := by
    rw [e]
    exact hf d fg d.sink d.sumsize d.finger_mask d.report_calls
  by_cases h0 : r.2 ≠ 0
  · rw [if_pos h0, frame_flush f hf]
    exact h1
  · rw [if_neg h0]
    exact h1

/-- What `mxt_release_all_keys` does: the key that was held is reported as
released; the slot array and the power state are not touched. -/
theorem mxt_release_all_keys_effect (d : mxt_data) :
    (mxt_release_all_keys d).fingers = d.fingers ∧
    (mxt_release_all_keys d).mxt_enabled = d.mxt_enabled ∧
    (mxt_release_all_keys d).sink = d.sink ++
      (if d.tsp_keystatus = TOUCH_KEY_MENU then
         [input_event.input_report_key input_code.KEY_MENU KEY_RELEASE]
       else if d.tsp_keystatus = TOUCH_KEY_BACK then
         [input_event.input_report_key input_code.KEY_BACK KEY_RELEASE]
       else []) := by
  unfold mxt_release_all_keys
  by_cases hN : d.tsp_keystatus ≠ TOUCH_KEY_NULL
  · rw [if_pos hN]
    exact ⟨rfl, rfl, rfl⟩
  · rw [if_neg hN]
    have h0k : d.tsp_keystatus = 0 := not_not.mp hN
    refine ⟨rfl, rfl, ?_⟩
    rw [h0k]
    simp [TOUCH_KEY_MENU, TOUCH_KEY_BACK]

/-- The state after `mxt_power_off` on an enabled device: the slot array, the
sink and the build switches are as before, and with status 0 the device is
marked disabled. -/
theorem mxt_power_off_effect (d : mxt_data) (he : d.mxt_enabled = true) :
    (mxt_power_off d).2.fingers = d.fingers ∧ (mxt_power_off d).2.sink = d.sink ∧
    (mxt_power_off d).2.stop_sync = d.stop_sync ∧
    (mxt_power_off d).2.ENABLE_TOUCH_KEY = d.ENABLE_TOUCH_KEY ∧
    (mxt_power_off d).2.tsp_keystatus = d.tsp_keystatus ∧
    ((mxt_power_off d).1 = 0 → (mxt_power_off d).2.mxt_enabled = false) := by
  have hne : ¬ d.mxt_enabled = false := by rw [he]; decide
  unfold mxt_power_off
  rw [if_neg hne]
  cases d.power_onoff with
  | none =>
    have hio : (- EINVAL : Int) ≠ 0 := by decide
    exact ⟨rfl, rfl, rfl, rfl, rfl, fun h => absurd h hio⟩
  | some f =>
    dsimp only
    by_cases hf : f d.power_calls false ≠ 0
    · rw [if_pos hf]
      exact ⟨rfl, rfl, rfl, rfl, rfl, fun h => absurd h hf⟩
    · rw [if_neg hf]
      exact ⟨rfl, rfl, rfl, rfl, rfl, fun _ => rfl⟩

/-- A call of `mxt_stop` on an enabled device that returns 0 has switched the
power off and released every contact and, in the `ENABLE_TOUCH_KEY` build, the
key that was held. -/
theorem mxt_stop_done (d : mxt_data) (he : d.mxt_enabled = true) (hr : (mxt_stop d).1 = 0) :
    ∃ d1 : mxt_data, d1.fingers = d.fingers ∧ d1.sink = d.sink ∧ d1.stop_sync = d.stop_sync ∧
      (mxt_stop d).2.fingers = (mxt_release_all_finger d1).fingers ∧
      (mxt_stop d).2.sink = (mxt_release_all_finger d1).sink ++
        (if d.ENABLE_TOUCH_KEY = true then
          (if d.tsp_keystatus = TOUCH_KEY_MENU then
             [input_event.input_report_key input_code.KEY_MENU KEY_RELEASE]
           else if d.tsp_keystatus = TOUCH_KEY_BACK then
             [input_event.input_report_key input_code.KEY_BACK KEY_RELEASE]
           else [])
         else []) ∧
      (mxt_stop d).2.mxt_enabled = false := by
  have hne : ¬ d.mxt_enabled = false := by rw [he]; decide
  obtain ⟨f1, f2, f3, f4, f5, f6⟩ :=
    mxt_power_off_effect { d with irq_disable_depth := d.irq_disable_depth + 1 } he
  unfold mxt_stop at hr ⊢
  rw [if_neg hne] at hr ⊢
  dsimp only at hr f1 f2 f3 f4 f5 f6 ⊢
  generalize mxt_power_off { d with irq_disable_depth := d.irq_disable_depth + 1 } = r
    at hr f1 f2 f3 f4 f5 f6 ⊢
  by_cases h0 : r.1 ≠ 0
  · rw [if_pos h0] at hr
    exact absurd hr h0
  · rw [if_neg h0]
    dsimp only
    have hk : (mxt_release_all_finger r.2).ENABLE_TOUCH_KEY = d.ENABLE_TOUCH_KEY := by
      rw [frame_release mxt_data.ENABLE_TOUCH_KEY (fun _ _ _ _ _ _ => rfl), f4]
    have ht : (mxt_release_all_finger r.2).tsp_keystatus = d.tsp_keystatus := by
      rw [frame_release mxt_data.tsp_keystatus (fun _ _ _ _ _ _ => rfl), f5]
    have hen : (mxt_release_all_finger r.2).mxt_enabled = false := by
      rw [frame_release mxt_data.mxt_enabled (fun _ _ _ _ _ _ => rfl)]
      exact f6 (not_not.mp h0)
    refine ⟨r.2, f1, f2, f3, ?_⟩
    generalize mxt_release_all_finger r.2 = R at hk ht hen ⊢
    obtain ⟨k1, k2, k3⟩ := mxt_release_all_keys_effect R
    rw [hk]
    by_cases hE : d.ENABLE_TOUCH_KEY = true
    · rw [if_pos hE, if_pos hE, k1, k2, k3, ht]
      exact ⟨rfl, rfl, hen⟩
    · rw [if_neg hE, if_neg hE, List.append_nil]
      exact ⟨rfl, rfl, hen⟩

/-- C27 counterexample: a move message for an inactive slot leaves the slot
inactive with `mcount` 1, and `mxt_release_all_finger` does not touch a slot
that is inactive: the slot is inactive with `mcount` 1 afterwards, not 0. -/
theorem mxt_release_all_finger_keeps_mcount :
    (device_stray_move.fingers 0).state = mxt_finger_state.MXT_STATE_INACTIVE ∧
    (device_stray_move.fingers 0).mcount = 1 ∧
    ((mxt_release_all_finger device_stray_move).fingers 0).state =
      mxt_finger_state.MXT_STATE_INACTIVE ∧
    ((mxt_release_all_finger device_stray_move).fingers 0).mcount = 1 := by
  have h0 : device_stray_move.fingers 0 = { mcount := 1 } := by decide
  rw [(mxt_release_all_finger_effect device_stray_move).1 0, h0]
  decide

/-- C27 (amended): after `mxt_release_all_finger` every slot below
`MXT_MAX_FINGER` is inactive; a slot that was not inactive has zero pressure
and `mcount` 0, a slot that was inactive already is unchanged, whatever its
`mcount`; the sink has received one release report (slot selection, then slot
state inactive) for each slot that was not inactive, in slot order, none for
the others, and then, if any slot was released, the no-contact assertion and
the frame mark.  A call of `mxt_stop` on an enabled device that returns 0
leaves the slots in that state, has sent those reports followed by the release
of a held key in the `ENABLE_TOUCH_KEY` build, and has disabled the device. -/
theorem mxt_release_all_finger_releases (d : mxt_data) :
    (∀ i, i < MXT_MAX_FINGER →
      ((mxt_release_all_finger d).fingers i).state = mxt_finger_state.MXT_STATE_INACTIVE) ∧
    (∀ i, i < MXT_MAX_FINGER → (d.fingers i).state ≠ mxt_finger_state.MXT_STATE_INACTIVE →
      (mxt_release_all_finger d).fingers i =
        { d.fingers i with z := 0, state := mxt_finger_state.MXT_STATE_INACTIVE, mcount := 0 }) ∧
    (∀ i, (d.fingers i).state = mxt_finger_state.MXT_STATE_INACTIVE →
      (mxt_release_all_finger d).fingers i = d.fingers i) ∧
    (mxt_release_all_finger d).sink =
      d.sink ++
      (List.range MXT_MAX_FINGER).flatMap (fun i =>
        if (d.fingers i).state = mxt_finger_state.MXT_STATE_INACTIVE then []
        else [input_event.input_mt_slot i, input_event.input_mt_report_slot_state false]) ++
      (if ∀ i, i < MXT_MAX_FINGER → (d.fingers i).state = mxt_finger_state.MXT_STATE_INACTIVE
       then []
       else [input_event.input_report_key input_code.BTN_TOUCH 0,
             input_event.input_report_key input_code.BTN_TOOL_FINGER 0] ++
            (if d.stop_sync = false then [input_event.input_sync] else [])) ∧
    (d.mxt_enabled = true → (mxt_stop d).1 = 0 →
      (mxt_stop d).2.fingers = (mxt_release_all_finger d).fingers ∧
      (mxt_stop d).2.sink = (mxt_release_all_finger d).sink ++
        (if d.ENABLE_TOUCH_KEY = true then
          (if d.tsp_keystatus = TOUCH_KEY_MENU then
             [input_event.input_report_key input_code.KEY_MENU KEY_RELEASE]
           else if d.tsp_keystatus = TOUCH_KEY_BACK then
             [input_event.input_report_key input_code.KEY_BACK KEY_RELEASE]
           else [])
         else []) ∧
      (mxt_stop d).2.mxt_enabled = false) := by
  obtain ⟨hf, hs⟩ := mxt_release_all_finger_effect d
  refine ⟨?_, ?_, ?_, hs, ?_⟩
  · intro i hi
    rw [hf i, if_pos hi]
    by_cases h : (d.fingers i).state = mxt_finger_state.MXT_STATE_INACTIVE
    · rw [if_pos h]
      exact h
    · rw [if_neg h]
  · intro i hi h
    rw [hf i, if_pos hi, if_neg h]
  · intro i h
    rw [hf i, if_pos h, ite_self]
  · intro he hr
    obtain ⟨d1, f1, f2, f3, g1, g2, g3⟩ := mxt_stop_done d he hr
    obtain ⟨hf1, hs1⟩ := mxt_release_all_finger_effect d1
    refine ⟨?_, ?_, g3⟩
    · rw [g1]
      funext i
      rw [hf i, hf1 i, f1]
    · rw [g2, hs1, hs, f1, f2, f3]

/-- The statement of C27 on the device with slot 0 pressed and slot 2 moving:
`mxt_stop` returns 0, and afterwards the three slots are inactive, the two
contacts with zero pressure and `mcount` 0, and the sink holds their two
release reports, the no-contact assertion and the frame mark. -/
theorem mxt_release_all_finger_releases_witness :
    device_two_contacts.mxt_enabled = true ∧ (mxt_stop device_two_contacts).1 = 0 ∧
    ((mxt_stop device_two_contacts).2.fingers = (mxt_release_all_finger device_two_contacts).fingers ∧
     (mxt_stop device_two_contacts).2.sink = (mxt_release_all_finger device_two_contacts).sink ++
        (if device_two_contacts.ENABLE_TOUCH_KEY = true then
          (if device_two_contacts.tsp_keystatus = TOUCH_KEY_MENU then
             [input_event.input_report_key input_code.KEY_MENU KEY_RELEASE]
           else if device_two_contacts.tsp_keystatus = TOUCH_KEY_BACK then
             [input_event.input_report_key input_code.KEY_BACK KEY_RELEASE]
           else [])
         else []) ∧
     (mxt_stop device_two_contacts).2.mxt_enabled = false) ∧
    (mxt_release_all_finger device_two_contacts).fingers 2 =
      { z := 0, state := mxt_finger_state.MXT_STATE_INACTIVE, mcount := 0 } ∧
    (mxt_release_all_finger device_two_contacts).sink =
      [input_event.input_mt_slot 0, input_event.input_mt_report_slot_state false,
       input_event.input_mt_slot 2, input_event.input_mt_report_slot_state false,
       input_event.input_report_key input_code.BTN_TOUCH 0,
       input_event.input_report_key input_code.BTN_TOOL_FINGER 0,
       input_event.input_sync] :=
  ⟨by decide, by decide,
   (mxt_release_all_finger_releases device_two_contacts).2.2.2.2 (by decide) (by decide),
   by decide, by decide⟩

end Mxts

namespace Mxts

/-! ## The low-mobility streak of a single contact -/

set_option maxRecDepth 1000000

/-- Programming the T61 timer puts nothing but five-byte commands on the
bus. -/
theorem mxt_t61_timer_set_payload (d : mxt_data) (mode cmd ms : Nat) :
    ∀ e ∈ (mxt_t61_timer_set d mode cmd ms).wlog, e ∈ d.wlog ∨ e.2.length = 5 := by
  intro e he
  unfold mxt_t61_timer_set at he
  cases hg : mxt_get_object d MXT_SPT_TIMER_T61 with
  | none =>
    rw [hg] at he
    exact Or.inl he
  | some object =>
    rw [hg] at he
    dsimp only at he
    cases hb : d.block_access with
    | true =>
      have hw : mxt_write_mem d (object.start_address % 65536) 5
          [3, cmd % 256, mode % 256, (ms % 65536) &&& 0xFF, ((ms % 65536) >>> 8) &&& 0xFF] =
          (0, d) := by
        unfold mxt_write_mem
        rw [if_pos hb]
      rw [hw] at he
      exact Or.inl he
    | false =>
      obtain ⟨k, -, -, ew⟩ := mxt_write_mem_attempts d (object.start_address % 65536) 5
        [3, cmd % 256, mode % 256, (ms % 65536) &&& 0xFF, ((ms % 65536) >>> 8) &&& 0xFF] hb
      rw [ew] at he
      dsimp only at he
      rcases List.mem_append.mp he with h | h
      · exact Or.inl h
      · right
        rw [(List.mem_replicate.mp h).2]
        rfl

/-- The distance check never clears entry 0 of the distance table. -/
theorem mxt_dist_check_distance_zero (d : mxt_data) :
    (mxt_dist_check d).2.distance 0 = d.distance 0 := by
  unfold mxt_dist_check
  dsimp only
  generalize (MAX_USING_FINGER_NUM - (d.max_id + 1)) = n
  induction n with
  | zero => rfl
  | succ n ih =>
    rw [List.range_succ, List.foldl_append]
    simp only [List.foldl_cons, List.foldl_nil]
    rw [Function.update_noteq (by omega), ih]

/-- The opening block of `mxt_tch_atch_area_check`, which arms the timer at
the first touch after a calibration: it clears `coin_check` or leaves it, puts
nothing but timer commands on the bus, and leaves alone what the streak
counters look at. -/
theorem area_check_timer_block (d : mxt_data) (tch : Nat) (hcoin : d.coin_check = 0) (D : mxt_data)
    (hD : D = (if tch ≠ 0 then
        if d.check_timer = 0 then
          { mxt_t61_timer_set { d with coin_check := 0 } MXT_T61_TIMER_ONESHOT
              MXT_T61_TIMER_CMD_START 1000 with check_timer := 1 }
        else d
      else d)) :
    D.coin_check = 0 ∧ D.check_autocal = d.check_autocal ∧
    D.Report_touch_number = d.Report_touch_number ∧ D.distance = d.distance ∧
    D.T_AREA_LOW_ST = d.T_AREA_LOW_ST ∧ D.t_area_l_cnt = d.t_area_l_cnt ∧
    (∀ e ∈ D.wlog, e ∈ d.wlog ∨ e.2.length = 5) := by
  by_cases h1 : tch ≠ 0
  · by_cases h2 : d.check_timer = 0
    · rw [if_pos h1, if_pos h2] at hD
      have hp := mxt_t61_timer_set_payload { d with coin_check := 0 } MXT_T61_TIMER_ONESHOT
        MXT_T61_TIMER_CMD_START 1000
      obtain ⟨t, w, o, e⟩ := mxt_t61_timer_set_frame { d with coin_check := 0 }
        MXT_T61_TIMER_ONESHOT MXT_T61_TIMER_CMD_START 1000
      generalize mxt_t61_timer_set { d with coin_check := 0 } MXT_T61_TIMER_ONESHOT
        MXT_T61_TIMER_CMD_START 1000 = T at hD hp e
      subst hD
      refine ⟨?_, ?_, ?_, ?_, ?_, ?_, hp⟩ <;> rw [e]
    · rw [if_pos h1, if_neg h2] at hD
      subst hD
      exact ⟨hcoin, rfl, rfl, rfl, rfl, rfl, fun e he => Or.inl he⟩
  · rw [if_neg h1] at hD
    subst hD
    exact ⟨hcoin, rfl, rfl, rfl, rfl, rfl, fun e he => Or.inl he⟩

/-- One area-metric message of a still single contact with a small touch
area: the call counts the message in `t_area_l_cnt`, or, when the counter has
reached 7, requests the reduced-sensitivity mode and sets `coin_check`.  The
state `s` the decision is taken in differs from the state before the call by
timer commands and cleared distance entries above the highest slot only. -/
theorem mxt_tch_atch_area_check_low (d : mxt_data) (tch atch ta : Nat)
    (hcoin : d.coin_check = 0) (hnum : d.Report_touch_number % 256 = 1)
    (hdist : d.distance 0 < 3) (h1 : tch < 7) (h2 : atch ≤ 1) (h3 : ¬ (tch = 0 ∧ atch > 0))
    (h4 : ta < d.T_AREA_LOW_ST) :
    ∃ s : mxt_data, s.coin_check = 0 ∧ s.check_autocal = d.check_autocal ∧
      s.Report_touch_number = d.Report_touch_number ∧ s.distance 0 = d.distance 0 ∧
      s.T_AREA_LOW_ST = d.T_AREA_LOW_ST ∧ s.t_area_l_cnt = d.t_area_l_cnt ∧
      (∀ e ∈ s.wlog, e ∈ d.wlog ∨ e.2.length = 5) ∧
      mxt_tch_atch_area_check d tch atch ta =
        if s.t_area_l_cnt ≥ 7 then
          { mxt_t8_cal_set s 5 with coin_check := 1, t_area_l_cnt := 0, t_area_cnt := 0 }
        else { s with t_area_l_cnt := s.t_area_l_cnt + 1, t_area_cnt := 0 } := by
  unfold mxt_tch_atch_area_check
  dsimp only
  generalize hD : (if tch ≠ 0 then
        if d.check_timer = 0 then
          { mxt_t61_timer_set { d with coin_check := 0 } MXT_T61_TIMER_ONESHOT
              MXT_T61_TIMER_CMD_START 1000 with check_timer := 1 }
        else d
      else d : mxt_data) = D
  obtain ⟨a1, a2, a3, a4, a5, a6, a7⟩ := area_check_timer_block d tch hcoin D hD.symm
  obtain ⟨ds, e⟩ := mxt_dist_check_frame D
  have hz := mxt_dist_check_distance_zero D
  generalize mxt_dist_check D = r at e hz
  have b1 : r.2.coin_check = 0 := by rw [e]; exact a1
  have b2 : r.2.check_autocal = d.check_autocal := by rw [e]; exact a2
  have b3 : r.2.Report_touch_number = d.Report_touch_number := by rw [e]; exact a3
  have b4 : r.2.distance 0 = d.distance 0 := by rw [hz, a4]
  have b5 : r.2.T_AREA_LOW_ST = d.T_AREA_LOW_ST := by rw [e]; exact a5
  have b6 : r.2.t_area_l_cnt = d.t_area_l_cnt := by rw [e]; exact a6
  have b7 : ∀ x ∈ r.2.wlog, x ∈ d.wlog ∨ x.2.length = 5 := by rw [e]; exact a7
  refine ⟨r.2, b1, b2, b3, b4, b5, b6, b7, ?_⟩
  have c4 : r.2.distance 0 < 3 := by rw [b4]; exact hdist
  have c5 : ta < r.2.T_AREA_LOW_ST := by rw [b5]; exact h4
  rw [if_neg h3]
  simp only [hnum, gt_iff_lt, lt_irrefl, false_and, if_false, if_true, h1, h2, and_self, b1, c4,
    c5]

/-- While the streak is short: after `l.length` qualifying messages from a
state with `coin_check` 0 and `t_area_l_cnt = c`, where `c + l.length ≤ 7`,
the counter is `c + l.length`, `coin_check` and `check_autocal` are as before,
and nothing but timer commands went on the bus. -/
theorem mxt_tch_atch_area_check_run_low (l : List (Nat × Nat × Nat)) :
    ∀ (d : mxt_data), d.coin_check = 0 → d.Report_touch_number % 256 = 1 → d.distance 0 < 3 →
      d.t_area_l_cnt + l.length ≤ 7 →
      (∀ m ∈ l, m.1 < 7 ∧ m.2.1 ≤ 1 ∧ ¬ (m.1 = 0 ∧ m.2.1 > 0) ∧ m.2.2 < d.T_AREA_LOW_ST) →
      (mxt_tch_atch_area_check_run d l).coin_check = 0 ∧
      (mxt_tch_atch_area_check_run d l).t_area_l_cnt = d.t_area_l_cnt + l.length ∧
      (mxt_tch_atch_area_check_run d l).check_autocal = d.check_autocal ∧
      (mxt_tch_atch_area_check_run d l).Report_touch_number = d.Report_touch_number ∧
      (mxt_tch_atch_area_check_run d l).distance 0 = d.distance 0 ∧
      (mxt_tch_atch_area_check_run d l).T_AREA_LOW_ST = d.T_AREA_LOW_ST ∧
      (∀ e ∈ (mxt_tch_atch_area_check_run d l).wlog, e ∈ d.wlog ∨ e.2.length = 5) := by
  induction l with
  | nil =>
    intro d hcoin _ _ _ _
    exact ⟨hcoin, rfl, rfl, rfl, rfl, rfl, fun e he => Or.inl he⟩
  | cons m l ih =>
    intro d hcoin hnum hdist hlen hl
    have hm := hl m (List.mem_cons_self _ _)
    obtain ⟨s, s1, s2, s3, s4, s5, s6, s7, es⟩ :=
      mxt_tch_atch_area_check_low d m.1 m.2.1 m.2.2 hcoin hnum hdist hm.1 hm.2.1 hm.2.2.1
        hm.2.2.2
    have hlt : ¬ s.t_area_l_cnt ≥ 7 := by
      rw [s6]
      simp only [List.length_cons] at hlen
      omega
    rw [if_neg hlt] at es
    have hrun : mxt_tch_atch_area_check_run d (m :: l) =
        mxt_tch_atch_area_check_run (mxt_tch_atch_area_check d m.1 m.2.1 m.2.2) l := rfl
    rw [hrun]
    generalize mxt_tch_atch_area_check d m.1 m.2.1 m.2.2 = d1 at es
    have t1 : d1.coin_check = 0 := by rw [es]; exact s1
    have t2 : d1.check_autocal = d.check_autocal := by rw [es]; exact s2
    have t3 : d1.Report_touch_number = d.Report_touch_number := by rw [es]; exact s3
    have t4 : d1.distance 0 = d.distance 0 := by rw [es]; exact s4
    have t5 : d1.T_AREA_LOW_ST = d.T_AREA_LOW_ST := by rw [es]; exact s5
    have t6 : d1.t_area_l_cnt = d.t_area_l_cnt + 1 := by rw [es]; dsimp only; rw [s6]
    have t7 : ∀ e ∈ d1.wlog, e ∈ d.wlog ∨ e.2.length = 5 := by rw [es]; exact s7
    simp only [List.length_cons] at hlen
    obtain ⟨r1, r2, r3, r4, r5, r6, r7⟩ := ih d1 t1 (by rw [t3]; exact hnum)
      (by rw [t4]; exact hdist) (by rw [t6]; omega)
      (fun x hx => by rw [t5]; exact hl x (List.mem_cons_of_mem _ hx))
    refine ⟨r1, ?_, ?_, ?_, ?_, ?_, ?_⟩
    · rw [r2, t6, List.length_cons]; omega
    · rw [r3, t2]
    · rw [r4, t3]
    · rw [r5, t4]
    · rw [r6, t5]
    · intro e he
      rcases r7 e he with h | h
      · exact t7 e h
      · exact Or.inr h

/-- C29: from a state with `coin_check` 0 and `t_area_l_cnt` 0, eight
consecutive area-metric messages of a single contact (`touch_num` 1) with
`tch_area < 7`, `atch_area ≤ 1` (and not `tch_area` 0 with a positive
`atch_area`), `distance[0] < 3` and `touch_area < T_AREA_LOW_ST`: after each of
the first seven the counter `t_area_l_cnt` is the number of messages so far,
`coin_check` is still 0, `check_autocal` is as it was and nothing but five-byte
timer commands went on the bus, so no reduced-sensitivity request was made; the
eighth calls `mxt_t8_cal_set` with 5 in such a state, which sets
`check_autocal` to 1, sets `coin_check` to 1 and puts `t_area_l_cnt` back
to 0. -/
theorem mxt_tch_atch_area_check_streak (d : mxt_data) (l : List (Nat × Nat × Nat))
    (hcoin : d.coin_check = 0) (hcnt : d.t_area_l_cnt = 0)
    (hnum : d.Report_touch_number % 256 = 1) (hdist : d.distance 0 < 3)
    (hlen : l.length = 8)
    (hl : ∀ m ∈ l, m.1 < 7 ∧ m.2.1 ≤ 1 ∧ ¬ (m.1 = 0 ∧ m.2.1 > 0) ∧ m.2.2 < d.T_AREA_LOW_ST) :
    (∀ k, k ≤ 7 →
      (mxt_tch_atch_area_check_run d (l.take k)).coin_check = 0 ∧
      (mxt_tch_atch_area_check_run d (l.take k)).t_area_l_cnt = k ∧
      (mxt_tch_atch_area_check_run d (l.take k)).check_autocal = d.check_autocal ∧
      (∀ e ∈ (mxt_tch_atch_area_check_run d (l.take k)).wlog, e ∈ d.wlog ∨ e.2.length = 5)) ∧
    (mxt_tch_atch_area_check_run d l).coin_check = 1 ∧
    (mxt_tch_atch_area_check_run d l).check_autocal = 1 ∧
    (mxt_tch_atch_area_check_run d l).t_area_l_cnt = 0 ∧
    (∃ s : mxt_data, s.coin_check = 0 ∧ s.check_autocal = d.check_autocal ∧
      s.t_area_l_cnt = 7 ∧ (∀ e ∈ s.wlog, e ∈ d.wlog ∨ e.2.length = 5) ∧
      mxt_tch_atch_area_check_run d l =
        { mxt_t8_cal_set s 5 with coin_check := 1, t_area_l_cnt := 0, t_area_cnt := 0 }) := by
  have hpre : ∀ k, k ≤ 7 →
      (mxt_tch_atch_area_check_run d (l.take k)).coin_check = 0 ∧
      (mxt_tch_atch_area_check_run d (l.take k)).t_area_l_cnt = k ∧
      (mxt_tch_atch_area_check_run d (l.take k)).check_autocal = d.check_autocal ∧
      (mxt_tch_atch_area_check_run d (l.take k)).Report_touch_number = d.Report_touch_number ∧
      (mxt_tch_atch_area_check_run d (l.take k)).distance 0 = d.distance 0 ∧
      (mxt_tch_atch_area_check_run d (l.take k)).T_AREA_LOW_ST = d.T_AREA_LOW_ST ∧
      (∀ e ∈ (mxt_tch_atch_area_check_run d (l.take k)).wlog,
        e ∈ d.wlog ∨ e.2.length = 5) := by
    intro k hk
    have hlk : (l.take k).length = k := by rw [List.length_take, hlen]; omega
    have h := mxt_tch_atch_area_check_run_low (l.take k) d hcoin hnum hdist
      (by rw [hcnt, hlk]; omega) (fun m hm => hl m (List.mem_of_mem_take hm))
    rw [hcnt, hlk, Nat.zero_add] at h
    exact h
  refine ⟨fun k hk => ⟨(hpre k hk).1, (hpre k hk).2.1, (hpre k hk).2.2.1,
    (hpre k hk).2.2.2.2.2.2⟩, ?_⟩
  obtain ⟨p1, p2, p3, p4, p5, p6, p7⟩ := hpre 7 (le_refl _)
  have hd : (l.drop 7).length = 1 := by rw [List.length_drop, hlen]
  obtain ⟨m, hm⟩ := List.length_eq_one.mp hd
  have hsplit : l = l.take 7 ++ [m] := by rw [← hm, List.take_append_drop]
  have hml : m ∈ l := by rw [hsplit]; simp
  have hrun : mxt_tch_atch_area_check_run d l =
      mxt_tch_atch_area_check (mxt_tch_atch_area_check_run d (l.take 7)) m.1 m.2.1 m.2.2 := by
    conv_lhs => rw [hsplit]
    unfold mxt_tch_atch_area_check_run
    rw [List.foldl_append]
    rfl
  generalize mxt_tch_atch_area_check_run d (l.take 7) = d7 at p1 p2 p3 p4 p5 p6 p7 hrun
  have hm4 := hl m hml
  obtain ⟨s, s1, s2, s3, s4, s5, s6, s7, es⟩ :=
    mxt_tch_atch_area_check_low d7 m.1 m.2.1 m.2.2 p1 (by rw [p4]; exact hnum)
      (by rw [p5]; exact hdist) hm4.1 hm4.2.1 hm4.2.2.1 (by rw [p6]; exact hm4.2.2.2)
  have hge : s.t_area_l_cnt ≥ 7 := by rw [s6, p2]
  rw [if_pos hge] at es
  rw [hrun, es]
  refine ⟨rfl, ?_, rfl, s, s1, by rw [s2, p3], by rw [s6, p2], ?_, rfl⟩
  · obtain ⟨t, w, e⟩ := mxt_t8_cal_set_frame s 5
    rw [e]
    rfl
  · intro e he
    rcases s7 e he with h | h
    · exact p7 e h
    · exact Or.inr h

/-- The statement of C29 on the single-touch device with eight messages of
touch area 3, anti-touch area 0 and contact area 5 below the threshold 10: the
flag and the reduced-sensitivity mark are set by the eighth message. -/
theorem mxt_tch_atch_area_check_streak_witness :
    device_single_touch.coin_check = 0 ∧ device_single_touch.t_area_l_cnt = 0 ∧
    device_single_touch.Report_touch_number % 256 = 1 ∧ device_single_touch.distance 0 < 3 ∧
    (mxt_tch_atch_area_check_run device_single_touch (List.replicate 8 (3, 0, 5))).coin_check
      = 1 ∧
    (mxt_tch_atch_area_check_run device_single_touch (List.replicate 8 (3, 0, 5))).check_autocal
      = 1 ∧
    (mxt_tch_atch_area_check_run device_single_touch (List.replicate 8 (3, 0, 5))).t_area_l_cnt
      = 0 :=
  have h := mxt_tch_atch_area_check_streak device_single_touch (List.replicate 8 (3, 0, 5))
    (by decide) (by decide) (by decide) (by decide) (by decide)
    (fun m hm => by rw [List.eq_of_mem_replicate hm]; decide)
  ⟨by decide, by decide, by decide, by decide, h.2.1, h.2.2.1, h.2.2.2.1⟩

end Mxts

namespace Mxts

/-! ## The stationary-object flag and the area check -/

set_option maxRecDepth 1000000

/-- C30 counterexample: on the single-touch device with `coin_check` 1 and no
calibration in progress, an area-metric input with touch area 0 and anti-touch
area 5 makes `mxt_tch_atch_area_check` write the calibrate command to T6
(address 0x122, value 1) and set `cal_busy`, and so does a single contact with
touch area 30; the flag is still set afterwards. -/
theorem mxt_tch_atch_area_check_coin_request :
    device_coin.coin_check = 1 ∧ device_coin.cal_busy = false ∧ device_coin.wlog = [] ∧
    (mxt_tch_atch_area_check device_coin 0 5 0).wlog = [(0x122, [1])] ∧
    (mxt_tch_atch_area_check device_coin 0 5 0).cal_busy = true ∧
    (mxt_tch_atch_area_check device_coin 0 5 0).coin_check = 1 ∧
    (mxt_tch_atch_area_check device_coin 30 0 40).wlog = [(0x122, [1])] ∧
    (mxt_tch_atch_area_check device_coin 30 0 40).coin_check = 1 := by
  decide

/-- C30 (amended): while `coin_check` is set, and unless the call clears it
itself (a touch area other than 0 with `check_timer` 0), the area check does
not count and makes no reduced-sensitivity request: `coin_check`,
`check_autocal`, `t_area_cnt` and `t_area_l_cnt` are unchanged and
`mxt_t8_cal_set` is not called.  Recalibration requests are not
short-circuited: `calibrate_chip` is called exactly when the touch area is 0
with a positive anti-touch area, or two contacts have a touch area of at most
45 and more than 3 below the anti-touch area, or at least three contacts have
a touch area above four times their number plus 2, of at most 45 and more than
2 below the anti-touch area, or several contacts have a touch area above 48
and above the anti-touch area, or a single contact has a touch area above
25. -/
theorem mxt_tch_atch_area_check_coin (d : mxt_data) (tch_area atch_area touch_area : Nat)
    (hcoin : d.coin_check ≠ 0) (ht : tch_area = 0 ∨ d.check_timer ≠ 0) :
    mxt_tch_atch_area_check d tch_area atch_area touch_area =
      (if tch_area = 0 ∧ atch_area > 0 then (calibrate_chip d).2
       else if (d.Report_touch_number % 256 = 2 ∧ tch_area ≤ 45 ∧
            (tch_area : Int) < (atch_area : Int) - 3) ∨
          (d.Report_touch_number % 256 > 2 ∧ tch_area ≤ 45 ∧
            d.Report_touch_number % 256 * 4 + 2 < tch_area ∧
            (tch_area : Int) < (atch_area : Int) - 2) ∨
          (d.Report_touch_number % 256 > 1 ∧ tch_area > 48 ∧ tch_area > atch_area) ∨
          (d.Report_touch_number % 256 = 1 ∧ tch_area > 25)
        then (calibrate_chip (mxt_dist_check d).2).2
        else (mxt_dist_check d).2) ∧
    (mxt_tch_atch_area_check d tch_area atch_area touch_area).coin_check = d.coin_check ∧
    (mxt_tch_atch_area_check d tch_area atch_area touch_area).check_autocal = d.check_autocal ∧
    (mxt_tch_atch_area_check d tch_area atch_area touch_area).t_area_cnt = d.t_area_cnt ∧
    (mxt_tch_atch_area_check d tch_area atch_area touch_area).t_area_l_cnt = d.t_area_l_cnt := by
  have hmain : mxt_tch_atch_area_check d tch_area atch_area touch_area =
      (if tch_area = 0 ∧ atch_area > 0 then (calibrate_chip d).2
       else if (d.Report_touch_number % 256 = 2 ∧ tch_area ≤ 45 ∧
            (tch_area : Int) < (atch_area : Int) - 3) ∨
          (d.Report_touch_number % 256 > 2 ∧ tch_area ≤ 45 ∧
            d.Report_touch_number % 256 * 4 + 2 < tch_area ∧
            (tch_area : Int) < (atch_area : Int) - 2) ∨
          (d.Report_touch_number % 256 > 1 ∧ tch_area > 48 ∧ tch_area > atch_area) ∨
          (d.Report_touch_number % 256 = 1 ∧ tch_area > 25)
        then (calibrate_chip (mxt_dist_check d).2).2
        else (mxt_dist_check d).2) := by
    have hD : (if tch_area ≠ 0 then
          if d.check_timer = 0 then
            { mxt_t61_timer_set { d with coin_check := 0 } MXT_T61_TIMER_ONESHOT
                MXT_T61_TIMER_CMD_START 1000 with check_timer := 1 }
          else d
        else d : mxt_data) = d := by
      rcases ht with h | h
      · rw [if_neg (not_not.mpr h)]
      · rw [if_neg h, ite_self]
    unfold mxt_tch_atch_area_check
    dsimp only
    rw [hD]
    obtain ⟨ds, e⟩ := mxt_dist_check_frame d
    have hc2 : (mxt_dist_check d).2.coin_check ≠ 0 := by rw [e]; exact hcoin
    generalize mxt_dist_check d = r at hc2
    generalize d.Report_touch_number % 256 = n
    generalize (calibrate_chip r.2).2 = C
    generalize (calibrate_chip d).2 = C0
    rw [if_neg hc2, if_neg hc2]
    by_cases h0 : tch_area = 0 ∧ atch_area > 0
    · rw [if_pos h0, if_pos h0]
    · rw [if_neg h0, if_neg h0]
      split_ifs <;> first | rfl | omega
  obtain ⟨ds, e⟩ := mxt_dist_check_frame d
  have e1 : (mxt_dist_check d).2.coin_check = d.coin_check := by rw [e]
  have e2 : (mxt_dist_check d).2.check_autocal = d.check_autocal := by rw [e]
  have e3 : (mxt_dist_check d).2.t_area_cnt = d.t_area_cnt := by rw [e]
  have e4 : (mxt_dist_check d).2.t_area_l_cnt = d.t_area_l_cnt := by rw [e]
  refine ⟨hmain, ?_, ?_, ?_, ?_⟩
  · rw [hmain]
    simp only [apply_ite mxt_data.coin_check,
      frame_cal mxt_data.coin_check (fun _ _ _ _ => rfl), e1, ite_self]
  · rw [hmain]
    simp only [apply_ite mxt_data.check_autocal,
      frame_cal mxt_data.check_autocal (fun _ _ _ _ => rfl), e2, ite_self]
  · rw [hmain]
    simp only [apply_ite mxt_data.t_area_cnt,
      frame_cal mxt_data.t_area_cnt (fun _ _ _ _ => rfl), e3, ite_self]
  · rw [hmain]
    simp only [apply_ite mxt_data.t_area_l_cnt,
      frame_cal mxt_data.t_area_l_cnt (fun _ _ _ _ => rfl), e4, ite_self]

/-- The statement of C30 on the single-touch device with `coin_check` 1 and
the timer armed, for a contact of touch area 30: the flag, the counters and
`check_autocal` are unchanged, and the calibrate command is written. -/
theorem mxt_tch_atch_area_check_coin_witness :
    device_coin.coin_check ≠ 0 ∧ (30 = 0 ∨ device_coin.check_timer ≠ 0) ∧
    (mxt_tch_atch_area_check device_coin 30 0 40).coin_check = device_coin.coin_check ∧
    (mxt_tch_atch_area_check device_coin 30 0 40).check_autocal = device_coin.check_autocal ∧
    (mxt_tch_atch_area_check device_coin 30 0 40).t_area_cnt = device_coin.t_area_cnt ∧
    (mxt_tch_atch_area_check device_coin 30 0 40).t_area_l_cnt = device_coin.t_area_l_cnt :=
  ⟨by decide, by decide,
   (mxt_tch_atch_area_check_coin device_coin 30 0 40 (by decide) (by decide)).2⟩

end Mxts

namespace Mxts

/-! ## Distance of two points, and the busy flag after a failed request -/

set_option maxRecDepth 1000000

/-- C38 fails on the code: for a contact that moved one unit to the left
(`x = 0`, `oldx = 1`) `diff_two_point` returns 65535, not the Manhattan
distance 1, and the result is not below 3.  The differences are taken in
`u16`, so a negative one wraps, and `abs` of the promoted unsigned value is the
value itself: one unit to the left from any position gives 65535, one unit up
likewise, and one unit left and up gives 65534.  For a move to the right and
down the result is the Manhattan distance. -/
theorem diff_two_point_leftward :
    diff_two_point 0 0 1 0 = 65535 ∧
    |((0 : Int) - 1)| + |((0 : Int) - 0)| = 1 ∧
    ¬ diff_two_point 0 0 1 0 < 3 ∧
    (∀ x y : Nat, diff_two_point (x % 65535) (y % 65536) (x % 65535 + 1) (y % 65536) = 65535) ∧
    (∀ x y : Nat, diff_two_point (x % 65536) (y % 65535) (x % 65536) (y % 65535 + 1) = 65535) ∧
    (∀ x y : Nat,
      diff_two_point (x % 65535) (y % 65535) (x % 65535 + 1) (y % 65535 + 1) = 65534) ∧
    (∀ x y dx dy : Nat,
      diff_two_point (x % 32768 + dx % 32768) (y % 32768 + dy % 32768) (x % 32768) (y % 32768) =
        dx % 32768 + dy % 32768) := by
  refine ⟨by decide, by decide, by decide, ?_, ?_, ?_, ?_⟩
  · intro x y
    unfold diff_two_point
    dsimp only
    omega
  · intro x y
    unfold diff_two_point
    dsimp only
    omega
  · intro x y
    unfold diff_two_point
    dsimp only
    omega
  · intro x y dx dy
    unfold diff_two_point
    dsimp only
    omega

/-- A calibration request in a state with `cal_busy` set is absorbed. -/
theorem calibrate_chip_absorbed (d : mxt_data) (h : d.cal_busy = true) :
    calibrate_chip d = (0, d) := by
  unfold calibrate_chip
  rw [if_pos h]

/-- C34 fails on the code: `calibrate_chip` sets `cal_busy` whatever the
calibrate write returned.  On a device without a T6 object the request returns
`-EINVAL`, on a bus that refuses every send it returns `-EIO`; in both cases
`cal_busy` is set afterwards although no command reached the chip, and the
next request is absorbed: it returns 0 and does nothing.  After any call of
`calibrate_chip` the flag is set. -/
theorem calibrate_chip_busy_after_failure :
    device_without_T6.cal_busy = false ∧
    (calibrate_chip device_without_T6).1 = - EINVAL ∧
    (calibrate_chip device_without_T6).2.cal_busy = true ∧
    (calibrate_chip device_without_T6).2.wlog = [] ∧
    calibrate_chip (calibrate_chip device_without_T6).2 =
      (0, (calibrate_chip device_without_T6).2) ∧
    device_send_fails.cal_busy = false ∧
    (calibrate_chip device_send_fails).1 = - EIO ∧
    (calibrate_chip device_send_fails).2.cal_busy = true ∧
    calibrate_chip (calibrate_chip device_send_fails).2 =
      (0, (calibrate_chip device_send_fails).2) ∧
    (∀ d : mxt_data, (calibrate_chip d).2.cal_busy = true) := by
  refine ⟨by decide, by decide, by decide, by decide, ?_, by decide, by decide, by decide, ?_,
    calibrate_chip_sets_busy⟩
  · exact calibrate_chip_absorbed _ (calibrate_chip_sets_busy _)
  · exact calibrate_chip_absorbed _ (calibrate_chip_sets_busy _)

end Mxts

namespace Mxts

/-! ## Masking the CRC after every step -/

/-- The 24-bit mask is the remainder modulo `2^24`. -/
theorem and_mask24 (x : Nat) : x &&& 0x00FFFFFF = x % 2 ^ 24 :=
  Nat.and_pow_two_sub_one_eq_mod x 24

/-- A CRC step maps running values with the same low 24 bits to results with
the same low 24 bits. -/
theorem mxt_make_crc24_low_congr (x y b1 b2 : Nat) (h : x % 2 ^ 24 = y % 2 ^ 24) :
    mxt_make_crc24 x b1 b2 % 2 ^ 24 = mxt_make_crc24 y b1 b2 % 2 ^ 24 := by
  rw [mod_two_pow_24_eq_iff] at h ⊢
  intro i hi
  rw [mxt_make_crc24_testBit x b1 b2 i hi, mxt_make_crc24_testBit y b1 b2 i hi,
    h 23 (by norm_num)]
  by_cases h1 : 1 ≤ i
  · rw [h (i - 1) (by omega)]
  · have hd : decide (1 ≤ i) = false := by simp; omega
    rw [hd, Bool.false_and, Bool.false_and]

/-- The loop with the mask after every step and the loop of the source walk
the buffer alike, and their running values agree on the low 24 bits. -/
theorem crc_loop_masked_agrees (mem : List Nat) :
    ∀ (fuel : Nat) (s t : crc_loop_state), s.i = t.i → s.reads = t.reads →
      s.crc % 2 ^ 24 = t.crc % 2 ^ 24 →
      (crc_loop mem fuel s).i = (crc_loop_masked mem fuel t).i ∧
      (crc_loop mem fuel s).reads = (crc_loop_masked mem fuel t).reads ∧
      (crc_loop mem fuel s).crc % 2 ^ 24 = (crc_loop_masked mem fuel t).crc % 2 ^ 24 := by
  intro fuel
  induction fuel with
  | zero =>
    intro s t hi hr hc
    exact ⟨hi, hr, hc⟩
  | succ fuel ih =>
    intro s t hi hr hc
    unfold crc_loop crc_loop_masked
    rw [← hi]
    by_cases hlt : s.i < mem.length - 1
    · rw [if_pos hlt, if_pos hlt]
      apply ih
      · rfl
      · dsimp only
        rw [hr, hi]
      · dsimp only
        unfold crc24_step_masked
        rw [and_mask24, Nat.mod_mod]
        exact mxt_make_crc24_low_congr _ _ _ _ hc
    · rw [if_neg hlt, if_neg hlt]
      exact ⟨hi, hr, hc⟩

/-- C39.  The low 24 bits of a CRC step depend only on the low 24 bits of the
running value: masking the running value before the step does not change the
masked result.  Hence the value `mxt_calculate_infoblock_crc` computes from
its buffer, the unmasked fold followed by one final mask, equals the fold that
masks to 24 bits after every step; the same holds for the fold over any list
of byte pairs. -/
theorem mxt_make_crc24_mask_commutes :
    (∀ crc b1 b2 : Nat,
      mxt_make_crc24 (crc &&& 0x00FFFFFF) b1 b2 &&& 0x00FFFFFF =
        mxt_make_crc24 crc b1 b2 &&& 0x00FFFFFF) ∧
    (∀ mem : List Nat, (infoblock_crc_of_mem mem).1 = infoblock_crc_masked_of_mem mem) ∧
    (∀ l : List (Nat × Nat),
      crc24_of_pairs l = l.foldl (fun c p => crc24_step_masked c p.1 p.2) 0) := by
  refine ⟨?_, ?_, ?_⟩
  · intro crc b1 b2
    rw [and_mask24, and_mask24, and_mask24]
    exact mxt_make_crc24_low_congr _ _ _ _ (Nat.mod_mod _ _)
  · intro mem
    obtain ⟨h1, -, h3⟩ := crc_loop_masked_agrees mem mem.length
      { i := 0, crc := 0, reads := [] } { i := 0, crc := 0, reads := [] } rfl rfl rfl
    unfold infoblock_crc_of_mem infoblock_crc_masked_of_mem crc24_step_masked
    dsimp only
    rw [and_mask24, and_mask24, h1]
    exact mxt_make_crc24_low_congr _ _ _ _ h3
  · intro l
    unfold crc24_of_pairs
    rw [and_mask24]
    have hgen : ∀ (l : List (Nat × Nat)) (x y : Nat), x % 2 ^ 24 = y → y < 2 ^ 24 →
        List.foldl (fun c p => mxt_make_crc24 c p.1 p.2) x l % 2 ^ 24 =
          List.foldl (fun c p => crc24_step_masked c p.1 p.2) y l := by
      intro l
      induction l with
      | nil =>
        intro x y hxy _
        exact hxy
      | cons p t ih =>
        intro x y hxy hy
        simp only [List.foldl_cons]
        apply ih
        · unfold crc24_step_masked
          rw [and_mask24]
          apply mxt_make_crc24_low_congr
          rw [hxy, Nat.mod_eq_of_lt hy]
        · unfold crc24_step_masked
          rw [and_mask24]
          exact Nat.mod_lt _ (by norm_num)
    exact hgen l 0 0 rfl (by norm_num)

end Mxts

namespace Mxts

/-! ## Writing one byte of an object -/

set_option maxRecDepth 1000000

/-- What `find?` returns is the first element that passes the test. -/
theorem find_some_split {α : Type} (p : α → Bool) :
    ∀ (l : List α) (b : α), l.find? p = some b →
      ∃ pre post, l = pre ++ b :: post ∧ p b = true ∧ ∀ a ∈ pre, ¬ p a = true := by
  intro l
  induction l with
  | nil => intro b h; simp at h
  | cons x t ih =>
    intro b h
    by_cases hx : p x = true
    · rw [List.find?_cons_of_pos _ hx] at h
      injection h with h
      subst h
      exact ⟨[], t, rfl, hx, fun a ha => absurd ha (by simp)⟩
    · rw [List.find?_cons_of_neg _ hx] at h
      obtain ⟨pre, post, e, hb, hpre⟩ := ih b h
      refine ⟨x :: pre, post, by rw [e]; rfl, hb, ?_⟩
      intro a ha
      rcases List.mem_cons.mp ha with h1 | h1
      · rw [h1]; exact hx
      · exact hpre a h1

/-- The object `mxt_get_object` returns is the first one of the requested type
among the first `object_num` entries of the directory. -/
theorem mxt_get_object_first (d : mxt_data) (type : Nat) (o : mxt_object)
    (h : mxt_get_object d type = some o) :
    ∃ objs pre post, d.objects = some objs ∧
      objs.take d.info.object_num = pre ++ o :: post ∧ o.type = type ∧
      ∀ p ∈ pre, p.type ≠ type := by
  unfold mxt_get_object at h
  cases hobj : d.objects with
  | none => rw [hobj] at h; simp at h
  | some objs =>
    rw [hobj] at h
    dsimp only at h
    obtain ⟨pre, post, e, hb, hpre⟩ := find_some_split _ _ _ h
    refine ⟨objs, pre, post, rfl, e, ?_, ?_⟩
    · simpa using hb
    · intro p hp
      simpa using hpre p hp

/-- The lookup `mxt_get_object` fails exactly when the directory pointer is
NULL or no entry among the first `object_num` has the requested type. -/
theorem mxt_get_object_none (d : mxt_data) (type : Nat) :
    mxt_get_object d type = none ↔
      (d.objects = none ∨
        ∀ o ∈ (d.objects.getD []).take d.info.object_num, o.type ≠ type) := by
  unfold mxt_get_object
  cases hobj : d.objects with
  | none => simp
  | some objs =>
    dsimp only
    rw [List.find?_eq_none]
    simp

/-- C35.  `mxt_write_object` returns `-EINVAL` and leaves the state, the bus
log included, untouched when the type is absent from the directory or when the
offset is at or beyond `size * instances` of the first object of that type.
Otherwise it is one call of `mxt_write_mem` for one byte at `start_address +
offset` of that object (a 16-bit address), whose result it returns: with the
debug lock off the call makes between one and three send attempts of the same
message, the address and the byte `val`, and exactly one when the first send is
not refused. -/
theorem mxt_write_object_contract (d : mxt_data) (type offset val : Nat) :
    (mxt_get_object d type = none →
      mxt_write_object d type offset val = (- EINVAL, d)) ∧
    (∀ o, mxt_get_object d type = some o →
      (∃ objs pre post, d.objects = some objs ∧
        objs.take d.info.object_num = pre ++ o :: post ∧ o.type = type ∧
        ∀ p ∈ pre, p.type ≠ type) ∧
      (offset ≥ o.size * o.instances →
        mxt_write_object d type offset val = (- EINVAL, d)) ∧
      (offset < o.size * o.instances →
        mxt_write_object d type offset val =
          mxt_write_mem d (o.start_address + offset) 1 [val] ∧
        (d.block_access = false →
          (∃ k, 1 ≤ k ∧ k ≤ 3 ∧ (mxt_write_object d type offset val).2 =
            { d with tick := d.tick + k,
                     wlog := d.wlog ++ List.replicate k
                       ((o.start_address + offset) % 65536, [val % 256]) }) ∧
          (0 ≤ d.i2c_master_send d.tick 3 →
            (mxt_write_object d type offset val).2.wlog =
              d.wlog ++ [((o.start_address + offset) % 65536, [val % 256])])))) := by
  refine ⟨?_, ?_⟩
  · intro h
    unfold mxt_write_object
    rw [h]
  · intro o h
    refine ⟨mxt_get_object_first d type o h, ?_, ?_⟩
    · intro hoff
      unfold mxt_write_object
      rw [h]
      dsimp only
      rw [if_pos hoff]
    · intro hoff
      have hw : mxt_write_object d type offset val =
          mxt_write_mem d (o.start_address + offset) 1 [val] := by
        unfold mxt_write_object
        rw [h]
        dsimp only
        rw [if_neg (by omega)]
      refine ⟨hw, ?_⟩
      intro hb
      refine ⟨?_, fun hs => mxt_write_object_once d type offset val o h hoff hb hs⟩
      obtain ⟨k, h1, h2, e⟩ := mxt_write_mem_attempts d (o.start_address + offset) 1 [val] hb
      refine ⟨k, h1, h2, ?_⟩
      rw [hw, e]
      rfl

/-- C35 on the engine device: a write to offset 4 of T8 (ten bytes at 0x140)
is one message for address 0x144, a write to offset 10 of T8 and a write to
the absent T7 are refused without bus traffic. -/
theorem mxt_write_object_contract_witness :
    mxt_get_object device_engine 7 = none ∧
    mxt_write_object device_engine 7 0 1 = (- EINVAL, device_engine) ∧
    mxt_write_object device_engine 8 10 5 = (- EINVAL, device_engine) ∧
    (mxt_write_object device_engine 8 4 5).2.wlog = [(0x144, [5])] :=
  ⟨by decide,
   (mxt_write_object_contract device_engine 7 0 1).1 (by decide),
   ((mxt_write_object_contract device_engine 8 10 5).2
      { type := 8, start_address := 0x140, size := 10, instances := 1 } (by decide)).2.1
      (by decide),
   ((((mxt_write_object_contract device_engine 8 4 5).2
      { type := 8, start_address := 0x140, size := 10, instances := 1 } (by decide)).2.2
      (by decide)).2 (by decide)).2 (by decide)⟩

end Mxts

namespace Mxts

/-! ## The platform-table writer and the instances of an object -/

set_option maxRecDepth 1000000

/-- A write on an unlocked bus whose first send is accepted in full: status 0,
one transaction, one message. -/
theorem mxt_write_mem_accepted (d : mxt_data) (reg len : Nat) (buf : List Nat)
    (hb : d.block_access = false)
    (hs : d.i2c_master_send d.tick (len % 256 + 2) = ((len % 256 + 2 : Nat) : Int)) :
    mxt_write_mem d reg len buf =
      (0, { d with tick := d.tick + 1,
                   wlog := d.wlog ++
                     [(reg % 65536, (List.range (len % 256)).map (fun k => buf.getD k 0 % 256))] })
    := by
  have hr : i2c_retry (fun t => d.i2c_master_send t (len % 256 + 2)) 3 d.tick 0 =
      (((len % 256 + 2 : Nat) : Int), d.tick + 1) := by
    rw [i2c_retry_first _ _ _ _ (by rw [hs]; exact not_lt.mpr (Int.ofNat_nonneg _)), hs]
  unfold mxt_write_mem
  rw [if_neg (by rw [hb]; decide)]
  dsimp only
  rw [hr]
  dsimp only
  rw [if_pos rfl]
  have h1 : d.tick + 1 - d.tick = 1 := by omega
  rw [h1]
  rfl

/-- The instance count `mxt_check_instance` returns for a type that
`mxt_get_object` finds is the `instances` field of that object. -/
theorem mxt_check_instance_of_get (d : mxt_data) (type : Nat) (o : mxt_object)
    (h : mxt_get_object d type = some o) : mxt_check_instance d type = o.instances := by
  unfold mxt_get_object at h
  unfold mxt_check_instance
  cases hobj : d.objects with
  | none => rw [hobj] at h; simp at h
  | some objs =>
    rw [hobj] at h
    dsimp only at h
    rw [Option.getD_some, h]

/-- For an object with a non-zero `instances` field, which is every object
`mxt_get_object_table` has filled in with at most 255 instances, on a bus that
accepts every send: `mxt_init_write_config` writes the object's `size` bytes
at `start_address` and then `size` bytes of zeros at `start_address + size`,
the block after the object. -/
theorem mxt_init_write_config_zero_block (d : mxt_data) (type : Nat) (cfg : List Nat)
    (o : mxt_object) (hget : mxt_get_object d type = some o) (hsize : o.size ≠ 0)
    (haddr : o.start_address ≠ 0) (hinst : o.instances ≠ 0) (hb : d.block_access = false)
    (hsend : ∀ t n, d.i2c_master_send t n = (n : Int)) (hk : d.kalloc d.allocs = true) :
    (mxt_init_write_config d type cfg).1 = 0 ∧
    (mxt_init_write_config d type cfg).2.wlog =
      d.wlog ++
        [(o.start_address % 65536,
            (List.range (o.size % 256)).map (fun k => cfg.getD k 0 % 256)),
         ((o.start_address + o.size) % 65536,
            (List.range (o.size % 256)).map (fun k =>
              (List.replicate o.size 0).getD k 0 % 256))] := by
  unfold mxt_init_write_config
  rw [hget]
  dsimp only
  rw [if_neg (by intro h; rcases h with h | h; exact hsize h; exact haddr h)]
  rw [mxt_write_mem_accepted d o.start_address o.size cfg hb (hsend _ _)]
  dsimp only
  rw [if_neg (by decide)]
  have hget1 : mxt_get_object
      { d with tick := d.tick + 1,
               wlog := d.wlog ++
                 [(o.start_address % 65536,
                   (List.range (o.size % 256)).map (fun k => cfg.getD k 0 % 256))] } type =
      some o := hget
  rw [mxt_check_instance_of_get _ type o hget1, if_pos hinst]
  unfold kcalloc
  rw [if_neg hsize]
  dsimp only
  rw [hk, if_neg (by decide)]
  have hw2 : mxt_write_mem
      { d with tick := d.tick + 1,
               wlog := d.wlog ++
                 [(o.start_address % 65536,
                   (List.range (o.size % 256)).map (fun k => cfg.getD k 0 % 256))],
               allocs := d.allocs + 1 }
      (o.start_address + o.size) o.size (List.replicate o.size 0) = _ :=
    mxt_write_mem_accepted _ (o.start_address + o.size) o.size (List.replicate o.size 0) hb
      (hsend _ _)
  rw [hw2]
  dsimp only
  refine ⟨rfl, ?_⟩
  rw [List.append_assoc]
  rfl

/-- C37 fails on the code: for the T7 object of four bytes at 0x130, which has
exactly one instance and is followed by T8 at 0x134, `mxt_init_write_config`
returns 0 after two writes: the four configuration bytes at 0x130, and four
bytes of zeros at 0x134, the first four bytes of T8.  The zero block is
written whenever `mxt_check_instance` returns non-zero, and it returns the
`instances` field, which `mxt_get_object_table` sets to the instance byte plus
one: 1 for a single instance. -/
theorem mxt_init_write_config_overruns_object :
    mxt_get_object device_adjacent_objects 7 =
      some { type := 7, start_address := 0x130, size := 4, instances := 1 } ∧
    mxt_get_object device_adjacent_objects 8 =
      some { type := 8, start_address := 0x134, size := 10, instances := 1 } ∧
    mxt_check_instance device_adjacent_objects 7 = 1 ∧
    (mxt_init_write_config device_adjacent_objects 7 [1, 2, 3, 4]).1 = 0 ∧
    (mxt_init_write_config device_adjacent_objects 7 [1, 2, 3, 4]).2.wlog =
      [(0x130, [1, 2, 3, 4]), (0x134, [0, 0, 0, 0])] ∧
    ¬ ((0x134 : Nat) < 0x130 + 4) := by
  refine ⟨by decide, by decide, by decide, by decide, by decide, by decide⟩

end Mxts

namespace Mxts

/-! ## Termination of the record walk -/

set_option maxRecDepth 1000000

/-- On a well-formed image of 65536 bytes made of four-byte records for a
one-byte object, the record walk never ends: from any record boundary, on a bus
that accepts every send, it uses up every iteration bound.  The 16-bit index
comes back to 0 after the last record instead of reaching the length. -/
theorem cfg_walk_tiling_loops (raw : Nat → Nat) (o : mxt_object)
    (hraw : ∀ i, raw i = if i % 4 = 0 then 7 else if i % 4 = 1 then 0
      else if i % 4 = 2 then 1 else 9)
    (hsize : o.size = 1) (hinst : o.instances = 1) :
    ∀ (fuel index : Nat) (ret : Int) (d : mxt_data), index % 4 = 0 → index < 65536 →
      mxt_get_object d 7 = some o → d.block_access = false →
      (∀ t n, d.i2c_master_send t n = (n : Int)) →
      cfg_walk raw 65536 fuel index ret d = none := by
  intro fuel
  induction fuel with
  | zero =>
    intro index ret d _ _ _ _ _
    rfl
  | succ fuel ih =>
    intro index ret d h4 hlt hget hb hsend
    have r0 : raw index % 256 = 7 := by rw [hraw, if_pos h4]
    have r1 : raw (index + 1) % 256 = 0 := by
      rw [hraw, if_neg (by omega), if_pos (by omega)]
    have r2 : raw (index + 2) % 256 = 1 := by
      rw [hraw, if_neg (by omega), if_neg (by omega), if_pos (by omega)]
    have hw := mxt_write_mem_accepted d ((o.start_address + o.size * 0) % 65536) 1
      ((List.range 1).map (fun k => raw (index + sizeof_mxt_cfg_data + k))) hb (hsend _ _)
    unfold cfg_walk
    rw [if_pos hlt, if_neg (by unfold sizeof_mxt_cfg_data; omega)]
    dsimp only
    rw [r0, r1, r2, if_neg (by unfold sizeof_mxt_cfg_data; omega), hget]
    dsimp only
    rw [if_neg (by omega), if_neg (by omega), hw]
    dsimp only
    rw [if_neg (by decide), if_neg (by omega)]
    apply ih
    · unfold sizeof_mxt_cfg_data; omega
    · exact Nat.mod_lt _ (by norm_num)
    · exact hget
    · exact hb
    · exact hsend

/-- The zero-fill loop over an object of at most 255 bytes ends: started at
`i ≤ 255` with more iterations allowed than bytes left, it returns. -/
theorem cfg_zero_loop_terminates (reg osize : Nat) (ho : osize ≤ 255) :
    ∀ (k fuel i : Nat) (ret : Int) (d : mxt_data), osize ≤ i + k → k + 1 ≤ fuel →
      ∃ out, cfg_zero_loop reg osize fuel i ret d = some out := by
  intro k
  induction k with
  | zero =>
    intro fuel i ret d hk hf
    obtain ⟨f, rfl⟩ : ∃ f, fuel = f + 1 := ⟨fuel - 1, by omega⟩
    unfold cfg_zero_loop
    rw [if_neg (by omega)]
    exact ⟨_, rfl⟩
  | succ k ih =>
    intro fuel i ret d hk hf
    obtain ⟨f, rfl⟩ : ∃ f, fuel = f + 1 := ⟨fuel - 1, by omega⟩
    unfold cfg_zero_loop
    by_cases hi : i < osize
    · rw [if_pos hi]
      dsimp only
      by_cases hr : (mxt_write_mem d (reg + i) 1 [0]).1 ≠ 0
      · rw [if_pos hr]
        exact ⟨_, rfl⟩
      · rw [if_neg hr]
        have hmod : (i + 1) % 256 = i + 1 := Nat.mod_eq_of_lt (by omega)
        rw [hmod]
        exact ih f (i + 1) _ _ (by omega) (by omega)
    · rw [if_neg hi]
      exact ⟨_, rfl⟩

/-- Within the range the 16-bit index cannot leave, the record walk ends: for
an image of at most 65280 bytes and a directory whose objects have at most 255
bytes, whatever the bus does, the walk from offset `index` returns once it is
allowed `n + 257` iterations, `n` being a third of the bytes left, rounded
up. -/
theorem cfg_walk_terminates (raw : Nat → Nat) (cfg_length : Nat) (hlen : cfg_length ≤ 65280) :
    ∀ (n fuel index : Nat) (ret : Int) (d : mxt_data),
      (∀ type o, mxt_get_object d type = some o → o.size ≤ 255) →
      cfg_length ≤ index + 3 * n → n + 257 ≤ fuel →
      ∃ out, cfg_walk raw cfg_length fuel index ret d = some out := by
  intro n
  induction n with
  | zero =>
    intro fuel index ret d _ hm hf
    obtain ⟨f, rfl⟩ : ∃ f, fuel = f + 1 := ⟨fuel - 1, by omega⟩
    unfold cfg_walk
    rw [if_neg (by omega)]
    exact ⟨_, rfl⟩
  | succ n ih =>
    intro fuel index ret d hsz hm hf
    obtain ⟨f, rfl⟩ : ∃ f, fuel = f + 1 := ⟨fuel - 1, by omega⟩
    unfold cfg_walk
    by_cases hidx : index < cfg_length
    · rw [if_pos hidx]
      by_cases h1 : index + sizeof_mxt_cfg_data ≥ cfg_length
      · rw [if_pos h1]
        exact ⟨_, rfl⟩
      · rw [if_neg h1]
        dsimp only
        have h1' : index + 3 < cfg_length := by
          unfold sizeof_mxt_cfg_data at h1; omega
        have hs : raw (index + 2) % 256 < 256 := Nat.mod_lt _ (by norm_num)
        have hmod : (index + sizeof_mxt_cfg_data + raw (index + 2) % 256) % 65536 =
            index + 3 + raw (index + 2) % 256 := by
          unfold sizeof_mxt_cfg_data
          exact Nat.mod_eq_of_lt (by omega)
        rw [hmod]
        by_cases h2 : index + 3 + raw (index + 2) % 256 > cfg_length
        · rw [if_pos h2]
          exact ⟨_, rfl⟩
        · rw [if_neg h2]
          cases hget : mxt_get_object d (raw index % 256) with
          | none => exact ⟨_, rfl⟩
          | some object =>
            dsimp only
            have hos := hsz _ _ hget
            by_cases h3 : raw (index + 2) % 256 > object.size
            · rw [if_pos h3]
              exact ⟨_, rfl⟩
            · rw [if_neg h3]
              by_cases h4 : raw (index + 1) % 256 ≥ object.instances
              · rw [if_pos h4]
                exact ⟨_, rfl⟩
              · rw [if_neg h4]
                obtain ⟨k, -, e⟩ := mxt_write_mem_frame d
                  ((object.start_address + object.size * (raw (index + 1) % 256)) % 65536)
                  (raw (index + 2) % 256)
                  ((List.range (raw (index + 2) % 256)).map
                    (fun k => raw (index + sizeof_mxt_cfg_data + k)))
                generalize mxt_write_mem d
                  ((object.start_address + object.size * (raw (index + 1) % 256)) % 65536)
                  (raw (index + 2) % 256)
                  ((List.range (raw (index + 2) % 256)).map
                    (fun k => raw (index + sizeof_mxt_cfg_data + k))) = r at e
                have hr2 : ∀ type o, mxt_get_object r.2 type = some o → o.size ≤ 255 := by
                  intro type o ho
                  rw [mxt_get_object_congr d r.2 type (by rw [e]) (by rw [e])] at ho
                  exact hsz type o ho
                by_cases h5 : r.1 ≠ 0
                · rw [if_pos h5]
                  exact ⟨_, rfl⟩
                · rw [if_neg h5]
                  by_cases h6 : raw (index + 2) % 256 < object.size
                  · rw [if_pos h6]
                    have hmod2 : (raw (index + 2) % 256 + 1) % 256 = raw (index + 2) % 256 + 1 :=
                      Nat.mod_eq_of_lt (by omega)
                    obtain ⟨z, hz⟩ := cfg_zero_loop_terminates
                      ((object.start_address + object.size * (raw (index + 1) % 256)) % 65536)
                      object.size hos 255 (f + 1) ((raw (index + 2) % 256 + 1) % 256) r.1 r.2
                      (by omega) (by omega)
                    rw [hz]
                    dsimp only
                    by_cases h7 : z.1 ≠ 0
                    · rw [if_pos h7]
                      exact ⟨_, rfl⟩
                    · rw [if_neg h7]
                      obtain ⟨t, w, ez⟩ := cfg_zero_loop_frame _ _ _ _ _ _ _ hz
                      apply ih
                      · intro type o ho
                        rw [mxt_get_object_congr r.2 z.2 type (by rw [ez]) (by rw [ez])] at ho
                        exact hr2 type o ho
                      · omega
                      · omega
                  · rw [if_neg h6]
                    apply ih
                    · exact hr2
                    · omega
                    · omega
    · rw [if_neg hidx]
      exact ⟨_, rfl⟩

/-- C36 fails on the code: the image `blob_tiling` has exactly 65536 bytes,
16384 records of four bytes, each a valid record for the one-byte T7 object of
the device, and every bus write succeeds.  Each record is accepted; after the
last one the 16-bit index is 0 again, not 65536, so the test
`index < cfg_len` never fails and the walk starts over: for every bound on the
number of iterations, `mxt_write_config` has not returned. -/
theorem mxt_write_config_walk_never_ends :
    blob_tiling.cfg_len = 65536 ∧
    (∀ k, k < 16384 →
      (blob_tiling.cfg_raw_data.getD (fun _ => 0)) (4 * k) = 7 ∧
      (blob_tiling.cfg_raw_data.getD (fun _ => 0)) (4 * k + 1) = 0 ∧
      (blob_tiling.cfg_raw_data.getD (fun _ => 0)) (4 * k + 2) = 1 ∧
      4 * k + 3 + 1 ≤ blob_tiling.cfg_len) ∧
    mxt_get_object (device_with_T7 1) 7 =
      some { type := 7, start_address := 0x130, size := 1, instances := 1 } ∧
    (∀ fuel, mxt_write_config fuel blob_tiling (device_with_T7 1) = none) := by
  refine ⟨rfl, ?_, by decide, ?_⟩
  · intro k hk
    have e : blob_tiling.cfg_raw_data.getD (fun _ => 0) =
        fun i => if i % 4 = 0 then 7 else if i % 4 = 1 then 0 else if i % 4 = 2 then 1 else 9 :=
      rfl
    rw [e]
    dsimp only
    refine ⟨?_, ?_, ?_, ?_⟩
    · rw [if_pos (by omega)]
    · rw [if_neg (by omega), if_pos (by omega)]
    · rw [if_neg (by omega), if_neg (by omega), if_pos (by omega)]
    · have : blob_tiling.cfg_len = 65536 := rfl
      omega
  · intro fuel
    have hc1 : (mxt_read_config_crc (device_with_T7 1) 0).1 = 0 := by decide
    have hc2 : (mxt_read_config_crc (device_with_T7 1) 0).2.1 = 0 := by decide
    obtain ⟨k, -, e⟩ := mxt_read_config_crc_frame (device_with_T7 1) 0
    have hget := mxt_read_config_crc_get_object (device_with_T7 1) 0 7
    have hinfo := mxt_read_config_crc_info (device_with_T7 1) 0
    unfold mxt_write_config
    have hraw : blob_tiling.cfg_raw_data = some (fun i =>
        if i % 4 = 0 then 7 else if i % 4 = 1 then 0 else if i % 4 = 2 then 1 else 9) := rfl
    rw [hraw]
    dsimp only
    generalize mxt_read_config_crc (device_with_T7 1) 0 = c at hc1 hc2 e hget hinfo
    rw [if_neg (not_not.mpr hc1), hinfo, if_neg (by decide), if_neg (by decide), hc2,
      if_neg (by decide)]
    apply cfg_walk_tiling_loops _ { type := 7, start_address := 0x130, size := 1, instances := 1 }
      (fun _ => rfl) rfl rfl
    · rfl
    · norm_num
    · rw [hget]
      decide
    · rw [e]
      rfl
    · intro t n
      rw [e]
      rfl

end Mxts

namespace Mxts

/-! ## The multi-contact decision table of the area check -/

set_option maxRecDepth 1000000

/-- Whatever does not depend on the transaction counter, the bus log, the
NULL-dereference mark, `coin_check` and `check_timer` is the same after the
opening block of `mxt_tch_atch_area_check`. -/
theorem frame_area_timer_block {α : Type} (f : mxt_data → α)
    (hf : ∀ (D : mxt_data) t w o c ct,
      f { D with tick := t, wlog := w, oops := o, coin_check := c, check_timer := ct } = f D)
    (d : mxt_data) (tch : Nat) :
    f (if tch ≠ 0 then
        if d.check_timer = 0 then
          { mxt_t61_timer_set { d with coin_check := 0 } MXT_T61_TIMER_ONESHOT
              MXT_T61_TIMER_CMD_START 1000 with check_timer := 1 }
        else d
      else d) = f d := by
  by_cases h1 : tch ≠ 0
  · by_cases h2 : d.check_timer = 0
    · rw [if_pos h1, if_pos h2]
      obtain ⟨t, w, o, e⟩ := mxt_t61_timer_set_frame { d with coin_check := 0 }
        MXT_T61_TIMER_ONESHOT MXT_T61_TIMER_CMD_START 1000
      rw [e]
      exact hf d t w o 0 1
    · rw [if_pos h1, if_neg h2]
  · rw [if_neg h1]

/-- The opening block of `mxt_tch_atch_area_check` puts nothing but five-byte
timer commands on the bus. -/
theorem area_timer_block_payload (d : mxt_data) (tch : Nat) :
    ∀ e ∈ (if tch ≠ 0 then
        if d.check_timer = 0 then
          { mxt_t61_timer_set { d with coin_check := 0 } MXT_T61_TIMER_ONESHOT
              MXT_T61_TIMER_CMD_START 1000 with check_timer := 1 }
        else d
      else d : mxt_data).wlog, e ∈ d.wlog ∨ e.2.length = 5 := by
  by_cases h1 : tch ≠ 0
  · by_cases h2 : d.check_timer = 0
    · rw [if_pos h1, if_pos h2]
      exact mxt_t61_timer_set_payload { d with coin_check := 0 } MXT_T61_TIMER_ONESHOT
        MXT_T61_TIMER_CMD_START 1000
    · rw [if_pos h1, if_neg h2]
      exact fun e he => Or.inl he
  · rw [if_neg h1]
    exact fun e he => Or.inl he

/-- Whatever does not depend on the distance table is the same after
`mxt_dist_check`. -/
theorem frame_dist {α : Type} (f : mxt_data → α)
    (hf : ∀ (D : mxt_data) ds, f { D with distance := ds } = f D)
    (d : mxt_data) : f (mxt_dist_check d).2 = f d := by
  obtain ⟨ds, e⟩ := mxt_dist_check_frame d
  rw [e, hf]

/-- Setting the T8 auto-calibration time puts nothing on the bus but copies of
the one-byte message carrying the time. -/
theorem mxt_t8_cal_set_payload (d : mxt_data) (v : Nat) :
    ∀ e ∈ (mxt_t8_cal_set d v).wlog, e ∈ d.wlog ∨ e.2 = [v % 256] := by
  intro e he
  unfold mxt_t8_cal_set at he
  obtain ⟨k, -, ew⟩ := mxt_write_object_frame
    { d with check_autocal := if v % 256 ≠ 0 then 1 else 0 } MXT_GEN_ACQUISITIONCONFIG_T8 4
    (v % 256)
  rw [ew] at he
  dsimp only at he
  rcases List.mem_append.mp he with h | h
  · exact Or.inl h
  · right
    rw [(List.mem_replicate.mp h).2]
    dsimp only
    rw [Nat.mod_mod]

/-- The area check for two and more contacts, outside the abnormal case: a
calibration request when the decision table says so, the streak counting for
three and more contacts with a touch area of at most `4n + 2`, and nothing
otherwise.  `D` is the state after the opening block. -/
theorem mxt_tch_atch_area_check_multi_shape (d : mxt_data) (tch_area atch_area touch_area : Nat)
    (hn : d.Report_touch_number % 256 ≥ 2) (h0 : ¬ (tch_area = 0 ∧ atch_area > 0))
    (D : mxt_data)
    (hD : (if tch_area ≠ 0 then
        if d.check_timer = 0 then
          { mxt_t61_timer_set { d with coin_check := 0 } MXT_T61_TIMER_ONESHOT
              MXT_T61_TIMER_CMD_START 1000 with check_timer := 1 }
        else d
      else d) = D) :
    mxt_tch_atch_area_check d tch_area atch_area touch_area =
      if spec_multi_contact_recalibration (d.Report_touch_number % 256) tch_area atch_area then
        (calibrate_chip (mxt_dist_check D).2).2
      else if tch_area ≤ 45 ∧ d.Report_touch_number % 256 ≥ 3 ∧
          tch_area ≤ 4 * (d.Report_touch_number % 256) + 2 then
        if (mxt_dist_check D).2.coin_check = 0 then
          if (mxt_dist_check D).1 = (mxt_dist_check D).2.max_id + 1 then
            if touch_area < (mxt_dist_check D).2.T_AREA_LOW_MT then
              if (mxt_dist_check D).2.t_area_l_cnt ≥ 7 then
                { mxt_t8_cal_set (mxt_dist_check D).2 5 with
                  coin_check := 1, t_area_l_cnt := 0, t_area_cnt := 0 }
              else { (mxt_dist_check D).2 with
                     t_area_l_cnt := (mxt_dist_check D).2.t_area_l_cnt + 1, t_area_cnt := 0 }
            else { (mxt_dist_check D).2 with t_area_cnt := 0, t_area_l_cnt := 0 }
          else (mxt_dist_check D).2
        else (mxt_dist_check D).2
      else (mxt_dist_check D).2 := by
  unfold mxt_tch_atch_area_check
  dsimp only
  rw [hD, if_neg h0]
  generalize mxt_dist_check D = r
  generalize d.Report_touch_number % 256 = n at hn
  generalize (calibrate_chip r.2).2 = C
  generalize ({ mxt_t8_cal_set r.2 5 with coin_check := 1, t_area_l_cnt := 0, t_area_cnt := 0 }
    : mxt_data) = X1
  generalize ({ r.2 with t_area_l_cnt := r.2.t_area_l_cnt + 1, t_area_cnt := 0 } : mxt_data) = X2
  generalize ({ r.2 with t_area_cnt := 0, t_area_l_cnt := 0 } : mxt_data) = X3
  by_cases hA : tch_area ≤ 45
  · rw [if_pos (show n > 1 ∧ tch_area ≤ 45 from ⟨by omega, hA⟩)]
    by_cases hB : n = 2
    · rw [if_pos hB]
      by_cases hC : (tch_area : Int) < (atch_area : Int) - 3
      · rw [if_pos hC,
          if_pos (show spec_multi_contact_recalibration n tch_area atch_area from
            Or.inl ⟨hA, hB, hC⟩)]
      · have hS : ¬ spec_multi_contact_recalibration n tch_area atch_area := by
          unfold spec_multi_contact_recalibration; omega
        have hT : ¬ (tch_area ≤ 45 ∧ n ≥ 3 ∧ tch_area ≤ 4 * n + 2) := by omega
        rw [if_neg hC, if_neg hS, if_neg hT]
    · rw [if_neg hB]
      by_cases hE : tch_area ≤ n * 4 + 2
      · have hS : ¬ spec_multi_contact_recalibration n tch_area atch_area := by
          unfold spec_multi_contact_recalibration; omega
        have hT : tch_area ≤ 45 ∧ n ≥ 3 ∧ tch_area ≤ 4 * n + 2 := by omega
        rw [if_pos hE, if_neg hS, if_pos hT]
      · rw [if_neg hE]
        by_cases hF : (tch_area : Int) < (atch_area : Int) - 2
        · have hS : spec_multi_contact_recalibration n tch_area atch_area := by
            unfold spec_multi_contact_recalibration; omega
          rw [if_pos hF, if_pos hS]
        · have hS : ¬ spec_multi_contact_recalibration n tch_area atch_area := by
            unfold spec_multi_contact_recalibration; omega
          have hT : ¬ (tch_area ≤ 45 ∧ n ≥ 3 ∧ tch_area ≤ 4 * n + 2) := by omega
          rw [if_neg hF, if_neg hS, if_neg hT]
  · rw [if_neg (show ¬ (n > 1 ∧ tch_area ≤ 45) from fun h => hA h.2)]
    have hT : ¬ (tch_area ≤ 45 ∧ n ≥ 3 ∧ tch_area ≤ 4 * n + 2) := by omega
    by_cases hG : tch_area > 48
    · rw [if_pos (show n > 1 ∧ tch_area > 48 from ⟨by omega, hG⟩)]
      by_cases hH : tch_area > atch_area
      · rw [if_pos hH,
          if_pos (show spec_multi_contact_recalibration n tch_area atch_area from
            Or.inr (Or.inr ⟨hG, hH⟩))]
      · have hS : ¬ spec_multi_contact_recalibration n tch_area atch_area := by
          unfold spec_multi_contact_recalibration; omega
        rw [if_neg hH, if_neg hS, if_neg hT]
    · have hS : ¬ spec_multi_contact_recalibration n tch_area atch_area := by
        unfold spec_multi_contact_recalibration; omega
      rw [if_neg (show ¬ (n > 1 ∧ tch_area > 48) from fun h => hG h.2),
        if_neg (show ¬ n = 1 from by omega), if_neg hS, if_neg hT]

/-- C31.  For a call of `mxt_tch_atch_area_check` with `n ≥ 2` contacts
(`n` is `Report_touch_number` as `unsigned char`) outside the abnormal case
(`tch_area` 0 with a positive `atch_area`): `calibrate_chip` is called exactly
when the decision table of the specification says so.  When it says so the
result is `calibrate_chip` applied to a state `S` that differs from the
initial one by timer commands and cleared distance entries only, and
`cal_busy` is set afterwards; when it does not, `cal_busy` is as before and
nothing went on the bus but five-byte timer commands and the one-byte T8 write
of 5, so no calibrate command.  With `cal_busy` clear before the call, it is
set afterwards if and only if the table asks for a recalibration.  For
`45 < tch_area ≤ 48` the table does not ask for one, and `t_area_cnt`,
`t_area_l_cnt`, `cal_busy` and `check_autocal` are unchanged. -/
theorem mxt_tch_atch_area_check_multi (d : mxt_data) (tch_area atch_area touch_area : Nat)
    (hn : d.Report_touch_number % 256 ≥ 2) (h0 : ¬ (tch_area = 0 ∧ atch_area > 0)) :
    (∃ S : mxt_data, S.cal_busy = d.cal_busy ∧ (∀ e ∈ S.wlog, e ∈ d.wlog ∨ e.2.length = 5) ∧
      (spec_multi_contact_recalibration (d.Report_touch_number % 256) tch_area atch_area →
        mxt_tch_atch_area_check d tch_area atch_area touch_area = (calibrate_chip S).2)) ∧
    (spec_multi_contact_recalibration (d.Report_touch_number % 256) tch_area atch_area →
      (mxt_tch_atch_area_check d tch_area atch_area touch_area).cal_busy = true) ∧
    (¬ spec_multi_contact_recalibration (d.Report_touch_number % 256) tch_area atch_area →
      (mxt_tch_atch_area_check d tch_area atch_area touch_area).cal_busy = d.cal_busy ∧
      ∀ e ∈ (mxt_tch_atch_area_check d tch_area atch_area touch_area).wlog,
        e ∈ d.wlog ∨ e.2.length = 5 ∨ e.2 = [5]) ∧
    (d.cal_busy = false →
      ((mxt_tch_atch_area_check d tch_area atch_area touch_area).cal_busy = true ↔
        spec_multi_contact_recalibration (d.Report_touch_number % 256) tch_area atch_area)) ∧
    (45 < tch_area → tch_area ≤ 48 →
      ¬ spec_multi_contact_recalibration (d.Report_touch_number % 256) tch_area atch_area ∧
      (mxt_tch_atch_area_check d tch_area atch_area touch_area).t_area_cnt = d.t_area_cnt ∧
      (mxt_tch_atch_area_check d tch_area atch_area touch_area).t_area_l_cnt = d.t_area_l_cnt ∧
      (mxt_tch_atch_area_check d tch_area atch_area touch_area).cal_busy = d.cal_busy ∧
      (mxt_tch_atch_area_check d tch_area atch_area touch_area).check_autocal =
        d.check_autocal) := by
  have hshape := mxt_tch_atch_area_check_multi_shape d tch_area atch_area touch_area hn h0 _ rfl
  have a1 := frame_area_timer_block mxt_data.cal_busy (fun _ _ _ _ _ _ => rfl) d tch_area
  have a2 := frame_area_timer_block mxt_data.t_area_cnt (fun _ _ _ _ _ _ => rfl) d tch_area
  have a3 := frame_area_timer_block mxt_data.t_area_l_cnt (fun _ _ _ _ _ _ => rfl) d tch_area
  have a4 := frame_area_timer_block mxt_data.check_autocal (fun _ _ _ _ _ _ => rfl) d tch_area
  have a5 := area_timer_block_payload d tch_area
  generalize (if tch_area ≠ 0 then
        if d.check_timer = 0 then
          { mxt_t61_timer_set { d with coin_check := 0 } MXT_T61_TIMER_ONESHOT
              MXT_T61_TIMER_CMD_START 1000 with check_timer := 1 }
        else d
      else d : mxt_data) = D at hshape a1 a2 a3 a4 a5
  have b1 : (mxt_dist_check D).2.cal_busy = d.cal_busy :=
    (frame_dist mxt_data.cal_busy (fun _ _ => rfl) D).trans a1
  have b2 : (mxt_dist_check D).2.t_area_cnt = d.t_area_cnt :=
    (frame_dist mxt_data.t_area_cnt (fun _ _ => rfl) D).trans a2
  have b3 : (mxt_dist_check D).2.t_area_l_cnt = d.t_area_l_cnt :=
    (frame_dist mxt_data.t_area_l_cnt (fun _ _ => rfl) D).trans a3
  have b4 : (mxt_dist_check D).2.check_autocal = d.check_autocal :=
    (frame_dist mxt_data.check_autocal (fun _ _ => rfl) D).trans a4
  have b5 : ∀ e ∈ (mxt_dist_check D).2.wlog, e ∈ d.wlog ∨ e.2.length = 5 := by
    rw [frame_dist mxt_data.wlog (fun _ _ => rfl) D]
    exact a5
  generalize mxt_dist_check D = r at hshape b1 b2 b3 b4 b5
  generalize d.Report_touch_number % 256 = n at hshape hn
  rw [hshape]
  have hyes : spec_multi_contact_recalibration n tch_area atch_area →
      (if spec_multi_contact_recalibration n tch_area atch_area then (calibrate_chip r.2).2
        else if tch_area ≤ 45 ∧ n ≥ 3 ∧ tch_area ≤ 4 * n + 2 then
          if r.2.coin_check = 0 then
            if r.1 = r.2.max_id + 1 then
              if touch_area < r.2.T_AREA_LOW_MT then
                if r.2.t_area_l_cnt ≥ 7 then
                  { mxt_t8_cal_set r.2 5 with
                    coin_check := 1, t_area_l_cnt := 0, t_area_cnt := 0 }
                else { r.2 with t_area_l_cnt := r.2.t_area_l_cnt + 1, t_area_cnt := 0 }
              else { r.2 with t_area_cnt := 0, t_area_l_cnt := 0 }
            else r.2
          else r.2
        else r.2 : mxt_data).cal_busy = true := by
    intro hs
    rw [if_pos hs]
    exact calibrate_chip_sets_busy r.2
  have hno : ¬ spec_multi_contact_recalibration n tch_area atch_area →
      (if spec_multi_contact_recalibration n tch_area atch_area then (calibrate_chip r.2).2
        else if tch_area ≤ 45 ∧ n ≥ 3 ∧ tch_area ≤ 4 * n + 2 then
          if r.2.coin_check = 0 then
            if r.1 = r.2.max_id + 1 then
              if touch_area < r.2.T_AREA_LOW_MT then
                if r.2.t_area_l_cnt ≥ 7 then
                  { mxt_t8_cal_set r.2 5 with
                    coin_check := 1, t_area_l_cnt := 0, t_area_cnt := 0 }
                else { r.2 with t_area_l_cnt := r.2.t_area_l_cnt + 1, t_area_cnt := 0 }
              else { r.2 with t_area_cnt := 0, t_area_l_cnt := 0 }
            else r.2
          else r.2
        else r.2 : mxt_data).cal_busy = d.cal_busy := by
    intro hs
    rw [if_neg hs]
    simp only [apply_ite mxt_data.cal_busy, frame_t8 mxt_data.cal_busy (fun _ _ _ _ => rfl),
      ite_self]
    exact b1
  refine ⟨⟨r.2, b1, b5, fun hs => by rw [if_pos hs]⟩, hyes, ?_, ?_, ?_⟩
  · intro hs
    refine ⟨hno hs, ?_⟩
    rw [if_neg hs]
    have ht8 := mxt_t8_cal_set_payload r.2 5
    intro e he
    have hcases : e ∈ r.2.wlog ∨ e ∈ (mxt_t8_cal_set r.2 5).wlog := by
      revert he
      simp only [apply_ite mxt_data.wlog]
      split_ifs <;> intro he <;> first | exact Or.inl he | exact Or.inr he
    rcases hcases with h | h
    · rcases b5 e h with h1 | h1
      · exact Or.inl h1
      · exact Or.inr (Or.inl h1)
    · rcases ht8 e h with h1 | h1
      · rcases b5 e h1 with h2 | h2
        · exact Or.inl h2
        · exact Or.inr (Or.inl h2)
      · exact Or.inr (Or.inr h1)
  · intro hb
    constructor
    · intro h
      by_contra hs
      rw [hno hs, hb] at h
      exact absurd h (by decide)
    · exact hyes
  · intro h45 h48
    have hs : ¬ spec_multi_contact_recalibration n tch_area atch_area := by
      unfold spec_multi_contact_recalibration; omega
    have hT : ¬ (tch_area ≤ 45 ∧ n ≥ 3 ∧ tch_area ≤ 4 * n + 2) := by omega
    rw [if_neg hs, if_neg hT]
    exact ⟨hs, b2, b3, b1, b4⟩

/-- C31 on the engine device with three contacts: a touch area of 20 against
an anti-touch area of 30 is in the table (above 14, at most 45, more than 2
below 30), and the call sets `cal_busy`; a touch area of 47 is not, and the
call leaves `cal_busy` clear. -/
theorem mxt_tch_atch_area_check_multi_witness :
    device_three_contacts.Report_touch_number % 256 ≥ 2 ∧ ¬ (20 = 0 ∧ 30 > 0) ∧
    spec_multi_contact_recalibration (device_three_contacts.Report_touch_number % 256) 20 30 ∧
    (mxt_tch_atch_area_check device_three_contacts 20 30 0).cal_busy = true ∧
    (mxt_tch_atch_area_check device_three_contacts 47 30 0).cal_busy =
      device_three_contacts.cal_busy :=
  ⟨by decide, by decide, by decide,
   (mxt_tch_atch_area_check_multi device_three_contacts 20 30 0 (by decide) (by decide)).2.1
     (by decide),
   ((mxt_tch_atch_area_check_multi device_three_contacts 47 30 0 (by decide)
     (by decide)).2.2.2.2 (by decide) (by decide)).2.2.2.1⟩

end Mxts

namespace Mxts

/-! ## Expiry of the first timer window -/

set_option maxRecDepth 1000000

/-- A command write to an object of the table, at an offset inside it, on an
unlocked bus puts its one-byte message on the bus. -/
theorem mxt_write_object_logged (d : mxt_data) (type offset val : Nat) (o : mxt_object)
    (hget : mxt_get_object d type = some o) (hoff : offset < o.size * o.instances)
    (hb : d.block_access = false) :
    ((o.start_address + offset) % 65536, [val % 256]) ∈
      (mxt_write_object d type offset val).2.wlog := by
  obtain ⟨k, h1, -, e⟩ := mxt_write_mem_attempts d (o.start_address + offset) 1 [val] hb
  unfold mxt_write_object
  rw [hget]
  dsimp only
  rw [if_neg (by omega), e]
  dsimp only
  apply List.mem_append_right
  rw [List.mem_replicate]
  exact ⟨by omega, rfl⟩

/-- Setting the T8 auto-calibration time puts the one-byte write of the time
at offset 4 of T8 on the bus. -/
theorem mxt_t8_cal_set_logged (d : mxt_data) (v : Nat) (o : mxt_object)
    (hget : mxt_get_object d MXT_GEN_ACQUISITIONCONFIG_T8 = some o)
    (hoff : 4 < o.size * o.instances) (hb : d.block_access = false) :
    ((o.start_address + 4) % 65536, [v % 256]) ∈ (mxt_t8_cal_set d v).wlog := by
  unfold mxt_t8_cal_set
  have h := mxt_write_object_logged { d with check_autocal := if v % 256 ≠ 0 then 1 else 0 }
    MXT_GEN_ACQUISITIONCONFIG_T8 4 (v % 256) o hget hoff hb
  rw [Nat.mod_mod] at h
  exact h

/-- Programming the T61 timer keeps what is in the bus log. -/
theorem mxt_t61_timer_set_keeps_log (d : mxt_data) (mode cmd ms : Nat) :
    ∀ e ∈ d.wlog, e ∈ (mxt_t61_timer_set d mode cmd ms).wlog := by
  intro e he
  unfold mxt_t61_timer_set
  cases hg : mxt_get_object d MXT_SPT_TIMER_T61 with
  | none => exact he
  | some object =>
    dsimp only
    obtain ⟨k, -, ew⟩ := mxt_write_mem_frame d (object.start_address % 65536) 5
      [3, cmd % 256, mode % 256, (ms % 65536) &&& 0xFF, ((ms % 65536) >>> 8) &&& 0xFF]
    rw [ew]
    exact List.mem_append_left _ he

/-- C32.  In a `CHECK_ANTITOUCH` build, a T61 message whose status byte does
not have both bits of 0xa0 changes nothing.  One that has them, handled with
`check_calgood` other than 1, `check_antitouch` set and `Press_Release_check`
set, does this.  If `check_autocal` is 1: autocal is turned off
(`check_autocal` 0 and the T8 time written as 0), `check_timer` and
`coin_check` are cleared and the timer is started again, one shot of 1000 ms;
`check_antitouch` and `check_calgood` are as before.  Otherwise:
`check_calgood` is 1, `check_antitouch`, `check_timer` and `coin_check` are 0,
the baseline `FirstCal_tch`, `FirstCal_atch`, `FirstCal_t57tch` holds the
current `tch_value`, `atch_value`, `T57_touch`, and the timer is started, one
shot of 3000 ms.  The bus writes are stated for a directory with the object
and an unlocked bus. -/
theorem mxt_treat_T61_object_first_window (d : mxt_data) (m : mxt_message)
    (hc : d.CHECK_ANTITOUCH = true) :
    (msg_byte m 0 &&& 0xa0 ≠ 0xa0 → mxt_treat_T61_object d m = d) ∧
    (msg_byte m 0 &&& 0xa0 = 0xa0 → d.check_calgood ≠ 1 → d.check_antitouch ≠ 0 →
      d.Press_Release_check ≠ 0 →
      (d.check_autocal = 1 →
        (mxt_treat_T61_object d m).check_autocal = 0 ∧
        (mxt_treat_T61_object d m).check_timer = 0 ∧
        (mxt_treat_T61_object d m).coin_check = 0 ∧
        (mxt_treat_T61_object d m).check_antitouch = d.check_antitouch ∧
        (mxt_treat_T61_object d m).check_calgood = d.check_calgood ∧
        (∀ o, mxt_get_object d MXT_GEN_ACQUISITIONCONFIG_T8 = some o →
          4 < o.size * o.instances → d.block_access = false →
          ((o.start_address + 4) % 65536, [0]) ∈ (mxt_treat_T61_object d m).wlog) ∧
        (∀ o, mxt_get_object d MXT_SPT_TIMER_T61 = some o → d.block_access = false →
          (o.start_address % 65536, [3, 1, 0, 232, 3]) ∈ (mxt_treat_T61_object d m).wlog)) ∧
      (d.check_autocal ≠ 1 →
        (mxt_treat_T61_object d m).check_calgood = 1 ∧
        (mxt_treat_T61_object d m).check_antitouch = 0 ∧
        (mxt_treat_T61_object d m).check_timer = 0 ∧
        (mxt_treat_T61_object d m).coin_check = 0 ∧
        (mxt_treat_T61_object d m).FirstCal_tch = d.tch_value ∧
        (mxt_treat_T61_object d m).FirstCal_atch = d.atch_value ∧
        (mxt_treat_T61_object d m).FirstCal_t57tch = d.T57_touch ∧
        (∀ o, mxt_get_object d MXT_SPT_TIMER_T61 = some o → d.block_access = false →
          (o.start_address % 65536, [3, 1, 0, 184, 11]) ∈
            (mxt_treat_T61_object d m).wlog))) := by
  refine ⟨?_, ?_⟩
  · intro hbits
    unfold mxt_treat_T61_object
    rw [if_neg (fun h => hbits h.2)]
  · intro hbits hcg hat hprc
    unfold mxt_treat_T61_object
    rw [if_pos ⟨hc, hbits⟩]
    unfold mxt_treat_T61_check
    rw [if_neg hcg, if_pos hat]
    refine ⟨?_, ?_⟩
    · intro hauto
      rw [if_pos hauto]
      dsimp only
      have hp : ¬ (mxt_t61_timer_set
          (mxt_t8_cal_set { d with check_timer := 0, coin_check := 0 } 0)
          MXT_T61_TIMER_ONESHOT MXT_T61_TIMER_CMD_START 1000).Press_Release_check = 0 := by
        rw [frame_timer mxt_data.Press_Release_check (fun _ _ _ _ => rfl),
          frame_t8 mxt_data.Press_Release_check (fun _ _ _ _ => rfl)]
        exact hprc
      unfold mxt_treat_T61_final
      rw [if_neg hp]
      refine ⟨?_, ?_, ?_, ?_, ?_, ?_, ?_⟩
      · rw [frame_timer mxt_data.check_autocal (fun _ _ _ _ => rfl)]
        obtain ⟨t, w, e⟩ := mxt_t8_cal_set_frame { d with check_timer := 0, coin_check := 0 } 0
        rw [e]
        rfl
      · rw [frame_timer mxt_data.check_timer (fun _ _ _ _ => rfl),
          frame_t8 mxt_data.check_timer (fun _ _ _ _ => rfl)]
      · rw [frame_timer mxt_data.coin_check (fun _ _ _ _ => rfl),
          frame_t8 mxt_data.coin_check (fun _ _ _ _ => rfl)]
      · rw [frame_timer mxt_data.check_antitouch (fun _ _ _ _ => rfl),
          frame_t8 mxt_data.check_antitouch (fun _ _ _ _ => rfl)]
      · rw [frame_timer mxt_data.check_calgood (fun _ _ _ _ => rfl),
          frame_t8 mxt_data.check_calgood (fun _ _ _ _ => rfl)]
      · intro o hget hoff hb
        apply mxt_t61_timer_set_keeps_log
        exact mxt_t8_cal_set_logged { d with check_timer := 0, coin_check := 0 } 0 o hget hoff hb
      · intro o hget hb
        have hget2 : mxt_get_object
            (mxt_t8_cal_set { d with check_timer := 0, coin_check := 0 } 0)
            MXT_SPT_TIMER_T61 = some o :=
          (frame_t8 (fun D => mxt_get_object D MXT_SPT_TIMER_T61) (fun _ _ _ _ => rfl)
            { d with check_timer := 0, coin_check := 0 } 0).trans hget
        have hb2 : (mxt_t8_cal_set { d with check_timer := 0, coin_check := 0 } 0).block_access
            = false :=
          (frame_t8 mxt_data.block_access (fun _ _ _ _ => rfl)
            { d with check_timer := 0, coin_check := 0 } 0).trans hb
        exact mxt_t61_timer_set_wlog _ MXT_T61_TIMER_ONESHOT MXT_T61_TIMER_CMD_START 1000 o
          hget2 hb2
    · intro hauto
      rw [if_neg hauto]
      dsimp only
      generalize hB : mxt_t8_cal_set { d with check_antitouch := 0, check_timer := 0 } 0 = B
      have g1 : B.Press_Release_check = d.Press_Release_check := by
        rw [← hB, frame_t8 mxt_data.Press_Release_check (fun _ _ _ _ => rfl)]
      have g2 : B.check_antitouch = 0 := by
        rw [← hB, frame_t8 mxt_data.check_antitouch (fun _ _ _ _ => rfl)]
      have g3 : B.check_timer = 0 := by
        rw [← hB, frame_t8 mxt_data.check_timer (fun _ _ _ _ => rfl)]
      have g4 : B.tch_value = d.tch_value := by
        rw [← hB, frame_t8 mxt_data.tch_value (fun _ _ _ _ => rfl)]
      have g5 : B.atch_value = d.atch_value := by
        rw [← hB, frame_t8 mxt_data.atch_value (fun _ _ _ _ => rfl)]
      have g6 : B.T57_touch = d.T57_touch := by
        rw [← hB, frame_t8 mxt_data.T57_touch (fun _ _ _ _ => rfl)]
      have g7 : mxt_get_object B MXT_SPT_TIMER_T61 = mxt_get_object d MXT_SPT_TIMER_T61 := by
        rw [← hB]
        exact frame_t8 (fun D => mxt_get_object D MXT_SPT_TIMER_T61) (fun _ _ _ _ => rfl)
          { d with check_antitouch := 0, check_timer := 0 } 0
      have g8 : B.block_access = d.block_access := by
        rw [← hB, frame_t8 mxt_data.block_access (fun _ _ _ _ => rfl)]
      have hp : ¬ (mxt_t61_timer_set
          { B with check_calgood := 1, coin_check := 0, FirstCal_tch := B.tch_value,
                   FirstCal_atch := B.atch_value, FirstCal_t57tch := B.T57_touch }
          MXT_T61_TIMER_ONESHOT MXT_T61_TIMER_CMD_START 3000).Press_Release_check = 0 := by
        rw [frame_timer mxt_data.Press_Release_check (fun _ _ _ _ => rfl)]
        dsimp only
        rw [g1]
        exact hprc
      unfold mxt_treat_T61_final
      rw [if_neg hp]
      refine ⟨?_, ?_, ?_, ?_, ?_, ?_, ?_, ?_⟩
      · rw [frame_timer mxt_data.check_calgood (fun _ _ _ _ => rfl)]
      · rw [frame_timer mxt_data.check_antitouch (fun _ _ _ _ => rfl)]
        exact g2
      · rw [frame_timer mxt_data.check_timer (fun _ _ _ _ => rfl)]
        exact g3
      · rw [frame_timer mxt_data.coin_check (fun _ _ _ _ => rfl)]
      · rw [frame_timer mxt_data.FirstCal_tch (fun _ _ _ _ => rfl)]
        exact g4
      · rw [frame_timer mxt_data.FirstCal_atch (fun _ _ _ _ => rfl)]
        exact g5
      · rw [frame_timer mxt_data.FirstCal_t57tch (fun _ _ _ _ => rfl)]
        exact g6
      · intro o hget hb
        exact mxt_t61_timer_set_wlog
          { B with check_calgood := 1, coin_check := 0, FirstCal_tch := B.tch_value,
                   FirstCal_atch := B.atch_value, FirstCal_t57tch := B.T57_touch }
          MXT_T61_TIMER_ONESHOT MXT_T61_TIMER_CMD_START 3000 o (g7.trans hget) (g8.trans hb)

/-- C32 on the engine device waiting for the first window: with autocal on,
the expiry turns it off and restarts the 1000 ms timer; with autocal off, it
opens the confirmation window, with the baseline 9, 2, 4 and the 3000 ms
timer. -/
theorem mxt_treat_T61_object_first_window_witness :
    (device_first_window 1).CHECK_ANTITOUCH = true ∧
    (mxt_treat_T61_object (device_first_window 1)
      { reportid := 5, message := [0xa0, 0, 0, 0, 0, 0, 0, 0] }).check_autocal = 0 ∧
    (0x190, [3, 1, 0, 232, 3]) ∈ (mxt_treat_T61_object (device_first_window 1)
      { reportid := 5, message := [0xa0, 0, 0, 0, 0, 0, 0, 0] }).wlog ∧
    (mxt_treat_T61_object (device_first_window 0)
      { reportid := 5, message := [0xa0, 0, 0, 0, 0, 0, 0, 0] }).check_calgood = 1 ∧
    (mxt_treat_T61_object (device_first_window 0)
      { reportid := 5, message := [0xa0, 0, 0, 0, 0, 0, 0, 0] }).FirstCal_tch = 9 ∧
    (0x190, [3, 1, 0, 184, 11]) ∈ (mxt_treat_T61_object (device_first_window 0)
      { reportid := 5, message := [0xa0, 0, 0, 0, 0, 0, 0, 0] }).wlog :=
  have h1 := ((mxt_treat_T61_object_first_window (device_first_window 1)
    { reportid := 5, message := [0xa0, 0, 0, 0, 0, 0, 0, 0] } (by decide)).2
    (by decide) (by decide) (by decide) (by decide)).1 (by decide)
  have h0 := ((mxt_treat_T61_object_first_window (device_first_window 0)
    { reportid := 5, message := [0xa0, 0, 0, 0, 0, 0, 0, 0] } (by decide)).2
    (by decide) (by decide) (by decide) (by decide)).2 (by decide)
  ⟨by decide, h1.1,
   h1.2.2.2.2.2.2
     { type := 61, start_address := 0x190, size := 5, instances := 1, num_report_ids := 1,
       max_reportid := 5 } (by decide) (by decide),
   h0.1, h0.2.2.2.2.1,
   h0.2.2.2.2.2.2.2
     { type := 61, start_address := 0x190, size := 5, instances := 1, num_report_ids := 1,
       max_reportid := 5 } (by decide) (by decide)⟩

end Mxts

namespace Mxts

/-! ## The decision at the end of the confirmation window -/

set_option maxRecDepth 1000000

/-- A calibration request with `cal_busy` clear, a T6 object in the directory
and an unlocked bus puts the calibrate command on the bus. -/
theorem calibrate_chip_logged (d : mxt_data) (o : mxt_object) (hbusy : d.cal_busy = false)
    (hget : mxt_get_object d MXT_GEN_COMMANDPROCESSOR_T6 = some o)
    (hoff : MXT_COMMAND_CALIBRATE < o.size * o.instances) (hb : d.block_access = false) :
    ((o.start_address + MXT_COMMAND_CALIBRATE) % 65536, [1]) ∈ (calibrate_chip d).2.wlog := by
  rw [calibrate_chip_idle d hbusy]
  exact mxt_write_object_logged d MXT_GEN_COMMANDPROCESSOR_T6 MXT_COMMAND_CALIBRATE 1 o hget
    hoff hb

/-- The closing block of `mxt_treat_T61_object` in a state with `cal_busy`
set: the flag stays set and the bus log keeps its entries. -/
theorem mxt_treat_T61_final_busy (x : mxt_data) (h : x.cal_busy = true) :
    (mxt_treat_T61_final x).cal_busy = true ∧
    (mxt_treat_T61_final x).check_calgood = x.check_calgood ∧
    ∀ e ∈ x.wlog, e ∈ (mxt_treat_T61_final x).wlog := by
  unfold mxt_treat_T61_final
  by_cases h1 : x.Press_Release_check = 0
  · rw [if_pos h1]
    by_cases h2 : x.check_afterCalgood ≠ 0
    · rw [if_pos h2]
      refine ⟨?_, ?_, ?_⟩
      · rw [frame_timer mxt_data.cal_busy (fun _ _ _ _ => rfl)]
        exact h
      · rw [frame_timer mxt_data.check_calgood (fun _ _ _ _ => rfl)]
      · exact mxt_t61_timer_set_keeps_log { x with check_afterCalgood := 0 } _ _ _
    · rw [if_neg h2]
      by_cases h3 : x.tch_value < x.atch_value
      · rw [if_pos h3, calibrate_chip_busy x h]
        exact ⟨h, rfl, fun e he => he⟩
      · rw [if_neg h3]
        refine ⟨?_, ?_, ?_⟩
        · rw [frame_timer mxt_data.cal_busy (fun _ _ _ _ => rfl)]
          exact h
        · rw [frame_timer mxt_data.check_calgood (fun _ _ _ _ => rfl)]
        · exact mxt_t61_timer_set_keeps_log x _ _ _
  · rw [if_neg h1]
    exact ⟨h, rfl, fun e he => he⟩

/-- The decision of `mxt_treat_T61_check` in the confirmation window with as
many presses as releases: a calibration request when the condition of the
specification holds, and the three "calibration good" assignments
otherwise. -/
theorem mxt_treat_T61_check_confirmation (d : mxt_data) (hcg : d.check_calgood = 1)
    (hcnt : d.Press_cnt = d.Release_cnt) :
    mxt_treat_T61_check d =
      if spec_confirmation_recalibration d then (calibrate_chip d).2 else mxt_t61_cal_good d := by
  unfold mxt_treat_T61_check
  rw [if_pos hcg, if_pos hcnt]
  generalize (calibrate_chip d).2 = C
  generalize mxt_t61_cal_good d = G
  by_cases h1 : d.tch_value = 0 ∧ d.atch_value = 0
  · rw [if_pos h1]
    by_cases h2 : d.FirstCal_tch = 0 ∧ d.FirstCal_atch = 0
    · rw [if_pos h2]
      by_cases h3 : d.FirstCal_t57tch = d.T57_touch
      · rw [if_pos h3]
        by_cases h4 : d.T57_touch = 0 ∨ d.T57_touch > 12
        · rw [if_pos h4,
            if_pos (show spec_confirmation_recalibration d from
              Or.inr ⟨h2.1, h2.2, h3, h4⟩)]
        · have hS : ¬ spec_confirmation_recalibration d := by
            intro h
            rcases h with h | h
            · rcases h with h | h
              · exact h h1.1
              · exact h h1.2
            · exact h4 h.2.2.2
          rw [if_neg h4, if_neg hS]
      · have hS : ¬ spec_confirmation_recalibration d := by
          intro h
          rcases h with h | h
          · rcases h with h | h
            · exact h h1.1
            · exact h h1.2
          · exact h3 h.2.2.1
        rw [if_neg h3, if_neg hS]
    · have hS : ¬ spec_confirmation_recalibration d := by
        intro h
        rcases h with h | h
        · rcases h with h | h
          · exact h h1.1
          · exact h h1.2
        · exact h2 ⟨h.1, h.2.1⟩
      rw [if_neg h2, if_neg hS]
  · have hS : spec_confirmation_recalibration d := by
      left
      by_cases ht : d.tch_value = 0
      · right
        exact fun ha => h1 ⟨ht, ha⟩
      · left
        exact ht
    rw [if_neg h1, if_pos hS]

/-- C33.  In a `CHECK_ANTITOUCH` build, a T61 expiry message (both bits of
0xa0) handled with `check_calgood` 1 and `Press_cnt = Release_cnt` calls
`calibrate_chip` exactly when the condition of the specification holds: the
latest touch or anti-touch value is not 0, or the baseline values are 0 and the
baseline node count equals the latest, which is 0 or above 12.  Then `cal_busy`
is set on return, `check_calgood` is still 1, and the calibrate command is on
the bus if no calibration was in progress.  Otherwise calibration is declared
good: `check_calgood` and `Press_Release_check` are 0, the final timer, one
shot of 5000 ms, is started in the same invocation, `check_afterCalgood` is 0
on return, `cal_busy` is as before and nothing but that timer command went on
the bus. -/
theorem mxt_treat_T61_object_confirmation (d : mxt_data) (m : mxt_message)
    (hc : d.CHECK_ANTITOUCH = true) (hbits : msg_byte m 0 &&& 0xa0 = 0xa0)
    (hcg : d.check_calgood = 1) (hcnt : d.Press_cnt = d.Release_cnt) :
    (spec_confirmation_recalibration d →
      mxt_treat_T61_object d m = mxt_treat_T61_final (calibrate_chip d).2 ∧
      (mxt_treat_T61_object d m).cal_busy = true ∧
      (mxt_treat_T61_object d m).check_calgood = 1 ∧
      (∀ o, d.cal_busy = false → mxt_get_object d MXT_GEN_COMMANDPROCESSOR_T6 = some o →
        MXT_COMMAND_CALIBRATE < o.size * o.instances → d.block_access = false →
        ((o.start_address + MXT_COMMAND_CALIBRATE) % 65536, [1]) ∈
          (mxt_treat_T61_object d m).wlog)) ∧
    (¬ spec_confirmation_recalibration d →
      mxt_treat_T61_object d m =
        mxt_t61_timer_set
          { d with check_calgood := 0, Press_Release_check := 0, check_afterCalgood := 0 }
          MXT_T61_TIMER_ONESHOT MXT_T61_TIMER_CMD_START 5000 ∧
      (mxt_treat_T61_object d m).check_calgood = 0 ∧
      (mxt_treat_T61_object d m).Press_Release_check = 0 ∧
      (mxt_treat_T61_object d m).check_afterCalgood = 0 ∧
      (mxt_treat_T61_object d m).cal_busy = d.cal_busy ∧
      (∀ e ∈ (mxt_treat_T61_object d m).wlog, e ∈ d.wlog ∨ e.2.length = 5) ∧
      (∀ o, mxt_get_object d MXT_SPT_TIMER_T61 = some o → d.block_access = false →
        (o.start_address % 65536, [3, 1, 0, 136, 19]) ∈ (mxt_treat_T61_object d m).wlog)) ∧
    (d.cal_busy = false →
      ((mxt_treat_T61_object d m).cal_busy = true ↔ spec_confirmation_recalibration d)) := by
  have hobj : mxt_treat_T61_object d m =
      mxt_treat_T61_final
        (if spec_confirmation_recalibration d then (calibrate_chip d).2
         else mxt_t61_cal_good d) := by
    unfold mxt_treat_T61_object
    rw [if_pos ⟨hc, hbits⟩, mxt_treat_T61_check_confirmation d hcg hcnt]
  have hgood : ¬ spec_confirmation_recalibration d →
      mxt_treat_T61_object d m =
        mxt_t61_timer_set
          { d with check_calgood := 0, Press_Release_check := 0, check_afterCalgood := 0 }
          MXT_T61_TIMER_ONESHOT MXT_T61_TIMER_CMD_START 5000 := by
    intro hs
    rw [hobj, if_neg hs]
    unfold mxt_treat_T61_final mxt_t61_cal_good
    dsimp only
    rw [if_pos rfl, if_pos (by decide)]
  have hyes : spec_confirmation_recalibration d →
      (mxt_treat_T61_object d m).cal_busy = true := by
    intro hs
    rw [hobj, if_pos hs]
    exact (mxt_treat_T61_final_busy _ (calibrate_chip_sets_busy d)).1
  have hno : ¬ spec_confirmation_recalibration d →
      (mxt_treat_T61_object d m).cal_busy = d.cal_busy := by
    intro hs
    rw [hgood hs, frame_timer mxt_data.cal_busy (fun _ _ _ _ => rfl)]
  refine ⟨?_, ?_, ?_⟩
  · intro hs
    refine ⟨by rw [hobj, if_pos hs], hyes hs, ?_, ?_⟩
    · rw [hobj, if_pos hs, (mxt_treat_T61_final_busy _ (calibrate_chip_sets_busy d)).2.1,
        frame_cal mxt_data.check_calgood (fun _ _ _ _ => rfl)]
      exact hcg
    · intro o hbusy hget hoff hb
      rw [hobj, if_pos hs]
      exact (mxt_treat_T61_final_busy _ (calibrate_chip_sets_busy d)).2.2 _
        (calibrate_chip_logged d o hbusy hget hoff hb)
  · intro hs
    refine ⟨hgood hs, ?_, ?_, ?_, hno hs, ?_, ?_⟩
    · rw [hgood hs, frame_timer mxt_data.check_calgood (fun _ _ _ _ => rfl)]
    · rw [hgood hs, frame_timer mxt_data.Press_Release_check (fun _ _ _ _ => rfl)]
    · rw [hgood hs, frame_timer mxt_data.check_afterCalgood (fun _ _ _ _ => rfl)]
    · rw [hgood hs]
      exact mxt_t61_timer_set_payload
        { d with check_calgood := 0, Press_Release_check := 0, check_afterCalgood := 0 } _ _ _
    · intro o hget hb
      rw [hgood hs]
      exact mxt_t61_timer_set_wlog
        { d with check_calgood := 0, Press_Release_check := 0, check_afterCalgood := 0 }
        MXT_T61_TIMER_ONESHOT MXT_T61_TIMER_CMD_START 5000 o hget hb
  · intro hbusy
    constructor
    · intro h
      by_contra hs
      rw [hno hs, hbusy] at h
      exact absurd h (by decide)
    · exact hyes

/-- C33 on the engine device in the confirmation window.  With a baseline of
5 touch nodes and 5 now, calibration is declared good and the 5000 ms timer is
started; with a baseline of 0 and 0 now, the calibrate command is written. -/
theorem mxt_treat_T61_object_confirmation_witness :
    (device_confirmation 5 5).CHECK_ANTITOUCH = true ∧
    (device_confirmation 5 5).check_calgood = 1 ∧
    (device_confirmation 5 5).Press_cnt = (device_confirmation 5 5).Release_cnt ∧
    ¬ spec_confirmation_recalibration (device_confirmation 5 5) ∧
    (mxt_treat_T61_object (device_confirmation 5 5)
      { reportid := 5, message := [0xa0, 0, 0, 0, 0, 0, 0, 0] }).check_calgood = 0 ∧
    (0x190, [3, 1, 0, 136, 19]) ∈ (mxt_treat_T61_object (device_confirmation 5 5)
      { reportid := 5, message := [0xa0, 0, 0, 0, 0, 0, 0, 0] }).wlog ∧
    spec_confirmation_recalibration (device_confirmation 0 0) ∧
    (0x122, [1]) ∈ (mxt_treat_T61_object (device_confirmation 0 0)
      { reportid := 5, message := [0xa0, 0, 0, 0, 0, 0, 0, 0] }).wlog :=
  have hg := (mxt_treat_T61_object_confirmation (device_confirmation 5 5)
    { reportid := 5, message := [0xa0, 0, 0, 0, 0, 0, 0, 0] } (by decide) (by decide)
    (by decide) (by decide)).2.1 (by decide)
  have hr := (mxt_treat_T61_object_confirmation (device_confirmation 0 0)
    { reportid := 5, message := [0xa0, 0, 0, 0, 0, 0, 0, 0] } (by decide) (by decide)
    (by decide) (by decide)).1 (by decide)
  ⟨by decide, by decide, by decide, by decide, hg.2.1,
   hg.2.2.2.2.2.2
     { type := 61, start_address := 0x190, size := 5, instances := 1, num_report_ids := 1,
       max_reportid := 5 } (by decide) (by decide),
   by decide,
   hr.2.2.2
     { type := 6, start_address := 0x120, size := 6, instances := 1, num_report_ids := 1,
       max_reportid := 1 } (by decide) (by decide) (by decide) (by decide)⟩

end Mxts
